import Mathlib

/-!
GeneralizedMandelbrot.c : the escape-time evaluator, the colour mapper and the writers

A shallow embedding of `src/GeneralizedMandelbrot.c`.

* The C type `float` is a linearly ordered field `F` (exact arithmetic: `ℚ` and `ℝ` are
  instances); conversions between `int`, `float` and `double` are the casts of `F`, and
  the conversion `(int)x` is the rounding toward zero `truncInt`. Rounding and infinities
  are not modelled, except for the counters of the histogram (`MandelbrotRounded`);
  not-a-number is modelled where the source writes `NAN` or divides, in `CalculateColors`
  and the writers, as the value `none` of `Option F`.
* The variable `int total` of `CalculateColors` is a 32-bit `int`: the conversion
  `toInt32` into it yields `INT_MIN` for every value out of the range
  `INT_MIN .. INT_MAX`.
* The functions the program takes from `math.h` (`sqrt`, `pow`, `atan2`, `cos`, `sin`) are
  the fields of a record `Libm F`; `realLibm` gives them their meaning over `ℝ`.
* The constants of lines 17-33 are the fields of a record `Consts F`; `reference` holds
  the values the source gives them.
* A buffer `float *p` is a function `Nat → F` from index to content and a store
  `p[k] = v` is `Function.update p k v`.
* `for (int i = 0; i < N; i++)` is a left fold over `List.range N`; the `while` loop of
  `Mandelbrot` is a recursive function that terminates because `MAX_I - n` decreases.
* The chain of `if` lines of `GetPath` is the list `pathTable` of its lines, searched in
  the order of the source.
-/

set_option autoImplicit false

namespace GeneralizedMandelbrot

/-! ## Data model and constants (lines 15-38) -/

/-- The record `struct Complex` of lines 35-38: a point `re + im*i` of the plane. -/
structure Complex (F : Type) where
  re : F
  im : F

/-- The functions of `math.h` that `Mandelbrot` and `Alg` call. -/
structure Libm (F : Type) where
  sqrt : F → F
  pow : F → F → F
  atan2 : F → F → F
  cos : F → F
  sin : F → F

/-- The constants of lines 24-33 that `Mandelbrot` and `map` read. -/
structure Consts (F : Type) where
  WIDTH : Nat
  HEIGHT : Nat
  MIN_X : F
  MAX_X : F
  MIN_Y : F
  MAX_Y : F
  MAX_I : Nat

section Constants

variable (F : Type) [LinearOrderedField F]

/-- Line 17: `const int SCALE = 300`. -/
def SCALE : Nat := 300

/-- Line 24: `WIDTH = 3*SCALE`. -/
def WIDTH : Nat := 3 * SCALE

/-- Line 24: `HEIGHT = 3*SCALE`. -/
def HEIGHT : Nat := 3 * SCALE

/-- Line 25: `RANGE_X = 3.5`. -/
def RANGE_X : F := 3.5

/-- Line 25: `RANGE_Y = 3.5`. -/
def RANGE_Y : F := 3.5

/-- Line 26: `CENTER_X = 0`. -/
def CENTER_X : F := 0

/-- Line 26: `CENTER_Y = 0`. -/
def CENTER_Y : F := 0

/-- Line 27: `MIN_X = CENTER_X - RANGE_X/2.0`. -/
def MIN_X : F := CENTER_X F - RANGE_X F / 2.0

/-- Line 28: `MAX_X = CENTER_X + RANGE_X/2.0`. -/
def MAX_X : F := CENTER_X F + RANGE_X F / 2.0

/-- Line 29: `MIN_Y = CENTER_Y - RANGE_Y/2.0`. -/
def MIN_Y : F := CENTER_Y F - RANGE_Y F / 2.0

/-- Line 30: `MAX_Y = CENTER_Y + RANGE_Y/2.0`. -/
def MAX_Y : F := CENTER_Y F + RANGE_Y F / 2.0

/-- Line 33: `const int MAX_I = 80`. -/
def MAX_I : Nat := 80

/-- The constants as the source fixes them. -/
def reference : Consts F where
  WIDTH := WIDTH
  HEIGHT := HEIGHT
  MIN_X := MIN_X F
  MAX_X := MAX_X F
  MIN_Y := MIN_Y F
  MAX_Y := MAX_Y F
  MAX_I := MAX_I

end Constants

/-! ## Operations (lines 121-156 and 188-204) -/

section Operations

variable {F : Type} [LinearOrderedField F]

/-- Lines 189-191, the function `map`:
`start2 + (var1 * (fabs(end2) + fabs(start2))) / (fabs(end1) + fabs(start1))`. -/
def map (var1 start1 end1 start2 end2 : F) : F :=
  start2 + (var1 * (|end2| + |start2|)) / (|end1| + |start1|)

/-- The standard affine rescale of section 4.3 of the specification:
`start2 + (v - start1)*(end2 - start2)/(end1 - start1)`. -/
def affineRescale (v start1 end1 start2 end2 : F) : F :=
  start2 + (v - start1) * (end2 - start2) / (end1 - start1)

/-- Lines 198-204, the function `Alg`: the origin is returned unchanged, any other point
is raised to `power` in polar form and `com2` and the offset `(cR, cI)` are added. -/
def Alg (L : Libm F) (com1 com2 : Complex F) (power cR cI : F) : Complex F :=
  if com1.re = 0 ∧ com1.im = 0 then com1
  else
    let r := L.pow (com1.re * com1.re + com1.im * com1.im) (power / 2.0)
    let theta := power * L.atan2 com1.im com1.re
    { re := r * L.cos theta + com2.re + cR, im := r * L.sin theta + com2.im + cI }

/-- Lines 142-147, the `while` loop of `Mandelbrot`, from the state `(com1, n)`:
`while (n < MAX_I && sqrt(com1.re*com1.re + com1.im*com1.im) < 4)` do
`com1 = Alg(com1, com2, power, cR, cI); n++`. The result is the state at exit. -/
def whileLoop (L : Libm F) (maxI : Nat) (com2 : Complex F) (power cR cI : F)
    (com1 : Complex F) (n : Nat) : Complex F × Nat :=
  if n < maxI ∧ L.sqrt (com1.re * com1.re + com1.im * com1.im) < 4 then
    whileLoop L maxI com2 power cR cI (Alg L com1 com2 power cR cI) (n + 1)
  else (com1, n)
termination_by maxI - n
decreasing_by omega

/-- Lines 130-147: the value of `n` after the `while` loop for the pixel `(i, j)`. -/
def pixelCount (C : Consts F) (L : Libm F) (power cR cI : F) (i j : Nat) : Nat :=
  let re := map (i : F) 0 (C.WIDTH : F) C.MIN_X C.MAX_X
  let im := map (j : F) 0 (C.HEIGHT : F) C.MIN_Y C.MAX_Y
  let com1 : Complex F := { re := re, im := im }
  let com2 : Complex F := { re := re, im := im }
  (whileLoop L C.MAX_I com2 power cR cI com1 0).2

/-- Lines 130-153, the body of the inner `for` loop: the count `n` of the pixel `(i, j)` is
stored in `values[i * HEIGHT + j]` and, when `n < MAX_I`, `histogram[n]` is incremented. -/
def pixelStep (C : Consts F) (L : Libm F) (power cR cI : F) (i : Nat)
    (st : (Nat → F) × (Nat → F)) (j : Nat) : (Nat → F) × (Nat → F) :=
  let n := pixelCount C L power cR cI i j
  let values := Function.update st.1 (i * C.HEIGHT + j) (n : F)
  let histogram := if n < C.MAX_I then Function.update st.2 n (st.2 n + 1) else st.2
  (values, histogram)

/-- Lines 129-154: the inner loop `for (int j = 0; j < HEIGHT; j++)` for the row `i`. -/
def rowLoop (C : Consts F) (L : Libm F) (power cR cI : F)
    (st : (Nat → F) × (Nat → F)) (i : Nat) : (Nat → F) × (Nat → F) :=
  (List.range C.HEIGHT).foldl (pixelStep C L power cR cI i) st

/-- Lines 121-156, the function `Mandelbrot`: the outer loop
`for (int i = 0; i < WIDTH; i++)`. The result is the pair of the buffers `values` and
`histogram` after the call. -/
def Mandelbrot (C : Consts F) (L : Libm F) (values histogram : Nat → F)
    (power cR cI : F) : (Nat → F) × (Nat → F) :=
  (List.range C.WIDTH).foldl (rowLoop C L power cR cI) (values, histogram)

/-- The expression of the loop guard of line 142, `sqrt(re*re + im*im)`: the modulus of a
point as the program computes it. -/
def modulus (L : Libm F) (z : Complex F) : F :=
  L.sqrt (z.re * z.re + z.im * z.im)

/-- The orbit of `z0` under the step of line 144: `orbit 0 = z0` and
`orbit (k + 1) = Alg (orbit k) com2 power cR cI`. -/
def orbit (L : Libm F) (com2 : Complex F) (power cR cI : F) (z0 : Complex F) (k : Nat) :
    Complex F :=
  (fun z => Alg L z com2 power cR cI)^[k] z0

/-- Lines 130-131: the point of the plane that the pixel `(i, j)` is mapped to. -/
def pixelPoint (C : Consts F) (i j : Nat) : Complex F :=
  { re := map (i : F) 0 (C.WIDTH : F) C.MIN_X C.MAX_X,
    im := map (j : F) 0 (C.HEIGHT : F) C.MIN_Y C.MAX_Y }

/-- The complex conjugate `re - im*i` of a point. -/
def conj (z : Complex F) : Complex F :=
  { re := z.re, im := -z.im }

/-- The pixels of the grid: the pairs `(i, j)` with `i < WIDTH` and `j < HEIGHT`. -/
def pixels (C : Consts F) : Finset (Nat × Nat) :=
  Finset.range C.WIDTH ×ˢ Finset.range C.HEIGHT

end Operations

/-- The five functions of `math.h` over the real numbers: `pow` is the real power,
`atan2 y x` is the argument in `(-π, π]` of the point `x + y*i`. -/
noncomputable def realLibm : Libm ℝ where
  sqrt := Real.sqrt
  pow := fun x y => x ^ y
  atan2 := fun y x => Complex.arg (⟨x, y⟩ : ℂ)
  cos := Real.cos
  sin := Real.sin

/-- The point `re + im*i` as a complex number of the library. -/
def toC (z : Complex ℝ) : ℂ := ⟨z.re, z.im⟩

/-- The classical Mandelbrot orbit of `c`: `z_0 = c` and `z_(k+1) = z_k ^ 2 + c`
(lines 1-2 of the source, started at the pixel's own point as `Mandelbrot` does). -/
noncomputable def classicalOrbit (c : ℂ) (k : Nat) : ℂ :=
  (fun z => z ^ 2 + c)^[k] c

/-- Membership of the classical Mandelbrot set: the classical orbit is bounded. -/
def inClassicalMandelbrot (c : ℂ) : Prop :=
  ∃ B : ℝ, ∀ k, Complex.abs (classicalOrbit c k) ≤ B

/-! ## The colour mapper (lines 160-195)

In `CalculateColors` a `float` that may fail to be a number is an `Option F`: `some x` is
the number `x` and `none` is not-a-number (`NAN`). A quotient whose divisor is 0 is `none`,
and `none` is absorbed by `+`, `-` and `*`. The local array `hues` is indexed by `int`, so it
is a function on `Int`; its content before the first store is the parameter `hues0`. -/

section ColorMapper

variable {F : Type} [LinearOrderedField F] [FloorRing F]

/-- The C conversion `(int)x` of a `float`: rounding toward zero. -/
def truncInt (x : F) : Int :=
  if 0 ≤ x then ⌊x⌋ else ⌈x⌉

/-- The sum `x + y` of two `float`s that may be not-a-number. -/
def fadd : Option F → Option F → Option F
  | some a, some b => some (a + b)
  | _, _ => none

/-- The difference `x - y` of two `float`s that may be not-a-number. -/
def fsub : Option F → Option F → Option F
  | some a, some b => some (a - b)
  | _, _ => none

/-- The product `x * y` of two `float`s that may be not-a-number. -/
def fmul : Option F → Option F → Option F
  | some a, some b => some (a * b)
  | _, _ => none

/-- The quotient `x / y` of two `float`s that may be not-a-number: not a number when the
divisor is 0. -/
def fdiv : Option F → Option F → Option F
  | some a, some b => if b = 0 then none else some (a / b)
  | _, _ => none

/-- Lines 193-195, the function `LinearInterpolation`:
`num1 * (1 - point) + num2 * point`. -/
def LinearInterpolation (num1 num2 point : Option F) : Option F :=
  fadd (fmul num1 (fsub (some 1) point)) (fmul num2 point)

/-- The least value of the 32-bit type `int`. -/
def INT_MIN : Int := -2147483648

/-- The greatest value of the 32-bit type `int`. -/
def INT_MAX : Int := 2147483647

/-- The conversion of a `float` to the 32-bit `int` in the assignment `total += ...` of
line 165: the rounding toward zero when that lies in `INT_MIN .. INT_MAX`. For a value out
of this range C leaves the conversion undefined; the conversion instruction of the x86-64
then delivers `INT_MIN`, and so does `toInt32`. -/
def toInt32 (x : F) : Int :=
  if INT_MIN ≤ truncInt x ∧ truncInt x ≤ INT_MAX then truncInt x else INT_MIN

/-- Lines 161-166 of `CalculateColors`: `int total = 0` and the loop
`total += histogram[i]`, where the sum is converted back to the 32-bit `int` at every
step. -/
def totalOf (C : Consts F) (histogram : Nat → F) : Int :=
  (List.range C.MAX_I).foldl (fun total i => toInt32 ((total : F) + histogram i)) 0

/-- Lines 168-171 of `CalculateColors`, the body of the second loop on the state
`(h, hues)`: `h += histogram[i] / total; hues[i] = h`. -/
def huesStep (histogram : Nat → F) (total : Int) (st : Option F × (Int → Option F))
    (i : Nat) : Option F × (Int → Option F) :=
  let h := fadd st.1 (fdiv (some (histogram i)) (some (total : F)))
  (h, Function.update st.2 (i : Int) h)

/-- Lines 163-171 of `CalculateColors`: `float h = 0` and the second loop. -/
def huesLoop (C : Consts F) (histogram : Nat → F) (hues0 : Int → Option F) :
    Option F × (Int → Option F) :=
  (List.range C.MAX_I).foldl (huesStep histogram (totalOf C histogram)) (some 0, hues0)

/-- Lines 161-172 of `CalculateColors`: the array `hues` after the store
`hues[MAX_I - 1] = h` of line 172. -/
def huesOf (C : Consts F) (histogram : Nat → F) (hues0 : Int → Option F) : Int → Option F :=
  Function.update (huesLoop C histogram hues0).2 ((C.MAX_I : Int) - 1)
    (huesLoop C histogram hues0).1

/-- Lines 177-183 of `CalculateColors`: what is stored in `arr` for a pixel whose value is
`currentVal`; `(int)currentVal % 1` is the remainder of an `int`. -/
def colorOf (C : Consts F) (hues : Int → Option F) (currentVal : F) : Option F :=
  if truncInt currentVal = (C.MAX_I : Int) then none
  else
    fsub (some 255) (fmul (some 255)
      (LinearInterpolation (hues (truncInt currentVal))
        (hues (truncInt ((⌈currentVal⌉ : Int) : F)))
        (some (((truncInt currentVal).tmod 1 : Int) : F))))

/-- The indices at which line 182 reads the array `hues` for a pixel whose value is
`currentVal`: `(int)currentVal` and `(int)ceil(currentVal)`, and none when line 178 takes
the branch of `NAN`. -/
def huesReadIndices (C : Consts F) (currentVal : F) : List Int :=
  if truncInt currentVal = (C.MAX_I : Int) then []
  else [truncInt currentVal, truncInt ((⌈currentVal⌉ : Int) : F)]

/-- The indices at which lines 151-153 of `Mandelbrot` update the array `histogram` for a
pixel whose count is `n`: `(int)n` when `n < MAX_I`, and none otherwise. -/
def histogramUpdateIndices (C : Consts F) (n : Nat) : List Int :=
  if n < C.MAX_I then [(n : Int)] else []

/-- Lines 176-184 of `CalculateColors`: the inner loop for the row `i`. -/
def colorRow (C : Consts F) (values : Nat → F) (hues : Int → Option F)
    (arr : Nat → Option F) (i : Nat) : Nat → Option F :=
  (List.range C.HEIGHT).foldl
    (fun arr j => Function.update arr (i * C.HEIGHT + j)
      (colorOf C hues (values (i * C.HEIGHT + j)))) arr

/-- Lines 160-186, the function `CalculateColors`: the result is the buffer `arr` after the
call. -/
def CalculateColors (C : Consts F) (values histogram : Nat → F) (hues0 : Int → Option F)
    (arr : Nat → Option F) : Nat → Option F :=
  (List.range C.WIDTH).foldl (colorRow C values (huesOf C histogram hues0)) arr

/-- The function `CalculateColors` with the store `hues[MAX_I - 1] = h` of line 172 left
out: the pixels are coloured from the array `hues` as the second loop leaves it. -/
def CalculateColorsWithoutLastStore (C : Consts F) (values histogram : Nat → F)
    (hues0 : Int → Option F) (arr : Nat → Option F) : Nat → Option F :=
  (List.range C.WIDTH).foldl (colorRow C values (huesLoop C histogram hues0).2) arr

end ColorMapper

/-! ## The counters of the histogram as `float`s (line 152)

`Mandelbrot` above takes the increment `histogram[(int)n]++` as the exact `+ 1`. The
buckets are `float`s, which carry 24 significant binary digits: the sum `x + 1` is rounded
to the nearest `float`, and the rounding changes it from `2^24 = 16777216` on.
`MandelbrotRounded` is `Mandelbrot` with the rounded increment. The range of the exponent
of a `float` is not modelled. -/

section RoundedCounters

variable {F : Type} [LinearOrderedField F] [FloorRing F]

/-- The integer nearest to `y`; when `y` lies halfway between two integers, the even
one. -/
def roundHalfEven (y : F) : Int :=
  if y - ⌊y⌋ < 1 / 2 then ⌊y⌋
  else if 1 / 2 < y - ⌊y⌋ then ⌊y⌋ + 1
  else if ⌊y⌋ % 2 = 0 then ⌊y⌋ else ⌊y⌋ + 1

/-- The `float` nearest to `x`: for `2^e ≤ |x| < 2^(e+1)` the `float`s around `x` are the
multiples of `2^(e-23)`, and `x` is rounded to the nearest of them, to the even multiple
when it lies halfway. -/
def roundFloat (x : F) : F :=
  if x = 0 then 0
  else (roundHalfEven (x / 2 ^ (Int.log 2 |x| - 23)) : F) * 2 ^ (Int.log 2 |x| - 23)

/-- Line 152, `histogram[(int)n]++` on the `float` `x` of the bucket: the `float` nearest
to `x + 1`. -/
def floatIncrement (x : F) : F :=
  roundFloat (x + 1)

/-- Lines 130-153, the body of the inner `for` loop, with the increment of line 152
rounded to a `float`. -/
def pixelStepRounded (C : Consts F) (L : Libm F) (power cR cI : F) (i : Nat)
    (st : (Nat → F) × (Nat → F)) (j : Nat) : (Nat → F) × (Nat → F) :=
  let n := pixelCount C L power cR cI i j
  let values := Function.update st.1 (i * C.HEIGHT + j) (n : F)
  let histogram :=
    if n < C.MAX_I then Function.update st.2 n (floatIncrement (st.2 n)) else st.2
  (values, histogram)

/-- Lines 129-154: the inner loop for the row `i`, with the rounded increment. -/
def rowLoopRounded (C : Consts F) (L : Libm F) (power cR cI : F)
    (st : (Nat → F) × (Nat → F)) (i : Nat) : (Nat → F) × (Nat → F) :=
  (List.range C.HEIGHT).foldl (pixelStepRounded C L power cR cI i) st

/-- Lines 121-156, the function `Mandelbrot`, with the increment of line 152 rounded to a
`float`. -/
def MandelbrotRounded (C : Consts F) (L : Libm F) (values histogram : Nat → F)
    (power cR cI : F) : (Nat → F) × (Nat → F) :=
  (List.range C.WIDTH).foldl (rowLoopRounded C L power cR cI) (values, histogram)

end RoundedCounters

/-! ## The writers (lines 215-259)

A file is the list of the calls that wrote to it: `Out.text s` is `fputs(s, fp)` and
`Out.float x` is `fprintf(fp, "%f", x)`. The file that `fopen(GetPath(index), "a")` opens
is the parameter `fp`, and the result is the file at `fclose`. -/

/-- One call that writes to a file. -/
inductive Out (F : Type) where
  | text (s : String)
  | float (x : Option F)

section Writers

variable {F : Type}

/-- Lines 222-228 (and 245-251), the body of the loop of the writers: `arr[i]` is written
with `%f` when `arr[i] == arr[i]` and the text `NaN` otherwise, then the text `, `. -/
def writeElement (arr : Nat → Option F) (fp : List (Out F)) (i : Nat) : List (Out F) :=
  (if (arr i).isSome then fp ++ [Out.float (arr i)] else fp ++ [Out.text "NaN"])
    ++ [Out.text ", "]

/-- Lines 215-236, the function `MiddleWriteToJSON`. -/
def MiddleWriteToJSON (C : Consts F) (arr : Nat → Option F) (fp : List (Out F)) :
    List (Out F) :=
  let fp1 := fp ++ [Out.text "\t\t["]
  let fp2 := (List.range (C.WIDTH * C.HEIGHT - 1)).foldl (writeElement arr) fp1
  let fp3 := fp2 ++ [Out.float (arr (C.WIDTH * C.HEIGHT))]
  fp3 ++ [Out.text "\t],\n"]

/-- Lines 238-259, the function `LastWriteToJSON`. -/
def LastWriteToJSON (C : Consts F) (arr : Nat → Option F) (fp : List (Out F)) :
    List (Out F) :=
  let fp1 := fp ++ [Out.text "\t\t["]
  let fp2 := (List.range (C.WIDTH * C.HEIGHT - 1)).foldl (writeElement arr) fp1
  let fp3 := fp2 ++ [Out.float (arr (C.WIDTH * C.HEIGHT))]
  fp3 ++ [Out.text "\t]\n"]

end Writers

/-- The end-to-end scenario: a 12 by 12 grid, the cap 20 and the window of the source. -/
def scenario (F : Type) [LinearOrderedField F] : Consts F where
  WIDTH := 12
  HEIGHT := 12
  MIN_X := MIN_X F
  MAX_X := MAX_X F
  MIN_Y := MIN_Y F
  MAX_Y := MAX_Y F
  MAX_I := 20

/-! ## The paths of the output files -/

/-- The chain of `if(index == k) return "...";` lines of `GetPath`, in the order of the
source: the compared constant and the returned string of each line. -/
def pathTable : List (Int × String) := [
  (0, "/Users/Sean/Documents/Coding/Eclipse/Visualize Mandelbrot from C/files/mandelbrot_nums_0.json"),
  (1, "/Users/Sean/Documents/Coding/Eclipse/Visualize Mandelbrot from C/files/mandelbrot_nums_1.json"),
  (2, "/Users/Sean/Documents/Coding/Eclipse/Visualize Mandelbrot from C/files/mandelbrot_nums_2.json"),
  (3, "/Users/Sean/Documents/Coding/Eclipse/Visualize Mandelbrot from C/files/mandelbrot_nums_3.json"),
  (4, "/Users/Sean/Documents/Coding/Eclipse/Visualize Mandelbrot from C/files/mandelbrot_nums_4.json"),
  (5, "/Users/Sean/Documents/Coding/Eclipse/Visualize Mandelbrot from C/files/mandelbrot_nums_5.json"),
  (6, "/Users/Sean/Documents/Coding/Eclipse/Visualize Mandelbrot from C/files/mandelbrot_nums_6.json"),
  (7, "/Users/Sean/Documents/Coding/Eclipse/Visualize Mandelbrot from C/files/mandelbrot_nums_7.json"),
  (8, "/Users/Sean/Documents/Coding/Eclipse/Visualize Mandelbrot from C/files/mandelbrot_nums_8.json"),
  (9, "/Users/Sean/Documents/Coding/Eclipse/Visualize Mandelbrot from C/files/mandelbrot_nums_9.json"),
  (10, "/Users/Sean/Documents/Coding/Eclipse/Visualize Mandelbrot from C/files/mandelbrot_nums_10.json"),
  (11, "/Users/Sean/Documents/Coding/Eclipse/Visualize Mandelbrot from C/files/mandelbrot_nums_11.json"),
  (12, "/Users/Sean/Documents/Coding/Eclipse/Visualize Mandelbrot from C/files/mandelbrot_nums_12.json"),
  (13, "/Users/Sean/Documents/Coding/Eclipse/Visualize Mandelbrot from C/files/mandelbrot_nums_13.json"),
  (14, "/Users/Sean/Documents/Coding/Eclipse/Visualize Mandelbrot from C/files/mandelbrot_nums_14.json"),
  (15, "/Users/Sean/Documents/Coding/Eclipse/Visualize Mandelbrot from C/files/mandelbrot_nums_15.json"),
  (16, "/Users/Sean/Documents/Coding/Eclipse/Visualize Mandelbrot from C/files/mandelbrot_nums_16.json"),
  (17, "/Users/Sean/Documents/Coding/Eclipse/Visualize Mandelbrot from C/files/mandelbrot_nums_17.json"),
  (18, "/Users/Sean/Documents/Coding/Eclipse/Visualize Mandelbrot from C/files/mandelbrot_nums_18.json"),
  (19, "/Users/Sean/Documents/Coding/Eclipse/Visualize Mandelbrot from C/files/mandelbrot_nums_19.json"),
  (20, "/Users/Sean/Documents/Coding/Eclipse/Visualize Mandelbrot from C/files/mandelbrot_nums_20.json"),
  (21, "/Users/Sean/Documents/Coding/Eclipse/Visualize Mandelbrot from C/files/mandelbrot_nums_21.json"),
  (22, "/Users/Sean/Documents/Coding/Eclipse/Visualize Mandelbrot from C/files/mandelbrot_nums_22.json"),
  (23, "/Users/Sean/Documents/Coding/Eclipse/Visualize Mandelbrot from C/files/mandelbrot_nums_23.json"),
  (24, "/Users/Sean/Documents/Coding/Eclipse/Visualize Mandelbrot from C/files/mandelbrot_nums_24.json"),
  (25, "/Users/Sean/Documents/Coding/Eclipse/Visualize Mandelbrot from C/files/mandelbrot_nums_25.json"),
  (26, "/Users/Sean/Documents/Coding/Eclipse/Visualize Mandelbrot from C/files/mandelbrot_nums_26.json"),
  (27, "/Users/Sean/Documents/Coding/Eclipse/Visualize Mandelbrot from C/files/mandelbrot_nums_27.json"),
  (28, "/Users/Sean/Documents/Coding/Eclipse/Visualize Mandelbrot from C/files/mandelbrot_nums_28.json"),
  (29, "/Users/Sean/Documents/Coding/Eclipse/Visualize Mandelbrot from C/files/mandelbrot_nums_29.json"),
  (30, "/Users/Sean/Documents/Coding/Eclipse/Visualize Mandelbrot from C/files/mandelbrot_nums_30.json"),
  (31, "/Users/Sean/Documents/Coding/Eclipse/Visualize Mandelbrot from C/files/mandelbrot_nums_31.json"),
  (32, "/Users/Sean/Documents/Coding/Eclipse/Visualize Mandelbrot from C/files/mandelbrot_nums_32.json"),
  (33, "/Users/Sean/Documents/Coding/Eclipse/Visualize Mandelbrot from C/files/mandelbrot_nums_33.json"),
  (34, "/Users/Sean/Documents/Coding/Eclipse/Visualize Mandelbrot from C/files/mandelbrot_nums_34.json"),
  (35, "/Users/Sean/Documents/Coding/Eclipse/Visualize Mandelbrot from C/files/mandelbrot_nums_35.json"),
  (36, "/Users/Sean/Documents/Coding/Eclipse/Visualize Mandelbrot from C/files/mandelbrot_nums_36.json"),
  (37, "/Users/Sean/Documents/Coding/Eclipse/Visualize Mandelbrot from C/files/mandelbrot_nums_37.json"),
  (38, "/Users/Sean/Documents/Coding/Eclipse/Visualize Mandelbrot from C/files/mandelbrot_nums_38.json"),
  (39, "/Users/Sean/Documents/Coding/Eclipse/Visualize Mandelbrot from C/files/mandelbrot_nums_39.json"),
  (40, "/Users/Sean/Documents/Coding/Eclipse/Visualize Mandelbrot from C/files/mandelbrot_nums_40.json"),
  (41, "/Users/Sean/Documents/Coding/Eclipse/Visualize Mandelbrot from C/files/mandelbrot_nums_41.json"),
  (42, "/Users/Sean/Documents/Coding/Eclipse/Visualize Mandelbrot from C/files/mandelbrot_nums_42.json"),
  (43, "/Users/Sean/Documents/Coding/Eclipse/Visualize Mandelbrot from C/files/mandelbrot_nums_43.json"),
  (44, "/Users/Sean/Documents/Coding/Eclipse/Visualize Mandelbrot from C/files/mandelbrot_nums_44.json"),
  (45, "/Users/Sean/Documents/Coding/Eclipse/Visualize Mandelbrot from C/files/mandelbrot_nums_45.json"),
  (46, "/Users/Sean/Documents/Coding/Eclipse/Visualize Mandelbrot from C/files/mandelbrot_nums_46.json"),
  (47, "/Users/Sean/Documents/Coding/Eclipse/Visualize Mandelbrot from C/files/mandelbrot_nums_47.json"),
  (48, "/Users/Sean/Documents/Coding/Eclipse/Visualize Mandelbrot from C/files/mandelbrot_nums_48.json"),
  (49, "/Users/Sean/Documents/Coding/Eclipse/Visualize Mandelbrot from C/files/mandelbrot_nums_49.json"),
  (50, "/Users/Sean/Documents/Coding/Eclipse/Visualize Mandelbrot from C/files/mandelbrot_nums_50.json"),
  (51, "/Users/Sean/Documents/Coding/Eclipse/Visualize Mandelbrot from C/files/mandelbrot_nums_51.json"),
  (52, "/Users/Sean/Documents/Coding/Eclipse/Visualize Mandelbrot from C/files/mandelbrot_nums_52.json"),
  (53, "/Users/Sean/Documents/Coding/Eclipse/Visualize Mandelbrot from C/files/mandelbrot_nums_53.json"),
  (54, "/Users/Sean/Documents/Coding/Eclipse/Visualize Mandelbrot from C/files/mandelbrot_nums_54.json"),
  (55, "/Users/Sean/Documents/Coding/Eclipse/Visualize Mandelbrot from C/files/mandelbrot_nums_55.json"),
  (56, "/Users/Sean/Documents/Coding/Eclipse/Visualize Mandelbrot from C/files/mandelbrot_nums_56.json"),
  (57, "/Users/Sean/Documents/Coding/Eclipse/Visualize Mandelbrot from C/files/mandelbrot_nums_57.json"),
  (58, "/Users/Sean/Documents/Coding/Eclipse/Visualize Mandelbrot from C/files/mandelbrot_nums_58.json"),
  (59, "/Users/Sean/Documents/Coding/Eclipse/Visualize Mandelbrot from C/files/mandelbrot_nums_59.json"),
  (60, "/Users/Sean/Documents/Coding/Eclipse/Visualize Mandelbrot from C/files/mandelbrot_nums_60.json"),
  (61, "/Users/Sean/Documents/Coding/Eclipse/Visualize Mandelbrot from C/files/mandelbrot_nums_61.json"),
  (62, "/Users/Sean/Documents/Coding/Eclipse/Visualize Mandelbrot from C/files/mandelbrot_nums_62.json"),
  (63, "/Users/Sean/Documents/Coding/Eclipse/Visualize Mandelbrot from C/files/mandelbrot_nums_63.json"),
  (64, "/Users/Sean/Documents/Coding/Eclipse/Visualize Mandelbrot from C/files/mandelbrot_nums_64.json"),
  (65, "/Users/Sean/Documents/Coding/Eclipse/Visualize Mandelbrot from C/files/mandelbrot_nums_65.json"),
  (66, "/Users/Sean/Documents/Coding/Eclipse/Visualize Mandelbrot from C/files/mandelbrot_nums_66.json"),
  (67, "/Users/Sean/Documents/Coding/Eclipse/Visualize Mandelbrot from C/files/mandelbrot_nums_67.json"),
  (68, "/Users/Sean/Documents/Coding/Eclipse/Visualize Mandelbrot from C/files/mandelbrot_nums_68.json"),
  (69, "/Users/Sean/Documents/Coding/Eclipse/Visualize Mandelbrot from C/files/mandelbrot_nums_69.json"),
  (70, "/Users/Sean/Documents/Coding/Eclipse/Visualize Mandelbrot from C/files/mandelbrot_nums_70.json"),
  (71, "/Users/Sean/Documents/Coding/Eclipse/Visualize Mandelbrot from C/files/mandelbrot_nums_71.json"),
  (72, "/Users/Sean/Documents/Coding/Eclipse/Visualize Mandelbrot from C/files/mandelbrot_nums_72.json"),
  (73, "/Users/Sean/Documents/Coding/Eclipse/Visualize Mandelbrot from C/files/mandelbrot_nums_73.json"),
  (74, "/Users/Sean/Documents/Coding/Eclipse/Visualize Mandelbrot from C/files/mandelbrot_nums_74.json"),
  (75, "/Users/Sean/Documents/Coding/Eclipse/Visualize Mandelbrot from C/files/mandelbrot_nums_75.json"),
  (76, "/Users/Sean/Documents/Coding/Eclipse/Visualize Mandelbrot from C/files/mandelbrot_nums_76.json"),
  (77, "/Users/Sean/Documents/Coding/Eclipse/Visualize Mandelbrot from C/files/mandelbrot_nums_77.json"),
  (78, "/Users/Sean/Documents/Coding/Eclipse/Visualize Mandelbrot from C/files/mandelbrot_nums_78.json"),
  (79, "/Users/Sean/Documents/Coding/Eclipse/Visualize Mandelbrot from C/files/mandelbrot_nums_79.json"),
  (80, "/Users/Sean/Documents/Coding/Eclipse/Visualize Mandelbrot from C/files/mandelbrot_nums_80.json"),
  (81, "/Users/Sean/Documents/Coding/Eclipse/Visualize Mandelbrot from C/files/mandelbrot_nums_81.json"),
  (82, "/Users/Sean/Documents/Coding/Eclipse/Visualize Mandelbrot from C/files/mandelbrot_nums_82.json"),
  (83, "/Users/Sean/Documents/Coding/Eclipse/Visualize Mandelbrot from C/files/mandelbrot_nums_83.json"),
  (84, "/Users/Sean/Documents/Coding/Eclipse/Visualize Mandelbrot from C/files/mandelbrot_nums_84.json"),
  (85, "/Users/Sean/Documents/Coding/Eclipse/Visualize Mandelbrot from C/files/mandelbrot_nums_85.json"),
  (86, "/Users/Sean/Documents/Coding/Eclipse/Visualize Mandelbrot from C/files/mandelbrot_nums_86.json"),
  (87, "/Users/Sean/Documents/Coding/Eclipse/Visualize Mandelbrot from C/files/mandelbrot_nums_87.json"),
  (88, "/Users/Sean/Documents/Coding/Eclipse/Visualize Mandelbrot from C/files/mandelbrot_nums_88.json"),
  (89, "/Users/Sean/Documents/Coding/Eclipse/Visualize Mandelbrot from C/files/mandelbrot_nums_89.json"),
  (90, "/Users/Sean/Documents/Coding/Eclipse/Visualize Mandelbrot from C/files/mandelbrot_nums_90.json"),
  (91, "/Users/Sean/Documents/Coding/Eclipse/Visualize Mandelbrot from C/files/mandelbrot_nums_91.json"),
  (92, "/Users/Sean/Documents/Coding/Eclipse/Visualize Mandelbrot from C/files/mandelbrot_nums_92.json"),
  (93, "/Users/Sean/Documents/Coding/Eclipse/Visualize Mandelbrot from C/files/mandelbrot_nums_93.json"),
  (94, "/Users/Sean/Documents/Coding/Eclipse/Visualize Mandelbrot from C/files/mandelbrot_nums_94.json"),
  (95, "/Users/Sean/Documents/Coding/Eclipse/Visualize Mandelbrot from C/files/mandelbrot_nums_95.json"),
  (96, "/Users/Sean/Documents/Coding/Eclipse/Visualize Mandelbrot from C/files/mandelbrot_nums_96.json"),
  (97, "/Users/Sean/Documents/Coding/Eclipse/Visualize Mandelbrot from C/files/mandelbrot_nums_97.json"),
  (98, "/Users/Sean/Documents/Coding/Eclipse/Visualize Mandelbrot from C/files/mandelbrot_nums_98.json"),
  (99, "/Users/Sean/Documents/Coding/Eclipse/Visualize Mandelbrot from C/files/mandelbrot_nums_99.json"),
  (100, "/Users/Sean/Documents/Coding/Eclipse/Visualize Mandelbrot from C/files/mandelbrot_nums_100.json"),
  (101, "/Users/Sean/Documents/Coding/Eclipse/Visualize Mandelbrot from C/files/mandelbrot_nums_101.json"),
  (102, "/Users/Sean/Documents/Coding/Eclipse/Visualize Mandelbrot from C/files/mandelbrot_nums_102.json"),
  (103, "/Users/Sean/Documents/Coding/Eclipse/Visualize Mandelbrot from C/files/mandelbrot_nums_103.json"),
  (104, "/Users/Sean/Documents/Coding/Eclipse/Visualize Mandelbrot from C/files/mandelbrot_nums_104.json"),
  (105, "/Users/Sean/Documents/Coding/Eclipse/Visualize Mandelbrot from C/files/mandelbrot_nums_105.json"),
  (106, "/Users/Sean/Documents/Coding/Eclipse/Visualize Mandelbrot from C/files/mandelbrot_nums_106.json"),
  (107, "/Users/Sean/Documents/Coding/Eclipse/Visualize Mandelbrot from C/files/mandelbrot_nums_107.json"),
  (108, "/Users/Sean/Documents/Coding/Eclipse/Visualize Mandelbrot from C/files/mandelbrot_nums_108.json"),
  (109, "/Users/Sean/Documents/Coding/Eclipse/Visualize Mandelbrot from C/files/mandelbrot_nums_109.json"),
  (110, "/Users/Sean/Documents/Coding/Eclipse/Visualize Mandelbrot from C/files/mandelbrot_nums_110.json"),
  (111, "/Users/Sean/Documents/Coding/Eclipse/Visualize Mandelbrot from C/files/mandelbrot_nums_111.json"),
  (112, "/Users/Sean/Documents/Coding/Eclipse/Visualize Mandelbrot from C/files/mandelbrot_nums_112.json"),
  (113, "/Users/Sean/Documents/Coding/Eclipse/Visualize Mandelbrot from C/files/mandelbrot_nums_113.json"),
  (114, "/Users/Sean/Documents/Coding/Eclipse/Visualize Mandelbrot from C/files/mandelbrot_nums_114.json"),
  (115, "/Users/Sean/Documents/Coding/Eclipse/Visualize Mandelbrot from C/files/mandelbrot_nums_115.json"),
  (116, "/Users/Sean/Documents/Coding/Eclipse/Visualize Mandelbrot from C/files/mandelbrot_nums_116.json"),
  (117, "/Users/Sean/Documents/Coding/Eclipse/Visualize Mandelbrot from C/files/mandelbrot_nums_117.json"),
  (118, "/Users/Sean/Documents/Coding/Eclipse/Visualize Mandelbrot from C/files/mandelbrot_nums_118.json"),
  (119, "/Users/Sean/Documents/Coding/Eclipse/Visualize Mandelbrot from C/files/mandelbrot_nums_119.json"),
  (120, "/Users/Sean/Documents/Coding/Eclipse/Visualize Mandelbrot from C/files/mandelbrot_nums_120.json"),
  (121, "/Users/Sean/Documents/Coding/Eclipse/Visualize Mandelbrot from C/files/mandelbrot_nums_121.json"),
  (122, "/Users/Sean/Documents/Coding/Eclipse/Visualize Mandelbrot from C/files/mandelbrot_nums_122.json"),
  (123, "/Users/Sean/Documents/Coding/Eclipse/Visualize Mandelbrot from C/files/mandelbrot_nums_123.json"),
  (124, "/Users/Sean/Documents/Coding/Eclipse/Visualize Mandelbrot from C/files/mandelbrot_nums_124.json"),
  (125, "/Users/Sean/Documents/Coding/Eclipse/Visualize Mandelbrot from C/files/mandelbrot_nums_125.json"),
  (126, "/Users/Sean/Documents/Coding/Eclipse/Visualize Mandelbrot from C/files/mandelbrot_nums_126.json"),
  (127, "/Users/Sean/Documents/Coding/Eclipse/Visualize Mandelbrot from C/files/mandelbrot_nums_127.json"),
  (128, "/Users/Sean/Documents/Coding/Eclipse/Visualize Mandelbrot from C/files/mandelbrot_nums_128.json"),
  (129, "/Users/Sean/Documents/Coding/Eclipse/Visualize Mandelbrot from C/files/mandelbrot_nums_129.json"),
  (130, "/Users/Sean/Documents/Coding/Eclipse/Visualize Mandelbrot from C/files/mandelbrot_nums_130.json"),
  (131, "/Users/Sean/Documents/Coding/Eclipse/Visualize Mandelbrot from C/files/mandelbrot_nums_131.json"),
  (132, "/Users/Sean/Documents/Coding/Eclipse/Visualize Mandelbrot from C/files/mandelbrot_nums_132.json"),
  (133, "/Users/Sean/Documents/Coding/Eclipse/Visualize Mandelbrot from C/files/mandelbrot_nums_133.json"),
  (134, "/Users/Sean/Documents/Coding/Eclipse/Visualize Mandelbrot from C/files/mandelbrot_nums_134.json"),
  (135, "/Users/Sean/Documents/Coding/Eclipse/Visualize Mandelbrot from C/files/mandelbrot_nums_135.json"),
  (136, "/Users/Sean/Documents/Coding/Eclipse/Visualize Mandelbrot from C/files/mandelbrot_nums_136.json"),
  (137, "/Users/Sean/Documents/Coding/Eclipse/Visualize Mandelbrot from C/files/mandelbrot_nums_137.json"),
  (138, "/Users/Sean/Documents/Coding/Eclipse/Visualize Mandelbrot from C/files/mandelbrot_nums_138.json"),
  (139, "/Users/Sean/Documents/Coding/Eclipse/Visualize Mandelbrot from C/files/mandelbrot_nums_139.json"),
  (140, "/Users/Sean/Documents/Coding/Eclipse/Visualize Mandelbrot from C/files/mandelbrot_nums_140.json"),
  (141, "/Users/Sean/Documents/Coding/Eclipse/Visualize Mandelbrot from C/files/mandelbrot_nums_141.json"),
  (142, "/Users/Sean/Documents/Coding/Eclipse/Visualize Mandelbrot from C/files/mandelbrot_nums_142.json"),
  (143, "/Users/Sean/Documents/Coding/Eclipse/Visualize Mandelbrot from C/files/mandelbrot_nums_143.json"),
  (144, "/Users/Sean/Documents/Coding/Eclipse/Visualize Mandelbrot from C/files/mandelbrot_nums_144.json"),
  (145, "/Users/Sean/Documents/Coding/Eclipse/Visualize Mandelbrot from C/files/mandelbrot_nums_145.json"),
  (146, "/Users/Sean/Documents/Coding/Eclipse/Visualize Mandelbrot from C/files/mandelbrot_nums_146.json"),
  (147, "/Users/Sean/Documents/Coding/Eclipse/Visualize Mandelbrot from C/files/mandelbrot_nums_147.json"),
  (148, "/Users/Sean/Documents/Coding/Eclipse/Visualize Mandelbrot from C/files/mandelbrot_nums_148.json"),
  (149, "/Users/Sean/Documents/Coding/Eclipse/Visualize Mandelbrot from C/files/mandelbrot_nums_149.json"),
  (150, "/Users/Sean/Documents/Coding/Eclipse/Visualize Mandelbrot from C/files/mandelbrot_nums_150.json"),
  (151, "/Users/Sean/Documents/Coding/Eclipse/Visualize Mandelbrot from C/files/mandelbrot_nums_151.json"),
  (152, "/Users/Sean/Documents/Coding/Eclipse/Visualize Mandelbrot from C/files/mandelbrot_nums_152.json"),
  (153, "/Users/Sean/Documents/Coding/Eclipse/Visualize Mandelbrot from C/files/mandelbrot_nums_153.json"),
  (154, "/Users/Sean/Documents/Coding/Eclipse/Visualize Mandelbrot from C/files/mandelbrot_nums_154.json"),
  (155, "/Users/Sean/Documents/Coding/Eclipse/Visualize Mandelbrot from C/files/mandelbrot_nums_155.json"),
  (156, "/Users/Sean/Documents/Coding/Eclipse/Visualize Mandelbrot from C/files/mandelbrot_nums_156.json"),
  (157, "/Users/Sean/Documents/Coding/Eclipse/Visualize Mandelbrot from C/files/mandelbrot_nums_157.json"),
  (158, "/Users/Sean/Documents/Coding/Eclipse/Visualize Mandelbrot from C/files/mandelbrot_nums_158.json"),
  (159, "/Users/Sean/Documents/Coding/Eclipse/Visualize Mandelbrot from C/files/mandelbrot_nums_159.json"),
  (160, "/Users/Sean/Documents/Coding/Eclipse/Visualize Mandelbrot from C/files/mandelbrot_nums_160.json"),
  (161, "/Users/Sean/Documents/Coding/Eclipse/Visualize Mandelbrot from C/files/mandelbrot_nums_161.json"),
  (162, "/Users/Sean/Documents/Coding/Eclipse/Visualize Mandelbrot from C/files/mandelbrot_nums_162.json"),
  (163, "/Users/Sean/Documents/Coding/Eclipse/Visualize Mandelbrot from C/files/mandelbrot_nums_163.json"),
  (164, "/Users/Sean/Documents/Coding/Eclipse/Visualize Mandelbrot from C/files/mandelbrot_nums_164.json"),
  (165, "/Users/Sean/Documents/Coding/Eclipse/Visualize Mandelbrot from C/files/mandelbrot_nums_165.json"),
  (166, "/Users/Sean/Documents/Coding/Eclipse/Visualize Mandelbrot from C/files/mandelbrot_nums_166.json"),
  (167, "/Users/Sean/Documents/Coding/Eclipse/Visualize Mandelbrot from C/files/mandelbrot_nums_167.json"),
  (168, "/Users/Sean/Documents/Coding/Eclipse/Visualize Mandelbrot from C/files/mandelbrot_nums_168.json"),
  (169, "/Users/Sean/Documents/Coding/Eclipse/Visualize Mandelbrot from C/files/mandelbrot_nums_169.json"),
  (170, "/Users/Sean/Documents/Coding/Eclipse/Visualize Mandelbrot from C/files/mandelbrot_nums_170.json"),
  (171, "/Users/Sean/Documents/Coding/Eclipse/Visualize Mandelbrot from C/files/mandelbrot_nums_171.json"),
  (172, "/Users/Sean/Documents/Coding/Eclipse/Visualize Mandelbrot from C/files/mandelbrot_nums_172.json"),
  (173, "/Users/Sean/Documents/Coding/Eclipse/Visualize Mandelbrot from C/files/mandelbrot_nums_173.json"),
  (174, "/Users/Sean/Documents/Coding/Eclipse/Visualize Mandelbrot from C/files/mandelbrot_nums_174.json"),
  (175, "/Users/Sean/Documents/Coding/Eclipse/Visualize Mandelbrot from C/files/mandelbrot_nums_175.json"),
  (176, "/Users/Sean/Documents/Coding/Eclipse/Visualize Mandelbrot from C/files/mandelbrot_nums_176.json"),
  (177, "/Users/Sean/Documents/Coding/Eclipse/Visualize Mandelbrot from C/files/mandelbrot_nums_177.json"),
  (178, "/Users/Sean/Documents/Coding/Eclipse/Visualize Mandelbrot from C/files/mandelbrot_nums_178.json"),
  (179, "/Users/Sean/Documents/Coding/Eclipse/Visualize Mandelbrot from C/files/mandelbrot_nums_179.json"),
  (180, "/Users/Sean/Documents/Coding/Eclipse/Visualize Mandelbrot from C/files/mandelbrot_nums_180.json"),
  (181, "/Users/Sean/Documents/Coding/Eclipse/Visualize Mandelbrot from C/files/mandelbrot_nums_181.json"),
  (182, "/Users/Sean/Documents/Coding/Eclipse/Visualize Mandelbrot from C/files/mandelbrot_nums_182.json"),
  (183, "/Users/Sean/Documents/Coding/Eclipse/Visualize Mandelbrot from C/files/mandelbrot_nums_183.json"),
  (184, "/Users/Sean/Documents/Coding/Eclipse/Visualize Mandelbrot from C/files/mandelbrot_nums_184.json"),
  (185, "/Users/Sean/Documents/Coding/Eclipse/Visualize Mandelbrot from C/files/mandelbrot_nums_185.json"),
  (186, "/Users/Sean/Documents/Coding/Eclipse/Visualize Mandelbrot from C/files/mandelbrot_nums_186.json"),
  (187, "/Users/Sean/Documents/Coding/Eclipse/Visualize Mandelbrot from C/files/mandelbrot_nums_187.json"),
  (188, "/Users/Sean/Documents/Coding/Eclipse/Visualize Mandelbrot from C/files/mandelbrot_nums_188.json"),
  (189, "/Users/Sean/Documents/Coding/Eclipse/Visualize Mandelbrot from C/files/mandelbrot_nums_189.json"),
  (190, "/Users/Sean/Documents/Coding/Eclipse/Visualize Mandelbrot from C/files/mandelbrot_nums_190.json"),
  (191, "/Users/Sean/Documents/Coding/Eclipse/Visualize Mandelbrot from C/files/mandelbrot_nums_191.json"),
  (192, "/Users/Sean/Documents/Coding/Eclipse/Visualize Mandelbrot from C/files/mandelbrot_nums_192.json"),
  (193, "/Users/Sean/Documents/Coding/Eclipse/Visualize Mandelbrot from C/files/mandelbrot_nums_193.json"),
  (194, "/Users/Sean/Documents/Coding/Eclipse/Visualize Mandelbrot from C/files/mandelbrot_nums_194.json"),
  (195, "/Users/Sean/Documents/Coding/Eclipse/Visualize Mandelbrot from C/files/mandelbrot_nums_195.json"),
  (196, "/Users/Sean/Documents/Coding/Eclipse/Visualize Mandelbrot from C/files/mandelbrot_nums_196.json"),
  (197, "/Users/Sean/Documents/Coding/Eclipse/Visualize Mandelbrot from C/files/mandelbrot_nums_197.json"),
  (198, "/Users/Sean/Documents/Coding/Eclipse/Visualize Mandelbrot from C/files/mandelbrot_nums_198.json"),
  (199, "/Users/Sean/Documents/Coding/Eclipse/Visualize Mandelbrot from C/files/mandelbrot_nums_199.json"),
  (200, "/Users/Sean/Documents/Coding/Eclipse/Visualize Mandelbrot from C/files/mandelbrot_nums_200.json"),
  (201, "/Users/Sean/Documents/Coding/Eclipse/Visualize Mandelbrot from C/files/mandelbrot_nums_201.json"),
  (202, "/Users/Sean/Documents/Coding/Eclipse/Visualize Mandelbrot from C/files/mandelbrot_nums_202.json"),
  (203, "/Users/Sean/Documents/Coding/Eclipse/Visualize Mandelbrot from C/files/mandelbrot_nums_203.json"),
  (204, "/Users/Sean/Documents/Coding/Eclipse/Visualize Mandelbrot from C/files/mandelbrot_nums_204.json"),
  (205, "/Users/Sean/Documents/Coding/Eclipse/Visualize Mandelbrot from C/files/mandelbrot_nums_205.json"),
  (206, "/Users/Sean/Documents/Coding/Eclipse/Visualize Mandelbrot from C/files/mandelbrot_nums_206.json"),
  (207, "/Users/Sean/Documents/Coding/Eclipse/Visualize Mandelbrot from C/files/mandelbrot_nums_207.json"),
  (208, "/Users/Sean/Documents/Coding/Eclipse/Visualize Mandelbrot from C/files/mandelbrot_nums_208.json"),
  (209, "/Users/Sean/Documents/Coding/Eclipse/Visualize Mandelbrot from C/files/mandelbrot_nums_209.json"),
  (210, "/Users/Sean/Documents/Coding/Eclipse/Visualize Mandelbrot from C/files/mandelbrot_nums_210.json"),
  (211, "/Users/Sean/Documents/Coding/Eclipse/Visualize Mandelbrot from C/files/mandelbrot_nums_211.json"),
  (212, "/Users/Sean/Documents/Coding/Eclipse/Visualize Mandelbrot from C/files/mandelbrot_nums_212.json"),
  (213, "/Users/Sean/Documents/Coding/Eclipse/Visualize Mandelbrot from C/files/mandelbrot_nums_213.json"),
  (214, "/Users/Sean/Documents/Coding/Eclipse/Visualize Mandelbrot from C/files/mandelbrot_nums_214.json"),
  (215, "/Users/Sean/Documents/Coding/Eclipse/Visualize Mandelbrot from C/files/mandelbrot_nums_215.json"),
  (216, "/Users/Sean/Documents/Coding/Eclipse/Visualize Mandelbrot from C/files/mandelbrot_nums_216.json"),
  (217, "/Users/Sean/Documents/Coding/Eclipse/Visualize Mandelbrot from C/files/mandelbrot_nums_217.json"),
  (218, "/Users/Sean/Documents/Coding/Eclipse/Visualize Mandelbrot from C/files/mandelbrot_nums_218.json"),
  (219, "/Users/Sean/Documents/Coding/Eclipse/Visualize Mandelbrot from C/files/mandelbrot_nums_219.json"),
  (220, "/Users/Sean/Documents/Coding/Eclipse/Visualize Mandelbrot from C/files/mandelbrot_nums_220.json"),
  (221, "/Users/Sean/Documents/Coding/Eclipse/Visualize Mandelbrot from C/files/mandelbrot_nums_221.json"),
  (222, "/Users/Sean/Documents/Coding/Eclipse/Visualize Mandelbrot from C/files/mandelbrot_nums_222.json"),
  (223, "/Users/Sean/Documents/Coding/Eclipse/Visualize Mandelbrot from C/files/mandelbrot_nums_223.json"),
  (224, "/Users/Sean/Documents/Coding/Eclipse/Visualize Mandelbrot from C/files/mandelbrot_nums_224.json"),
  (225, "/Users/Sean/Documents/Coding/Eclipse/Visualize Mandelbrot from C/files/mandelbrot_nums_225.json"),
  (226, "/Users/Sean/Documents/Coding/Eclipse/Visualize Mandelbrot from C/files/mandelbrot_nums_226.json"),
  (227, "/Users/Sean/Documents/Coding/Eclipse/Visualize Mandelbrot from C/files/mandelbrot_nums_227.json"),
  (228, "/Users/Sean/Documents/Coding/Eclipse/Visualize Mandelbrot from C/files/mandelbrot_nums_228.json"),
  (229, "/Users/Sean/Documents/Coding/Eclipse/Visualize Mandelbrot from C/files/mandelbrot_nums_229.json"),
  (230, "/Users/Sean/Documents/Coding/Eclipse/Visualize Mandelbrot from C/files/mandelbrot_nums_230.json"),
  (231, "/Users/Sean/Documents/Coding/Eclipse/Visualize Mandelbrot from C/files/mandelbrot_nums_231.json"),
  (232, "/Users/Sean/Documents/Coding/Eclipse/Visualize Mandelbrot from C/files/mandelbrot_nums_232.json"),
  (233, "/Users/Sean/Documents/Coding/Eclipse/Visualize Mandelbrot from C/files/mandelbrot_nums_233.json"),
  (234, "/Users/Sean/Documents/Coding/Eclipse/Visualize Mandelbrot from C/files/mandelbrot_nums_234.json"),
  (235, "/Users/Sean/Documents/Coding/Eclipse/Visualize Mandelbrot from C/files/mandelbrot_nums_235.json"),
  (236, "/Users/Sean/Documents/Coding/Eclipse/Visualize Mandelbrot from C/files/mandelbrot_nums_236.json"),
  (237, "/Users/Sean/Documents/Coding/Eclipse/Visualize Mandelbrot from C/files/mandelbrot_nums_237.json"),
  (238, "/Users/Sean/Documents/Coding/Eclipse/Visualize Mandelbrot from C/files/mandelbrot_nums_238.json"),
  (239, "/Users/Sean/Documents/Coding/Eclipse/Visualize Mandelbrot from C/files/mandelbrot_nums_239.json"),
  (240, "/Users/Sean/Documents/Coding/Eclipse/Visualize Mandelbrot from C/files/mandelbrot_nums_240.json"),
  (241, "/Users/Sean/Documents/Coding/Eclipse/Visualize Mandelbrot from C/files/mandelbrot_nums_241.json"),
  (242, "/Users/Sean/Documents/Coding/Eclipse/Visualize Mandelbrot from C/files/mandelbrot_nums_242.json"),
  (243, "/Users/Sean/Documents/Coding/Eclipse/Visualize Mandelbrot from C/files/mandelbrot_nums_243.json"),
  (244, "/Users/Sean/Documents/Coding/Eclipse/Visualize Mandelbrot from C/files/mandelbrot_nums_244.json"),
  (245, "/Users/Sean/Documents/Coding/Eclipse/Visualize Mandelbrot from C/files/mandelbrot_nums_245.json"),
  (246, "/Users/Sean/Documents/Coding/Eclipse/Visualize Mandelbrot from C/files/mandelbrot_nums_246.json"),
  (247, "/Users/Sean/Documents/Coding/Eclipse/Visualize Mandelbrot from C/files/mandelbrot_nums_247.json"),
  (248, "/Users/Sean/Documents/Coding/Eclipse/Visualize Mandelbrot from C/files/mandelbrot_nums_248.json"),
  (249, "/Users/Sean/Documents/Coding/Eclipse/Visualize Mandelbrot from C/files/mandelbrot_nums_249.json"),
  (250, "/Users/Sean/Documents/Coding/Eclipse/Visualize Mandelbrot from C/files/mandelbrot_nums_250.json"),
  (251, "/Users/Sean/Documents/Coding/Eclipse/Visualize Mandelbrot from C/files/mandelbrot_nums_251.json"),
  (252, "/Users/Sean/Documents/Coding/Eclipse/Visualize Mandelbrot from C/files/mandelbrot_nums_252.json"),
  (253, "/Users/Sean/Documents/Coding/Eclipse/Visualize Mandelbrot from C/files/mandelbrot_nums_253.json"),
  (254, "/Users/Sean/Documents/Coding/Eclipse/Visualize Mandelbrot from C/files/mandelbrot_nums_254.json"),
  (255, "/Users/Sean/Documents/Coding/Eclipse/Visualize Mandelbrot from C/files/mandelbrot_nums_255.json"),
  (256, "/Users/Sean/Documents/Coding/Eclipse/Visualize Mandelbrot from C/files/mandelbrot_nums_256.json"),
  (257, "/Users/Sean/Documents/Coding/Eclipse/Visualize Mandelbrot from C/files/mandelbrot_nums_257.json"),
  (258, "/Users/Sean/Documents/Coding/Eclipse/Visualize Mandelbrot from C/files/mandelbrot_nums_258.json"),
  (259, "/Users/Sean/Documents/Coding/Eclipse/Visualize Mandelbrot from C/files/mandelbrot_nums_259.json"),
  (260, "/Users/Sean/Documents/Coding/Eclipse/Visualize Mandelbrot from C/files/mandelbrot_nums_260.json"),
  (261, "/Users/Sean/Documents/Coding/Eclipse/Visualize Mandelbrot from C/files/mandelbrot_nums_261.json"),
  (262, "/Users/Sean/Documents/Coding/Eclipse/Visualize Mandelbrot from C/files/mandelbrot_nums_262.json"),
  (263, "/Users/Sean/Documents/Coding/Eclipse/Visualize Mandelbrot from C/files/mandelbrot_nums_263.json"),
  (264, "/Users/Sean/Documents/Coding/Eclipse/Visualize Mandelbrot from C/files/mandelbrot_nums_264.json"),
  (265, "/Users/Sean/Documents/Coding/Eclipse/Visualize Mandelbrot from C/files/mandelbrot_nums_265.json"),
  (266, "/Users/Sean/Documents/Coding/Eclipse/Visualize Mandelbrot from C/files/mandelbrot_nums_266.json"),
  (267, "/Users/Sean/Documents/Coding/Eclipse/Visualize Mandelbrot from C/files/mandelbrot_nums_267.json"),
  (268, "/Users/Sean/Documents/Coding/Eclipse/Visualize Mandelbrot from C/files/mandelbrot_nums_268.json"),
  (269, "/Users/Sean/Documents/Coding/Eclipse/Visualize Mandelbrot from C/files/mandelbrot_nums_269.json"),
  (270, "/Users/Sean/Documents/Coding/Eclipse/Visualize Mandelbrot from C/files/mandelbrot_nums_270.json"),
  (271, "/Users/Sean/Documents/Coding/Eclipse/Visualize Mandelbrot from C/files/mandelbrot_nums_271.json"),
  (272, "/Users/Sean/Documents/Coding/Eclipse/Visualize Mandelbrot from C/files/mandelbrot_nums_272.json"),
  (273, "/Users/Sean/Documents/Coding/Eclipse/Visualize Mandelbrot from C/files/mandelbrot_nums_273.json"),
  (274, "/Users/Sean/Documents/Coding/Eclipse/Visualize Mandelbrot from C/files/mandelbrot_nums_274.json"),
  (275, "/Users/Sean/Documents/Coding/Eclipse/Visualize Mandelbrot from C/files/mandelbrot_nums_275.json"),
  (276, "/Users/Sean/Documents/Coding/Eclipse/Visualize Mandelbrot from C/files/mandelbrot_nums_276.json"),
  (277, "/Users/Sean/Documents/Coding/Eclipse/Visualize Mandelbrot from C/files/mandelbrot_nums_277.json"),
  (278, "/Users/Sean/Documents/Coding/Eclipse/Visualize Mandelbrot from C/files/mandelbrot_nums_278.json"),
  (279, "/Users/Sean/Documents/Coding/Eclipse/Visualize Mandelbrot from C/files/mandelbrot_nums_279.json"),
  (280, "/Users/Sean/Documents/Coding/Eclipse/Visualize Mandelbrot from C/files/mandelbrot_nums_280.json"),
  (281, "/Users/Sean/Documents/Coding/Eclipse/Visualize Mandelbrot from C/files/mandelbrot_nums_281.json"),
  (282, "/Users/Sean/Documents/Coding/Eclipse/Visualize Mandelbrot from C/files/mandelbrot_nums_282.json"),
  (283, "/Users/Sean/Documents/Coding/Eclipse/Visualize Mandelbrot from C/files/mandelbrot_nums_283.json"),
  (284, "/Users/Sean/Documents/Coding/Eclipse/Visualize Mandelbrot from C/files/mandelbrot_nums_284.json"),
  (285, "/Users/Sean/Documents/Coding/Eclipse/Visualize Mandelbrot from C/files/mandelbrot_nums_285.json"),
  (286, "/Users/Sean/Documents/Coding/Eclipse/Visualize Mandelbrot from C/files/mandelbrot_nums_286.json"),
  (287, "/Users/Sean/Documents/Coding/Eclipse/Visualize Mandelbrot from C/files/mandelbrot_nums_287.json"),
  (288, "/Users/Sean/Documents/Coding/Eclipse/Visualize Mandelbrot from C/files/mandelbrot_nums_288.json"),
  (289, "/Users/Sean/Documents/Coding/Eclipse/Visualize Mandelbrot from C/files/mandelbrot_nums_289.json"),
  (290, "/Users/Sean/Documents/Coding/Eclipse/Visualize Mandelbrot from C/files/mandelbrot_nums_290.json"),
  (291, "/Users/Sean/Documents/Coding/Eclipse/Visualize Mandelbrot from C/files/mandelbrot_nums_291.json"),
  (292, "/Users/Sean/Documents/Coding/Eclipse/Visualize Mandelbrot from C/files/mandelbrot_nums_292.json"),
  (293, "/Users/Sean/Documents/Coding/Eclipse/Visualize Mandelbrot from C/files/mandelbrot_nums_293.json"),
  (294, "/Users/Sean/Documents/Coding/Eclipse/Visualize Mandelbrot from C/files/mandelbrot_nums_294.json"),
  (295, "/Users/Sean/Documents/Coding/Eclipse/Visualize Mandelbrot from C/files/mandelbrot_nums_295.json"),
  (296, "/Users/Sean/Documents/Coding/Eclipse/Visualize Mandelbrot from C/files/mandelbrot_nums_296.json"),
  (297, "/Users/Sean/Documents/Coding/Eclipse/Visualize Mandelbrot from C/files/mandelbrot_nums_297.json"),
  (298, "/Users/Sean/Documents/Coding/Eclipse/Visualize Mandelbrot from C/files/mandelbrot_nums_298.json"),
  (299, "/Users/Sean/Documents/Coding/Eclipse/Visualize Mandelbrot from C/files/mandelbrot_nums_299.json"),
  (300, "/Users/Sean/Documents/Coding/Eclipse/Visualize Mandelbrot from C/files/mandelbrot_nums_300.json"),
  (301, "/Users/Sean/Documents/Coding/Eclipse/Visualize Mandelbrot from C/files/mandelbrot_nums_301.json"),
  (302, "/Users/Sean/Documents/Coding/Eclipse/Visualize Mandelbrot from C/files/mandelbrot_nums_302.json"),
  (303, "/Users/Sean/Documents/Coding/Eclipse/Visualize Mandelbrot from C/files/mandelbrot_nums_303.json"),
  (304, "/Users/Sean/Documents/Coding/Eclipse/Visualize Mandelbrot from C/files/mandelbrot_nums_304.json"),
  (305, "/Users/Sean/Documents/Coding/Eclipse/Visualize Mandelbrot from C/files/mandelbrot_nums_305.json"),
  (306, "/Users/Sean/Documents/Coding/Eclipse/Visualize Mandelbrot from C/files/mandelbrot_nums_306.json"),
  (307, "/Users/Sean/Documents/Coding/Eclipse/Visualize Mandelbrot from C/files/mandelbrot_nums_307.json"),
  (308, "/Users/Sean/Documents/Coding/Eclipse/Visualize Mandelbrot from C/files/mandelbrot_nums_308.json"),
  (309, "/Users/Sean/Documents/Coding/Eclipse/Visualize Mandelbrot from C/files/mandelbrot_nums_309.json"),
  (310, "/Users/Sean/Documents/Coding/Eclipse/Visualize Mandelbrot from C/files/mandelbrot_nums_310.json"),
  (311, "/Users/Sean/Documents/Coding/Eclipse/Visualize Mandelbrot from C/files/mandelbrot_nums_311.json"),
  (312, "/Users/Sean/Documents/Coding/Eclipse/Visualize Mandelbrot from C/files/mandelbrot_nums_312.json"),
  (313, "/Users/Sean/Documents/Coding/Eclipse/Visualize Mandelbrot from C/files/mandelbrot_nums_313.json"),
  (314, "/Users/Sean/Documents/Coding/Eclipse/Visualize Mandelbrot from C/files/mandelbrot_nums_314.json"),
  (315, "/Users/Sean/Documents/Coding/Eclipse/Visualize Mandelbrot from C/files/mandelbrot_nums_315.json"),
  (316, "/Users/Sean/Documents/Coding/Eclipse/Visualize Mandelbrot from C/files/mandelbrot_nums_316.json"),
  (317, "/Users/Sean/Documents/Coding/Eclipse/Visualize Mandelbrot from C/files/mandelbrot_nums_317.json"),
  (318, "/Users/Sean/Documents/Coding/Eclipse/Visualize Mandelbrot from C/files/mandelbrot_nums_318.json"),
  (319, "/Users/Sean/Documents/Coding/Eclipse/Visualize Mandelbrot from C/files/mandelbrot_nums_319.json"),
  (320, "/Users/Sean/Documents/Coding/Eclipse/Visualize Mandelbrot from C/files/mandelbrot_nums_320.json"),
  (321, "/Users/Sean/Documents/Coding/Eclipse/Visualize Mandelbrot from C/files/mandelbrot_nums_321.json"),
  (322, "/Users/Sean/Documents/Coding/Eclipse/Visualize Mandelbrot from C/files/mandelbrot_nums_322.json"),
  (323, "/Users/Sean/Documents/Coding/Eclipse/Visualize Mandelbrot from C/files/mandelbrot_nums_323.json"),
  (324, "/Users/Sean/Documents/Coding/Eclipse/Visualize Mandelbrot from C/files/mandelbrot_nums_324.json"),
  (325, "/Users/Sean/Documents/Coding/Eclipse/Visualize Mandelbrot from C/files/mandelbrot_nums_325.json"),
  (326, "/Users/Sean/Documents/Coding/Eclipse/Visualize Mandelbrot from C/files/mandelbrot_nums_326.json"),
  (327, "/Users/Sean/Documents/Coding/Eclipse/Visualize Mandelbrot from C/files/mandelbrot_nums_327.json"),
  (328, "/Users/Sean/Documents/Coding/Eclipse/Visualize Mandelbrot from C/files/mandelbrot_nums_328.json"),
  (329, "/Users/Sean/Documents/Coding/Eclipse/Visualize Mandelbrot from C/files/mandelbrot_nums_329.json"),
  (330, "/Users/Sean/Documents/Coding/Eclipse/Visualize Mandelbrot from C/files/mandelbrot_nums_330.json"),
  (331, "/Users/Sean/Documents/Coding/Eclipse/Visualize Mandelbrot from C/files/mandelbrot_nums_331.json"),
  (332, "/Users/Sean/Documents/Coding/Eclipse/Visualize Mandelbrot from C/files/mandelbrot_nums_332.json"),
  (333, "/Users/Sean/Documents/Coding/Eclipse/Visualize Mandelbrot from C/files/mandelbrot_nums_333.json"),
  (334, "/Users/Sean/Documents/Coding/Eclipse/Visualize Mandelbrot from C/files/mandelbrot_nums_334.json"),
  (335, "/Users/Sean/Documents/Coding/Eclipse/Visualize Mandelbrot from C/files/mandelbrot_nums_335.json"),
  (336, "/Users/Sean/Documents/Coding/Eclipse/Visualize Mandelbrot from C/files/mandelbrot_nums_336.json"),
  (337, "/Users/Sean/Documents/Coding/Eclipse/Visualize Mandelbrot from C/files/mandelbrot_nums_337.json"),
  (338, "/Users/Sean/Documents/Coding/Eclipse/Visualize Mandelbrot from C/files/mandelbrot_nums_338.json"),
  (339, "/Users/Sean/Documents/Coding/Eclipse/Visualize Mandelbrot from C/files/mandelbrot_nums_339.json"),
  (340, "/Users/Sean/Documents/Coding/Eclipse/Visualize Mandelbrot from C/files/mandelbrot_nums_340.json"),
  (341, "/Users/Sean/Documents/Coding/Eclipse/Visualize Mandelbrot from C/files/mandelbrot_nums_341.json"),
  (342, "/Users/Sean/Documents/Coding/Eclipse/Visualize Mandelbrot from C/files/mandelbrot_nums_342.json"),
  (343, "/Users/Sean/Documents/Coding/Eclipse/Visualize Mandelbrot from C/files/mandelbrot_nums_343.json"),
  (344, "/Users/Sean/Documents/Coding/Eclipse/Visualize Mandelbrot from C/files/mandelbrot_nums_344.json"),
  (345, "/Users/Sean/Documents/Coding/Eclipse/Visualize Mandelbrot from C/files/mandelbrot_nums_345.json"),
  (346, "/Users/Sean/Documents/Coding/Eclipse/Visualize Mandelbrot from C/files/mandelbrot_nums_346.json"),
  (347, "/Users/Sean/Documents/Coding/Eclipse/Visualize Mandelbrot from C/files/mandelbrot_nums_347.json"),
  (348, "/Users/Sean/Documents/Coding/Eclipse/Visualize Mandelbrot from C/files/mandelbrot_nums_348.json"),
  (349, "/Users/Sean/Documents/Coding/Eclipse/Visualize Mandelbrot from C/files/mandelbrot_nums_349.json"),
  (350, "/Users/Sean/Documents/Coding/Eclipse/Visualize Mandelbrot from C/files/mandelbrot_nums_350.json"),
  (351, "/Users/Sean/Documents/Coding/Eclipse/Visualize Mandelbrot from C/files/mandelbrot_nums_351.json"),
  (352, "/Users/Sean/Documents/Coding/Eclipse/Visualize Mandelbrot from C/files/mandelbrot_nums_352.json"),
  (353, "/Users/Sean/Documents/Coding/Eclipse/Visualize Mandelbrot from C/files/mandelbrot_nums_353.json"),
  (354, "/Users/Sean/Documents/Coding/Eclipse/Visualize Mandelbrot from C/files/mandelbrot_nums_354.json"),
  (355, "/Users/Sean/Documents/Coding/Eclipse/Visualize Mandelbrot from C/files/mandelbrot_nums_355.json"),
  (356, "/Users/Sean/Documents/Coding/Eclipse/Visualize Mandelbrot from C/files/mandelbrot_nums_356.json"),
  (357, "/Users/Sean/Documents/Coding/Eclipse/Visualize Mandelbrot from C/files/mandelbrot_nums_357.json"),
  (358, "/Users/Sean/Documents/Coding/Eclipse/Visualize Mandelbrot from C/files/mandelbrot_nums_358.json"),
  (359, "/Users/Sean/Documents/Coding/Eclipse/Visualize Mandelbrot from C/files/mandelbrot_nums_359.json"),
  (360, "/Users/Sean/Documents/Coding/Eclipse/Visualize Mandelbrot from C/files/mandelbrot_nums_360.json"),
  (361, "/Users/Sean/Documents/Coding/Eclipse/Visualize Mandelbrot from C/files/mandelbrot_nums_361.json"),
  (362, "/Users/Sean/Documents/Coding/Eclipse/Visualize Mandelbrot from C/files/mandelbrot_nums_362.json"),
  (363, "/Users/Sean/Documents/Coding/Eclipse/Visualize Mandelbrot from C/files/mandelbrot_nums_363.json"),
  (364, "/Users/Sean/Documents/Coding/Eclipse/Visualize Mandelbrot from C/files/mandelbrot_nums_364.json"),
  (365, "/Users/Sean/Documents/Coding/Eclipse/Visualize Mandelbrot from C/files/mandelbrot_nums_365.json"),
  (366, "/Users/Sean/Documents/Coding/Eclipse/Visualize Mandelbrot from C/files/mandelbrot_nums_366.json"),
  (367, "/Users/Sean/Documents/Coding/Eclipse/Visualize Mandelbrot from C/files/mandelbrot_nums_367.json"),
  (368, "/Users/Sean/Documents/Coding/Eclipse/Visualize Mandelbrot from C/files/mandelbrot_nums_368.json"),
  (369, "/Users/Sean/Documents/Coding/Eclipse/Visualize Mandelbrot from C/files/mandelbrot_nums_369.json"),
  (370, "/Users/Sean/Documents/Coding/Eclipse/Visualize Mandelbrot from C/files/mandelbrot_nums_370.json"),
  (371, "/Users/Sean/Documents/Coding/Eclipse/Visualize Mandelbrot from C/files/mandelbrot_nums_371.json"),
  (372, "/Users/Sean/Documents/Coding/Eclipse/Visualize Mandelbrot from C/files/mandelbrot_nums_372.json"),
  (373, "/Users/Sean/Documents/Coding/Eclipse/Visualize Mandelbrot from C/files/mandelbrot_nums_373.json"),
  (374, "/Users/Sean/Documents/Coding/Eclipse/Visualize Mandelbrot from C/files/mandelbrot_nums_374.json"),
  (375, "/Users/Sean/Documents/Coding/Eclipse/Visualize Mandelbrot from C/files/mandelbrot_nums_375.json"),
  (376, "/Users/Sean/Documents/Coding/Eclipse/Visualize Mandelbrot from C/files/mandelbrot_nums_376.json"),
  (377, "/Users/Sean/Documents/Coding/Eclipse/Visualize Mandelbrot from C/files/mandelbrot_nums_377.json"),
  (378, "/Users/Sean/Documents/Coding/Eclipse/Visualize Mandelbrot from C/files/mandelbrot_nums_378.json"),
  (379, "/Users/Sean/Documents/Coding/Eclipse/Visualize Mandelbrot from C/files/mandelbrot_nums_379.json"),
  (380, "/Users/Sean/Documents/Coding/Eclipse/Visualize Mandelbrot from C/files/mandelbrot_nums_380.json"),
  (381, "/Users/Sean/Documents/Coding/Eclipse/Visualize Mandelbrot from C/files/mandelbrot_nums_381.json"),
  (382, "/Users/Sean/Documents/Coding/Eclipse/Visualize Mandelbrot from C/files/mandelbrot_nums_382.json"),
  (383, "/Users/Sean/Documents/Coding/Eclipse/Visualize Mandelbrot from C/files/mandelbrot_nums_383.json"),
  (384, "/Users/Sean/Documents/Coding/Eclipse/Visualize Mandelbrot from C/files/mandelbrot_nums_384.json"),
  (385, "/Users/Sean/Documents/Coding/Eclipse/Visualize Mandelbrot from C/files/mandelbrot_nums_385.json"),
  (386, "/Users/Sean/Documents/Coding/Eclipse/Visualize Mandelbrot from C/files/mandelbrot_nums_386.json"),
  (387, "/Users/Sean/Documents/Coding/Eclipse/Visualize Mandelbrot from C/files/mandelbrot_nums_387.json"),
  (388, "/Users/Sean/Documents/Coding/Eclipse/Visualize Mandelbrot from C/files/mandelbrot_nums_388.json"),
  (389, "/Users/Sean/Documents/Coding/Eclipse/Visualize Mandelbrot from C/files/mandelbrot_nums_389.json"),
  (390, "/Users/Sean/Documents/Coding/Eclipse/Visualize Mandelbrot from C/files/mandelbrot_nums_390.json"),
  (391, "/Users/Sean/Documents/Coding/Eclipse/Visualize Mandelbrot from C/files/mandelbrot_nums_391.json"),
  (392, "/Users/Sean/Documents/Coding/Eclipse/Visualize Mandelbrot from C/files/mandelbrot_nums_392.json"),
  (393, "/Users/Sean/Documents/Coding/Eclipse/Visualize Mandelbrot from C/files/mandelbrot_nums_393.json"),
  (394, "/Users/Sean/Documents/Coding/Eclipse/Visualize Mandelbrot from C/files/mandelbrot_nums_394.json"),
  (395, "/Users/Sean/Documents/Coding/Eclipse/Visualize Mandelbrot from C/files/mandelbrot_nums_395.json"),
  (396, "/Users/Sean/Documents/Coding/Eclipse/Visualize Mandelbrot from C/files/mandelbrot_nums_396.json"),
  (397, "/Users/Sean/Documents/Coding/Eclipse/Visualize Mandelbrot from C/files/mandelbrot_nums_397.json"),
  (398, "/Users/Sean/Documents/Coding/Eclipse/Visualize Mandelbrot from C/files/mandelbrot_nums_398.json"),
  (399, "/Users/Sean/Documents/Coding/Eclipse/Visualize Mandelbrot from C/files/mandelbrot_nums_399.json"),
  (400, "/Users/Sean/Documents/Coding/Eclipse/Visualize Mandelbrot from C/files/mandelbrot_nums_400.json"),
  (401, "/Users/Sean/Documents/Coding/Eclipse/Visualize Mandelbrot from C/files/mandelbrot_nums_401.json"),
  (402, "/Users/Sean/Documents/Coding/Eclipse/Visualize Mandelbrot from C/files/mandelbrot_nums_402.json"),
  (403, "/Users/Sean/Documents/Coding/Eclipse/Visualize Mandelbrot from C/files/mandelbrot_nums_403.json"),
  (404, "/Users/Sean/Documents/Coding/Eclipse/Visualize Mandelbrot from C/files/mandelbrot_nums_404.json"),
  (405, "/Users/Sean/Documents/Coding/Eclipse/Visualize Mandelbrot from C/files/mandelbrot_nums_405.json"),
  (406, "/Users/Sean/Documents/Coding/Eclipse/Visualize Mandelbrot from C/files/mandelbrot_nums_406.json"),
  (407, "/Users/Sean/Documents/Coding/Eclipse/Visualize Mandelbrot from C/files/mandelbrot_nums_407.json"),
  (408, "/Users/Sean/Documents/Coding/Eclipse/Visualize Mandelbrot from C/files/mandelbrot_nums_408.json"),
  (409, "/Users/Sean/Documents/Coding/Eclipse/Visualize Mandelbrot from C/files/mandelbrot_nums_409.json"),
  (410, "/Users/Sean/Documents/Coding/Eclipse/Visualize Mandelbrot from C/files/mandelbrot_nums_410.json"),
  (411, "/Users/Sean/Documents/Coding/Eclipse/Visualize Mandelbrot from C/files/mandelbrot_nums_411.json"),
  (412, "/Users/Sean/Documents/Coding/Eclipse/Visualize Mandelbrot from C/files/mandelbrot_nums_412.json"),
  (413, "/Users/Sean/Documents/Coding/Eclipse/Visualize Mandelbrot from C/files/mandelbrot_nums_413.json"),
  (414, "/Users/Sean/Documents/Coding/Eclipse/Visualize Mandelbrot from C/files/mandelbrot_nums_414.json"),
  (415, "/Users/Sean/Documents/Coding/Eclipse/Visualize Mandelbrot from C/files/mandelbrot_nums_415.json"),
  (416, "/Users/Sean/Documents/Coding/Eclipse/Visualize Mandelbrot from C/files/mandelbrot_nums_416.json"),
  (417, "/Users/Sean/Documents/Coding/Eclipse/Visualize Mandelbrot from C/files/mandelbrot_nums_417.json"),
  (418, "/Users/Sean/Documents/Coding/Eclipse/Visualize Mandelbrot from C/files/mandelbrot_nums_418.json"),
  (419, "/Users/Sean/Documents/Coding/Eclipse/Visualize Mandelbrot from C/files/mandelbrot_nums_419.json"),
  (420, "/Users/Sean/Documents/Coding/Eclipse/Visualize Mandelbrot from C/files/mandelbrot_nums_420.json"),
  (421, "/Users/Sean/Documents/Coding/Eclipse/Visualize Mandelbrot from C/files/mandelbrot_nums_421.json"),
  (422, "/Users/Sean/Documents/Coding/Eclipse/Visualize Mandelbrot from C/files/mandelbrot_nums_422.json"),
  (423, "/Users/Sean/Documents/Coding/Eclipse/Visualize Mandelbrot from C/files/mandelbrot_nums_423.json"),
  (424, "/Users/Sean/Documents/Coding/Eclipse/Visualize Mandelbrot from C/files/mandelbrot_nums_424.json"),
  (425, "/Users/Sean/Documents/Coding/Eclipse/Visualize Mandelbrot from C/files/mandelbrot_nums_425.json"),
  (426, "/Users/Sean/Documents/Coding/Eclipse/Visualize Mandelbrot from C/files/mandelbrot_nums_426.json"),
  (427, "/Users/Sean/Documents/Coding/Eclipse/Visualize Mandelbrot from C/files/mandelbrot_nums_427.json"),
  (428, "/Users/Sean/Documents/Coding/Eclipse/Visualize Mandelbrot from C/files/mandelbrot_nums_428.json"),
  (429, "/Users/Sean/Documents/Coding/Eclipse/Visualize Mandelbrot from C/files/mandelbrot_nums_429.json"),
  (430, "/Users/Sean/Documents/Coding/Eclipse/Visualize Mandelbrot from C/files/mandelbrot_nums_430.json"),
  (431, "/Users/Sean/Documents/Coding/Eclipse/Visualize Mandelbrot from C/files/mandelbrot_nums_431.json"),
  (432, "/Users/Sean/Documents/Coding/Eclipse/Visualize Mandelbrot from C/files/mandelbrot_nums_432.json"),
  (433, "/Users/Sean/Documents/Coding/Eclipse/Visualize Mandelbrot from C/files/mandelbrot_nums_433.json"),
  (434, "/Users/Sean/Documents/Coding/Eclipse/Visualize Mandelbrot from C/files/mandelbrot_nums_434.json"),
  (435, "/Users/Sean/Documents/Coding/Eclipse/Visualize Mandelbrot from C/files/mandelbrot_nums_435.json"),
  (436, "/Users/Sean/Documents/Coding/Eclipse/Visualize Mandelbrot from C/files/mandelbrot_nums_436.json"),
  (437, "/Users/Sean/Documents/Coding/Eclipse/Visualize Mandelbrot from C/files/mandelbrot_nums_437.json"),
  (438, "/Users/Sean/Documents/Coding/Eclipse/Visualize Mandelbrot from C/files/mandelbrot_nums_438.json"),
  (439, "/Users/Sean/Documents/Coding/Eclipse/Visualize Mandelbrot from C/files/mandelbrot_nums_439.json"),
  (440, "/Users/Sean/Documents/Coding/Eclipse/Visualize Mandelbrot from C/files/mandelbrot_nums_440.json"),
  (441, "/Users/Sean/Documents/Coding/Eclipse/Visualize Mandelbrot from C/files/mandelbrot_nums_441.json"),
  (442, "/Users/Sean/Documents/Coding/Eclipse/Visualize Mandelbrot from C/files/mandelbrot_nums_442.json"),
  (443, "/Users/Sean/Documents/Coding/Eclipse/Visualize Mandelbrot from C/files/mandelbrot_nums_443.json"),
  (444, "/Users/Sean/Documents/Coding/Eclipse/Visualize Mandelbrot from C/files/mandelbrot_nums_444.json"),
  (445, "/Users/Sean/Documents/Coding/Eclipse/Visualize Mandelbrot from C/files/mandelbrot_nums_445.json"),
  (446, "/Users/Sean/Documents/Coding/Eclipse/Visualize Mandelbrot from C/files/mandelbrot_nums_446.json"),
  (447, "/Users/Sean/Documents/Coding/Eclipse/Visualize Mandelbrot from C/files/mandelbrot_nums_447.json"),
  (448, "/Users/Sean/Documents/Coding/Eclipse/Visualize Mandelbrot from C/files/mandelbrot_nums_448.json"),
  (449, "/Users/Sean/Documents/Coding/Eclipse/Visualize Mandelbrot from C/files/mandelbrot_nums_449.json"),
  (450, "/Users/Sean/Documents/Coding/Eclipse/Visualize Mandelbrot from C/files/mandelbrot_nums_450.json"),
  (451, "/Users/Sean/Documents/Coding/Eclipse/Visualize Mandelbrot from C/files/mandelbrot_nums_451.json"),
  (452, "/Users/Sean/Documents/Coding/Eclipse/Visualize Mandelbrot from C/files/mandelbrot_nums_452.json"),
  (453, "/Users/Sean/Documents/Coding/Eclipse/Visualize Mandelbrot from C/files/mandelbrot_nums_453.json"),
  (454, "/Users/Sean/Documents/Coding/Eclipse/Visualize Mandelbrot from C/files/mandelbrot_nums_454.json"),
  (455, "/Users/Sean/Documents/Coding/Eclipse/Visualize Mandelbrot from C/files/mandelbrot_nums_455.json"),
  (456, "/Users/Sean/Documents/Coding/Eclipse/Visualize Mandelbrot from C/files/mandelbrot_nums_456.json"),
  (457, "/Users/Sean/Documents/Coding/Eclipse/Visualize Mandelbrot from C/files/mandelbrot_nums_457.json"),
  (458, "/Users/Sean/Documents/Coding/Eclipse/Visualize Mandelbrot from C/files/mandelbrot_nums_458.json"),
  (459, "/Users/Sean/Documents/Coding/Eclipse/Visualize Mandelbrot from C/files/mandelbrot_nums_459.json"),
  (460, "/Users/Sean/Documents/Coding/Eclipse/Visualize Mandelbrot from C/files/mandelbrot_nums_460.json"),
  (461, "/Users/Sean/Documents/Coding/Eclipse/Visualize Mandelbrot from C/files/mandelbrot_nums_461.json"),
  (462, "/Users/Sean/Documents/Coding/Eclipse/Visualize Mandelbrot from C/files/mandelbrot_nums_462.json"),
  (463, "/Users/Sean/Documents/Coding/Eclipse/Visualize Mandelbrot from C/files/mandelbrot_nums_463.json"),
  (464, "/Users/Sean/Documents/Coding/Eclipse/Visualize Mandelbrot from C/files/mandelbrot_nums_464.json"),
  (465, "/Users/Sean/Documents/Coding/Eclipse/Visualize Mandelbrot from C/files/mandelbrot_nums_465.json"),
  (466, "/Users/Sean/Documents/Coding/Eclipse/Visualize Mandelbrot from C/files/mandelbrot_nums_466.json"),
  (467, "/Users/Sean/Documents/Coding/Eclipse/Visualize Mandelbrot from C/files/mandelbrot_nums_467.json"),
  (468, "/Users/Sean/Documents/Coding/Eclipse/Visualize Mandelbrot from C/files/mandelbrot_nums_468.json"),
  (469, "/Users/Sean/Documents/Coding/Eclipse/Visualize Mandelbrot from C/files/mandelbrot_nums_469.json"),
  (470, "/Users/Sean/Documents/Coding/Eclipse/Visualize Mandelbrot from C/files/mandelbrot_nums_470.json"),
  (471, "/Users/Sean/Documents/Coding/Eclipse/Visualize Mandelbrot from C/files/mandelbrot_nums_471.json"),
  (472, "/Users/Sean/Documents/Coding/Eclipse/Visualize Mandelbrot from C/files/mandelbrot_nums_472.json"),
  (473, "/Users/Sean/Documents/Coding/Eclipse/Visualize Mandelbrot from C/files/mandelbrot_nums_473.json"),
  (474, "/Users/Sean/Documents/Coding/Eclipse/Visualize Mandelbrot from C/files/mandelbrot_nums_474.json"),
  (475, "/Users/Sean/Documents/Coding/Eclipse/Visualize Mandelbrot from C/files/mandelbrot_nums_475.json"),
  (476, "/Users/Sean/Documents/Coding/Eclipse/Visualize Mandelbrot from C/files/mandelbrot_nums_476.json"),
  (477, "/Users/Sean/Documents/Coding/Eclipse/Visualize Mandelbrot from C/files/mandelbrot_nums_477.json"),
  (478, "/Users/Sean/Documents/Coding/Eclipse/Visualize Mandelbrot from C/files/mandelbrot_nums_478.json"),
  (479, "/Users/Sean/Documents/Coding/Eclipse/Visualize Mandelbrot from C/files/mandelbrot_nums_479.json"),
  (480, "/Users/Sean/Documents/Coding/Eclipse/Visualize Mandelbrot from C/files/mandelbrot_nums_480.json"),
  (481, "/Users/Sean/Documents/Coding/Eclipse/Visualize Mandelbrot from C/files/mandelbrot_nums_481.json"),
  (482, "/Users/Sean/Documents/Coding/Eclipse/Visualize Mandelbrot from C/files/mandelbrot_nums_482.json"),
  (483, "/Users/Sean/Documents/Coding/Eclipse/Visualize Mandelbrot from C/files/mandelbrot_nums_483.json"),
  (484, "/Users/Sean/Documents/Coding/Eclipse/Visualize Mandelbrot from C/files/mandelbrot_nums_484.json"),
  (485, "/Users/Sean/Documents/Coding/Eclipse/Visualize Mandelbrot from C/files/mandelbrot_nums_485.json"),
  (486, "/Users/Sean/Documents/Coding/Eclipse/Visualize Mandelbrot from C/files/mandelbrot_nums_486.json"),
  (487, "/Users/Sean/Documents/Coding/Eclipse/Visualize Mandelbrot from C/files/mandelbrot_nums_487.json"),
  (488, "/Users/Sean/Documents/Coding/Eclipse/Visualize Mandelbrot from C/files/mandelbrot_nums_488.json"),
  (489, "/Users/Sean/Documents/Coding/Eclipse/Visualize Mandelbrot from C/files/mandelbrot_nums_489.json"),
  (490, "/Users/Sean/Documents/Coding/Eclipse/Visualize Mandelbrot from C/files/mandelbrot_nums_490.json"),
  (491, "/Users/Sean/Documents/Coding/Eclipse/Visualize Mandelbrot from C/files/mandelbrot_nums_491.json"),
  (492, "/Users/Sean/Documents/Coding/Eclipse/Visualize Mandelbrot from C/files/mandelbrot_nums_492.json"),
  (493, "/Users/Sean/Documents/Coding/Eclipse/Visualize Mandelbrot from C/files/mandelbrot_nums_493.json"),
  (494, "/Users/Sean/Documents/Coding/Eclipse/Visualize Mandelbrot from C/files/mandelbrot_nums_494.json"),
  (495, "/Users/Sean/Documents/Coding/Eclipse/Visualize Mandelbrot from C/files/mandelbrot_nums_495.json"),
  (496, "/Users/Sean/Documents/Coding/Eclipse/Visualize Mandelbrot from C/files/mandelbrot_nums_496.json"),
  (497, "/Users/Sean/Documents/Coding/Eclipse/Visualize Mandelbrot from C/files/mandelbrot_nums_497.json"),
  (498, "/Users/Sean/Documents/Coding/Eclipse/Visualize Mandelbrot from C/files/mandelbrot_nums_498.json"),
  (499, "/Users/Sean/Documents/Coding/Eclipse/Visualize Mandelbrot from C/files/mandelbrot_nums_499.json"),
  (500, "/Users/Sean/Documents/Coding/Eclipse/Visualize Mandelbrot from C/files/mandelbrot_nums_500.json"),
  (501, "/Users/Sean/Documents/Coding/Eclipse/Visualize Mandelbrot from C/files/mandelbrot_nums_501.json"),
  (502, "/Users/Sean/Documents/Coding/Eclipse/Visualize Mandelbrot from C/files/mandelbrot_nums_502.json"),
  (503, "/Users/Sean/Documents/Coding/Eclipse/Visualize Mandelbrot from C/files/mandelbrot_nums_503.json"),
  (504, "/Users/Sean/Documents/Coding/Eclipse/Visualize Mandelbrot from C/files/mandelbrot_nums_504.json"),
  (505, "/Users/Sean/Documents/Coding/Eclipse/Visualize Mandelbrot from C/files/mandelbrot_nums_505.json"),
  (506, "/Users/Sean/Documents/Coding/Eclipse/Visualize Mandelbrot from C/files/mandelbrot_nums_506.json"),
  (507, "/Users/Sean/Documents/Coding/Eclipse/Visualize Mandelbrot from C/files/mandelbrot_nums_507.json"),
  (508, "/Users/Sean/Documents/Coding/Eclipse/Visualize Mandelbrot from C/files/mandelbrot_nums_508.json"),
  (509, "/Users/Sean/Documents/Coding/Eclipse/Visualize Mandelbrot from C/files/mandelbrot_nums_509.json"),
  (510, "/Users/Sean/Documents/Coding/Eclipse/Visualize Mandelbrot from C/files/mandelbrot_nums_510.json"),
  (511, "/Users/Sean/Documents/Coding/Eclipse/Visualize Mandelbrot from C/files/mandelbrot_nums_511.json"),
  (512, "/Users/Sean/Documents/Coding/Eclipse/Visualize Mandelbrot from C/files/mandelbrot_nums_512.json"),
  (513, "/Users/Sean/Documents/Coding/Eclipse/Visualize Mandelbrot from C/files/mandelbrot_nums_513.json"),
  (514, "/Users/Sean/Documents/Coding/Eclipse/Visualize Mandelbrot from C/files/mandelbrot_nums_514.json"),
  (515, "/Users/Sean/Documents/Coding/Eclipse/Visualize Mandelbrot from C/files/mandelbrot_nums_515.json"),
  (516, "/Users/Sean/Documents/Coding/Eclipse/Visualize Mandelbrot from C/files/mandelbrot_nums_516.json"),
  (517, "/Users/Sean/Documents/Coding/Eclipse/Visualize Mandelbrot from C/files/mandelbrot_nums_517.json"),
  (518, "/Users/Sean/Documents/Coding/Eclipse/Visualize Mandelbrot from C/files/mandelbrot_nums_518.json"),
  (519, "/Users/Sean/Documents/Coding/Eclipse/Visualize Mandelbrot from C/files/mandelbrot_nums_519.json"),
  (520, "/Users/Sean/Documents/Coding/Eclipse/Visualize Mandelbrot from C/files/mandelbrot_nums_520.json"),
  (521, "/Users/Sean/Documents/Coding/Eclipse/Visualize Mandelbrot from C/files/mandelbrot_nums_521.json"),
  (522, "/Users/Sean/Documents/Coding/Eclipse/Visualize Mandelbrot from C/files/mandelbrot_nums_522.json"),
  (523, "/Users/Sean/Documents/Coding/Eclipse/Visualize Mandelbrot from C/files/mandelbrot_nums_523.json"),
  (524, "/Users/Sean/Documents/Coding/Eclipse/Visualize Mandelbrot from C/files/mandelbrot_nums_524.json"),
  (525, "/Users/Sean/Documents/Coding/Eclipse/Visualize Mandelbrot from C/files/mandelbrot_nums_525.json"),
  (526, "/Users/Sean/Documents/Coding/Eclipse/Visualize Mandelbrot from C/files/mandelbrot_nums_526.json"),
  (527, "/Users/Sean/Documents/Coding/Eclipse/Visualize Mandelbrot from C/files/mandelbrot_nums_527.json"),
  (528, "/Users/Sean/Documents/Coding/Eclipse/Visualize Mandelbrot from C/files/mandelbrot_nums_528.json"),
  (529, "/Users/Sean/Documents/Coding/Eclipse/Visualize Mandelbrot from C/files/mandelbrot_nums_529.json"),
  (530, "/Users/Sean/Documents/Coding/Eclipse/Visualize Mandelbrot from C/files/mandelbrot_nums_530.json"),
  (531, "/Users/Sean/Documents/Coding/Eclipse/Visualize Mandelbrot from C/files/mandelbrot_nums_531.json"),
  (532, "/Users/Sean/Documents/Coding/Eclipse/Visualize Mandelbrot from C/files/mandelbrot_nums_532.json"),
  (533, "/Users/Sean/Documents/Coding/Eclipse/Visualize Mandelbrot from C/files/mandelbrot_nums_533.json"),
  (534, "/Users/Sean/Documents/Coding/Eclipse/Visualize Mandelbrot from C/files/mandelbrot_nums_534.json"),
  (535, "/Users/Sean/Documents/Coding/Eclipse/Visualize Mandelbrot from C/files/mandelbrot_nums_535.json"),
  (536, "/Users/Sean/Documents/Coding/Eclipse/Visualize Mandelbrot from C/files/mandelbrot_nums_536.json"),
  (537, "/Users/Sean/Documents/Coding/Eclipse/Visualize Mandelbrot from C/files/mandelbrot_nums_537.json"),
  (538, "/Users/Sean/Documents/Coding/Eclipse/Visualize Mandelbrot from C/files/mandelbrot_nums_538.json"),
  (539, "/Users/Sean/Documents/Coding/Eclipse/Visualize Mandelbrot from C/files/mandelbrot_nums_539.json"),
  (540, "/Users/Sean/Documents/Coding/Eclipse/Visualize Mandelbrot from C/files/mandelbrot_nums_540.json"),
  (541, "/Users/Sean/Documents/Coding/Eclipse/Visualize Mandelbrot from C/files/mandelbrot_nums_541.json"),
  (542, "/Users/Sean/Documents/Coding/Eclipse/Visualize Mandelbrot from C/files/mandelbrot_nums_542.json"),
  (543, "/Users/Sean/Documents/Coding/Eclipse/Visualize Mandelbrot from C/files/mandelbrot_nums_543.json"),
  (544, "/Users/Sean/Documents/Coding/Eclipse/Visualize Mandelbrot from C/files/mandelbrot_nums_544.json"),
  (545, "/Users/Sean/Documents/Coding/Eclipse/Visualize Mandelbrot from C/files/mandelbrot_nums_545.json"),
  (546, "/Users/Sean/Documents/Coding/Eclipse/Visualize Mandelbrot from C/files/mandelbrot_nums_546.json"),
  (547, "/Users/Sean/Documents/Coding/Eclipse/Visualize Mandelbrot from C/files/mandelbrot_nums_547.json"),
  (548, "/Users/Sean/Documents/Coding/Eclipse/Visualize Mandelbrot from C/files/mandelbrot_nums_548.json"),
  (549, "/Users/Sean/Documents/Coding/Eclipse/Visualize Mandelbrot from C/files/mandelbrot_nums_549.json"),
  (550, "/Users/Sean/Documents/Coding/Eclipse/Visualize Mandelbrot from C/files/mandelbrot_nums_550.json"),
  (551, "/Users/Sean/Documents/Coding/Eclipse/Visualize Mandelbrot from C/files/mandelbrot_nums_551.json"),
  (552, "/Users/Sean/Documents/Coding/Eclipse/Visualize Mandelbrot from C/files/mandelbrot_nums_552.json"),
  (553, "/Users/Sean/Documents/Coding/Eclipse/Visualize Mandelbrot from C/files/mandelbrot_nums_553.json"),
  (554, "/Users/Sean/Documents/Coding/Eclipse/Visualize Mandelbrot from C/files/mandelbrot_nums_554.json"),
  (555, "/Users/Sean/Documents/Coding/Eclipse/Visualize Mandelbrot from C/files/mandelbrot_nums_555.json"),
  (556, "/Users/Sean/Documents/Coding/Eclipse/Visualize Mandelbrot from C/files/mandelbrot_nums_556.json"),
  (557, "/Users/Sean/Documents/Coding/Eclipse/Visualize Mandelbrot from C/files/mandelbrot_nums_557.json"),
  (558, "/Users/Sean/Documents/Coding/Eclipse/Visualize Mandelbrot from C/files/mandelbrot_nums_558.json"),
  (559, "/Users/Sean/Documents/Coding/Eclipse/Visualize Mandelbrot from C/files/mandelbrot_nums_559.json"),
  (560, "/Users/Sean/Documents/Coding/Eclipse/Visualize Mandelbrot from C/files/mandelbrot_nums_560.json"),
  (561, "/Users/Sean/Documents/Coding/Eclipse/Visualize Mandelbrot from C/files/mandelbrot_nums_561.json"),
  (562, "/Users/Sean/Documents/Coding/Eclipse/Visualize Mandelbrot from C/files/mandelbrot_nums_562.json"),
  (563, "/Users/Sean/Documents/Coding/Eclipse/Visualize Mandelbrot from C/files/mandelbrot_nums_563.json"),
  (564, "/Users/Sean/Documents/Coding/Eclipse/Visualize Mandelbrot from C/files/mandelbrot_nums_564.json"),
  (565, "/Users/Sean/Documents/Coding/Eclipse/Visualize Mandelbrot from C/files/mandelbrot_nums_565.json"),
  (566, "/Users/Sean/Documents/Coding/Eclipse/Visualize Mandelbrot from C/files/mandelbrot_nums_566.json"),
  (567, "/Users/Sean/Documents/Coding/Eclipse/Visualize Mandelbrot from C/files/mandelbrot_nums_567.json"),
  (568, "/Users/Sean/Documents/Coding/Eclipse/Visualize Mandelbrot from C/files/mandelbrot_nums_568.json"),
  (569, "/Users/Sean/Documents/Coding/Eclipse/Visualize Mandelbrot from C/files/mandelbrot_nums_569.json"),
  (570, "/Users/Sean/Documents/Coding/Eclipse/Visualize Mandelbrot from C/files/mandelbrot_nums_570.json"),
  (571, "/Users/Sean/Documents/Coding/Eclipse/Visualize Mandelbrot from C/files/mandelbrot_nums_571.json"),
  (572, "/Users/Sean/Documents/Coding/Eclipse/Visualize Mandelbrot from C/files/mandelbrot_nums_572.json"),
  (573, "/Users/Sean/Documents/Coding/Eclipse/Visualize Mandelbrot from C/files/mandelbrot_nums_573.json"),
  (574, "/Users/Sean/Documents/Coding/Eclipse/Visualize Mandelbrot from C/files/mandelbrot_nums_574.json"),
  (575, "/Users/Sean/Documents/Coding/Eclipse/Visualize Mandelbrot from C/files/mandelbrot_nums_575.json"),
  (576, "/Users/Sean/Documents/Coding/Eclipse/Visualize Mandelbrot from C/files/mandelbrot_nums_576.json"),
  (577, "/Users/Sean/Documents/Coding/Eclipse/Visualize Mandelbrot from C/files/mandelbrot_nums_577.json"),
  (578, "/Users/Sean/Documents/Coding/Eclipse/Visualize Mandelbrot from C/files/mandelbrot_nums_578.json"),
  (579, "/Users/Sean/Documents/Coding/Eclipse/Visualize Mandelbrot from C/files/mandelbrot_nums_579.json"),
  (580, "/Users/Sean/Documents/Coding/Eclipse/Visualize Mandelbrot from C/files/mandelbrot_nums_580.json"),
  (581, "/Users/Sean/Documents/Coding/Eclipse/Visualize Mandelbrot from C/files/mandelbrot_nums_581.json"),
  (582, "/Users/Sean/Documents/Coding/Eclipse/Visualize Mandelbrot from C/files/mandelbrot_nums_582.json"),
  (583, "/Users/Sean/Documents/Coding/Eclipse/Visualize Mandelbrot from C/files/mandelbrot_nums_583.json"),
  (584, "/Users/Sean/Documents/Coding/Eclipse/Visualize Mandelbrot from C/files/mandelbrot_nums_584.json"),
  (585, "/Users/Sean/Documents/Coding/Eclipse/Visualize Mandelbrot from C/files/mandelbrot_nums_585.json"),
  (586, "/Users/Sean/Documents/Coding/Eclipse/Visualize Mandelbrot from C/files/mandelbrot_nums_586.json"),
  (587, "/Users/Sean/Documents/Coding/Eclipse/Visualize Mandelbrot from C/files/mandelbrot_nums_587.json"),
  (588, "/Users/Sean/Documents/Coding/Eclipse/Visualize Mandelbrot from C/files/mandelbrot_nums_588.json"),
  (589, "/Users/Sean/Documents/Coding/Eclipse/Visualize Mandelbrot from C/files/mandelbrot_nums_589.json"),
  (590, "/Users/Sean/Documents/Coding/Eclipse/Visualize Mandelbrot from C/files/mandelbrot_nums_590.json"),
  (591, "/Users/Sean/Documents/Coding/Eclipse/Visualize Mandelbrot from C/files/mandelbrot_nums_591.json"),
  (592, "/Users/Sean/Documents/Coding/Eclipse/Visualize Mandelbrot from C/files/mandelbrot_nums_592.json"),
  (593, "/Users/Sean/Documents/Coding/Eclipse/Visualize Mandelbrot from C/files/mandelbrot_nums_593.json"),
  (594, "/Users/Sean/Documents/Coding/Eclipse/Visualize Mandelbrot from C/files/mandelbrot_nums_594.json"),
  (595, "/Users/Sean/Documents/Coding/Eclipse/Visualize Mandelbrot from C/files/mandelbrot_nums_595.json"),
  (596, "/Users/Sean/Documents/Coding/Eclipse/Visualize Mandelbrot from C/files/mandelbrot_nums_596.json"),
  (597, "/Users/Sean/Documents/Coding/Eclipse/Visualize Mandelbrot from C/files/mandelbrot_nums_597.json"),
  (598, "/Users/Sean/Documents/Coding/Eclipse/Visualize Mandelbrot from C/files/mandelbrot_nums_598.json"),
  (599, "/Users/Sean/Documents/Coding/Eclipse/Visualize Mandelbrot from C/files/mandelbrot_nums_599.json"),
  (600, "/Users/Sean/Documents/Coding/Eclipse/Visualize Mandelbrot from C/files/mandelbrot_nums_600.json"),
  (601, "/Users/Sean/Documents/Coding/Eclipse/Visualize Mandelbrot from C/files/mandelbrot_nums_601.json"),
  (602, "/Users/Sean/Documents/Coding/Eclipse/Visualize Mandelbrot from C/files/mandelbrot_nums_602.json"),
  (603, "/Users/Sean/Documents/Coding/Eclipse/Visualize Mandelbrot from C/files/mandelbrot_nums_603.json"),
  (604, "/Users/Sean/Documents/Coding/Eclipse/Visualize Mandelbrot from C/files/mandelbrot_nums_604.json"),
  (605, "/Users/Sean/Documents/Coding/Eclipse/Visualize Mandelbrot from C/files/mandelbrot_nums_605.json"),
  (606, "/Users/Sean/Documents/Coding/Eclipse/Visualize Mandelbrot from C/files/mandelbrot_nums_606.json"),
  (607, "/Users/Sean/Documents/Coding/Eclipse/Visualize Mandelbrot from C/files/mandelbrot_nums_607.json"),
  (608, "/Users/Sean/Documents/Coding/Eclipse/Visualize Mandelbrot from C/files/mandelbrot_nums_608.json"),
  (609, "/Users/Sean/Documents/Coding/Eclipse/Visualize Mandelbrot from C/files/mandelbrot_nums_609.json"),
  (610, "/Users/Sean/Documents/Coding/Eclipse/Visualize Mandelbrot from C/files/mandelbrot_nums_610.json"),
  (611, "/Users/Sean/Documents/Coding/Eclipse/Visualize Mandelbrot from C/files/mandelbrot_nums_611.json"),
  (612, "/Users/Sean/Documents/Coding/Eclipse/Visualize Mandelbrot from C/files/mandelbrot_nums_612.json"),
  (613, "/Users/Sean/Documents/Coding/Eclipse/Visualize Mandelbrot from C/files/mandelbrot_nums_613.json"),
  (614, "/Users/Sean/Documents/Coding/Eclipse/Visualize Mandelbrot from C/files/mandelbrot_nums_614.json"),
  (615, "/Users/Sean/Documents/Coding/Eclipse/Visualize Mandelbrot from C/files/mandelbrot_nums_615.json"),
  (616, "/Users/Sean/Documents/Coding/Eclipse/Visualize Mandelbrot from C/files/mandelbrot_nums_616.json"),
  (617, "/Users/Sean/Documents/Coding/Eclipse/Visualize Mandelbrot from C/files/mandelbrot_nums_617.json"),
  (618, "/Users/Sean/Documents/Coding/Eclipse/Visualize Mandelbrot from C/files/mandelbrot_nums_618.json"),
  (619, "/Users/Sean/Documents/Coding/Eclipse/Visualize Mandelbrot from C/files/mandelbrot_nums_619.json"),
  (620, "/Users/Sean/Documents/Coding/Eclipse/Visualize Mandelbrot from C/files/mandelbrot_nums_620.json"),
  (621, "/Users/Sean/Documents/Coding/Eclipse/Visualize Mandelbrot from C/files/mandelbrot_nums_621.json"),
  (622, "/Users/Sean/Documents/Coding/Eclipse/Visualize Mandelbrot from C/files/mandelbrot_nums_622.json"),
  (623, "/Users/Sean/Documents/Coding/Eclipse/Visualize Mandelbrot from C/files/mandelbrot_nums_623.json"),
  (624, "/Users/Sean/Documents/Coding/Eclipse/Visualize Mandelbrot from C/files/mandelbrot_nums_624.json"),
  (625, "/Users/Sean/Documents/Coding/Eclipse/Visualize Mandelbrot from C/files/mandelbrot_nums_625.json"),
  (626, "/Users/Sean/Documents/Coding/Eclipse/Visualize Mandelbrot from C/files/mandelbrot_nums_626.json"),
  (627, "/Users/Sean/Documents/Coding/Eclipse/Visualize Mandelbrot from C/files/mandelbrot_nums_627.json"),
  (628, "/Users/Sean/Documents/Coding/Eclipse/Visualize Mandelbrot from C/files/mandelbrot_nums_628.json"),
  (629, "/Users/Sean/Documents/Coding/Eclipse/Visualize Mandelbrot from C/files/mandelbrot_nums_629.json"),
  (630, "/Users/Sean/Documents/Coding/Eclipse/Visualize Mandelbrot from C/files/mandelbrot_nums_630.json"),
  (631, "/Users/Sean/Documents/Coding/Eclipse/Visualize Mandelbrot from C/files/mandelbrot_nums_631.json"),
  (632, "/Users/Sean/Documents/Coding/Eclipse/Visualize Mandelbrot from C/files/mandelbrot_nums_632.json"),
  (633, "/Users/Sean/Documents/Coding/Eclipse/Visualize Mandelbrot from C/files/mandelbrot_nums_633.json"),
  (634, "/Users/Sean/Documents/Coding/Eclipse/Visualize Mandelbrot from C/files/mandelbrot_nums_634.json"),
  (635, "/Users/Sean/Documents/Coding/Eclipse/Visualize Mandelbrot from C/files/mandelbrot_nums_635.json"),
  (636, "/Users/Sean/Documents/Coding/Eclipse/Visualize Mandelbrot from C/files/mandelbrot_nums_636.json"),
  (637, "/Users/Sean/Documents/Coding/Eclipse/Visualize Mandelbrot from C/files/mandelbrot_nums_637.json"),
  (638, "/Users/Sean/Documents/Coding/Eclipse/Visualize Mandelbrot from C/files/mandelbrot_nums_638.json"),
  (639, "/Users/Sean/Documents/Coding/Eclipse/Visualize Mandelbrot from C/files/mandelbrot_nums_639.json"),
  (640, "/Users/Sean/Documents/Coding/Eclipse/Visualize Mandelbrot from C/files/mandelbrot_nums_640.json"),
  (641, "/Users/Sean/Documents/Coding/Eclipse/Visualize Mandelbrot from C/files/mandelbrot_nums_641.json"),
  (642, "/Users/Sean/Documents/Coding/Eclipse/Visualize Mandelbrot from C/files/mandelbrot_nums_642.json"),
  (643, "/Users/Sean/Documents/Coding/Eclipse/Visualize Mandelbrot from C/files/mandelbrot_nums_643.json"),
  (644, "/Users/Sean/Documents/Coding/Eclipse/Visualize Mandelbrot from C/files/mandelbrot_nums_644.json"),
  (645, "/Users/Sean/Documents/Coding/Eclipse/Visualize Mandelbrot from C/files/mandelbrot_nums_645.json"),
  (646, "/Users/Sean/Documents/Coding/Eclipse/Visualize Mandelbrot from C/files/mandelbrot_nums_646.json"),
  (647, "/Users/Sean/Documents/Coding/Eclipse/Visualize Mandelbrot from C/files/mandelbrot_nums_647.json"),
  (648, "/Users/Sean/Documents/Coding/Eclipse/Visualize Mandelbrot from C/files/mandelbrot_nums_648.json"),
  (649, "/Users/Sean/Documents/Coding/Eclipse/Visualize Mandelbrot from C/files/mandelbrot_nums_649.json"),
  (650, "/Users/Sean/Documents/Coding/Eclipse/Visualize Mandelbrot from C/files/mandelbrot_nums_650.json"),
  (651, "/Users/Sean/Documents/Coding/Eclipse/Visualize Mandelbrot from C/files/mandelbrot_nums_651.json"),
  (652, "/Users/Sean/Documents/Coding/Eclipse/Visualize Mandelbrot from C/files/mandelbrot_nums_652.json"),
  (653, "/Users/Sean/Documents/Coding/Eclipse/Visualize Mandelbrot from C/files/mandelbrot_nums_653.json"),
  (654, "/Users/Sean/Documents/Coding/Eclipse/Visualize Mandelbrot from C/files/mandelbrot_nums_654.json"),
  (655, "/Users/Sean/Documents/Coding/Eclipse/Visualize Mandelbrot from C/files/mandelbrot_nums_655.json"),
  (656, "/Users/Sean/Documents/Coding/Eclipse/Visualize Mandelbrot from C/files/mandelbrot_nums_656.json"),
  (657, "/Users/Sean/Documents/Coding/Eclipse/Visualize Mandelbrot from C/files/mandelbrot_nums_657.json"),
  (658, "/Users/Sean/Documents/Coding/Eclipse/Visualize Mandelbrot from C/files/mandelbrot_nums_658.json"),
  (659, "/Users/Sean/Documents/Coding/Eclipse/Visualize Mandelbrot from C/files/mandelbrot_nums_659.json"),
  (660, "/Users/Sean/Documents/Coding/Eclipse/Visualize Mandelbrot from C/files/mandelbrot_nums_660.json"),
  (661, "/Users/Sean/Documents/Coding/Eclipse/Visualize Mandelbrot from C/files/mandelbrot_nums_661.json"),
  (662, "/Users/Sean/Documents/Coding/Eclipse/Visualize Mandelbrot from C/files/mandelbrot_nums_662.json"),
  (663, "/Users/Sean/Documents/Coding/Eclipse/Visualize Mandelbrot from C/files/mandelbrot_nums_663.json"),
  (664, "/Users/Sean/Documents/Coding/Eclipse/Visualize Mandelbrot from C/files/mandelbrot_nums_664.json"),
  (665, "/Users/Sean/Documents/Coding/Eclipse/Visualize Mandelbrot from C/files/mandelbrot_nums_665.json"),
  (666, "/Users/Sean/Documents/Coding/Eclipse/Visualize Mandelbrot from C/files/mandelbrot_nums_666.json"),
  (667, "/Users/Sean/Documents/Coding/Eclipse/Visualize Mandelbrot from C/files/mandelbrot_nums_667.json"),
  (668, "/Users/Sean/Documents/Coding/Eclipse/Visualize Mandelbrot from C/files/mandelbrot_nums_668.json"),
  (669, "/Users/Sean/Documents/Coding/Eclipse/Visualize Mandelbrot from C/files/mandelbrot_nums_669.json"),
  (670, "/Users/Sean/Documents/Coding/Eclipse/Visualize Mandelbrot from C/files/mandelbrot_nums_670.json"),
  (671, "/Users/Sean/Documents/Coding/Eclipse/Visualize Mandelbrot from C/files/mandelbrot_nums_671.json"),
  (672, "/Users/Sean/Documents/Coding/Eclipse/Visualize Mandelbrot from C/files/mandelbrot_nums_672.json"),
  (673, "/Users/Sean/Documents/Coding/Eclipse/Visualize Mandelbrot from C/files/mandelbrot_nums_673.json"),
  (674, "/Users/Sean/Documents/Coding/Eclipse/Visualize Mandelbrot from C/files/mandelbrot_nums_674.json"),
  (675, "/Users/Sean/Documents/Coding/Eclipse/Visualize Mandelbrot from C/files/mandelbrot_nums_675.json"),
  (676, "/Users/Sean/Documents/Coding/Eclipse/Visualize Mandelbrot from C/files/mandelbrot_nums_676.json"),
  (677, "/Users/Sean/Documents/Coding/Eclipse/Visualize Mandelbrot from C/files/mandelbrot_nums_677.json"),
  (678, "/Users/Sean/Documents/Coding/Eclipse/Visualize Mandelbrot from C/files/mandelbrot_nums_678.json"),
  (679, "/Users/Sean/Documents/Coding/Eclipse/Visualize Mandelbrot from C/files/mandelbrot_nums_679.json"),
  (680, "/Users/Sean/Documents/Coding/Eclipse/Visualize Mandelbrot from C/files/mandelbrot_nums_680.json"),
  (681, "/Users/Sean/Documents/Coding/Eclipse/Visualize Mandelbrot from C/files/mandelbrot_nums_681.json"),
  (682, "/Users/Sean/Documents/Coding/Eclipse/Visualize Mandelbrot from C/files/mandelbrot_nums_682.json"),
  (683, "/Users/Sean/Documents/Coding/Eclipse/Visualize Mandelbrot from C/files/mandelbrot_nums_683.json"),
  (684, "/Users/Sean/Documents/Coding/Eclipse/Visualize Mandelbrot from C/files/mandelbrot_nums_684.json"),
  (685, "/Users/Sean/Documents/Coding/Eclipse/Visualize Mandelbrot from C/files/mandelbrot_nums_685.json"),
  (686, "/Users/Sean/Documents/Coding/Eclipse/Visualize Mandelbrot from C/files/mandelbrot_nums_686.json"),
  (687, "/Users/Sean/Documents/Coding/Eclipse/Visualize Mandelbrot from C/files/mandelbrot_nums_687.json"),
  (688, "/Users/Sean/Documents/Coding/Eclipse/Visualize Mandelbrot from C/files/mandelbrot_nums_688.json"),
  (689, "/Users/Sean/Documents/Coding/Eclipse/Visualize Mandelbrot from C/files/mandelbrot_nums_689.json"),
  (690, "/Users/Sean/Documents/Coding/Eclipse/Visualize Mandelbrot from C/files/mandelbrot_nums_690.json"),
  (691, "/Users/Sean/Documents/Coding/Eclipse/Visualize Mandelbrot from C/files/mandelbrot_nums_691.json"),
  (692, "/Users/Sean/Documents/Coding/Eclipse/Visualize Mandelbrot from C/files/mandelbrot_nums_692.json"),
  (693, "/Users/Sean/Documents/Coding/Eclipse/Visualize Mandelbrot from C/files/mandelbrot_nums_693.json"),
  (694, "/Users/Sean/Documents/Coding/Eclipse/Visualize Mandelbrot from C/files/mandelbrot_nums_694.json"),
  (695, "/Users/Sean/Documents/Coding/Eclipse/Visualize Mandelbrot from C/files/mandelbrot_nums_695.json"),
  (696, "/Users/Sean/Documents/Coding/Eclipse/Visualize Mandelbrot from C/files/mandelbrot_nums_696.json"),
  (697, "/Users/Sean/Documents/Coding/Eclipse/Visualize Mandelbrot from C/files/mandelbrot_nums_697.json"),
  (698, "/Users/Sean/Documents/Coding/Eclipse/Visualize Mandelbrot from C/files/mandelbrot_nums_698.json"),
  (699, "/Users/Sean/Documents/Coding/Eclipse/Visualize Mandelbrot from C/files/mandelbrot_nums_699.json"),
  (700, "/Users/Sean/Documents/Coding/Eclipse/Visualize Mandelbrot from C/files/mandelbrot_nums_700.json"),
  (701, "/Users/Sean/Documents/Coding/Eclipse/Visualize Mandelbrot from C/files/mandelbrot_nums_701.json"),
  (702, "/Users/Sean/Documents/Coding/Eclipse/Visualize Mandelbrot from C/files/mandelbrot_nums_702.json"),
  (703, "/Users/Sean/Documents/Coding/Eclipse/Visualize Mandelbrot from C/files/mandelbrot_nums_703.json"),
  (704, "/Users/Sean/Documents/Coding/Eclipse/Visualize Mandelbrot from C/files/mandelbrot_nums_704.json"),
  (705, "/Users/Sean/Documents/Coding/Eclipse/Visualize Mandelbrot from C/files/mandelbrot_nums_705.json"),
  (706, "/Users/Sean/Documents/Coding/Eclipse/Visualize Mandelbrot from C/files/mandelbrot_nums_706.json"),
  (707, "/Users/Sean/Documents/Coding/Eclipse/Visualize Mandelbrot from C/files/mandelbrot_nums_707.json"),
  (708, "/Users/Sean/Documents/Coding/Eclipse/Visualize Mandelbrot from C/files/mandelbrot_nums_708.json"),
  (709, "/Users/Sean/Documents/Coding/Eclipse/Visualize Mandelbrot from C/files/mandelbrot_nums_709.json"),
  (710, "/Users/Sean/Documents/Coding/Eclipse/Visualize Mandelbrot from C/files/mandelbrot_nums_710.json"),
  (711, "/Users/Sean/Documents/Coding/Eclipse/Visualize Mandelbrot from C/files/mandelbrot_nums_711.json"),
  (712, "/Users/Sean/Documents/Coding/Eclipse/Visualize Mandelbrot from C/files/mandelbrot_nums_712.json"),
  (713, "/Users/Sean/Documents/Coding/Eclipse/Visualize Mandelbrot from C/files/mandelbrot_nums_713.json"),
  (714, "/Users/Sean/Documents/Coding/Eclipse/Visualize Mandelbrot from C/files/mandelbrot_nums_714.json"),
  (715, "/Users/Sean/Documents/Coding/Eclipse/Visualize Mandelbrot from C/files/mandelbrot_nums_715.json"),
  (716, "/Users/Sean/Documents/Coding/Eclipse/Visualize Mandelbrot from C/files/mandelbrot_nums_716.json"),
  (717, "/Users/Sean/Documents/Coding/Eclipse/Visualize Mandelbrot from C/files/mandelbrot_nums_717.json"),
  (718, "/Users/Sean/Documents/Coding/Eclipse/Visualize Mandelbrot from C/files/mandelbrot_nums_718.json"),
  (719, "/Users/Sean/Documents/Coding/Eclipse/Visualize Mandelbrot from C/files/mandelbrot_nums_719.json"),
  (720, "/Users/Sean/Documents/Coding/Eclipse/Visualize Mandelbrot from C/files/mandelbrot_nums_720.json"),
  (721, "/Users/Sean/Documents/Coding/Eclipse/Visualize Mandelbrot from C/files/mandelbrot_nums_721.json"),
  (722, "/Users/Sean/Documents/Coding/Eclipse/Visualize Mandelbrot from C/files/mandelbrot_nums_722.json"),
  (723, "/Users/Sean/Documents/Coding/Eclipse/Visualize Mandelbrot from C/files/mandelbrot_nums_723.json"),
  (724, "/Users/Sean/Documents/Coding/Eclipse/Visualize Mandelbrot from C/files/mandelbrot_nums_724.json"),
  (725, "/Users/Sean/Documents/Coding/Eclipse/Visualize Mandelbrot from C/files/mandelbrot_nums_725.json"),
  (726, "/Users/Sean/Documents/Coding/Eclipse/Visualize Mandelbrot from C/files/mandelbrot_nums_726.json"),
  (727, "/Users/Sean/Documents/Coding/Eclipse/Visualize Mandelbrot from C/files/mandelbrot_nums_727.json"),
  (728, "/Users/Sean/Documents/Coding/Eclipse/Visualize Mandelbrot from C/files/mandelbrot_nums_728.json"),
  (729, "/Users/Sean/Documents/Coding/Eclipse/Visualize Mandelbrot from C/files/mandelbrot_nums_729.json"),
  (730, "/Users/Sean/Documents/Coding/Eclipse/Visualize Mandelbrot from C/files/mandelbrot_nums_730.json"),
  (731, "/Users/Sean/Documents/Coding/Eclipse/Visualize Mandelbrot from C/files/mandelbrot_nums_731.json"),
  (732, "/Users/Sean/Documents/Coding/Eclipse/Visualize Mandelbrot from C/files/mandelbrot_nums_732.json"),
  (733, "/Users/Sean/Documents/Coding/Eclipse/Visualize Mandelbrot from C/files/mandelbrot_nums_733.json"),
  (734, "/Users/Sean/Documents/Coding/Eclipse/Visualize Mandelbrot from C/files/mandelbrot_nums_734.json"),
  (735, "/Users/Sean/Documents/Coding/Eclipse/Visualize Mandelbrot from C/files/mandelbrot_nums_735.json"),
  (736, "/Users/Sean/Documents/Coding/Eclipse/Visualize Mandelbrot from C/files/mandelbrot_nums_736.json"),
  (737, "/Users/Sean/Documents/Coding/Eclipse/Visualize Mandelbrot from C/files/mandelbrot_nums_737.json"),
  (738, "/Users/Sean/Documents/Coding/Eclipse/Visualize Mandelbrot from C/files/mandelbrot_nums_738.json"),
  (739, "/Users/Sean/Documents/Coding/Eclipse/Visualize Mandelbrot from C/files/mandelbrot_nums_739.json"),
  (740, "/Users/Sean/Documents/Coding/Eclipse/Visualize Mandelbrot from C/files/mandelbrot_nums_740.json"),
  (741, "/Users/Sean/Documents/Coding/Eclipse/Visualize Mandelbrot from C/files/mandelbrot_nums_741.json"),
  (742, "/Users/Sean/Documents/Coding/Eclipse/Visualize Mandelbrot from C/files/mandelbrot_nums_742.json"),
  (743, "/Users/Sean/Documents/Coding/Eclipse/Visualize Mandelbrot from C/files/mandelbrot_nums_743.json"),
  (744, "/Users/Sean/Documents/Coding/Eclipse/Visualize Mandelbrot from C/files/mandelbrot_nums_744.json"),
  (745, "/Users/Sean/Documents/Coding/Eclipse/Visualize Mandelbrot from C/files/mandelbrot_nums_745.json"),
  (746, "/Users/Sean/Documents/Coding/Eclipse/Visualize Mandelbrot from C/files/mandelbrot_nums_746.json"),
  (747, "/Users/Sean/Documents/Coding/Eclipse/Visualize Mandelbrot from C/files/mandelbrot_nums_747.json"),
  (748, "/Users/Sean/Documents/Coding/Eclipse/Visualize Mandelbrot from C/files/mandelbrot_nums_748.json"),
  (749, "/Users/Sean/Documents/Coding/Eclipse/Visualize Mandelbrot from C/files/mandelbrot_nums_749.json"),
  (750, "/Users/Sean/Documents/Coding/Eclipse/Visualize Mandelbrot from C/files/mandelbrot_nums_750.json"),
  (751, "/Users/Sean/Documents/Coding/Eclipse/Visualize Mandelbrot from C/files/mandelbrot_nums_751.json"),
  (752, "/Users/Sean/Documents/Coding/Eclipse/Visualize Mandelbrot from C/files/mandelbrot_nums_752.json"),
  (753, "/Users/Sean/Documents/Coding/Eclipse/Visualize Mandelbrot from C/files/mandelbrot_nums_753.json"),
  (754, "/Users/Sean/Documents/Coding/Eclipse/Visualize Mandelbrot from C/files/mandelbrot_nums_754.json"),
  (755, "/Users/Sean/Documents/Coding/Eclipse/Visualize Mandelbrot from C/files/mandelbrot_nums_755.json"),
  (756, "/Users/Sean/Documents/Coding/Eclipse/Visualize Mandelbrot from C/files/mandelbrot_nums_756.json"),
  (757, "/Users/Sean/Documents/Coding/Eclipse/Visualize Mandelbrot from C/files/mandelbrot_nums_757.json"),
  (758, "/Users/Sean/Documents/Coding/Eclipse/Visualize Mandelbrot from C/files/mandelbrot_nums_758.json"),
  (759, "/Users/Sean/Documents/Coding/Eclipse/Visualize Mandelbrot from C/files/mandelbrot_nums_759.json"),
  (760, "/Users/Sean/Documents/Coding/Eclipse/Visualize Mandelbrot from C/files/mandelbrot_nums_760.json"),
  (761, "/Users/Sean/Documents/Coding/Eclipse/Visualize Mandelbrot from C/files/mandelbrot_nums_761.json"),
  (762, "/Users/Sean/Documents/Coding/Eclipse/Visualize Mandelbrot from C/files/mandelbrot_nums_762.json"),
  (763, "/Users/Sean/Documents/Coding/Eclipse/Visualize Mandelbrot from C/files/mandelbrot_nums_763.json"),
  (764, "/Users/Sean/Documents/Coding/Eclipse/Visualize Mandelbrot from C/files/mandelbrot_nums_764.json"),
  (765, "/Users/Sean/Documents/Coding/Eclipse/Visualize Mandelbrot from C/files/mandelbrot_nums_765.json"),
  (766, "/Users/Sean/Documents/Coding/Eclipse/Visualize Mandelbrot from C/files/mandelbrot_nums_766.json"),
  (767, "/Users/Sean/Documents/Coding/Eclipse/Visualize Mandelbrot from C/files/mandelbrot_nums_767.json"),
  (768, "/Users/Sean/Documents/Coding/Eclipse/Visualize Mandelbrot from C/files/mandelbrot_nums_768.json"),
  (769, "/Users/Sean/Documents/Coding/Eclipse/Visualize Mandelbrot from C/files/mandelbrot_nums_769.json"),
  (770, "/Users/Sean/Documents/Coding/Eclipse/Visualize Mandelbrot from C/files/mandelbrot_nums_770.json"),
  (771, "/Users/Sean/Documents/Coding/Eclipse/Visualize Mandelbrot from C/files/mandelbrot_nums_771.json"),
  (772, "/Users/Sean/Documents/Coding/Eclipse/Visualize Mandelbrot from C/files/mandelbrot_nums_772.json"),
  (773, "/Users/Sean/Documents/Coding/Eclipse/Visualize Mandelbrot from C/files/mandelbrot_nums_773.json"),
  (774, "/Users/Sean/Documents/Coding/Eclipse/Visualize Mandelbrot from C/files/mandelbrot_nums_774.json"),
  (775, "/Users/Sean/Documents/Coding/Eclipse/Visualize Mandelbrot from C/files/mandelbrot_nums_775.json"),
  (776, "/Users/Sean/Documents/Coding/Eclipse/Visualize Mandelbrot from C/files/mandelbrot_nums_776.json"),
  (777, "/Users/Sean/Documents/Coding/Eclipse/Visualize Mandelbrot from C/files/mandelbrot_nums_777.json"),
  (778, "/Users/Sean/Documents/Coding/Eclipse/Visualize Mandelbrot from C/files/mandelbrot_nums_778.json"),
  (779, "/Users/Sean/Documents/Coding/Eclipse/Visualize Mandelbrot from C/files/mandelbrot_nums_779.json"),
  (780, "/Users/Sean/Documents/Coding/Eclipse/Visualize Mandelbrot from C/files/mandelbrot_nums_780.json"),
  (781, "/Users/Sean/Documents/Coding/Eclipse/Visualize Mandelbrot from C/files/mandelbrot_nums_781.json"),
  (782, "/Users/Sean/Documents/Coding/Eclipse/Visualize Mandelbrot from C/files/mandelbrot_nums_782.json"),
  (783, "/Users/Sean/Documents/Coding/Eclipse/Visualize Mandelbrot from C/files/mandelbrot_nums_783.json"),
  (784, "/Users/Sean/Documents/Coding/Eclipse/Visualize Mandelbrot from C/files/mandelbrot_nums_784.json"),
  (785, "/Users/Sean/Documents/Coding/Eclipse/Visualize Mandelbrot from C/files/mandelbrot_nums_785.json"),
  (786, "/Users/Sean/Documents/Coding/Eclipse/Visualize Mandelbrot from C/files/mandelbrot_nums_786.json"),
  (787, "/Users/Sean/Documents/Coding/Eclipse/Visualize Mandelbrot from C/files/mandelbrot_nums_787.json"),
  (788, "/Users/Sean/Documents/Coding/Eclipse/Visualize Mandelbrot from C/files/mandelbrot_nums_788.json"),
  (789, "/Users/Sean/Documents/Coding/Eclipse/Visualize Mandelbrot from C/files/mandelbrot_nums_789.json"),
  (790, "/Users/Sean/Documents/Coding/Eclipse/Visualize Mandelbrot from C/files/mandelbrot_nums_790.json"),
  (791, "/Users/Sean/Documents/Coding/Eclipse/Visualize Mandelbrot from C/files/mandelbrot_nums_791.json"),
  (792, "/Users/Sean/Documents/Coding/Eclipse/Visualize Mandelbrot from C/files/mandelbrot_nums_792.json"),
  (793, "/Users/Sean/Documents/Coding/Eclipse/Visualize Mandelbrot from C/files/mandelbrot_nums_793.json"),
  (794, "/Users/Sean/Documents/Coding/Eclipse/Visualize Mandelbrot from C/files/mandelbrot_nums_794.json"),
  (795, "/Users/Sean/Documents/Coding/Eclipse/Visualize Mandelbrot from C/files/mandelbrot_nums_795.json"),
  (796, "/Users/Sean/Documents/Coding/Eclipse/Visualize Mandelbrot from C/files/mandelbrot_nums_796.json"),
  (797, "/Users/Sean/Documents/Coding/Eclipse/Visualize Mandelbrot from C/files/mandelbrot_nums_797.json"),
  (798, "/Users/Sean/Documents/Coding/Eclipse/Visualize Mandelbrot from C/files/mandelbrot_nums_798.json"),
  (799, "/Users/Sean/Documents/Coding/Eclipse/Visualize Mandelbrot from C/files/mandelbrot_nums_799.json"),
  (800, "/Users/Sean/Documents/Coding/Eclipse/Visualize Mandelbrot from C/files/mandelbrot_nums_800.json"),
  (801, "/Users/Sean/Documents/Coding/Eclipse/Visualize Mandelbrot from C/files/mandelbrot_nums_801.json"),
  (802, "/Users/Sean/Documents/Coding/Eclipse/Visualize Mandelbrot from C/files/mandelbrot_nums_802.json"),
  (803, "/Users/Sean/Documents/Coding/Eclipse/Visualize Mandelbrot from C/files/mandelbrot_nums_803.json"),
  (804, "/Users/Sean/Documents/Coding/Eclipse/Visualize Mandelbrot from C/files/mandelbrot_nums_804.json"),
  (805, "/Users/Sean/Documents/Coding/Eclipse/Visualize Mandelbrot from C/files/mandelbrot_nums_805.json"),
  (806, "/Users/Sean/Documents/Coding/Eclipse/Visualize Mandelbrot from C/files/mandelbrot_nums_806.json"),
  (807, "/Users/Sean/Documents/Coding/Eclipse/Visualize Mandelbrot from C/files/mandelbrot_nums_807.json"),
  (808, "/Users/Sean/Documents/Coding/Eclipse/Visualize Mandelbrot from C/files/mandelbrot_nums_808.json"),
  (809, "/Users/Sean/Documents/Coding/Eclipse/Visualize Mandelbrot from C/files/mandelbrot_nums_809.json"),
  (810, "/Users/Sean/Documents/Coding/Eclipse/Visualize Mandelbrot from C/files/mandelbrot_nums_810.json"),
  (811, "/Users/Sean/Documents/Coding/Eclipse/Visualize Mandelbrot from C/files/mandelbrot_nums_811.json"),
  (812, "/Users/Sean/Documents/Coding/Eclipse/Visualize Mandelbrot from C/files/mandelbrot_nums_812.json"),
  (813, "/Users/Sean/Documents/Coding/Eclipse/Visualize Mandelbrot from C/files/mandelbrot_nums_813.json"),
  (814, "/Users/Sean/Documents/Coding/Eclipse/Visualize Mandelbrot from C/files/mandelbrot_nums_814.json"),
  (815, "/Users/Sean/Documents/Coding/Eclipse/Visualize Mandelbrot from C/files/mandelbrot_nums_815.json"),
  (816, "/Users/Sean/Documents/Coding/Eclipse/Visualize Mandelbrot from C/files/mandelbrot_nums_816.json"),
  (817, "/Users/Sean/Documents/Coding/Eclipse/Visualize Mandelbrot from C/files/mandelbrot_nums_817.json"),
  (818, "/Users/Sean/Documents/Coding/Eclipse/Visualize Mandelbrot from C/files/mandelbrot_nums_818.json"),
  (819, "/Users/Sean/Documents/Coding/Eclipse/Visualize Mandelbrot from C/files/mandelbrot_nums_819.json"),
  (820, "/Users/Sean/Documents/Coding/Eclipse/Visualize Mandelbrot from C/files/mandelbrot_nums_820.json"),
  (821, "/Users/Sean/Documents/Coding/Eclipse/Visualize Mandelbrot from C/files/mandelbrot_nums_821.json"),
  (822, "/Users/Sean/Documents/Coding/Eclipse/Visualize Mandelbrot from C/files/mandelbrot_nums_822.json"),
  (823, "/Users/Sean/Documents/Coding/Eclipse/Visualize Mandelbrot from C/files/mandelbrot_nums_823.json"),
  (824, "/Users/Sean/Documents/Coding/Eclipse/Visualize Mandelbrot from C/files/mandelbrot_nums_824.json"),
  (825, "/Users/Sean/Documents/Coding/Eclipse/Visualize Mandelbrot from C/files/mandelbrot_nums_825.json"),
  (826, "/Users/Sean/Documents/Coding/Eclipse/Visualize Mandelbrot from C/files/mandelbrot_nums_826.json"),
  (827, "/Users/Sean/Documents/Coding/Eclipse/Visualize Mandelbrot from C/files/mandelbrot_nums_827.json"),
  (828, "/Users/Sean/Documents/Coding/Eclipse/Visualize Mandelbrot from C/files/mandelbrot_nums_828.json"),
  (829, "/Users/Sean/Documents/Coding/Eclipse/Visualize Mandelbrot from C/files/mandelbrot_nums_829.json"),
  (830, "/Users/Sean/Documents/Coding/Eclipse/Visualize Mandelbrot from C/files/mandelbrot_nums_830.json"),
  (831, "/Users/Sean/Documents/Coding/Eclipse/Visualize Mandelbrot from C/files/mandelbrot_nums_831.json"),
  (832, "/Users/Sean/Documents/Coding/Eclipse/Visualize Mandelbrot from C/files/mandelbrot_nums_832.json"),
  (833, "/Users/Sean/Documents/Coding/Eclipse/Visualize Mandelbrot from C/files/mandelbrot_nums_833.json"),
  (834, "/Users/Sean/Documents/Coding/Eclipse/Visualize Mandelbrot from C/files/mandelbrot_nums_834.json"),
  (835, "/Users/Sean/Documents/Coding/Eclipse/Visualize Mandelbrot from C/files/mandelbrot_nums_835.json"),
  (836, "/Users/Sean/Documents/Coding/Eclipse/Visualize Mandelbrot from C/files/mandelbrot_nums_836.json"),
  (837, "/Users/Sean/Documents/Coding/Eclipse/Visualize Mandelbrot from C/files/mandelbrot_nums_837.json"),
  (838, "/Users/Sean/Documents/Coding/Eclipse/Visualize Mandelbrot from C/files/mandelbrot_nums_838.json"),
  (839, "/Users/Sean/Documents/Coding/Eclipse/Visualize Mandelbrot from C/files/mandelbrot_nums_839.json"),
  (840, "/Users/Sean/Documents/Coding/Eclipse/Visualize Mandelbrot from C/files/mandelbrot_nums_840.json"),
  (841, "/Users/Sean/Documents/Coding/Eclipse/Visualize Mandelbrot from C/files/mandelbrot_nums_841.json"),
  (842, "/Users/Sean/Documents/Coding/Eclipse/Visualize Mandelbrot from C/files/mandelbrot_nums_842.json"),
  (843, "/Users/Sean/Documents/Coding/Eclipse/Visualize Mandelbrot from C/files/mandelbrot_nums_843.json"),
  (844, "/Users/Sean/Documents/Coding/Eclipse/Visualize Mandelbrot from C/files/mandelbrot_nums_844.json"),
  (845, "/Users/Sean/Documents/Coding/Eclipse/Visualize Mandelbrot from C/files/mandelbrot_nums_845.json"),
  (846, "/Users/Sean/Documents/Coding/Eclipse/Visualize Mandelbrot from C/files/mandelbrot_nums_846.json"),
  (847, "/Users/Sean/Documents/Coding/Eclipse/Visualize Mandelbrot from C/files/mandelbrot_nums_847.json"),
  (848, "/Users/Sean/Documents/Coding/Eclipse/Visualize Mandelbrot from C/files/mandelbrot_nums_848.json"),
  (849, "/Users/Sean/Documents/Coding/Eclipse/Visualize Mandelbrot from C/files/mandelbrot_nums_849.json"),
  (850, "/Users/Sean/Documents/Coding/Eclipse/Visualize Mandelbrot from C/files/mandelbrot_nums_850.json"),
  (851, "/Users/Sean/Documents/Coding/Eclipse/Visualize Mandelbrot from C/files/mandelbrot_nums_851.json"),
  (852, "/Users/Sean/Documents/Coding/Eclipse/Visualize Mandelbrot from C/files/mandelbrot_nums_852.json"),
  (853, "/Users/Sean/Documents/Coding/Eclipse/Visualize Mandelbrot from C/files/mandelbrot_nums_853.json"),
  (854, "/Users/Sean/Documents/Coding/Eclipse/Visualize Mandelbrot from C/files/mandelbrot_nums_854.json"),
  (855, "/Users/Sean/Documents/Coding/Eclipse/Visualize Mandelbrot from C/files/mandelbrot_nums_855.json"),
  (856, "/Users/Sean/Documents/Coding/Eclipse/Visualize Mandelbrot from C/files/mandelbrot_nums_856.json"),
  (857, "/Users/Sean/Documents/Coding/Eclipse/Visualize Mandelbrot from C/files/mandelbrot_nums_857.json"),
  (858, "/Users/Sean/Documents/Coding/Eclipse/Visualize Mandelbrot from C/files/mandelbrot_nums_858.json"),
  (859, "/Users/Sean/Documents/Coding/Eclipse/Visualize Mandelbrot from C/files/mandelbrot_nums_859.json"),
  (860, "/Users/Sean/Documents/Coding/Eclipse/Visualize Mandelbrot from C/files/mandelbrot_nums_860.json"),
  (861, "/Users/Sean/Documents/Coding/Eclipse/Visualize Mandelbrot from C/files/mandelbrot_nums_861.json"),
  (862, "/Users/Sean/Documents/Coding/Eclipse/Visualize Mandelbrot from C/files/mandelbrot_nums_862.json"),
  (863, "/Users/Sean/Documents/Coding/Eclipse/Visualize Mandelbrot from C/files/mandelbrot_nums_863.json"),
  (864, "/Users/Sean/Documents/Coding/Eclipse/Visualize Mandelbrot from C/files/mandelbrot_nums_864.json"),
  (865, "/Users/Sean/Documents/Coding/Eclipse/Visualize Mandelbrot from C/files/mandelbrot_nums_865.json"),
  (866, "/Users/Sean/Documents/Coding/Eclipse/Visualize Mandelbrot from C/files/mandelbrot_nums_866.json"),
  (867, "/Users/Sean/Documents/Coding/Eclipse/Visualize Mandelbrot from C/files/mandelbrot_nums_867.json"),
  (868, "/Users/Sean/Documents/Coding/Eclipse/Visualize Mandelbrot from C/files/mandelbrot_nums_868.json"),
  (869, "/Users/Sean/Documents/Coding/Eclipse/Visualize Mandelbrot from C/files/mandelbrot_nums_869.json"),
  (870, "/Users/Sean/Documents/Coding/Eclipse/Visualize Mandelbrot from C/files/mandelbrot_nums_870.json"),
  (871, "/Users/Sean/Documents/Coding/Eclipse/Visualize Mandelbrot from C/files/mandelbrot_nums_871.json"),
  (872, "/Users/Sean/Documents/Coding/Eclipse/Visualize Mandelbrot from C/files/mandelbrot_nums_872.json"),
  (873, "/Users/Sean/Documents/Coding/Eclipse/Visualize Mandelbrot from C/files/mandelbrot_nums_873.json"),
  (874, "/Users/Sean/Documents/Coding/Eclipse/Visualize Mandelbrot from C/files/mandelbrot_nums_874.json"),
  (875, "/Users/Sean/Documents/Coding/Eclipse/Visualize Mandelbrot from C/files/mandelbrot_nums_875.json"),
  (876, "/Users/Sean/Documents/Coding/Eclipse/Visualize Mandelbrot from C/files/mandelbrot_nums_876.json"),
  (877, "/Users/Sean/Documents/Coding/Eclipse/Visualize Mandelbrot from C/files/mandelbrot_nums_877.json"),
  (878, "/Users/Sean/Documents/Coding/Eclipse/Visualize Mandelbrot from C/files/mandelbrot_nums_878.json"),
  (879, "/Users/Sean/Documents/Coding/Eclipse/Visualize Mandelbrot from C/files/mandelbrot_nums_879.json"),
  (880, "/Users/Sean/Documents/Coding/Eclipse/Visualize Mandelbrot from C/files/mandelbrot_nums_880.json"),
  (881, "/Users/Sean/Documents/Coding/Eclipse/Visualize Mandelbrot from C/files/mandelbrot_nums_881.json"),
  (882, "/Users/Sean/Documents/Coding/Eclipse/Visualize Mandelbrot from C/files/mandelbrot_nums_882.json"),
  (883, "/Users/Sean/Documents/Coding/Eclipse/Visualize Mandelbrot from C/files/mandelbrot_nums_883.json"),
  (884, "/Users/Sean/Documents/Coding/Eclipse/Visualize Mandelbrot from C/files/mandelbrot_nums_884.json"),
  (885, "/Users/Sean/Documents/Coding/Eclipse/Visualize Mandelbrot from C/files/mandelbrot_nums_885.json"),
  (886, "/Users/Sean/Documents/Coding/Eclipse/Visualize Mandelbrot from C/files/mandelbrot_nums_886.json"),
  (887, "/Users/Sean/Documents/Coding/Eclipse/Visualize Mandelbrot from C/files/mandelbrot_nums_887.json"),
  (888, "/Users/Sean/Documents/Coding/Eclipse/Visualize Mandelbrot from C/files/mandelbrot_nums_888.json"),
  (889, "/Users/Sean/Documents/Coding/Eclipse/Visualize Mandelbrot from C/files/mandelbrot_nums_889.json"),
  (890, "/Users/Sean/Documents/Coding/Eclipse/Visualize Mandelbrot from C/files/mandelbrot_nums_890.json"),
  (891, "/Users/Sean/Documents/Coding/Eclipse/Visualize Mandelbrot from C/files/mandelbrot_nums_891.json"),
  (892, "/Users/Sean/Documents/Coding/Eclipse/Visualize Mandelbrot from C/files/mandelbrot_nums_892.json"),
  (893, "/Users/Sean/Documents/Coding/Eclipse/Visualize Mandelbrot from C/files/mandelbrot_nums_893.json"),
  (894, "/Users/Sean/Documents/Coding/Eclipse/Visualize Mandelbrot from C/files/mandelbrot_nums_894.json"),
  (895, "/Users/Sean/Documents/Coding/Eclipse/Visualize Mandelbrot from C/files/mandelbrot_nums_895.json"),
  (896, "/Users/Sean/Documents/Coding/Eclipse/Visualize Mandelbrot from C/files/mandelbrot_nums_896.json"),
  (897, "/Users/Sean/Documents/Coding/Eclipse/Visualize Mandelbrot from C/files/mandelbrot_nums_897.json"),
  (898, "/Users/Sean/Documents/Coding/Eclipse/Visualize Mandelbrot from C/files/mandelbrot_nums_898.json"),
  (899, "/Users/Sean/Documents/Coding/Eclipse/Visualize Mandelbrot from C/files/mandelbrot_nums_899.json"),
  (900, "/Users/Sean/Documents/Coding/Eclipse/Visualize Mandelbrot from C/files/mandelbrot_nums_900.json"),
  (901, "/Users/Sean/Documents/Coding/Eclipse/Visualize Mandelbrot from C/files/mandelbrot_nums_901.json"),
  (902, "/Users/Sean/Documents/Coding/Eclipse/Visualize Mandelbrot from C/files/mandelbrot_nums_902.json"),
  (903, "/Users/Sean/Documents/Coding/Eclipse/Visualize Mandelbrot from C/files/mandelbrot_nums_903.json"),
  (904, "/Users/Sean/Documents/Coding/Eclipse/Visualize Mandelbrot from C/files/mandelbrot_nums_904.json"),
  (905, "/Users/Sean/Documents/Coding/Eclipse/Visualize Mandelbrot from C/files/mandelbrot_nums_905.json"),
  (906, "/Users/Sean/Documents/Coding/Eclipse/Visualize Mandelbrot from C/files/mandelbrot_nums_906.json"),
  (907, "/Users/Sean/Documents/Coding/Eclipse/Visualize Mandelbrot from C/files/mandelbrot_nums_907.json"),
  (908, "/Users/Sean/Documents/Coding/Eclipse/Visualize Mandelbrot from C/files/mandelbrot_nums_908.json"),
  (909, "/Users/Sean/Documents/Coding/Eclipse/Visualize Mandelbrot from C/files/mandelbrot_nums_909.json"),
  (910, "/Users/Sean/Documents/Coding/Eclipse/Visualize Mandelbrot from C/files/mandelbrot_nums_910.json"),
  (911, "/Users/Sean/Documents/Coding/Eclipse/Visualize Mandelbrot from C/files/mandelbrot_nums_911.json"),
  (912, "/Users/Sean/Documents/Coding/Eclipse/Visualize Mandelbrot from C/files/mandelbrot_nums_912.json"),
  (913, "/Users/Sean/Documents/Coding/Eclipse/Visualize Mandelbrot from C/files/mandelbrot_nums_913.json"),
  (914, "/Users/Sean/Documents/Coding/Eclipse/Visualize Mandelbrot from C/files/mandelbrot_nums_914.json"),
  (915, "/Users/Sean/Documents/Coding/Eclipse/Visualize Mandelbrot from C/files/mandelbrot_nums_915.json"),
  (916, "/Users/Sean/Documents/Coding/Eclipse/Visualize Mandelbrot from C/files/mandelbrot_nums_916.json"),
  (917, "/Users/Sean/Documents/Coding/Eclipse/Visualize Mandelbrot from C/files/mandelbrot_nums_917.json"),
  (918, "/Users/Sean/Documents/Coding/Eclipse/Visualize Mandelbrot from C/files/mandelbrot_nums_918.json"),
  (919, "/Users/Sean/Documents/Coding/Eclipse/Visualize Mandelbrot from C/files/mandelbrot_nums_919.json"),
  (920, "/Users/Sean/Documents/Coding/Eclipse/Visualize Mandelbrot from C/files/mandelbrot_nums_920.json"),
  (921, "/Users/Sean/Documents/Coding/Eclipse/Visualize Mandelbrot from C/files/mandelbrot_nums_921.json"),
  (922, "/Users/Sean/Documents/Coding/Eclipse/Visualize Mandelbrot from C/files/mandelbrot_nums_922.json"),
  (923, "/Users/Sean/Documents/Coding/Eclipse/Visualize Mandelbrot from C/files/mandelbrot_nums_923.json"),
  (924, "/Users/Sean/Documents/Coding/Eclipse/Visualize Mandelbrot from C/files/mandelbrot_nums_924.json"),
  (925, "/Users/Sean/Documents/Coding/Eclipse/Visualize Mandelbrot from C/files/mandelbrot_nums_925.json"),
  (926, "/Users/Sean/Documents/Coding/Eclipse/Visualize Mandelbrot from C/files/mandelbrot_nums_926.json"),
  (927, "/Users/Sean/Documents/Coding/Eclipse/Visualize Mandelbrot from C/files/mandelbrot_nums_927.json"),
  (928, "/Users/Sean/Documents/Coding/Eclipse/Visualize Mandelbrot from C/files/mandelbrot_nums_928.json"),
  (929, "/Users/Sean/Documents/Coding/Eclipse/Visualize Mandelbrot from C/files/mandelbrot_nums_929.json"),
  (930, "/Users/Sean/Documents/Coding/Eclipse/Visualize Mandelbrot from C/files/mandelbrot_nums_930.json"),
  (931, "/Users/Sean/Documents/Coding/Eclipse/Visualize Mandelbrot from C/files/mandelbrot_nums_931.json"),
  (932, "/Users/Sean/Documents/Coding/Eclipse/Visualize Mandelbrot from C/files/mandelbrot_nums_932.json"),
  (933, "/Users/Sean/Documents/Coding/Eclipse/Visualize Mandelbrot from C/files/mandelbrot_nums_933.json"),
  (934, "/Users/Sean/Documents/Coding/Eclipse/Visualize Mandelbrot from C/files/mandelbrot_nums_934.json"),
  (935, "/Users/Sean/Documents/Coding/Eclipse/Visualize Mandelbrot from C/files/mandelbrot_nums_935.json"),
  (936, "/Users/Sean/Documents/Coding/Eclipse/Visualize Mandelbrot from C/files/mandelbrot_nums_936.json"),
  (937, "/Users/Sean/Documents/Coding/Eclipse/Visualize Mandelbrot from C/files/mandelbrot_nums_937.json"),
  (938, "/Users/Sean/Documents/Coding/Eclipse/Visualize Mandelbrot from C/files/mandelbrot_nums_938.json"),
  (939, "/Users/Sean/Documents/Coding/Eclipse/Visualize Mandelbrot from C/files/mandelbrot_nums_939.json"),
  (940, "/Users/Sean/Documents/Coding/Eclipse/Visualize Mandelbrot from C/files/mandelbrot_nums_940.json"),
  (941, "/Users/Sean/Documents/Coding/Eclipse/Visualize Mandelbrot from C/files/mandelbrot_nums_941.json"),
  (942, "/Users/Sean/Documents/Coding/Eclipse/Visualize Mandelbrot from C/files/mandelbrot_nums_942.json"),
  (943, "/Users/Sean/Documents/Coding/Eclipse/Visualize Mandelbrot from C/files/mandelbrot_nums_943.json"),
  (944, "/Users/Sean/Documents/Coding/Eclipse/Visualize Mandelbrot from C/files/mandelbrot_nums_944.json"),
  (945, "/Users/Sean/Documents/Coding/Eclipse/Visualize Mandelbrot from C/files/mandelbrot_nums_945.json"),
  (946, "/Users/Sean/Documents/Coding/Eclipse/Visualize Mandelbrot from C/files/mandelbrot_nums_946.json"),
  (947, "/Users/Sean/Documents/Coding/Eclipse/Visualize Mandelbrot from C/files/mandelbrot_nums_947.json"),
  (948, "/Users/Sean/Documents/Coding/Eclipse/Visualize Mandelbrot from C/files/mandelbrot_nums_948.json"),
  (949, "/Users/Sean/Documents/Coding/Eclipse/Visualize Mandelbrot from C/files/mandelbrot_nums_949.json"),
  (950, "/Users/Sean/Documents/Coding/Eclipse/Visualize Mandelbrot from C/files/mandelbrot_nums_950.json"),
  (951, "/Users/Sean/Documents/Coding/Eclipse/Visualize Mandelbrot from C/files/mandelbrot_nums_951.json"),
  (952, "/Users/Sean/Documents/Coding/Eclipse/Visualize Mandelbrot from C/files/mandelbrot_nums_952.json"),
  (953, "/Users/Sean/Documents/Coding/Eclipse/Visualize Mandelbrot from C/files/mandelbrot_nums_953.json"),
  (954, "/Users/Sean/Documents/Coding/Eclipse/Visualize Mandelbrot from C/files/mandelbrot_nums_954.json"),
  (955, "/Users/Sean/Documents/Coding/Eclipse/Visualize Mandelbrot from C/files/mandelbrot_nums_955.json"),
  (956, "/Users/Sean/Documents/Coding/Eclipse/Visualize Mandelbrot from C/files/mandelbrot_nums_956.json"),
  (957, "/Users/Sean/Documents/Coding/Eclipse/Visualize Mandelbrot from C/files/mandelbrot_nums_957.json"),
  (958, "/Users/Sean/Documents/Coding/Eclipse/Visualize Mandelbrot from C/files/mandelbrot_nums_958.json"),
  (959, "/Users/Sean/Documents/Coding/Eclipse/Visualize Mandelbrot from C/files/mandelbrot_nums_959.json"),
  (960, "/Users/Sean/Documents/Coding/Eclipse/Visualize Mandelbrot from C/files/mandelbrot_nums_960.json"),
  (961, "/Users/Sean/Documents/Coding/Eclipse/Visualize Mandelbrot from C/files/mandelbrot_nums_961.json"),
  (962, "/Users/Sean/Documents/Coding/Eclipse/Visualize Mandelbrot from C/files/mandelbrot_nums_962.json"),
  (963, "/Users/Sean/Documents/Coding/Eclipse/Visualize Mandelbrot from C/files/mandelbrot_nums_963.json"),
  (964, "/Users/Sean/Documents/Coding/Eclipse/Visualize Mandelbrot from C/files/mandelbrot_nums_964.json"),
  (965, "/Users/Sean/Documents/Coding/Eclipse/Visualize Mandelbrot from C/files/mandelbrot_nums_965.json"),
  (966, "/Users/Sean/Documents/Coding/Eclipse/Visualize Mandelbrot from C/files/mandelbrot_nums_966.json"),
  (967, "/Users/Sean/Documents/Coding/Eclipse/Visualize Mandelbrot from C/files/mandelbrot_nums_967.json"),
  (968, "/Users/Sean/Documents/Coding/Eclipse/Visualize Mandelbrot from C/files/mandelbrot_nums_968.json"),
  (969, "/Users/Sean/Documents/Coding/Eclipse/Visualize Mandelbrot from C/files/mandelbrot_nums_969.json"),
  (970, "/Users/Sean/Documents/Coding/Eclipse/Visualize Mandelbrot from C/files/mandelbrot_nums_970.json"),
  (971, "/Users/Sean/Documents/Coding/Eclipse/Visualize Mandelbrot from C/files/mandelbrot_nums_971.json"),
  (972, "/Users/Sean/Documents/Coding/Eclipse/Visualize Mandelbrot from C/files/mandelbrot_nums_972.json"),
  (973, "/Users/Sean/Documents/Coding/Eclipse/Visualize Mandelbrot from C/files/mandelbrot_nums_973.json"),
  (974, "/Users/Sean/Documents/Coding/Eclipse/Visualize Mandelbrot from C/files/mandelbrot_nums_974.json"),
  (975, "/Users/Sean/Documents/Coding/Eclipse/Visualize Mandelbrot from C/files/mandelbrot_nums_975.json"),
  (976, "/Users/Sean/Documents/Coding/Eclipse/Visualize Mandelbrot from C/files/mandelbrot_nums_976.json"),
  (977, "/Users/Sean/Documents/Coding/Eclipse/Visualize Mandelbrot from C/files/mandelbrot_nums_977.json"),
  (978, "/Users/Sean/Documents/Coding/Eclipse/Visualize Mandelbrot from C/files/mandelbrot_nums_978.json"),
  (979, "/Users/Sean/Documents/Coding/Eclipse/Visualize Mandelbrot from C/files/mandelbrot_nums_979.json"),
  (980, "/Users/Sean/Documents/Coding/Eclipse/Visualize Mandelbrot from C/files/mandelbrot_nums_980.json"),
  (981, "/Users/Sean/Documents/Coding/Eclipse/Visualize Mandelbrot from C/files/mandelbrot_nums_981.json"),
  (982, "/Users/Sean/Documents/Coding/Eclipse/Visualize Mandelbrot from C/files/mandelbrot_nums_982.json"),
  (983, "/Users/Sean/Documents/Coding/Eclipse/Visualize Mandelbrot from C/files/mandelbrot_nums_983.json"),
  (984, "/Users/Sean/Documents/Coding/Eclipse/Visualize Mandelbrot from C/files/mandelbrot_nums_984.json"),
  (985, "/Users/Sean/Documents/Coding/Eclipse/Visualize Mandelbrot from C/files/mandelbrot_nums_985.json"),
  (986, "/Users/Sean/Documents/Coding/Eclipse/Visualize Mandelbrot from C/files/mandelbrot_nums_986.json"),
  (987, "/Users/Sean/Documents/Coding/Eclipse/Visualize Mandelbrot from C/files/mandelbrot_nums_987.json"),
  (988, "/Users/Sean/Documents/Coding/Eclipse/Visualize Mandelbrot from C/files/mandelbrot_nums_988.json"),
  (989, "/Users/Sean/Documents/Coding/Eclipse/Visualize Mandelbrot from C/files/mandelbrot_nums_989.json"),
  (990, "/Users/Sean/Documents/Coding/Eclipse/Visualize Mandelbrot from C/files/mandelbrot_nums_990.json"),
  (991, "/Users/Sean/Documents/Coding/Eclipse/Visualize Mandelbrot from C/files/mandelbrot_nums_991.json"),
  (992, "/Users/Sean/Documents/Coding/Eclipse/Visualize Mandelbrot from C/files/mandelbrot_nums_992.json"),
  (993, "/Users/Sean/Documents/Coding/Eclipse/Visualize Mandelbrot from C/files/mandelbrot_nums_993.json"),
  (994, "/Users/Sean/Documents/Coding/Eclipse/Visualize Mandelbrot from C/files/mandelbrot_nums_994.json"),
  (995, "/Users/Sean/Documents/Coding/Eclipse/Visualize Mandelbrot from C/files/mandelbrot_nums_995.json"),
  (996, "/Users/Sean/Documents/Coding/Eclipse/Visualize Mandelbrot from C/files/mandelbrot_nums_996.json"),
  (997, "/Users/Sean/Documents/Coding/Eclipse/Visualize Mandelbrot from C/files/mandelbrot_nums_997.json"),
  (998, "/Users/Sean/Documents/Coding/Eclipse/Visualize Mandelbrot from C/files/mandelbrot_nums_998.json"),
  (999, "/Users/Sean/Documents/Coding/Eclipse/Visualize Mandelbrot from C/files/mandelbrot_nums_999.json"),
  (1000, "/Users/Sean/Documents/Coding/Eclipse/Visualize Mandelbrot from C/files/mandelbrot_nums_1000.json"),
  (1001, "/Users/Sean/Documents/Coding/Eclipse/Visualize Mandelbrot from C/files/mandelbrot_nums_1001.json"),
  (1002, "/Users/Sean/Documents/Coding/Eclipse/Visualize Mandelbrot from C/files/mandelbrot_nums_1002.json"),
  (1003, "/Users/Sean/Documents/Coding/Eclipse/Visualize Mandelbrot from C/files/mandelbrot_nums_1003.json"),
  (1004, "/Users/Sean/Documents/Coding/Eclipse/Visualize Mandelbrot from C/files/mandelbrot_nums_1004.json"),
  (1005, "/Users/Sean/Documents/Coding/Eclipse/Visualize Mandelbrot from C/files/mandelbrot_nums_1005.json"),
  (1006, "/Users/Sean/Documents/Coding/Eclipse/Visualize Mandelbrot from C/files/mandelbrot_nums_1006.json"),
  (1007, "/Users/Sean/Documents/Coding/Eclipse/Visualize Mandelbrot from C/files/mandelbrot_nums_1007.json"),
  (1008, "/Users/Sean/Documents/Coding/Eclipse/Visualize Mandelbrot from C/files/mandelbrot_nums_1008.json"),
  (1009, "/Users/Sean/Documents/Coding/Eclipse/Visualize Mandelbrot from C/files/mandelbrot_nums_1009.json")]

/-- Source: `GetPath`: the string of the first line of the chain whose constant equals
`index`, and the empty string after the chain. -/
def GetPath (index : Int) : String :=
  match pathTable.lookup index with
  | some path => path
  | none => ""

/-- Following the spec: the fixed directory prefix of the paths. -/
def pathPrefix : String :=
  "/Users/Sean/Documents/Coding/Eclipse/Visualize Mandelbrot from C/files/"

/-- Following the spec: the prefix followed by `mandelbrot_nums_<decimal index>.json`. -/
def specPath (index : Nat) : String :=
  pathPrefix ++ "mandelbrot_nums_" ++ toString index ++ ".json"

/-- The number that a list of decimal digits denotes. -/
def decimalValue (cs : List Char) : Nat :=
  cs.foldl (fun acc c => 10 * acc + (c.toNat - 48)) 0

/-! ## The `while` loop -/

section LoopLemmas

variable {F : Type} [LinearOrderedField F]

theorem orbit_zero (L : Libm F) (com2 : Complex F) (power cR cI : F) (z0 : Complex F) :
    orbit L com2 power cR cI z0 0 = z0 := rfl

theorem orbit_succ (L : Libm F) (com2 : Complex F) (power cR cI : F) (z0 : Complex F)
    (k : Nat) :
    orbit L com2 power cR cI z0 (k + 1) = Alg L (orbit L com2 power cR cI z0 k) com2 power cR cI := by
  unfold orbit
  rw [Function.iterate_succ_apply']

theorem orbit_step (L : Libm F) (com2 : Complex F) (power cR cI : F) (z0 : Complex F)
    (k : Nat) :
    orbit L com2 power cR cI (Alg L z0 com2 power cR cI) k
      = orbit L com2 power cR cI z0 (k + 1) := by
  unfold orbit
  rw [Function.iterate_succ_apply]

/-- What the loop returns from the state `(com1, n)` with `n ≤ maxI`: it stops at a count
`r` between `n` and `maxI`, every iterate before the exit passed the guard, and at the
exit either the cap is reached or the guard fails. -/
theorem whileLoop_spec (L : Libm F) (maxI : Nat) (com2 : Complex F) (power cR cI : F) :
    ∀ (m n : Nat) (com1 : Complex F), maxI - n = m → n ≤ maxI →
      n ≤ (whileLoop L maxI com2 power cR cI com1 n).2 ∧
      (whileLoop L maxI com2 power cR cI com1 n).2 ≤ maxI ∧
      (whileLoop L maxI com2 power cR cI com1 n).1
        = orbit L com2 power cR cI com1 ((whileLoop L maxI com2 power cR cI com1 n).2 - n) ∧
      (∀ d, n + d < (whileLoop L maxI com2 power cR cI com1 n).2 →
        modulus L (orbit L com2 power cR cI com1 d) < 4) ∧
      ((whileLoop L maxI com2 power cR cI com1 n).2 = maxI ∨
        ¬ modulus L (orbit L com2 power cR cI com1
            ((whileLoop L maxI com2 power cR cI com1 n).2 - n)) < 4) := by
  intro m
  induction m with
  | zero =>
    intro n com1 hm hn
    have hnm : n = maxI := by omega
    have hr : whileLoop L maxI com2 power cR cI com1 n = (com1, n) := by
      rw [whileLoop, if_neg]
      intro h
      omega
    rw [hr]
    refine ⟨le_refl _, hn, ?_, ?_, Or.inl hnm⟩
    · simp [orbit_zero]
    · intro d hd
      simp at hd
  | succ m ih =>
    intro n com1 hm hn
    by_cases hg : L.sqrt (com1.re * com1.re + com1.im * com1.im) < 4
    · have hlt : n < maxI := by omega
      have hr : whileLoop L maxI com2 power cR cI com1 n
          = whileLoop L maxI com2 power cR cI (Alg L com1 com2 power cR cI) (n + 1) := by
        rw [whileLoop, if_pos ⟨hlt, hg⟩]
      obtain ⟨h1, h2, h3, h4, h5⟩ :=
        ih (n + 1) (Alg L com1 com2 power cR cI) (by omega) (by omega)
      rw [hr]
      have hsub : (whileLoop L maxI com2 power cR cI (Alg L com1 com2 power cR cI) (n + 1)).2 - n
          = ((whileLoop L maxI com2 power cR cI (Alg L com1 com2 power cR cI) (n + 1)).2
              - (n + 1)) + 1 := by omega
      refine ⟨by omega, h2, ?_, ?_, ?_⟩
      · rw [h3, orbit_step, hsub]
      · intro d hd
        cases d with
        | zero => exact hg
        | succ d =>
          rw [← orbit_step]
          exact h4 d (by omega)
      · rcases h5 with h5 | h5
        · exact Or.inl h5
        · right
          rw [hsub, ← orbit_step]
          exact h5
    · have hr : whileLoop L maxI com2 power cR cI com1 n = (com1, n) := by
        rw [whileLoop, if_neg]
        intro h
        exact hg h.2
      rw [hr]
      refine ⟨le_refl _, hn, ?_, ?_, Or.inr ?_⟩
      · simp [orbit_zero]
      · intro d hd
        simp at hd
      · simpa [orbit_zero, modulus] using hg

end LoopLemmas

/-! ## The two `for` loops -/

section GridLemmas

variable {F : Type} [LinearOrderedField F]

theorem pixelCount_eq (C : Consts F) (L : Libm F) (power cR cI : F) (i j : Nat) :
    pixelCount C L power cR cI i j
      = (whileLoop L C.MAX_I (pixelPoint C i j) power cR cI (pixelPoint C i j) 0).2 := rfl

theorem pixelCount_le (C : Consts F) (L : Libm F) (power cR cI : F) (i j : Nat) :
    pixelCount C L power cR cI i j ≤ C.MAX_I := by
  rw [pixelCount_eq]
  exact (whileLoop_spec L C.MAX_I (pixelPoint C i j) power cR cI (C.MAX_I - 0) 0
    (pixelPoint C i j) rfl (Nat.zero_le _)).2.1

theorem pixelStep_values (C : Consts F) (L : Libm F) (power cR cI : F) (i j : Nat)
    (st : (Nat → F) × (Nat → F)) :
    (pixelStep C L power cR cI i st j).1
      = Function.update st.1 (i * C.HEIGHT + j) (pixelCount C L power cR cI i j : F) := rfl

theorem rowLoop_eq (C : Consts F) (L : Libm F) (power cR cI : F) (i : Nat)
    (st : (Nat → F) × (Nat → F)) :
    rowLoop C L power cR cI st i
      = (List.range C.HEIGHT).foldl (pixelStep C L power cR cI i) st := rfl

theorem pixelStep_hist (C : Consts F) (L : Libm F) (power cR cI : F) (i j : Nat)
    (st : (Nat → F) × (Nat → F)) (k : Nat) :
    (pixelStep C L power cR cI i st j).2 k
      = st.2 k + (if pixelCount C L power cR cI i j = k ∧ k < C.MAX_I then 1 else 0) := by
  unfold pixelStep
  by_cases hn : pixelCount C L power cR cI i j < C.MAX_I
  · by_cases hk : pixelCount C L power cR cI i j = k
    · subst hk
      simp [hn]
    · have hk2 : k ≠ pixelCount C L power cR cI i j := fun h => hk h.symm
      simp [hn, hk, Function.update_noteq hk2]
  · have : ¬ (pixelCount C L power cR cI i j = k ∧ k < C.MAX_I) := by
      rintro ⟨h1, h2⟩
      omega
    simp [hn, this]

/-- The cells of `values` after the first `m` pixels of the row `i`. -/
theorem row_values (C : Consts F) (L : Libm F) (power cR cI : F) (i : Nat)
    (st : (Nat → F) × (Nat → F)) (m idx : Nat) :
    ((List.range m).foldl (pixelStep C L power cR cI i) st).1 idx
      = if i * C.HEIGHT ≤ idx ∧ idx < i * C.HEIGHT + m
        then (pixelCount C L power cR cI i (idx - i * C.HEIGHT) : F) else st.1 idx := by
  induction m with
  | zero =>
    have : ¬ (i * C.HEIGHT ≤ idx ∧ idx < i * C.HEIGHT + 0) := by omega
    rw [if_neg this]
    simp
  | succ m ih =>
    rw [List.range_succ, List.foldl_append]
    simp only [List.foldl_cons, List.foldl_nil]
    rw [pixelStep_values]
    by_cases h : idx = i * C.HEIGHT + m
    · subst h
      simp
    · rw [Function.update_noteq h, ih]
      by_cases h1 : i * C.HEIGHT ≤ idx ∧ idx < i * C.HEIGHT + m
      · have h2 : i * C.HEIGHT ≤ idx ∧ idx < i * C.HEIGHT + (m + 1) := by omega
        rw [if_pos h1, if_pos h2]
      · have h2 : ¬ (i * C.HEIGHT ≤ idx ∧ idx < i * C.HEIGHT + (m + 1)) := by omega
        rw [if_neg h1, if_neg h2]

/-- The buckets of `histogram` after the first `m` pixels of the row `i`. -/
theorem row_hist (C : Consts F) (L : Libm F) (power cR cI : F) (i : Nat)
    (st : (Nat → F) × (Nat → F)) (m k : Nat) :
    ((List.range m).foldl (pixelStep C L power cR cI i) st).2 k
      = st.2 k + ∑ j in Finset.range m,
          (if pixelCount C L power cR cI i j = k ∧ k < C.MAX_I then (1 : F) else 0) := by
  induction m with
  | zero => simp
  | succ m ih =>
    rw [List.range_succ, List.foldl_append]
    simp only [List.foldl_cons, List.foldl_nil]
    rw [pixelStep_hist, ih, Finset.sum_range_succ, add_assoc]

/-- The cells of `values` after the first `m` rows. -/
theorem grid_values (C : Consts F) (L : Libm F) (power cR cI : F)
    (st : (Nat → F) × (Nat → F)) (m idx : Nat) :
    ((List.range m).foldl (rowLoop C L power cR cI) st).1 idx
      = if idx < m * C.HEIGHT
        then (pixelCount C L power cR cI (idx / C.HEIGHT) (idx % C.HEIGHT) : F)
        else st.1 idx := by
  induction m with
  | zero => simp
  | succ m ih =>
    rw [List.range_succ, List.foldl_append]
    simp only [List.foldl_cons, List.foldl_nil]
    rw [rowLoop_eq, row_values, ih]
    have hmul : (m + 1) * C.HEIGHT = m * C.HEIGHT + C.HEIGHT := Nat.succ_mul _ _
    by_cases h1 : m * C.HEIGHT ≤ idx ∧ idx < m * C.HEIGHT + C.HEIGHT
    · have h2 : idx < (m + 1) * C.HEIGHT := by omega
      have hpos : 0 < C.HEIGHT := by omega
      have hdiv : idx / C.HEIGHT = m := by
        apply Nat.div_eq_of_lt_le
        · exact h1.1
        · rw [hmul]; exact h1.2
      have hmod : idx % C.HEIGHT = idx - m * C.HEIGHT := by
        have := Nat.div_add_mod idx C.HEIGHT
        rw [hdiv, Nat.mul_comm] at this
        omega
      rw [if_pos h1, if_pos h2, hdiv, hmod]
    · rw [if_neg h1]
      by_cases h3 : idx < m * C.HEIGHT
      · have h2 : idx < (m + 1) * C.HEIGHT := by omega
        rw [if_pos h3, if_pos h2]
      · have h2 : ¬ idx < (m + 1) * C.HEIGHT := by omega
        rw [if_neg h3, if_neg h2]

/-- The buckets of `histogram` after the first `m` rows. -/
theorem grid_hist (C : Consts F) (L : Libm F) (power cR cI : F)
    (st : (Nat → F) × (Nat → F)) (m k : Nat) :
    ((List.range m).foldl (rowLoop C L power cR cI) st).2 k
      = st.2 k + ∑ i in Finset.range m, ∑ j in Finset.range C.HEIGHT,
          (if pixelCount C L power cR cI i j = k ∧ k < C.MAX_I then (1 : F) else 0) := by
  induction m with
  | zero => simp
  | succ m ih =>
    rw [List.range_succ, List.foldl_append]
    simp only [List.foldl_cons, List.foldl_nil]
    rw [rowLoop_eq, row_hist, ih, Finset.sum_range_succ, add_assoc]

/-- The cell of the pixel `(i, j)` after the call holds the count of that pixel. -/
theorem Mandelbrot_values (C : Consts F) (L : Libm F) (values histogram : Nat → F)
    (power cR cI : F) (i j : Nat) (hi : i < C.WIDTH) (hj : j < C.HEIGHT) :
    (Mandelbrot C L values histogram power cR cI).1 (i * C.HEIGHT + j)
      = (pixelCount C L power cR cI i j : F) := by
  unfold Mandelbrot
  rw [grid_values]
  have h1 : i * C.HEIGHT + j < C.WIDTH * C.HEIGHT := by
    have : (i + 1) * C.HEIGHT ≤ C.WIDTH * C.HEIGHT := Nat.mul_le_mul_right _ hi
    rw [Nat.succ_mul] at this
    omega
  have hdiv : (i * C.HEIGHT + j) / C.HEIGHT = i := by
    rw [Nat.mul_comm, Nat.mul_add_div (by omega), Nat.div_eq_of_lt hj, Nat.add_zero]
  have hmod : (i * C.HEIGHT + j) % C.HEIGHT = j := by
    rw [Nat.mul_comm, Nat.mul_add_mod, Nat.mod_eq_of_lt hj]
  rw [if_pos h1, hdiv, hmod]

/-- Every bucket after the call is the bucket before the call plus the number of pixels
whose count is the index of the bucket, for a bucket below `MAX_I`. -/
theorem Mandelbrot_hist (C : Consts F) (L : Libm F) (values histogram : Nat → F)
    (power cR cI : F) (k : Nat) (hk : k < C.MAX_I) :
    (Mandelbrot C L values histogram power cR cI).2 k
      = histogram k
        + (((pixels C).filter (fun p => pixelCount C L power cR cI p.1 p.2 = k)).card : F) := by
  unfold Mandelbrot
  rw [grid_hist]
  congr 1
  unfold pixels
  rw [← Finset.sum_boole, Finset.sum_product]
  simp [hk]

/-- A bucket at or above `MAX_I` is left as it was. -/
theorem Mandelbrot_hist_above (C : Consts F) (L : Libm F) (values histogram : Nat → F)
    (power cR cI : F) (k : Nat) (hk : C.MAX_I ≤ k) :
    (Mandelbrot C L values histogram power cR cI).2 k = histogram k := by
  unfold Mandelbrot
  rw [grid_hist]
  have : ¬ k < C.MAX_I := by omega
  simp [this]

end GridLemmas

/-! ## The step and the loop over the real numbers -/

section RealLemmas

theorem realLibm_sqrt (x : ℝ) : realLibm.sqrt x = Real.sqrt x := rfl
theorem realLibm_pow (x y : ℝ) : realLibm.pow x y = x ^ y := rfl
theorem realLibm_atan2 (y x : ℝ) : realLibm.atan2 y x = Complex.arg (⟨x, y⟩ : ℂ) := rfl
theorem realLibm_cos (x : ℝ) : realLibm.cos x = Real.cos x := rfl
theorem realLibm_sin (x : ℝ) : realLibm.sin x = Real.sin x := rfl

/-- For the exponent 2 and the zero offset the polar step is the classical step. -/
theorem Alg_two (x y a b : ℝ) (h : ¬ (x = 0 ∧ y = 0)) :
    Alg realLibm { re := x, im := y } { re := a, im := b } 2 0 0
      = { re := x ^ 2 - y ^ 2 + a, im := 2 * x * y + b } := by
  have hz : (⟨x, y⟩ : ℂ) ≠ 0 := by
    intro h0
    apply h
    exact ⟨congrArg (fun z : ℂ => z.re) h0, congrArg (fun z : ℂ => z.im) h0⟩
  have habs : Complex.abs (⟨x, y⟩ : ℂ) ≠ 0 := by
    simpa using hz
  have hsq : Complex.abs (⟨x, y⟩ : ℂ) ^ 2 = x * x + y * y := by
    rw [Complex.sq_abs, Complex.normSq_apply]
  have hcos := Complex.cos_arg hz
  have hsin := Complex.sin_arg (⟨x, y⟩ : ℂ)
  simp only at hcos hsin
  unfold Alg
  rw [if_neg h]
  simp only [realLibm_pow, realLibm_atan2, realLibm_cos, realLibm_sin]
  have hp : (2 : ℝ) / 2.0 = 1 := by norm_num
  rw [hp, Real.rpow_one, Real.cos_two_mul, Real.sin_two_mul, hcos, hsin]
  congr 1
  · field_simp
    linear_combination (-2 * x ^ 2) * hsq
  · field_simp
    linear_combination (-2 * x * y) * hsq


theorem modulus_real (z : Complex ℝ) : modulus realLibm z = Complex.abs (toC z) := by
  unfold modulus toC
  rw [realLibm_sqrt, Complex.abs_apply, Complex.normSq_apply]

theorem toC_Alg_two (z c : Complex ℝ) (h : ¬ (z.re = 0 ∧ z.im = 0)) :
    toC (Alg realLibm z c 2 0 0) = toC z ^ 2 + toC c := by
  have := Alg_two z.re z.im c.re c.im h
  rw [this]
  apply Complex.ext
  · simp [toC, sq]
  · simp [toC, sq]
    ring

theorem classicalOrbit_succ (c : ℂ) (k : Nat) :
    classicalOrbit c (k + 1) = classicalOrbit c k ^ 2 + c := by
  unfold classicalOrbit
  rw [Function.iterate_succ_apply']

end RealLemmas

section OriginLemmas

variable {F : Type} [LinearOrderedField F]

theorem Alg_origin (L : Libm F) (com2 : Complex F) (power cR cI : F) :
    Alg L { re := 0, im := 0 } com2 power cR cI = { re := 0, im := 0 } := by
  simp [Alg]

theorem orbit_origin (L : Libm F) (com2 : Complex F) (power cR cI : F) (k : Nat) :
    orbit L com2 power cR cI { re := 0, im := 0 } k = { re := 0, im := 0 } := by
  induction k with
  | zero => rfl
  | succ k ih => rw [orbit_succ, ih, Alg_origin]

/-- Once an orbit is at the origin it stays there. -/
theorem orbit_stays_origin (L : Libm F) (com2 : Complex F) (power cR cI : F)
    (z0 : Complex F) (d e : Nat)
    (h : orbit L com2 power cR cI z0 d = { re := 0, im := 0 }) :
    orbit L com2 power cR cI z0 (d + e) = { re := 0, im := 0 } := by
  induction e with
  | zero => exact h
  | succ e ih => rw [← Nat.add_assoc, orbit_succ, ih, Alg_origin]

/-- The loop started at the origin runs to the cap, as soon as `sqrt(0) < 4`. -/
theorem whileLoop_origin (L : Libm F) (maxI : Nat) (com2 : Complex F) (power cR cI : F)
    (hsqrt : L.sqrt 0 < 4) :
    (whileLoop L maxI com2 power cR cI { re := 0, im := 0 } 0).2 = maxI := by
  rcases (whileLoop_spec L maxI com2 power cR cI (maxI - 0) 0 { re := 0, im := 0 } rfl
    (Nat.zero_le _)).2.2.2.2 with h | h
  · exact h
  · exfalso
    apply h
    rw [orbit_origin]
    simpa [modulus] using hsqrt

end OriginLemmas

section EscapeLemmas

/-- The loop for the exponent 2 and the zero offset, started at the point `(2, 2)`: one
step is taken, to the point `(2, 10)`. -/
theorem whileLoop_two_two (maxI : Nat) (h : 0 < maxI) :
    whileLoop realLibm maxI { re := 2, im := 2 } 2 0 0 { re := 2, im := 2 } 0
      = ({ re := 2 ^ 2 - 2 ^ 2 + 2, im := 2 * 2 * 2 + 2 }, 1) := by
  have g1 : realLibm.sqrt ((2 : ℝ) * 2 + 2 * 2) < 4 := by
    rw [realLibm_sqrt, Real.sqrt_lt' (by norm_num)]
    norm_num
  rw [whileLoop, if_pos ⟨h, g1⟩, Alg_two 2 2 2 2 (by norm_num), whileLoop, if_neg]
  rintro ⟨-, g2⟩
  rw [realLibm_sqrt, Real.sqrt_lt' (by norm_num)] at g2
  norm_num at g2

/-- One classical step from a point of modulus at least 4, for `c` of modulus below 4,
adds at least 1 to the modulus. -/
theorem classical_step_grows (c z : ℂ) (hc : Complex.abs c < 4) (hz : 4 ≤ Complex.abs z) :
    Complex.abs z + 1 ≤ Complex.abs (z ^ 2 + c) := by
  have h1 : ‖z ^ 2 + c - c‖ ≤ ‖z ^ 2 + c‖ + ‖c‖ := norm_sub_le _ _
  rw [add_sub_cancel_right, norm_pow] at h1
  simp only [Complex.norm_eq_abs] at h1
  nlinarith

theorem classical_orbit_grows (c : ℂ) (n : Nat) (hc : Complex.abs c < 4)
    (hn : 4 ≤ Complex.abs (classicalOrbit c n)) (k : Nat) :
    4 + (k : ℝ) ≤ Complex.abs (classicalOrbit c (n + k)) := by
  induction k with
  | zero => simpa using hn
  | succ k ih =>
    rw [← Nat.add_assoc, classicalOrbit_succ]
    have h4 : 4 ≤ Complex.abs (classicalOrbit c (n + k)) := by
      have : (0 : ℝ) ≤ (k : ℝ) := Nat.cast_nonneg k
      linarith
    have := classical_step_grows c (classicalOrbit c (n + k)) hc h4
    push_cast
    linarith

/-- A classical orbit with one point of modulus at least 4, for `c` of modulus below 4,
is unbounded. -/
theorem classical_orbit_unbounded (c : ℂ) (n : Nat) (hc : Complex.abs c < 4)
    (hn : 4 ≤ Complex.abs (classicalOrbit c n)) (B : ℝ) :
    ∃ k, B < Complex.abs (classicalOrbit c k) := by
  obtain ⟨k, hk⟩ := exists_nat_gt B
  refine ⟨n + k, ?_⟩
  have := classical_orbit_grows c n hc hn k
  linarith

/-- Up to the exit of a loop that stops below the cap, the orbit of the program for the
exponent 2 and the zero offset is the classical orbit. -/
theorem orbit_eq_classical (maxI : Nat) (c : Complex ℝ)
    (hlt : (whileLoop realLibm maxI c 2 0 0 c 0).2 < maxI) (d : Nat)
    (hd : d ≤ (whileLoop realLibm maxI c 2 0 0 c 0).2) :
    toC (orbit realLibm c 2 0 0 c d) = classicalOrbit (toC c) d := by
  have hspec := whileLoop_spec realLibm maxI c 2 0 0 (maxI - 0) 0 c rfl (Nat.zero_le _)
  have hexit : ¬ modulus realLibm
      (orbit realLibm c 2 0 0 c ((whileLoop realLibm maxI c 2 0 0 c 0).2)) < 4 := by
    rcases hspec.2.2.2.2 with h | h
    · omega
    · simpa using h
  induction d with
  | zero => rfl
  | succ d ih =>
    have hne : ¬ ((orbit realLibm c 2 0 0 c d).re = 0 ∧ (orbit realLibm c 2 0 0 c d).im = 0) := by
      rintro ⟨h1, h2⟩
      have h0 : orbit realLibm c 2 0 0 c d = { re := 0, im := 0 } := by
        cases hz : orbit realLibm c 2 0 0 c d with
        | mk a b =>
          rw [hz] at h1 h2
          simp only at h1 h2
          rw [h1, h2]
      have hstay := orbit_stays_origin realLibm c 2 0 0 c d
        ((whileLoop realLibm maxI c 2 0 0 c 0).2 - d) h0
      have hidx : d + ((whileLoop realLibm maxI c 2 0 0 c 0).2 - d)
          = (whileLoop realLibm maxI c 2 0 0 c 0).2 := by omega
      rw [hidx] at hstay
      apply hexit
      have hz0 : toC { re := 0, im := 0 } = 0 := by
        apply Complex.ext <;> simp [toC]
      rw [hstay, modulus_real, hz0]
      simp
    rw [orbit_succ, toC_Alg_two _ _ hne, ih (by omega), classicalOrbit_succ]

end EscapeLemmas

section ReferenceLemmas

variable {F : Type} [LinearOrderedField F]

/-- The count of a pixel: at most `MAX_I`, every earlier iterate passed the guard of the
loop, and at the count either the cap is reached or the guard fails. -/
theorem pixelCount_spec (C : Consts F) (L : Libm F) (power cR cI : F) (i j : Nat) :
    pixelCount C L power cR cI i j ≤ C.MAX_I ∧
    (∀ d, d < pixelCount C L power cR cI i j →
      modulus L (orbit L (pixelPoint C i j) power cR cI (pixelPoint C i j) d) < 4) ∧
    (pixelCount C L power cR cI i j = C.MAX_I ∨
      ¬ modulus L (orbit L (pixelPoint C i j) power cR cI (pixelPoint C i j)
          (pixelCount C L power cR cI i j)) < 4) := by
  have h := whileLoop_spec L C.MAX_I (pixelPoint C i j) power cR cI (C.MAX_I - 0) 0
    (pixelPoint C i j) rfl (Nat.zero_le _)
  rw [← pixelCount_eq] at h
  refine ⟨h.2.1, ?_, ?_⟩
  · intro d hd
    exact h.2.2.2.1 d (by omega)
  · simpa using h.2.2.2.2

/-- With the constants of the source the pixel `(450, 450)` is mapped to the origin. -/
theorem pixelPoint_centre : pixelPoint (reference F) 450 450 = { re := 0, im := 0 } := by
  have h1 : |(7 : F) / 4| = 7 / 4 := abs_of_pos (by norm_num)
  have h2 : |(900 : F)| = 900 := abs_of_pos (by norm_num)
  unfold pixelPoint map
  simp only [reference, WIDTH, HEIGHT, SCALE, MIN_X, MAX_X, MIN_Y, MAX_Y, CENTER_X, CENTER_Y,
    RANGE_X, RANGE_Y]
  norm_num [h1, h2]

/-- With the constants of the source and the real `math.h`, for the exponent 2 and the zero
offset, the corner pixel `(0, 0)` has the count 1. -/
theorem pixelCount_corner : pixelCount (reference ℝ) realLibm 2 0 0 0 0 = 1 := by
  have h1 : |(7 : ℝ) / 4| = 7 / 4 := abs_of_pos (by norm_num)
  have h2 : |(900 : ℝ)| = 900 := abs_of_pos (by norm_num)
  have hp : pixelPoint (reference ℝ) 0 0 = { re := -(7 / 4), im := -(7 / 4) } := by
    unfold pixelPoint map
    simp only [reference, WIDTH, HEIGHT, SCALE, MIN_X, MAX_X, MIN_Y, MAX_Y, CENTER_X, CENTER_Y,
      RANGE_X, RANGE_Y]
    norm_num [h1, h2]
  have g1 : realLibm.sqrt ((-(7 / 4) : ℝ) * -(7 / 4) + -(7 / 4) * -(7 / 4)) < 4 := by
    rw [realLibm_sqrt, Real.sqrt_lt' (by norm_num)]
    norm_num
  have hm : (0 : Nat) < (reference ℝ).MAX_I := by decide
  rw [pixelCount_eq, hp, whileLoop, if_pos ⟨hm, g1⟩,
    Alg_two _ _ _ _ (by norm_num), whileLoop, if_neg]
  rintro ⟨-, g2⟩
  rw [realLibm_sqrt, Real.sqrt_lt' (by norm_num)] at g2
  norm_num at g2

end ReferenceLemmas

/-! ## The escape-time evaluator: counts -/

section CountClaims

variable {F : Type} [LinearOrderedField F]

/-- C1: for every exponent, offset and pixel `(i, j)` of the grid, the cell
`values[i*HEIGHT + j]` after `Mandelbrot` holds the count `n` of the pixel, and
`0 ≤ n ≤ MAX_I`. -/
theorem Mandelbrot_count_bounds (C : Consts F) (L : Libm F) (values histogram : Nat → F)
    (power cR cI : F) (i j : Nat) (hi : i < C.WIDTH) (hj : j < C.HEIGHT) :
    (Mandelbrot C L values histogram power cR cI).1 (i * C.HEIGHT + j)
        = (pixelCount C L power cR cI i j : F) ∧
      0 ≤ pixelCount C L power cR cI i j ∧
      pixelCount C L power cR cI i j ≤ C.MAX_I ∧
      0 ≤ (Mandelbrot C L values histogram power cR cI).1 (i * C.HEIGHT + j) ∧
      (Mandelbrot C L values histogram power cR cI).1 (i * C.HEIGHT + j) ≤ (C.MAX_I : F) := by
  have hv := Mandelbrot_values C L values histogram power cR cI i j hi hj
  have hle := pixelCount_le C L power cR cI i j
  refine ⟨hv, Nat.zero_le _, hle, ?_, ?_⟩
  · rw [hv]
    exact Nat.cast_nonneg _
  · rw [hv]
    exact Nat.cast_le.mpr hle

/-- Witness of C1: the centre pixel of the reference grid, over the real numbers. -/
theorem Mandelbrot_count_bounds_witness :
    450 < (reference ℝ).WIDTH ∧ 450 < (reference ℝ).HEIGHT ∧
      ((Mandelbrot (reference ℝ) realLibm (fun _ => 0) (fun _ => 0) 2 0 0).1
          (450 * (reference ℝ).HEIGHT + 450)
        = (pixelCount (reference ℝ) realLibm 2 0 0 450 450 : ℝ) ∧
      0 ≤ pixelCount (reference ℝ) realLibm 2 0 0 450 450 ∧
      pixelCount (reference ℝ) realLibm 2 0 0 450 450 ≤ (reference ℝ).MAX_I ∧
      0 ≤ (Mandelbrot (reference ℝ) realLibm (fun _ => 0) (fun _ => 0) 2 0 0).1
          (450 * (reference ℝ).HEIGHT + 450) ∧
      (Mandelbrot (reference ℝ) realLibm (fun _ => 0) (fun _ => 0) 2 0 0).1
          (450 * (reference ℝ).HEIGHT + 450) ≤ ((reference ℝ).MAX_I : ℝ)) :=
  ⟨by decide, by decide,
    Mandelbrot_count_bounds (reference ℝ) realLibm (fun _ => 0) (fun _ => 0) 2 0 0 450 450
      (by decide) (by decide)⟩

/-- C2: for every exponent, offset and pixel of the grid, the count stored by `Mandelbrot`
is the least `k ≤ MAX_I` with `k = MAX_I` or the modulus of the `k`-th point of the orbit
not below 4, where the orbit starts at the pixel's point `c0` and steps by
`Alg(z, c0, power, cR, cI)`; the count is `MAX_I` exactly when the points `0 .. MAX_I-1`
of the orbit all have modulus below 4. -/
theorem Mandelbrot_count_first_exit (C : Consts F) (L : Libm F) (values histogram : Nat → F)
    (power cR cI : F) (i j : Nat) (hi : i < C.WIDTH) (hj : j < C.HEIGHT) :
    (Mandelbrot C L values histogram power cR cI).1 (i * C.HEIGHT + j)
        = (pixelCount C L power cR cI i j : F) ∧
      IsLeast {k : Nat | k ≤ C.MAX_I ∧ (k = C.MAX_I ∨
          ¬ modulus L (orbit L (pixelPoint C i j) power cR cI (pixelPoint C i j) k) < 4)}
        (pixelCount C L power cR cI i j) ∧
      (pixelCount C L power cR cI i j = C.MAX_I ↔
        ∀ k, k < C.MAX_I →
          modulus L (orbit L (pixelPoint C i j) power cR cI (pixelPoint C i j) k) < 4) := by
  obtain ⟨hle, hbefore, hexit⟩ := pixelCount_spec C L power cR cI i j
  refine ⟨Mandelbrot_values C L values histogram power cR cI i j hi hj, ⟨⟨hle, hexit⟩, ?_⟩, ?_⟩
  · rintro k ⟨hk, hk2⟩
    by_contra hlt
    have hlt2 : k < pixelCount C L power cR cI i j := Nat.lt_of_not_le hlt
    rcases hk2 with h | h
    · omega
    · exact h (hbefore k hlt2)
  · constructor
    · intro heq k hk
      exact hbefore k (by omega)
    · intro hall
      rcases hexit with h | h
      · exact h
      · by_contra hne
        exact h (hall _ (by omega))

/-- Witness of C2: the centre pixel of the reference grid, over the real numbers. -/
theorem Mandelbrot_count_first_exit_witness :
    450 < (reference ℝ).WIDTH ∧ 450 < (reference ℝ).HEIGHT ∧
      ((Mandelbrot (reference ℝ) realLibm (fun _ => 0) (fun _ => 0) 2 0 0).1
          (450 * (reference ℝ).HEIGHT + 450)
        = (pixelCount (reference ℝ) realLibm 2 0 0 450 450 : ℝ) ∧
      IsLeast {k : Nat | k ≤ (reference ℝ).MAX_I ∧ (k = (reference ℝ).MAX_I ∨
          ¬ modulus realLibm (orbit realLibm (pixelPoint (reference ℝ) 450 450) 2 0 0
              (pixelPoint (reference ℝ) 450 450) k) < 4)}
        (pixelCount (reference ℝ) realLibm 2 0 0 450 450) ∧
      (pixelCount (reference ℝ) realLibm 2 0 0 450 450 = (reference ℝ).MAX_I ↔
        ∀ k, k < (reference ℝ).MAX_I →
          modulus realLibm (orbit realLibm (pixelPoint (reference ℝ) 450 450) 2 0 0
              (pixelPoint (reference ℝ) 450 450) k) < 4)) :=
  ⟨by decide, by decide,
    Mandelbrot_count_first_exit (reference ℝ) realLibm (fun _ => 0) (fun _ => 0) 2 0 0 450 450
      (by decide) (by decide)⟩

/-- C3: for every added point `com2`, every exponent and every offset, `Alg` at the origin
returns the origin: neither `com2` nor the offset is added. -/
theorem Alg_origin_fixed (L : Libm F) (com2 : Complex F) (power cR cI : F) :
    Alg L { re := 0, im := 0 } com2 power cR cI = { re := 0, im := 0 } := by
  unfold Alg
  rw [if_pos ⟨rfl, rfl⟩]

end CountClaims

/-! ## The classical case: exponent 2 and zero offset -/

section ClassicalClaims

/-- C4: over the real numbers, for the exponent 2, the zero offset, every point
`z = (x, y)` other than the origin and every `c = (a, b)`, the step `Alg(z, c, 2, 0, 0)` is
the classical step `z^2 + c = (x^2 - y^2 + a, 2*x*y + b)`. -/
theorem Alg_two_classical (x y a b : ℝ) (hz : ¬ (x = 0 ∧ y = 0)) :
    Alg realLibm { re := x, im := y } { re := a, im := b } 2 0 0
        = { re := x ^ 2 - y ^ 2 + a, im := 2 * x * y + b } ∧
      toC (Alg realLibm { re := x, im := y } { re := a, im := b } 2 0 0)
        = toC { re := x, im := y } ^ 2 + toC { re := a, im := b } :=
  ⟨Alg_two x y a b hz, toC_Alg_two { re := x, im := y } { re := a, im := b } hz⟩

/-- Witness of C4: the step from `z = (1, 2)` with `c = (3, 4)`. -/
theorem Alg_two_classical_witness :
    ¬ ((1 : ℝ) = 0 ∧ (2 : ℝ) = 0) ∧
      (Alg realLibm { re := 1, im := 2 } { re := 3, im := 4 } 2 0 0
        = { re := 1 ^ 2 - 2 ^ 2 + 3, im := 2 * 1 * 2 + 4 } ∧
      toC (Alg realLibm { re := 1, im := 2 } { re := 3, im := 4 } 2 0 0)
        = toC { re := 1, im := 2 } ^ 2 + toC { re := 3, im := 4 }) :=
  ⟨by norm_num, Alg_two_classical 1 2 3 4 (by norm_num)⟩

variable {F : Type} [LinearOrderedField F]

/-- C5: with the constants of the source the centre pixel `(450, 450)` is mapped to the
point `(0, 0)`, and for every exponent and every offset its count is `MAX_I`; the `sqrt`
of `math.h` is only asked to satisfy `sqrt(0) < 4`. -/
theorem centre_pixel_in_set (L : Libm F) (values histogram : Nat → F) (power cR cI : F)
    (hsqrt : L.sqrt 0 < 4) :
    pixelPoint (reference F) 450 450 = { re := 0, im := 0 } ∧
      pixelCount (reference F) L power cR cI 450 450 = (reference F).MAX_I ∧
      (Mandelbrot (reference F) L values histogram power cR cI).1
          (450 * (reference F).HEIGHT + 450) = ((reference F).MAX_I : F) := by
  have hc : pixelCount (reference F) L power cR cI 450 450 = (reference F).MAX_I := by
    rw [pixelCount_eq, pixelPoint_centre]
    exact whileLoop_origin L (reference F).MAX_I _ power cR cI hsqrt
  have hW : (reference F).WIDTH = 900 := rfl
  have hH : (reference F).HEIGHT = 900 := rfl
  refine ⟨pixelPoint_centre, hc, ?_⟩
  rw [← hc]
  exact Mandelbrot_values (reference F) L values histogram power cR cI 450 450
    (by rw [hW]; norm_num) (by rw [hH]; norm_num)

/-- Witness of C5: the real `math.h`, for the exponent `-10` and the offset `(1, 1)`. -/
theorem centre_pixel_in_set_witness :
    realLibm.sqrt 0 < 4 ∧
      (pixelPoint (reference ℝ) 450 450 = { re := 0, im := 0 } ∧
      pixelCount (reference ℝ) realLibm (-10) 1 1 450 450 = (reference ℝ).MAX_I ∧
      (Mandelbrot (reference ℝ) realLibm (fun _ => 0) (fun _ => 0) (-10) 1 1).1
          (450 * (reference ℝ).HEIGHT + 450) = ((reference ℝ).MAX_I : ℝ)) :=
  ⟨by rw [realLibm_sqrt, Real.sqrt_zero]; norm_num,
    centre_pixel_in_set realLibm (fun _ => 0) (fun _ => 0) (-10) 1 1
      (by rw [realLibm_sqrt, Real.sqrt_zero]; norm_num)⟩

/-- C6: over the real numbers, for the exponent 2 and the zero offset, the loop of
`Mandelbrot` started at the point `(2, 2)` stops with a count `n ≤ 2`, below `MAX_I`: the
point escapes (the count is 1). -/
theorem two_two_escapes :
    (whileLoop realLibm MAX_I { re := 2, im := 2 } 2 0 0 { re := 2, im := 2 } 0).2 ≤ 2 ∧
      (whileLoop realLibm MAX_I { re := 2, im := 2 } 2 0 0 { re := 2, im := 2 } 0).2 < MAX_I ∧
      (whileLoop realLibm MAX_I { re := 2, im := 2 } 2 0 0 { re := 2, im := 2 } 0).2 = 1 := by
  rw [whileLoop_two_two MAX_I (by decide)]
  exact ⟨by decide, by decide, rfl⟩

/-- C7: over the real numbers, for the exponent 2 and the zero offset and every starting
point `c` of modulus below 4, if the loop stops with a count below the cap then the
classical orbit `z_0 = c`, `z_(k+1) = z_k^2 + c` is unbounded: `c` is not a member of the
classical Mandelbrot set. -/
theorem escaped_not_in_classical_set (maxI : Nat) (c : Complex ℝ)
    (hc : modulus realLibm c < 4)
    (hlt : (whileLoop realLibm maxI c 2 0 0 c 0).2 < maxI) :
    (∀ B : ℝ, ∃ k, B < Complex.abs (classicalOrbit (toC c) k)) ∧
      ¬ inClassicalMandelbrot (toC c) := by
  have hspec := whileLoop_spec realLibm maxI c 2 0 0 (maxI - 0) 0 c rfl (Nat.zero_le _)
  have hexit : ¬ modulus realLibm
      (orbit realLibm c 2 0 0 c ((whileLoop realLibm maxI c 2 0 0 c 0).2)) < 4 := by
    rcases hspec.2.2.2.2 with h | h
    · omega
    · simpa using h
  rw [modulus_real, orbit_eq_classical maxI c hlt _ (le_refl _), not_lt] at hexit
  rw [modulus_real] at hc
  have hunb := classical_orbit_unbounded (toC c) _ hc hexit
  refine ⟨hunb, ?_⟩
  rintro ⟨B, hB⟩
  obtain ⟨k, hk⟩ := hunb B
  exact absurd (hB k) (not_le.mpr hk)

/-- Witness of C7: the starting point `(2, 2)` with the cap of the source. -/
theorem escaped_not_in_classical_set_witness :
    modulus realLibm { re := 2, im := 2 } < 4 ∧
      (whileLoop realLibm MAX_I { re := 2, im := 2 } 2 0 0 { re := 2, im := 2 } 0).2 < MAX_I ∧
      ((∀ B : ℝ, ∃ k, B < Complex.abs (classicalOrbit (toC { re := 2, im := 2 }) k)) ∧
      ¬ inClassicalMandelbrot (toC { re := 2, im := 2 })) :=
  have h1 : modulus realLibm { re := 2, im := 2 } < 4 := by
    unfold modulus
    rw [realLibm_sqrt, Real.sqrt_lt' (by norm_num)]
    norm_num
  have h2 : (whileLoop realLibm MAX_I { re := 2, im := 2 } 2 0 0 { re := 2, im := 2 } 0).2
      < MAX_I := by
    rw [whileLoop_two_two MAX_I (by decide)]
    decide
  ⟨h1, h2, escaped_not_in_classical_set MAX_I { re := 2, im := 2 } h1 h2⟩

end ClassicalClaims

/-! ## The escape-time evaluator: histogram -/

section HistogramClaims

variable {F : Type} [LinearOrderedField F]

/-- The escaped pixels, split by their count. -/
theorem card_escaped_eq_sum (C : Consts F) (L : Libm F) (power cR cI : F) :
    ((pixels C).filter (fun p => pixelCount C L power cR cI p.1 p.2 < C.MAX_I)).card
      = ∑ k in Finset.range C.MAX_I,
          ((pixels C).filter (fun p => pixelCount C L power cR cI p.1 p.2 = k)).card := by
  rw [Finset.card_eq_sum_card_fiberwise
    (f := fun p : Nat × Nat => pixelCount C L power cR cI p.1 p.2)
    (s := (pixels C).filter (fun p => pixelCount C L power cR cI p.1 p.2 < C.MAX_I))
    (t := Finset.range C.MAX_I)]
  · apply Finset.sum_congr rfl
    intro k hk
    rw [Finset.filter_filter]
    congr 1
    apply Finset.filter_congr
    intro p _
    have hk2 : k < C.MAX_I := Finset.mem_range.mp hk
    constructor
    · rintro ⟨_, h⟩
      exact h
    · intro h
      exact ⟨by omega, h⟩
  · intro p hp
    exact Finset.mem_range.mpr (Finset.mem_filter.mp hp).2

/-- A pixel of the grid with the count `k` makes the number of pixels with that count
positive. -/
theorem card_count_pos (C : Consts F) (L : Libm F) (power cR cI : F) (i j k : Nat)
    (hi : i < C.WIDTH) (hj : j < C.HEIGHT) (hc : pixelCount C L power cR cI i j = k) :
    0 < ((pixels C).filter (fun p => pixelCount C L power cR cI p.1 p.2 = k)).card := by
  rw [Finset.card_pos]
  refine ⟨(i, j), ?_⟩
  rw [Finset.mem_filter]
  refine ⟨?_, hc⟩
  unfold pixels
  rw [Finset.mem_product]
  exact ⟨Finset.mem_range.mpr hi, Finset.mem_range.mpr hj⟩

/-- C8: if every bucket of the histogram is 0 when `Mandelbrot` is called, then after the
call the sum of `histogram[0 .. MAX_I-1]` is the number of pixels whose count is below
`MAX_I`; the pixels whose count is `MAX_I` are the rest of the `WIDTH*HEIGHT` pixels. -/
theorem Mandelbrot_histogram_sum (C : Consts F) (L : Libm F) (values histogram : Nat → F)
    (power cR cI : F) (h0 : ∀ k, k < C.MAX_I → histogram k = 0) :
    ∑ k in Finset.range C.MAX_I, (Mandelbrot C L values histogram power cR cI).2 k
        = (((pixels C).filter
            (fun p => pixelCount C L power cR cI p.1 p.2 < C.MAX_I)).card : F) ∧
      ∑ k in Finset.range C.MAX_I, (Mandelbrot C L values histogram power cR cI).2 k
          + (((pixels C).filter
              (fun p => pixelCount C L power cR cI p.1 p.2 = C.MAX_I)).card : F)
        = ((C.WIDTH * C.HEIGHT : Nat) : F) := by
  have hsum : ∑ k in Finset.range C.MAX_I, (Mandelbrot C L values histogram power cR cI).2 k
      = (((pixels C).filter
          (fun p => pixelCount C L power cR cI p.1 p.2 < C.MAX_I)).card : F) := by
    rw [card_escaped_eq_sum, Nat.cast_sum]
    apply Finset.sum_congr rfl
    intro k hk
    have hk2 : k < C.MAX_I := Finset.mem_range.mp hk
    rw [Mandelbrot_hist C L values histogram power cR cI k hk2, h0 k hk2, zero_add]
  refine ⟨hsum, ?_⟩
  rw [hsum, ← Nat.cast_add]
  congr 1
  have hsplit := Finset.filter_card_add_filter_neg_card_eq_card (s := pixels C)
    (fun p => pixelCount C L power cR cI p.1 p.2 < C.MAX_I)
  have hcard : (pixels C).card = C.WIDTH * C.HEIGHT := by
    unfold pixels
    rw [Finset.card_product, Finset.card_range, Finset.card_range]
  have hneg : (pixels C).filter (fun p => ¬ pixelCount C L power cR cI p.1 p.2 < C.MAX_I)
      = (pixels C).filter (fun p => pixelCount C L power cR cI p.1 p.2 = C.MAX_I) := by
    apply Finset.filter_congr
    intro p _
    have := pixelCount_le C L power cR cI p.1 p.2
    omega
  rw [hneg, hcard] at hsplit
  exact hsplit

/-- Witness of C8: the reference grid over the real numbers, from a zeroed histogram. -/
theorem Mandelbrot_histogram_sum_witness :
    (∀ k, k < (reference ℝ).MAX_I → (fun _ : Nat => (0 : ℝ)) k = 0) ∧
      (∑ k in Finset.range (reference ℝ).MAX_I,
          (Mandelbrot (reference ℝ) realLibm (fun _ => 0) (fun _ => 0) 2 0 0).2 k
        = (((pixels (reference ℝ)).filter
            (fun p => pixelCount (reference ℝ) realLibm 2 0 0 p.1 p.2
              < (reference ℝ).MAX_I)).card : ℝ) ∧
      ∑ k in Finset.range (reference ℝ).MAX_I,
          (Mandelbrot (reference ℝ) realLibm (fun _ => 0) (fun _ => 0) 2 0 0).2 k
          + (((pixels (reference ℝ)).filter
              (fun p => pixelCount (reference ℝ) realLibm 2 0 0 p.1 p.2
                = (reference ℝ).MAX_I)).card : ℝ)
        = (((reference ℝ).WIDTH * (reference ℝ).HEIGHT : Nat) : ℝ)) :=
  ⟨fun _ _ => rfl,
    Mandelbrot_histogram_sum (reference ℝ) realLibm (fun _ => 0) (fun _ => 0) 2 0 0
      (fun _ _ => rfl)⟩

/-- C10 fails on the code: `Mandelbrot` never clears the histogram. Over the real numbers
with the constants of the source, whatever the exponent, the offset and the `values`
buffer, a call on a buffer of zeros and a call on a buffer of ones leave different
histograms; and in a sweep of two frames with the exponent 2 from a zeroed buffer, as in
`main`, the second call leaves in bucket 1 twice what a call on a fresh buffer leaves,
which is not 0. -/
theorem Mandelbrot_histogram_keeps_old_content :
    (∀ (values : Nat → ℝ) (power cR cI : ℝ),
        (Mandelbrot (reference ℝ) realLibm values (fun _ => 0) power cR cI).2
          ≠ (Mandelbrot (reference ℝ) realLibm values (fun _ => 1) power cR cI).2) ∧
      (Mandelbrot (reference ℝ) realLibm
            (Mandelbrot (reference ℝ) realLibm (fun _ => 0) (fun _ => 0) 2 0 0).1
            (Mandelbrot (reference ℝ) realLibm (fun _ => 0) (fun _ => 0) 2 0 0).2 2 0 0).2 1
          = 2 * (Mandelbrot (reference ℝ) realLibm (fun _ => 0) (fun _ => 0) 2 0 0).2 1 ∧
        (Mandelbrot (reference ℝ) realLibm (fun _ => 0) (fun _ => 0) 2 0 0).2 1 ≠ 0 ∧
        (Mandelbrot (reference ℝ) realLibm
            (Mandelbrot (reference ℝ) realLibm (fun _ => 0) (fun _ => 0) 2 0 0).1
            (Mandelbrot (reference ℝ) realLibm (fun _ => 0) (fun _ => 0) 2 0 0).2 2 0 0).2 1
          ≠ (Mandelbrot (reference ℝ) realLibm (fun _ => 0) (fun _ => 0) 2 0 0).2 1 := by
  have hM : (1 : Nat) < (reference ℝ).MAX_I := by decide
  have hM0 : (0 : Nat) < (reference ℝ).MAX_I := by decide
  have hfresh := Mandelbrot_hist (reference ℝ) realLibm (fun _ => 0) (fun _ => 0) 2 0 0 1 hM
  have hpos : (0 : ℝ) < (((pixels (reference ℝ)).filter
      (fun p => pixelCount (reference ℝ) realLibm 2 0 0 p.1 p.2 = 1)).card : ℝ) := by
    have hW : (0 : Nat) < (reference ℝ).WIDTH := by decide
    have hH : (0 : Nat) < (reference ℝ).HEIGHT := by decide
    rw [Nat.cast_pos]
    exact card_count_pos (reference ℝ) realLibm 2 0 0 0 0 1 hW hH pixelCount_corner
  have hne : (Mandelbrot (reference ℝ) realLibm (fun _ => 0) (fun _ => 0) 2 0 0).2 1 ≠ 0 := by
    rw [hfresh]
    simp only [zero_add]
    exact ne_of_gt hpos
  have hsecond := Mandelbrot_hist (reference ℝ) realLibm
    (Mandelbrot (reference ℝ) realLibm (fun _ => 0) (fun _ => 0) 2 0 0).1
    (Mandelbrot (reference ℝ) realLibm (fun _ => 0) (fun _ => 0) 2 0 0).2 2 0 0 1 hM
  have htwice : (Mandelbrot (reference ℝ) realLibm
        (Mandelbrot (reference ℝ) realLibm (fun _ => 0) (fun _ => 0) 2 0 0).1
        (Mandelbrot (reference ℝ) realLibm (fun _ => 0) (fun _ => 0) 2 0 0).2 2 0 0).2 1
      = 2 * (Mandelbrot (reference ℝ) realLibm (fun _ => 0) (fun _ => 0) 2 0 0).2 1 := by
    rw [hsecond, hfresh]
    ring
  refine ⟨?_, htwice, hne, ?_⟩
  · intro values power cR cI heq
    have h1 := Mandelbrot_hist (reference ℝ) realLibm values (fun _ => 0) power cR cI 0 hM0
    have h2 := Mandelbrot_hist (reference ℝ) realLibm values (fun _ => 1) power cR cI 0 hM0
    rw [heq, h2] at h1
    simp at h1
  · rw [htwice]
    intro h
    apply hne
    linarith

end HistogramClaims

/-! ## The colour mapper: the cumulative array -/

section FloatLemmas

variable {F : Type} [LinearOrderedField F]

theorem fadd_some (a b : F) : fadd (some a) (some b) = some (a + b) := rfl

theorem fsub_some (a b : F) : fsub (some a) (some b) = some (a - b) := rfl

theorem fmul_some (a b : F) : fmul (some a) (some b) = some (a * b) := rfl

theorem fdiv_some (a b : F) (hb : b ≠ 0) : fdiv (some a) (some b) = some (a / b) := by
  show (if b = 0 then none else some (a / b)) = some (a / b)
  rw [if_neg hb]

theorem fdiv_zero (a : F) : fdiv (some a) (some (0 : F)) = none := by
  show (if (0 : F) = 0 then none else some (a / 0)) = none
  rw [if_pos rfl]

theorem huesStep_eq (histogram : Nat → F) (total : Int) (st : Option F × (Int → Option F))
    (i : Nat) :
    huesStep histogram total st i
      = (fadd st.1 (fdiv (some (histogram i)) (some (total : F))),
          Function.update st.2 (i : Int)
            (fadd st.1 (fdiv (some (histogram i)) (some (total : F))))) := rfl

/-- The state of the second loop after `m` steps, when `total` is not 0. -/
theorem hues_fold (histogram : Nat → F) (T : Int) (hT : (T : F) ≠ 0)
    (hues0 : Int → Option F) (m : Nat) :
    ((List.range m).foldl (huesStep histogram T) (some 0, hues0)).1
        = some (∑ i in Finset.range m, histogram i / (T : F)) ∧
      ∀ z : Int, ((List.range m).foldl (huesStep histogram T) (some 0, hues0)).2 z
        = if 0 ≤ z ∧ z < (m : Int)
          then some (∑ i in Finset.range (z.toNat + 1), histogram i / (T : F))
          else hues0 z := by
  induction m with
  | zero =>
    refine ⟨by simp, ?_⟩
    intro z
    have : ¬ (0 ≤ z ∧ z < ((0 : Nat) : Int)) := by omega
    rw [if_neg this]
    simp
  | succ m ih =>
    obtain ⟨ih1, ih2⟩ := ih
    rw [List.range_succ, List.foldl_append]
    simp only [List.foldl_cons, List.foldl_nil]
    have hstep : huesStep histogram T
        ((List.range m).foldl (huesStep histogram T) (some 0, hues0)) m
        = (some (∑ i in Finset.range (m + 1), histogram i / (T : F)),
            Function.update ((List.range m).foldl (huesStep histogram T) (some 0, hues0)).2
              (m : Int) (some (∑ i in Finset.range (m + 1), histogram i / (T : F)))) := by
      rw [huesStep_eq, ih1, fdiv_some _ _ hT, fadd_some, Finset.sum_range_succ]
    rw [hstep]
    refine ⟨rfl, ?_⟩
    intro z
    simp only
    by_cases hz : z = (m : Int)
    · subst hz
      have h1 : 0 ≤ (m : Int) ∧ (m : Int) < ((m + 1 : Nat) : Int) := by omega
      rw [Function.update_same, if_pos h1, Int.toNat_ofNat]
    · rw [Function.update_noteq hz, ih2]
      by_cases h1 : 0 ≤ z ∧ z < (m : Int)
      · have h2 : 0 ≤ z ∧ z < ((m + 1 : Nat) : Int) := by omega
        rw [if_pos h1, if_pos h2]
      · have h2 : ¬ (0 ≤ z ∧ z < ((m + 1 : Nat) : Int)) := by omega
        rw [if_neg h1, if_neg h2]

theorem LinearInterpolation_zero (h : Option F) :
    LinearInterpolation h h (some 0) = h := by
  cases h with
  | none => rfl
  | some a =>
    unfold LinearInterpolation
    rw [fsub_some, fmul_some, fmul_some, fadd_some]
    congr 1
    ring

end FloatLemmas

section HuesLemmas

variable {F : Type} [LinearOrderedField F] [FloorRing F]

theorem truncInt_intCast (z : Int) : truncInt ((z : Int) : F) = z := by
  unfold truncInt
  split
  · exact Int.floor_intCast z
  · exact Int.ceil_intCast z

theorem truncInt_natCast (n : Nat) : truncInt (n : F) = (n : Int) := by
  have h := truncInt_intCast (F := F) (n : Int)
  rwa [Int.cast_natCast] at h

/-- An integer of the range of `int` is converted to itself. -/
theorem toInt32_intCast (z : Int) (hlo : INT_MIN ≤ z) (hhi : z ≤ INT_MAX) :
    toInt32 ((z : Int) : F) = z := by
  unfold toInt32
  rw [truncInt_intCast, if_pos ⟨hlo, hhi⟩]

/-- A value whose rounding toward zero is above `INT_MAX` is converted to `INT_MIN`. -/
theorem toInt32_above (x : F) (h : INT_MAX < truncInt x) : toInt32 x = INT_MIN := by
  unfold toInt32
  rw [if_neg (fun hin => absurd hin.2 (not_le.mpr h))]

/-- The loop of `total` on a histogram of natural numbers whose sum is at most `INT_MAX`:
no rounding takes place. -/
theorem total_fold_nat (histogram : Nat → F) (c : Nat → Nat) (m : Nat)
    (hnat : ∀ k, k < m → histogram k = (c k : F))
    (hfit : ∑ k in Finset.range m, c k < 2 ^ 31) :
    (List.range m).foldl (fun total i => toInt32 ((total : F) + histogram i)) (0 : Int)
      = ((∑ k in Finset.range m, c k : Nat) : Int) := by
  induction m with
  | zero => simp
  | succ m ih =>
    rw [Finset.sum_range_succ] at hfit
    rw [List.range_succ, List.foldl_append,
      ih (fun k hk => hnat k (by omega)) (by omega)]
    simp only [List.foldl_cons, List.foldl_nil]
    rw [hnat m (by omega), Finset.sum_range_succ]
    have h := toInt32_intCast (F := F) ((∑ k in Finset.range m, c k + c m : Nat) : Int)
      (by unfold INT_MIN; omega) (by unfold INT_MAX; omega)
    rw [← h]
    congr 1
    push_cast
    rfl

theorem totalOf_nat (C : Consts F) (histogram : Nat → F) (c : Nat → Nat)
    (hnat : ∀ k, k < C.MAX_I → histogram k = (c k : F))
    (hfit : ∑ k in Finset.range C.MAX_I, c k < 2 ^ 31) :
    totalOf C histogram = ((∑ k in Finset.range C.MAX_I, c k : Nat) : Int) :=
  total_fold_nat histogram c C.MAX_I hnat hfit

/-- The entry `hues[k]` for `k < MAX_I`, when `total` is not 0: the sum of the buckets
`0 .. k` divided by `total`. -/
theorem huesOf_eq (C : Consts F) (histogram : Nat → F) (hues0 : Int → Option F)
    (hT : ((totalOf C histogram : Int) : F) ≠ 0) (k : Nat) (hk : k < C.MAX_I) :
    huesOf C histogram hues0 (k : Int)
      = some ((∑ i in Finset.range (k + 1), histogram i) / ((totalOf C histogram : Int) : F)) := by
  obtain ⟨h1, h2⟩ := hues_fold histogram (totalOf C histogram) hT hues0 C.MAX_I
  have hin : 0 ≤ (k : Int) ∧ (k : Int) < (C.MAX_I : Int) := by omega
  unfold huesOf huesLoop
  by_cases hlast : (k : Int) = (C.MAX_I : Int) - 1
  · have hk1 : k + 1 = C.MAX_I := by omega
    rw [hlast, Function.update_same, h1, ← hk1, Finset.sum_div]
  · rw [Function.update_noteq hlast, h2, if_pos hin, Int.toNat_ofNat, Finset.sum_div]

/-- The loop of `total` on a histogram that holds 3000000000 in the bucket 0 and 0 in the
others: the first sum is above `INT_MAX` and is converted to `INT_MIN`, which the other
steps keep. -/
theorem total_fold_beyond_int (histogram : Nat → F) (h0 : histogram 0 = 3000000000)
    (hrest : ∀ i, 0 < i → histogram i = 0) (m : Nat) :
    (List.range (m + 1)).foldl (fun total i => toInt32 ((total : F) + histogram i)) (0 : Int)
      = INT_MIN := by
  induction m with
  | zero =>
    simp only [List.range_succ, List.range_zero, List.nil_append, List.foldl_cons,
      List.foldl_nil, Int.cast_zero, zero_add]
    have hcast : (3000000000 : F) = ((3000000000 : Int) : F) := by norm_num
    rw [h0]
    apply toInt32_above
    rw [hcast, truncInt_intCast]
    unfold INT_MAX
    omega
  | succ m ih =>
    rw [List.range_succ, List.foldl_append, ih]
    simp only [List.foldl_cons, List.foldl_nil]
    rw [hrest (m + 1) (Nat.succ_pos m), add_zero]
    exact toInt32_intCast INT_MIN (le_refl _) (by unfold INT_MIN INT_MAX; omega)

/-- The variable `total` and the array `hues` on a histogram that holds 3000000000 in the
bucket 0 and 0 in the others: `total` is `INT_MIN` and every entry `hues[0 .. MAX_I-1]` is
`3000000000 / INT_MIN`. -/
theorem huesOf_beyond_int (C : Consts F) (histogram : Nat → F) (hues0 : Int → Option F)
    (h0 : histogram 0 = 3000000000) (hrest : ∀ i, 0 < i → histogram i = 0)
    (k : Nat) (hk : k < C.MAX_I) :
    totalOf C histogram = INT_MIN ∧
      huesOf C histogram hues0 (k : Int) = some (3000000000 / ((INT_MIN : Int) : F)) := by
  have hM : C.MAX_I = (C.MAX_I - 1) + 1 := by omega
  have htot : totalOf C histogram = INT_MIN := by
    unfold totalOf
    rw [hM]
    exact total_fold_beyond_int histogram h0 hrest (C.MAX_I - 1)
  have hne : ((totalOf C histogram : Int) : F) ≠ 0 := by
    rw [htot]
    unfold INT_MIN
    norm_num
  have hsum : ∑ i in Finset.range (k + 1), histogram i = 3000000000 := by
    rw [Finset.sum_range_succ']
    rw [h0, Finset.sum_eq_zero (fun i _ => hrest (i + 1) (Nat.succ_pos i)), zero_add]
  refine ⟨htot, ?_⟩
  rw [huesOf_eq C histogram hues0 hne k hk, htot, hsum]

end HuesLemmas

/-! ## The colour mapper: the pixels -/

section ColorLemmas

variable {F : Type} [LinearOrderedField F] [FloorRing F]

/-- A pixel whose value is `MAX_I` gets not-a-number. -/
theorem colorOf_cap (C : Consts F) (hues : Int → Option F) :
    colorOf C hues (C.MAX_I : F) = none := by
  unfold colorOf
  rw [if_pos (truncInt_natCast C.MAX_I)]

/-- A pixel whose value is a natural number other than `MAX_I` gets the direct lookup. -/
theorem colorOf_nat (C : Consts F) (hues : Int → Option F) (v : Nat) (hv : v ≠ C.MAX_I) :
    colorOf C hues (v : F) = fsub (some 255) (fmul (some 255) (hues (v : Int))) := by
  have hne : ¬ (truncInt (v : F) = (C.MAX_I : Int)) := by
    rw [truncInt_natCast]
    omega
  unfold colorOf
  rw [if_neg hne, Int.ceil_natCast, Int.cast_natCast, truncInt_natCast, Int.tmod_one,
    Int.cast_zero, LinearInterpolation_zero]

/-- The cells of `arr` after the first `m` pixels of the row `i`. -/
theorem colorRow_fold (C : Consts F) (values : Nat → F) (hues : Int → Option F)
    (arr : Nat → Option F) (i m idx : Nat) :
    ((List.range m).foldl
        (fun arr j => Function.update arr (i * C.HEIGHT + j)
          (colorOf C hues (values (i * C.HEIGHT + j)))) arr) idx
      = if i * C.HEIGHT ≤ idx ∧ idx < i * C.HEIGHT + m
        then colorOf C hues (values idx) else arr idx := by
  induction m with
  | zero =>
    have : ¬ (i * C.HEIGHT ≤ idx ∧ idx < i * C.HEIGHT + 0) := by omega
    rw [if_neg this]
    simp
  | succ m ih =>
    rw [List.range_succ, List.foldl_append]
    simp only [List.foldl_cons, List.foldl_nil]
    by_cases h : idx = i * C.HEIGHT + m
    · subst h
      simp
    · rw [Function.update_noteq h, ih]
      by_cases h1 : i * C.HEIGHT ≤ idx ∧ idx < i * C.HEIGHT + m
      · have h2 : i * C.HEIGHT ≤ idx ∧ idx < i * C.HEIGHT + (m + 1) := by omega
        rw [if_pos h1, if_pos h2]
      · have h2 : ¬ (i * C.HEIGHT ≤ idx ∧ idx < i * C.HEIGHT + (m + 1)) := by omega
        rw [if_neg h1, if_neg h2]

theorem colorRow_eq (C : Consts F) (values : Nat → F) (hues : Int → Option F)
    (arr : Nat → Option F) (i : Nat) :
    colorRow C values hues arr i
      = (List.range C.HEIGHT).foldl
          (fun arr j => Function.update arr (i * C.HEIGHT + j)
            (colorOf C hues (values (i * C.HEIGHT + j)))) arr := rfl

/-- The cells of `arr` after the first `m` rows. -/
theorem colorGrid_fold (C : Consts F) (values : Nat → F) (hues : Int → Option F)
    (arr : Nat → Option F) (m idx : Nat) :
    ((List.range m).foldl (colorRow C values hues) arr) idx
      = if idx < m * C.HEIGHT then colorOf C hues (values idx) else arr idx := by
  induction m with
  | zero => simp
  | succ m ih =>
    rw [List.range_succ, List.foldl_append]
    simp only [List.foldl_cons, List.foldl_nil]
    rw [colorRow_eq, colorRow_fold, ih]
    have hmul : (m + 1) * C.HEIGHT = m * C.HEIGHT + C.HEIGHT := Nat.succ_mul _ _
    by_cases h1 : m * C.HEIGHT ≤ idx ∧ idx < m * C.HEIGHT + C.HEIGHT
    · have h2 : idx < (m + 1) * C.HEIGHT := by omega
      rw [if_pos h1, if_pos h2]
    · rw [if_neg h1]
      by_cases h3 : idx < m * C.HEIGHT
      · have h2 : idx < (m + 1) * C.HEIGHT := by omega
        rw [if_pos h3, if_pos h2]
      · have h2 : ¬ idx < (m + 1) * C.HEIGHT := by omega
        rw [if_neg h3, if_neg h2]

/-- Every cell of the grid holds after the call the colour of the value of that cell;
the cells past the grid are left as they were. -/
theorem CalculateColors_cell (C : Consts F) (values histogram : Nat → F)
    (hues0 : Int → Option F) (arr : Nat → Option F) (idx : Nat) :
    CalculateColors C values histogram hues0 arr idx
      = if idx < C.WIDTH * C.HEIGHT
        then colorOf C (huesOf C histogram hues0) (values idx) else arr idx := by
  unfold CalculateColors
  rw [colorGrid_fold]

/-- The cell of the pixel `(i, j)` lies in the grid. -/
theorem pixel_index_lt (W H i j : Nat) (hi : i < W) (hj : j < H) : i * H + j < W * H := by
  have : (i + 1) * H ≤ W * H := Nat.mul_le_mul_right _ hi
  rw [Nat.succ_mul] at this
  omega

theorem CalculateColors_pixel (C : Consts F) (values histogram : Nat → F)
    (hues0 : Int → Option F) (arr : Nat → Option F) (i j : Nat)
    (hi : i < C.WIDTH) (hj : j < C.HEIGHT) :
    CalculateColors C values histogram hues0 arr (i * C.HEIGHT + j)
      = colorOf C (huesOf C histogram hues0) (values (i * C.HEIGHT + j)) := by
  rw [CalculateColors_cell, if_pos (pixel_index_lt _ _ i j hi hj)]

end ColorLemmas

/-! ## The colour mapper: claims -/

section ColorClaims

variable {F : Type} [LinearOrderedField F] [FloorRing F]

/-- On a histogram of natural numbers whose sum is positive and at most `INT_MAX`, `total`
is that sum and the entry `hues[k]` is the sum of the buckets `0 .. k` divided by it. -/
theorem huesOf_nat (C : Consts F) (histogram : Nat → F) (hues0 : Int → Option F)
    (c : Nat → Nat) (hnat : ∀ k, k < C.MAX_I → histogram k = (c k : F))
    (hpos : 0 < ∑ k in Finset.range C.MAX_I, c k)
    (hfit : ∑ k in Finset.range C.MAX_I, c k < 2 ^ 31) (k : Nat) (hk : k < C.MAX_I) :
    huesOf C histogram hues0 (k : Int)
      = some (((∑ i in Finset.range (k + 1), c i : Nat) : F)
          / ((∑ i in Finset.range C.MAX_I, c i : Nat) : F)) := by
  have htot := totalOf_nat C histogram c hnat hfit
  have hcast : ((totalOf C histogram : Int) : F)
      = ((∑ i in Finset.range C.MAX_I, c i : Nat) : F) := by
    rw [htot, Int.cast_natCast]
  have hT : ((totalOf C histogram : Int) : F) ≠ 0 := by
    rw [hcast]
    exact Nat.cast_ne_zero.mpr (by omega)
  have hnum : ∑ i in Finset.range (k + 1), histogram i
      = ((∑ i in Finset.range (k + 1), c i : Nat) : F) := by
    rw [Nat.cast_sum]
    apply Finset.sum_congr rfl
    intro i hi
    exact hnat i (by have := Finset.mem_range.mp hi; omega)
  rw [huesOf_eq C histogram hues0 hT k hk, hcast, hnum]

/-- C11 as amended: for every histogram of natural numbers whose sum is positive and at
most `INT_MAX = 2^31 - 1`, the variable `total` is that sum, the array `hues` built by
`CalculateColors` is non-decreasing on `0 .. MAX_I-1` and its entry `hues[MAX_I-1]` is 1. -/
theorem hues_monotone_and_last_one (C : Consts F) (histogram : Nat → F)
    (hues0 : Int → Option F) (c : Nat → Nat)
    (hnat : ∀ k, k < C.MAX_I → histogram k = (c k : F))
    (hpos : 0 < ∑ k in Finset.range C.MAX_I, c k)
    (hfit : ∑ k in Finset.range C.MAX_I, c k < 2 ^ 31) :
    totalOf C histogram = ((∑ k in Finset.range C.MAX_I, c k : Nat) : Int) ∧
      (∀ k, k + 1 < C.MAX_I → ∃ a b : F,
        huesOf C histogram hues0 (k : Int) = some a ∧
        huesOf C histogram hues0 ((k : Int) + 1) = some b ∧ a ≤ b) ∧
      huesOf C histogram hues0 ((C.MAX_I : Int) - 1) = some 1 := by
  have hTpos : (0 : F) < ((∑ i in Finset.range C.MAX_I, c i : Nat) : F) :=
    Nat.cast_pos.mpr hpos
  refine ⟨totalOf_nat C histogram c hnat hfit, ?_, ?_⟩
  · intro k hk
    refine ⟨((∑ i in Finset.range (k + 1), c i : Nat) : F)
        / ((∑ i in Finset.range C.MAX_I, c i : Nat) : F),
      ((∑ i in Finset.range (k + 1 + 1), c i : Nat) : F)
        / ((∑ i in Finset.range C.MAX_I, c i : Nat) : F),
      huesOf_nat C histogram hues0 c hnat hpos hfit k (by omega), ?_, ?_⟩
    · have h := huesOf_nat C histogram hues0 c hnat hpos hfit (k + 1) hk
      rw [Nat.cast_succ] at h
      exact h
    · apply div_le_div_of_nonneg_right _ (le_of_lt hTpos)
      rw [Finset.sum_range_succ _ (k + 1)]
      exact Nat.cast_le.mpr (Nat.le_add_right _ _)
  · have hM : 0 < C.MAX_I := by
      by_contra h0
      have : C.MAX_I = 0 := by omega
      rw [this] at hpos
      simp at hpos
    have h := huesOf_nat C histogram hues0 c hnat hpos hfit (C.MAX_I - 1) (by omega)
    have hidx : ((C.MAX_I - 1 : Nat) : Int) = (C.MAX_I : Int) - 1 := by omega
    have hsucc : C.MAX_I - 1 + 1 = C.MAX_I := by omega
    rw [hidx, hsucc, div_self (ne_of_gt hTpos)] at h
    exact h

/-- Witness of the amended C11: the reference constants over the rational numbers, every
bucket 1. -/
theorem hues_monotone_and_last_one_witness :
    (∀ k, k < (reference ℚ).MAX_I → (fun _ : Nat => (1 : ℚ)) k = ((fun _ : Nat => 1) k : ℚ)) ∧
      0 < ∑ k in Finset.range (reference ℚ).MAX_I, (fun _ : Nat => 1) k ∧
      ∑ k in Finset.range (reference ℚ).MAX_I, (fun _ : Nat => 1) k < 2 ^ 31 ∧
      (totalOf (reference ℚ) (fun _ => 1)
          = ((∑ k in Finset.range (reference ℚ).MAX_I, (fun _ : Nat => 1) k : Nat) : Int) ∧
      (∀ k, k + 1 < (reference ℚ).MAX_I → ∃ a b : ℚ,
        huesOf (reference ℚ) (fun _ => 1) (fun _ => none) (k : Int) = some a ∧
        huesOf (reference ℚ) (fun _ => 1) (fun _ => none) ((k : Int) + 1) = some b ∧ a ≤ b) ∧
      huesOf (reference ℚ) (fun _ => 1) (fun _ => none) (((reference ℚ).MAX_I : Int) - 1)
        = some 1) :=
  ⟨fun _ _ => by simp, by simp [reference, MAX_I], by simp [reference, MAX_I],
    hues_monotone_and_last_one (reference ℚ) (fun _ => 1) (fun _ => none) (fun _ => 1)
      (fun _ _ => by simp) (by simp [reference, MAX_I]) (by simp [reference, MAX_I])⟩

/-- C11 fails on the code as it is stated for every sum: `total` is a 32-bit `int`. With
the constants of the source over the rational numbers and the histogram that holds
3000000000 in the bucket 0 and 0 in the others, the sum of the buckets is 3000000000, the
variable `total` is `INT_MIN = -2147483648` and the entry `hues[MAX_I-1]` is
`3000000000 / -2147483648 = -5859375/4194304`, not 1. -/
theorem hues_last_entry_not_one_beyond_int :
    ∑ i in Finset.range (reference ℚ).MAX_I,
          (fun i : Nat => if i = 0 then (3000000000 : ℚ) else 0) i = 3000000000 ∧
      totalOf (reference ℚ) (fun i => if i = 0 then (3000000000 : ℚ) else 0) = -2147483648 ∧
      huesOf (reference ℚ) (fun i => if i = 0 then (3000000000 : ℚ) else 0) (fun _ => none)
          (((reference ℚ).MAX_I : Int) - 1) = some (-(5859375 / 4194304)) ∧
      huesOf (reference ℚ) (fun i => if i = 0 then (3000000000 : ℚ) else 0) (fun _ => none)
          (((reference ℚ).MAX_I : Int) - 1) ≠ some 1 := by
  have hM : (reference ℚ).MAX_I = 79 + 1 := rfl
  have hsum : ∑ i in Finset.range (reference ℚ).MAX_I,
      (fun i : Nat => if i = 0 then (3000000000 : ℚ) else 0) i = 3000000000 := by
    rw [hM]
    simp only [Finset.sum_ite_eq', Finset.mem_range]
    norm_num
  obtain ⟨htot, hues⟩ := huesOf_beyond_int (reference ℚ)
    (fun i => if i = 0 then (3000000000 : ℚ) else 0) (fun _ => none) (if_pos rfl)
    (fun i hi => if_neg (by omega)) 79 (by rw [hM]; omega)
  have hidx : (((reference ℚ).MAX_I : Nat) : Int) - 1 = ((79 : Nat) : Int) := by
    rw [hM]
    norm_num
  have hval : (3000000000 : ℚ) / ((INT_MIN : Int) : ℚ) = -(5859375 / 4194304) := by
    unfold INT_MIN
    norm_num
  rw [hval] at hues
  refine ⟨hsum, htot, ?_, ?_⟩
  · rw [hidx]
    exact hues
  · rw [hidx, hues]
    norm_num

/-- C12 as amended: for every histogram of natural numbers whose sum `total` is positive
and at most `INT_MAX = 2^31 - 1`, every entry `hues[k]`, `0 ≤ k < MAX_I`, of the array
built by `CalculateColors` is a number of the interval `[0, 1]`. -/
theorem hues_in_unit_interval (C : Consts F) (histogram : Nat → F)
    (hues0 : Int → Option F) (c : Nat → Nat)
    (hnat : ∀ k, k < C.MAX_I → histogram k = (c k : F))
    (hpos : 0 < ∑ k in Finset.range C.MAX_I, c k)
    (hfit : ∑ k in Finset.range C.MAX_I, c k < 2 ^ 31) (k : Nat) (hk : k < C.MAX_I) :
    ∃ a : F, huesOf C histogram hues0 (k : Int) = some a ∧ 0 ≤ a ∧ a ≤ 1 := by
  have hTpos : (0 : F) < ((∑ i in Finset.range C.MAX_I, c i : Nat) : F) :=
    Nat.cast_pos.mpr hpos
  refine ⟨_, huesOf_nat C histogram hues0 c hnat hpos hfit k hk, ?_, ?_⟩
  · exact div_nonneg (Nat.cast_nonneg _) (le_of_lt hTpos)
  · rw [div_le_one hTpos]
    apply Nat.cast_le.mpr
    apply Finset.sum_le_sum_of_subset
    intro i hi
    have := Finset.mem_range.mp hi
    exact Finset.mem_range.mpr (by omega)

/-- Witness of the amended C12: the reference constants over the rational numbers, every
bucket 1, the entry `hues[3]`. -/
theorem hues_in_unit_interval_witness :
    (∀ k, k < (reference ℚ).MAX_I → (fun _ : Nat => (1 : ℚ)) k = ((fun _ : Nat => 1) k : ℚ)) ∧
      0 < ∑ k in Finset.range (reference ℚ).MAX_I, (fun _ : Nat => 1) k ∧
      ∑ k in Finset.range (reference ℚ).MAX_I, (fun _ : Nat => 1) k < 2 ^ 31 ∧
      3 < (reference ℚ).MAX_I ∧
      ∃ a : ℚ, huesOf (reference ℚ) (fun _ => 1) (fun _ => none) ((3 : Nat) : Int) = some a ∧
        0 ≤ a ∧ a ≤ 1 :=
  ⟨fun _ _ => by simp, by simp [reference, MAX_I], by simp [reference, MAX_I], by decide,
    hues_in_unit_interval (reference ℚ) (fun _ => 1) (fun _ => none) (fun _ => 1)
      (fun _ _ => by simp) (by simp [reference, MAX_I]) (by simp [reference, MAX_I]) 3
      (by decide)⟩

/-- C12 fails on the code as it is stated for every sum: `total` is a 32-bit `int`. With
the constants of the source over the rational numbers and the histogram that holds
3000000000 in the bucket 0 and 0 in the others, whose sum is 3000000000, the entry
`hues[0]` is `3000000000 / -2147483648 = -5859375/4194304`, a negative number, so it is
not in `[0, 1]`. -/
theorem hues_entry_negative_beyond_int :
    ∑ i in Finset.range (reference ℚ).MAX_I,
          (fun i : Nat => if i = 0 then (3000000000 : ℚ) else 0) i = 3000000000 ∧
      huesOf (reference ℚ) (fun i => if i = 0 then (3000000000 : ℚ) else 0) (fun _ => none)
          ((0 : Nat) : Int) = some (-(5859375 / 4194304)) ∧
      ¬ ∃ a : ℚ,
        huesOf (reference ℚ) (fun i => if i = 0 then (3000000000 : ℚ) else 0) (fun _ => none)
          ((0 : Nat) : Int) = some a ∧ 0 ≤ a ∧ a ≤ 1 := by
  have hM : (reference ℚ).MAX_I = 79 + 1 := rfl
  have hsum : ∑ i in Finset.range (reference ℚ).MAX_I,
      (fun i : Nat => if i = 0 then (3000000000 : ℚ) else 0) i = 3000000000 := by
    rw [hM]
    simp only [Finset.sum_ite_eq', Finset.mem_range]
    norm_num
  obtain ⟨_, hues⟩ := huesOf_beyond_int (reference ℚ)
    (fun i => if i = 0 then (3000000000 : ℚ) else 0) (fun _ => none) (if_pos rfl)
    (fun i hi => if_neg (by omega)) 0 (by rw [hM]; omega)
  have hval : (3000000000 : ℚ) / ((INT_MIN : Int) : ℚ) = -(5859375 / 4194304) := by
    unfold INT_MIN
    norm_num
  rw [hval] at hues
  refine ⟨hsum, hues, ?_⟩
  rintro ⟨a, ha, h0, _⟩
  rw [hues] at ha
  have : -(5859375 / 4194304 : ℚ) = a := Option.some.inj ha
  rw [← this] at h0
  norm_num at h0

/-- C13: for every histogram and every grid of values, a pixel whose value is `MAX_I` is
given not-a-number by `CalculateColors`, not a number. -/
theorem capped_pixel_is_NaN (C : Consts F) (values histogram : Nat → F)
    (hues0 : Int → Option F) (arr : Nat → Option F) (i j : Nat)
    (hi : i < C.WIDTH) (hj : j < C.HEIGHT)
    (hv : values (i * C.HEIGHT + j) = (C.MAX_I : F)) :
    CalculateColors C values histogram hues0 arr (i * C.HEIGHT + j) = none := by
  rw [CalculateColors_pixel C values histogram hues0 arr i j hi hj, hv, colorOf_cap]

/-- Witness of C13: the reference constants over the rational numbers, a grid of values
that holds `MAX_I` everywhere, the pixel `(450, 450)`. -/
theorem capped_pixel_is_NaN_witness :
    450 < (reference ℚ).WIDTH ∧ 450 < (reference ℚ).HEIGHT ∧
      (fun _ : Nat => (((reference ℚ).MAX_I : Nat) : ℚ)) (450 * (reference ℚ).HEIGHT + 450)
        = ((reference ℚ).MAX_I : ℚ) ∧
      CalculateColors (reference ℚ) (fun _ => (((reference ℚ).MAX_I : Nat) : ℚ)) (fun _ => 1)
        (fun _ => none) (fun _ => none) (450 * (reference ℚ).HEIGHT + 450) = none :=
  ⟨by decide, by decide, rfl,
    capped_pixel_is_NaN (reference ℚ) (fun _ => (((reference ℚ).MAX_I : Nat) : ℚ)) (fun _ => 1)
      (fun _ => none) (fun _ => none) 450 450 (by decide) (by decide) rfl⟩

/-- C14: for every pixel whose value is an integer `v` with `0 ≤ v < MAX_I`, the intensity
written by `CalculateColors`, which is computed with `LinearInterpolation`, is the direct
lookup `255 - 255*hues[v]`. -/
theorem integral_value_direct_lookup (C : Consts F) (values histogram : Nat → F)
    (hues0 : Int → Option F) (arr : Nat → Option F) (i j : Nat)
    (hi : i < C.WIDTH) (hj : j < C.HEIGHT) (v : Nat)
    (hv : values (i * C.HEIGHT + j) = (v : F)) (hlt : v < C.MAX_I) :
    CalculateColors C values histogram hues0 arr (i * C.HEIGHT + j)
      = fsub (some 255) (fmul (some 255) (huesOf C histogram hues0 (v : Int))) := by
  rw [CalculateColors_pixel C values histogram hues0 arr i j hi hj, hv,
    colorOf_nat C _ v (by omega)]

/-- Witness of C14: the reference constants over the rational numbers, a grid of values
that holds 3 everywhere, the pixel `(450, 450)`. -/
theorem integral_value_direct_lookup_witness :
    450 < (reference ℚ).WIDTH ∧ 450 < (reference ℚ).HEIGHT ∧
      (fun _ : Nat => ((3 : Nat) : ℚ)) (450 * (reference ℚ).HEIGHT + 450) = ((3 : Nat) : ℚ) ∧
      3 < (reference ℚ).MAX_I ∧
      CalculateColors (reference ℚ) (fun _ => ((3 : Nat) : ℚ)) (fun _ => 1)
          (fun _ => none) (fun _ => none) (450 * (reference ℚ).HEIGHT + 450)
        = fsub (some 255) (fmul (some 255)
            (huesOf (reference ℚ) (fun _ => 1) (fun _ => none) ((3 : Nat) : Int))) :=
  ⟨by decide, by decide, rfl, by decide,
    integral_value_direct_lookup (reference ℚ) (fun _ => ((3 : Nat) : ℚ)) (fun _ => 1)
      (fun _ => none) (fun _ => none) 450 450 (by decide) (by decide) 3 rfl (by decide)⟩

/-- C16 as amended: for every histogram of natural numbers whose sum `total` is positive
and at most `INT_MAX = 2^31 - 1` and every grid whose values are integers of `0 .. MAX_I`,
a pixel with a value below `MAX_I` is given a number of the interval `[0, 255]`, and a
pixel is given not-a-number exactly when its value is `MAX_I`. -/
theorem intensity_range (C : Consts F) (values histogram : Nat → F)
    (hues0 : Int → Option F) (arr : Nat → Option F) (c : Nat → Nat)
    (hnat : ∀ k, k < C.MAX_I → histogram k = (c k : F))
    (hpos : 0 < ∑ k in Finset.range C.MAX_I, c k)
    (hfit : ∑ k in Finset.range C.MAX_I, c k < 2 ^ 31) (i j : Nat)
    (hi : i < C.WIDTH) (hj : j < C.HEIGHT) (v : Nat)
    (hv : values (i * C.HEIGHT + j) = (v : F)) (hle : v ≤ C.MAX_I) :
    (v < C.MAX_I → ∃ x : F,
        CalculateColors C values histogram hues0 arr (i * C.HEIGHT + j) = some x ∧
        0 ≤ x ∧ x ≤ 255) ∧
      (CalculateColors C values histogram hues0 arr (i * C.HEIGHT + j) = none ↔
        v = C.MAX_I) := by
  have hTpos : (0 : F) < ((∑ i in Finset.range C.MAX_I, c i : Nat) : F) :=
    Nat.cast_pos.mpr hpos
  have hnum : v < C.MAX_I → ∃ x : F,
      CalculateColors C values histogram hues0 arr (i * C.HEIGHT + j) = some x ∧
      0 ≤ x ∧ x ≤ 255 := by
    intro hlt
    have h0 : (0 : F) ≤ ((∑ i in Finset.range (v + 1), c i : Nat) : F)
        / ((∑ i in Finset.range C.MAX_I, c i : Nat) : F) :=
      div_nonneg (Nat.cast_nonneg _) (le_of_lt hTpos)
    have h1 : ((∑ i in Finset.range (v + 1), c i : Nat) : F)
        / ((∑ i in Finset.range C.MAX_I, c i : Nat) : F) ≤ 1 := by
      rw [div_le_one hTpos]
      apply Nat.cast_le.mpr
      apply Finset.sum_le_sum_of_subset
      intro i hi
      have := Finset.mem_range.mp hi
      exact Finset.mem_range.mpr (by omega)
    refine ⟨255 - 255 * (((∑ i in Finset.range (v + 1), c i : Nat) : F)
        / ((∑ i in Finset.range C.MAX_I, c i : Nat) : F)), ?_, ?_, ?_⟩
    · rw [CalculateColors_pixel C values histogram hues0 arr i j hi hj, hv,
        colorOf_nat C _ v (by omega), huesOf_nat C histogram hues0 c hnat hpos hfit v hlt,
        fmul_some, fsub_some]
    · linarith
    · linarith
  refine ⟨hnum, ?_, ?_⟩
  · intro hnone
    by_contra hne
    obtain ⟨x, hx, _⟩ := hnum (by omega)
    rw [hx] at hnone
    exact Option.noConfusion hnone
  · intro heq
    rw [CalculateColors_pixel C values histogram hues0 arr i j hi hj, hv, heq, colorOf_cap]

/-- Witness of the amended C16: the reference constants over the rational numbers, every
bucket 1, a grid of values that holds 3 everywhere, the pixel `(450, 450)`. -/
theorem intensity_range_witness :
    (∀ k, k < (reference ℚ).MAX_I → (fun _ : Nat => (1 : ℚ)) k = ((fun _ : Nat => 1) k : ℚ)) ∧
      0 < ∑ k in Finset.range (reference ℚ).MAX_I, (fun _ : Nat => 1) k ∧
      ∑ k in Finset.range (reference ℚ).MAX_I, (fun _ : Nat => 1) k < 2 ^ 31 ∧
      450 < (reference ℚ).WIDTH ∧ 450 < (reference ℚ).HEIGHT ∧
      (fun _ : Nat => ((3 : Nat) : ℚ)) (450 * (reference ℚ).HEIGHT + 450) = ((3 : Nat) : ℚ) ∧
      3 ≤ (reference ℚ).MAX_I ∧
      ((3 < (reference ℚ).MAX_I → ∃ x : ℚ,
          CalculateColors (reference ℚ) (fun _ => ((3 : Nat) : ℚ)) (fun _ => 1)
            (fun _ => none) (fun _ => none) (450 * (reference ℚ).HEIGHT + 450) = some x ∧
          0 ≤ x ∧ x ≤ 255) ∧
        (CalculateColors (reference ℚ) (fun _ => ((3 : Nat) : ℚ)) (fun _ => 1)
            (fun _ => none) (fun _ => none) (450 * (reference ℚ).HEIGHT + 450) = none ↔
          3 = (reference ℚ).MAX_I)) :=
  ⟨fun _ _ => by simp, by simp [reference, MAX_I], by simp [reference, MAX_I], by decide,
    by decide, rfl, by decide,
    intensity_range (reference ℚ) (fun _ => ((3 : Nat) : ℚ)) (fun _ => 1)
      (fun _ => none) (fun _ => none) (fun _ => 1) (fun _ _ => by simp)
      (by simp [reference, MAX_I]) (by simp [reference, MAX_I]) 450 450 (by decide)
      (by decide) 3 rfl (by decide)⟩

/-- C16 fails on the code as it is stated for every sum: `total` is a 32-bit `int`. With
the constants of the source over the rational numbers, the histogram that holds 3000000000
in the bucket 0 and 0 in the others, whose sum is 3000000000, and a grid of values that
holds 3 everywhere, the pixel `(450, 450)`, whose value is below `MAX_I`, is given
`255 - 255 * (3000000000 / -2147483648) = 255 + 255 * 5859375/4194304`, a number above
255. -/
theorem intensity_above_255_beyond_int :
    ∑ i in Finset.range (reference ℚ).MAX_I,
          (fun i : Nat => if i = 0 then (3000000000 : ℚ) else 0) i = 3000000000 ∧
      CalculateColors (reference ℚ) (fun _ => ((3 : Nat) : ℚ))
          (fun i => if i = 0 then (3000000000 : ℚ) else 0) (fun _ => none) (fun _ => none)
          (450 * (reference ℚ).HEIGHT + 450) = some (255 + 255 * (5859375 / 4194304)) ∧
      ¬ ∃ x : ℚ,
        CalculateColors (reference ℚ) (fun _ => ((3 : Nat) : ℚ))
          (fun i => if i = 0 then (3000000000 : ℚ) else 0) (fun _ => none) (fun _ => none)
          (450 * (reference ℚ).HEIGHT + 450) = some x ∧ 0 ≤ x ∧ x ≤ 255 := by
  have hM : (reference ℚ).MAX_I = 79 + 1 := rfl
  have hsum : ∑ i in Finset.range (reference ℚ).MAX_I,
      (fun i : Nat => if i = 0 then (3000000000 : ℚ) else 0) i = 3000000000 := by
    rw [hM]
    simp only [Finset.sum_ite_eq', Finset.mem_range]
    norm_num
  obtain ⟨_, hues⟩ := huesOf_beyond_int (reference ℚ)
    (fun i => if i = 0 then (3000000000 : ℚ) else 0) (fun _ => none) (if_pos rfl)
    (fun i hi => if_neg (by omega)) 3 (by rw [hM]; omega)
  have hval : (3000000000 : ℚ) / ((INT_MIN : Int) : ℚ) = -(5859375 / 4194304) := by
    unfold INT_MIN
    norm_num
  rw [hval] at hues
  have hcell : CalculateColors (reference ℚ) (fun _ => ((3 : Nat) : ℚ))
      (fun i => if i = 0 then (3000000000 : ℚ) else 0) (fun _ => none) (fun _ => none)
      (450 * (reference ℚ).HEIGHT + 450) = some (255 + 255 * (5859375 / 4194304)) := by
    have hW : 450 < (reference ℚ).WIDTH := by decide
    have hH : 450 < (reference ℚ).HEIGHT := by decide
    have hne : 3 ≠ (reference ℚ).MAX_I := by decide
    rw [CalculateColors_pixel (reference ℚ) _ _ _ _ 450 450 hW hH,
      colorOf_nat (reference ℚ) _ 3 hne, hues, fmul_some, fsub_some]
    exact congrArg some (by ring)
  refine ⟨hsum, hcell, ?_⟩
  rintro ⟨x, hx, _, h255⟩
  rw [hcell] at hx
  have : (255 + 255 * (5859375 / 4194304) : ℚ) = x := Option.some.inj hx
  rw [← this] at h255
  norm_num at h255

end ColorClaims

/-! ## The coordinate mapping -/

section MapClaims

variable {F : Type} [LinearOrderedField F]

/-- C17: for every `W > 0` and every window bound `MAX_X ≥ 0` with `MIN_X = -MAX_X`,
`map(0, 0, W, MIN_X, MAX_X) = MIN_X` and `map(W, 0, W, MIN_X, MAX_X) = MAX_X`. -/
theorem map_endpoints (W lo hi : F) (hW : 0 < W) (hhi : 0 ≤ hi) (hsym : lo = -hi) :
    map 0 0 W lo hi = lo ∧ map W 0 W lo hi = hi := by
  subst hsym
  unfold map
  rw [abs_neg, abs_of_nonneg hhi, abs_of_pos hW, abs_zero, add_zero]
  constructor
  · simp
  · field_simp

/-- Witness of C17: the width and the window of the source, `W = 900` and
`MAX_X = 1.75`. -/
theorem map_endpoints_witness :
    0 < (((reference ℚ).WIDTH : Nat) : ℚ) ∧ 0 ≤ (reference ℚ).MAX_X ∧
      (reference ℚ).MIN_X = -(reference ℚ).MAX_X ∧
      (map 0 0 (((reference ℚ).WIDTH : Nat) : ℚ) (reference ℚ).MIN_X (reference ℚ).MAX_X
          = (reference ℚ).MIN_X ∧
        map (((reference ℚ).WIDTH : Nat) : ℚ) 0 (((reference ℚ).WIDTH : Nat) : ℚ)
            (reference ℚ).MIN_X (reference ℚ).MAX_X
          = (reference ℚ).MAX_X) :=
  have h1 : 0 < (((reference ℚ).WIDTH : Nat) : ℚ) := by
    norm_num [reference, WIDTH, SCALE]
  have h2 : 0 ≤ (reference ℚ).MAX_X := by
    norm_num [reference, MAX_X, CENTER_X, RANGE_X]
  have h3 : (reference ℚ).MIN_X = -(reference ℚ).MAX_X := by
    norm_num [reference, MIN_X, MAX_X, CENTER_X, RANGE_X]
  ⟨h1, h2, h3, map_endpoints _ _ _ h1 h2 h3⟩

/-- C18: for every `v`, every `end1 > 0` with `start1 = 0` and every target range with
`start2 = -end2` and `end2 ≥ 0`, `map` is the standard affine rescale
`start2 + (v - start1)*(end2 - start2)/(end1 - start1)`. -/
theorem map_eq_affineRescale (v start1 end1 start2 end2 : F) (hs1 : start1 = 0)
    (he1 : 0 < end1) (hs2 : start2 = -end2) (he2 : 0 ≤ end2) :
    map v start1 end1 start2 end2 = affineRescale v start1 end1 start2 end2 := by
  subst hs1 hs2
  unfold map affineRescale
  rw [abs_neg, abs_of_nonneg he2, abs_of_pos he1, abs_zero, add_zero, sub_zero, sub_zero,
    sub_neg_eq_add]

/-- Witness of C18: the pixel column 11 of a grid of width 12 and the window of the
source. -/
theorem map_eq_affineRescale_witness :
    (0 : ℚ) = 0 ∧ (0 : ℚ) < 12 ∧ (-(7 / 4) : ℚ) = -(7 / 4) ∧ (0 : ℚ) ≤ 7 / 4 ∧
      map (11 : ℚ) 0 12 (-(7 / 4)) (7 / 4) = affineRescale (11 : ℚ) 0 12 (-(7 / 4)) (7 / 4) :=
  ⟨rfl, by norm_num, rfl, by norm_num,
    map_eq_affineRescale 11 0 12 (-(7 / 4)) (7 / 4) rfl (by norm_num) rfl (by norm_num)⟩

end MapClaims

/-! ## The writers -/

section WriterClaims

variable {F : Type}

/-- The loop of the writers reads only the cells below its bound. -/
theorem writeElement_fold_congr (arr1 arr2 : Nat → Option F) (fp : List (Out F)) (n : Nat)
    (h : ∀ i, i < n → arr1 i = arr2 i) :
    (List.range n).foldl (writeElement arr1) fp = (List.range n).foldl (writeElement arr2) fp := by
  apply List.foldl_ext
  intro a i hi
  unfold writeElement
  rw [h i (List.mem_range.mp hi)]

/-- What `MiddleWriteToJSON` appends ends with the cell `WIDTH*HEIGHT` written with `%f`. -/
theorem MiddleWriteToJSON_eq (C : Consts F) (arr : Nat → Option F) (fp : List (Out F)) :
    MiddleWriteToJSON C arr fp
      = (List.range (C.WIDTH * C.HEIGHT - 1)).foldl (writeElement arr)
            (fp ++ [Out.text "\t\t["])
          ++ [Out.float (arr (C.WIDTH * C.HEIGHT)), Out.text "\t],\n"] := by
  unfold MiddleWriteToJSON
  simp only [List.append_assoc, List.singleton_append]

/-- What `LastWriteToJSON` appends ends with the cell `WIDTH*HEIGHT` written with `%f`. -/
theorem LastWriteToJSON_eq (C : Consts F) (arr : Nat → Option F) (fp : List (Out F)) :
    LastWriteToJSON C arr fp
      = (List.range (C.WIDTH * C.HEIGHT - 1)).foldl (writeElement arr)
            (fp ++ [Out.text "\t\t["])
          ++ [Out.float (arr (C.WIDTH * C.HEIGHT)), Out.text "\t]\n"] := by
  unfold LastWriteToJSON
  simp only [List.append_assoc, List.singleton_append]

/-- The cell of the last pixel is not read by `MiddleWriteToJSON`. -/
theorem MiddleWriteToJSON_last_pixel (C : Consts F) (arr : Nat → Option F)
    (fp : List (Out F)) (x : Option F) (hN : 0 < C.WIDTH * C.HEIGHT) :
    MiddleWriteToJSON C (Function.update arr (C.WIDTH * C.HEIGHT - 1) x) fp
      = MiddleWriteToJSON C arr fp := by
  unfold MiddleWriteToJSON
  have hne : C.WIDTH * C.HEIGHT ≠ C.WIDTH * C.HEIGHT - 1 := by omega
  simp only
  rw [Function.update_noteq hne,
    writeElement_fold_congr (Function.update arr (C.WIDTH * C.HEIGHT - 1) x) arr _ _
      (fun i hi => Function.update_noteq (by omega) _ _)]

/-- The cell of the last pixel is not read by `LastWriteToJSON`. -/
theorem LastWriteToJSON_last_pixel (C : Consts F) (arr : Nat → Option F)
    (fp : List (Out F)) (x : Option F) (hN : 0 < C.WIDTH * C.HEIGHT) :
    LastWriteToJSON C (Function.update arr (C.WIDTH * C.HEIGHT - 1) x) fp
      = LastWriteToJSON C arr fp := by
  unfold LastWriteToJSON
  have hne : C.WIDTH * C.HEIGHT ≠ C.WIDTH * C.HEIGHT - 1 := by omega
  simp only
  rw [Function.update_noteq hne,
    writeElement_fold_congr (Function.update arr (C.WIDTH * C.HEIGHT - 1) x) arr _ _
      (fun i hi => Function.update_noteq (by omega) _ _)]

/-- C19 fails on the code: after the loop over the cells `0 .. WIDTH*HEIGHT-2` both
writers print `arr[WIDTH*HEIGHT]`, the cell past the grid, with `%f` and without the test
for not-a-number. With the constants of the source, for every grid and every file: the
last element written is the cell `WIDTH*HEIGHT`, and the cell `WIDTH*HEIGHT-1` of the last
pixel has no effect on what is written. -/
theorem writers_read_past_the_grid (arr : Nat → Option ℚ) (fp : List (Out ℚ)) (x : Option ℚ) :
    (∃ pre, MiddleWriteToJSON (reference ℚ) arr fp
        = pre ++ [Out.float (arr ((reference ℚ).WIDTH * (reference ℚ).HEIGHT)),
            Out.text "\t],\n"]) ∧
      (∃ pre, LastWriteToJSON (reference ℚ) arr fp
        = pre ++ [Out.float (arr ((reference ℚ).WIDTH * (reference ℚ).HEIGHT)),
            Out.text "\t]\n"]) ∧
      MiddleWriteToJSON (reference ℚ)
          (Function.update arr ((reference ℚ).WIDTH * (reference ℚ).HEIGHT - 1) x) fp
        = MiddleWriteToJSON (reference ℚ) arr fp ∧
      LastWriteToJSON (reference ℚ)
          (Function.update arr ((reference ℚ).WIDTH * (reference ℚ).HEIGHT - 1) x) fp
        = LastWriteToJSON (reference ℚ) arr fp := by
  have hN : 0 < (reference ℚ).WIDTH * (reference ℚ).HEIGHT := by decide
  exact ⟨⟨_, MiddleWriteToJSON_eq _ arr fp⟩, ⟨_, LastWriteToJSON_eq _ arr fp⟩,
    MiddleWriteToJSON_last_pixel _ arr fp x hN, LastWriteToJSON_last_pixel _ arr fp x hN⟩

end WriterClaims

/-! ## The end-to-end scenario: counts -/

section ScenarioClaims

/-- The guard of the loop over the real numbers, without the square root. -/
theorem guard_iff (x y : ℝ) : realLibm.sqrt (x * x + y * y) < 4 ↔ x * x + y * y < 16 := by
  rw [realLibm_sqrt, Real.sqrt_lt' (by norm_num)]
  norm_num

/-- The loop for the exponent 2 and the zero offset from a point `(a, b)` that passes the
guard and whose first iterate `(x1, y1)` does not: the count is 1. -/
theorem count_one (maxI : Nat) (a b x1 y1 : ℝ) (hM : 0 < maxI)
    (hx : x1 = a ^ 2 - b ^ 2 + a) (hy : y1 = 2 * a * b + b)
    (h0 : a * a + b * b < 16) (h1 : 16 ≤ x1 * x1 + y1 * y1) :
    (whileLoop realLibm maxI { re := a, im := b } 2 0 0 { re := a, im := b } 0).2 = 1 := by
  have hne : ¬ (a = 0 ∧ b = 0) := by
    rintro ⟨ha, hb⟩
    subst ha hb
    rw [hx, hy] at h1
    norm_num at h1
  rw [whileLoop, if_pos ⟨hM, (guard_iff a b).mpr h0⟩, Alg_two a b a b hne, ← hx, ← hy,
    whileLoop, if_neg]
  rintro ⟨-, g⟩
  have := (guard_iff x1 y1).mp g
  linarith

/-- The loop for the exponent 2 and the zero offset from a point `(a, b)` that passes the
guard, whose first iterate `(x1, y1)` passes it and whose second iterate `(x2, y2)` does
not: the count is 2. -/
theorem count_two (maxI : Nat) (a b x1 y1 x2 y2 : ℝ) (hM : 1 < maxI)
    (hx1 : x1 = a ^ 2 - b ^ 2 + a) (hy1 : y1 = 2 * a * b + b)
    (hx2 : x2 = x1 ^ 2 - y1 ^ 2 + a) (hy2 : y2 = 2 * x1 * y1 + b)
    (hne0 : ¬ (a = 0 ∧ b = 0)) (hne1 : ¬ (x1 = 0 ∧ y1 = 0))
    (h0 : a * a + b * b < 16) (h1 : x1 * x1 + y1 * y1 < 16)
    (h2 : 16 ≤ x2 * x2 + y2 * y2) :
    (whileLoop realLibm maxI { re := a, im := b } 2 0 0 { re := a, im := b } 0).2 = 2 := by
  rw [whileLoop, if_pos ⟨by omega, (guard_iff a b).mpr h0⟩, Alg_two a b a b hne0, ← hx1, ← hy1,
    whileLoop, if_pos ⟨hM, (guard_iff x1 y1).mpr h1⟩, Alg_two x1 y1 a b hne1, ← hx2, ← hy2,
    whileLoop, if_neg]
  rintro ⟨-, g⟩
  have := (guard_iff x2 y2).mp g
  linarith

/-- The points of the plane of the pixels of the scenario: the pixel `(i, j)` is mapped to
`(-7/4 + i*(7/2)/12, -7/4 + j*(7/2)/12)`. -/
theorem pixelPoint_scenario (i j : Nat) :
    pixelPoint (scenario ℝ) i j
      = { re := -(7 / 4) + (i : ℝ) * (7 / 2) / 12, im := -(7 / 4) + (j : ℝ) * (7 / 2) / 12 } := by
  have h1 : |(7 : ℝ) / 4| = 7 / 4 := abs_of_pos (by norm_num)
  have h2 : |(12 : ℝ)| = 12 := abs_of_pos (by norm_num)
  unfold pixelPoint map
  simp only [scenario, MIN_X, MAX_X, MIN_Y, MAX_Y, CENTER_X, CENTER_Y, RANGE_X, RANGE_Y]
  norm_num [h1, h2]

theorem pixelCount_scenario_centre :
    pixelCount (scenario ℝ) realLibm 2 0 0 6 6 = (scenario ℝ).MAX_I := by
  have hp : pixelPoint (scenario ℝ) 6 6 = { re := 0, im := 0 } := by
    rw [pixelPoint_scenario]
    norm_num
  rw [pixelCount_eq, hp]
  exact whileLoop_origin realLibm _ _ 2 0 0 (by rw [realLibm_sqrt, Real.sqrt_zero]; norm_num)

theorem pixelCount_scenario_0_0 : pixelCount (scenario ℝ) realLibm 2 0 0 0 0 = 1 := by
  have hp : pixelPoint (scenario ℝ) 0 0 = { re := -(7 / 4), im := -(7 / 4) } := by
    rw [pixelPoint_scenario]
    norm_num
  rw [pixelCount_eq, hp]
  exact count_one _ _ _ _ _ (by decide) rfl rfl (by norm_num) (by norm_num)

theorem pixelCount_scenario_0_11 : pixelCount (scenario ℝ) realLibm 2 0 0 0 11 = 2 := by
  have hp : pixelPoint (scenario ℝ) 0 11 = { re := -(7 / 4), im := 35 / 24 } := by
    rw [pixelPoint_scenario]
    norm_num
  rw [pixelCount_eq, hp]
  exact count_two _ _ _ _ _ _ _ (by decide) rfl rfl rfl rfl (by norm_num) (by norm_num)
    (by norm_num) (by norm_num) (by norm_num)

theorem pixelCount_scenario_11_0 : pixelCount (scenario ℝ) realLibm 2 0 0 11 0 = 1 := by
  have hp : pixelPoint (scenario ℝ) 11 0 = { re := 35 / 24, im := -(7 / 4) } := by
    rw [pixelPoint_scenario]
    norm_num
  rw [pixelCount_eq, hp]
  exact count_one _ _ _ _ _ (by decide) rfl rfl (by norm_num) (by norm_num)

theorem pixelCount_scenario_11_11 : pixelCount (scenario ℝ) realLibm 2 0 0 11 11 = 1 := by
  have hp : pixelPoint (scenario ℝ) 11 11 = { re := 35 / 24, im := 35 / 24 } := by
    rw [pixelPoint_scenario]
    norm_num
  rw [pixelCount_eq, hp]
  exact count_one _ _ _ _ _ (by decide) rfl rfl (by norm_num) (by norm_num)

/-- C20: in the scenario of a 12 by 12 grid with the cap 20, the exponent 2, the zero
offset and the window of the source, over the real numbers, the centre pixel `(6, 6)` has
the count `MAX_I = 20` and each of the corner pixels `(0, 0)`, `(0, 11)`, `(11, 0)`,
`(11, 11)` has a count of at most 3; these are the values that `Mandelbrot` stores in
their cells. -/
theorem scenario_centre_and_corners (values histogram : Nat → ℝ) :
    (scenario ℝ).MAX_I = 20 ∧
      pixelCount (scenario ℝ) realLibm 2 0 0 6 6 = (scenario ℝ).MAX_I ∧
      pixelCount (scenario ℝ) realLibm 2 0 0 0 0 ≤ 3 ∧
      pixelCount (scenario ℝ) realLibm 2 0 0 0 11 ≤ 3 ∧
      pixelCount (scenario ℝ) realLibm 2 0 0 11 0 ≤ 3 ∧
      pixelCount (scenario ℝ) realLibm 2 0 0 11 11 ≤ 3 ∧
      (Mandelbrot (scenario ℝ) realLibm values histogram 2 0 0).1 (6 * (scenario ℝ).HEIGHT + 6)
        = ((scenario ℝ).MAX_I : ℝ) ∧
      (Mandelbrot (scenario ℝ) realLibm values histogram 2 0 0).1 (0 * (scenario ℝ).HEIGHT + 0)
        ≤ 3 ∧
      (Mandelbrot (scenario ℝ) realLibm values histogram 2 0 0).1 (0 * (scenario ℝ).HEIGHT + 11)
        ≤ 3 ∧
      (Mandelbrot (scenario ℝ) realLibm values histogram 2 0 0).1 (11 * (scenario ℝ).HEIGHT + 0)
        ≤ 3 ∧
      (Mandelbrot (scenario ℝ) realLibm values histogram 2 0 0).1 (11 * (scenario ℝ).HEIGHT + 11)
        ≤ 3 := by
  have hW : (scenario ℝ).WIDTH = 12 := rfl
  have hH : (scenario ℝ).HEIGHT = 12 := rfl
  have v66 := Mandelbrot_values (scenario ℝ) realLibm values histogram 2 0 0 6 6
    (by rw [hW]; norm_num) (by rw [hH]; norm_num)
  have v00 := Mandelbrot_values (scenario ℝ) realLibm values histogram 2 0 0 0 0
    (by rw [hW]; norm_num) (by rw [hH]; norm_num)
  have v0b := Mandelbrot_values (scenario ℝ) realLibm values histogram 2 0 0 0 11
    (by rw [hW]; norm_num) (by rw [hH]; norm_num)
  have vb0 := Mandelbrot_values (scenario ℝ) realLibm values histogram 2 0 0 11 0
    (by rw [hW]; norm_num) (by rw [hH]; norm_num)
  have vbb := Mandelbrot_values (scenario ℝ) realLibm values histogram 2 0 0 11 11
    (by rw [hW]; norm_num) (by rw [hH]; norm_num)
  rw [pixelCount_scenario_centre] at v66
  rw [pixelCount_scenario_0_0] at v00
  rw [pixelCount_scenario_0_11] at v0b
  rw [pixelCount_scenario_11_0] at vb0
  rw [pixelCount_scenario_11_11] at vbb
  refine ⟨rfl, pixelCount_scenario_centre, ?_, ?_, ?_, ?_, v66, ?_, ?_, ?_, ?_⟩
  · rw [pixelCount_scenario_0_0]; decide
  · rw [pixelCount_scenario_0_11]; decide
  · rw [pixelCount_scenario_11_0]; decide
  · rw [pixelCount_scenario_11_11]; decide
  · rw [v00]; norm_num
  · rw [v0b]; norm_num
  · rw [vb0]; norm_num
  · rw [vbb]; norm_num

end ScenarioClaims

/-! ## The step `Alg`: offset and base of the power -/

section StepClaims

variable {F : Type} [LinearOrderedField F]

/-- The offset is a shift of the added constant, at the origin too. -/
theorem Alg_offset_shift (L : Libm F) (z c : Complex F) (power cR cI : F) :
    Alg L z c power cR cI
      = Alg L z { re := c.re + cR, im := c.im + cI } power 0 0 := by
  unfold Alg
  by_cases h : z.re = 0 ∧ z.im = 0
  · rw [if_pos h, if_pos h]
  · rw [if_neg h, if_neg h]
    simp only [add_zero, add_assoc]

/-- C24: for every point `z` other than the origin, every `c`, every exponent and every
offset `(cR, cI)`, `Alg(z, c, power, cR, cI) = Alg(z, (c.re + cR, c.im + cI), power, 0, 0)`:
the offset is a shift of the added constant, added to the power of `z` at every step. It
holds for every `math.h`, so over the real numbers. -/
theorem Alg_offset_is_shift (L : Libm F) (z c : Complex F) (power cR cI : F)
    (hz : ¬ (z.re = 0 ∧ z.im = 0)) :
    Alg L z c power cR cI
        = Alg L z { re := c.re + cR, im := c.im + cI } power 0 0 ∧
      Alg L z c power cR cI
        = { re := L.pow (z.re * z.re + z.im * z.im) (power / 2.0)
                * L.cos (power * L.atan2 z.im z.re) + (c.re + cR),
            im := L.pow (z.re * z.re + z.im * z.im) (power / 2.0)
                * L.sin (power * L.atan2 z.im z.re) + (c.im + cI) } := by
  refine ⟨Alg_offset_shift L z c power cR cI, ?_⟩
  unfold Alg
  rw [if_neg hz]
  simp only [add_assoc]

/-- Witness of C24: the real `math.h`, the point `(1, 2)`, the exponent `-3/2` and the
offset `(5, 6)`. -/
theorem Alg_offset_is_shift_witness :
    ¬ ((1 : ℝ) = 0 ∧ (2 : ℝ) = 0) ∧
      (Alg realLibm { re := 1, im := 2 } { re := 3, im := 4 } (-(3 / 2)) 5 6
        = Alg realLibm { re := 1, im := 2 } { re := 3 + 5, im := 4 + 6 } (-(3 / 2)) 0 0 ∧
      Alg realLibm { re := 1, im := 2 } { re := 3, im := 4 } (-(3 / 2)) 5 6
        = { re := realLibm.pow ((1 : ℝ) * 1 + 2 * 2) (-(3 / 2) / 2.0)
                * realLibm.cos (-(3 / 2) * realLibm.atan2 2 1) + (3 + 5),
            im := realLibm.pow ((1 : ℝ) * 1 + 2 * 2) (-(3 / 2) / 2.0)
                * realLibm.sin (-(3 / 2) * realLibm.atan2 2 1) + (4 + 6) }) :=
  ⟨by norm_num,
    Alg_offset_is_shift realLibm { re := 1, im := 2 } { re := 3, im := 4 } (-(3 / 2)) 5 6
      (by norm_num)⟩

/-- The result of `Alg` does not depend on what `pow` returns for a base that is not
positive. -/
theorem Alg_pow_congr (L L2 : Libm F) (z c : Complex F) (power cR cI : F)
    (hpow : ∀ x y, 0 < x → L2.pow x y = L.pow x y) (hatan : L2.atan2 = L.atan2)
    (hcos : L2.cos = L.cos) (hsin : L2.sin = L.sin) :
    Alg L2 z c power cR cI = Alg L z c power cR cI := by
  unfold Alg
  by_cases h : z.re = 0 ∧ z.im = 0
  · rw [if_pos h, if_pos h]
  · have hpos : 0 < z.re * z.re + z.im * z.im := by
      by_cases hre : z.re = 0
      · have him : z.im ≠ 0 := fun h2 => h ⟨hre, h2⟩
        have := mul_self_pos.mpr him
        have := mul_self_nonneg z.re
        linarith
      · have := mul_self_pos.mpr hre
        have := mul_self_nonneg z.im
        linarith
    rw [if_neg h, if_neg h]
    simp only [hpow _ _ hpos, hatan, hcos, hsin]

/-- The base of the power is positive away from the origin. -/
theorem base_pos (x y : F) (h : ¬ (x = 0 ∧ y = 0)) : 0 < x * x + y * y := by
  by_cases hx : x = 0
  · have hy : y ≠ 0 := fun h2 => h ⟨hx, h2⟩
    have := mul_self_pos.mpr hy
    have := mul_self_nonneg x
    linarith
  · have := mul_self_pos.mpr hx
    have := mul_self_nonneg y
    linarith

end StepClaims

section PowClaim

/-- C25: over the real numbers, for every input `z` other than `(0, 0)`, that is whenever
`Alg` evaluates `pow`, the base `re^2 + im^2` passed to `pow` is strictly positive, the
power is a positive real number for every real exponent, and the result of `Alg` does not
depend on what `pow` returns for a base that is not positive. -/
theorem pow_base_positive (z c : Complex ℝ) (power cR cI : ℝ)
    (hz : ¬ (z.re = 0 ∧ z.im = 0)) :
    0 < z.re * z.re + z.im * z.im ∧
      0 < realLibm.pow (z.re * z.re + z.im * z.im) (power / 2.0) ∧
      Alg realLibm z c power cR cI
        = { re := realLibm.pow (z.re * z.re + z.im * z.im) (power / 2.0)
                * realLibm.cos (power * realLibm.atan2 z.im z.re) + c.re + cR,
            im := realLibm.pow (z.re * z.re + z.im * z.im) (power / 2.0)
                * realLibm.sin (power * realLibm.atan2 z.im z.re) + c.im + cI } ∧
      (∀ L2 : Libm ℝ, (∀ x y, 0 < x → L2.pow x y = realLibm.pow x y) →
        L2.atan2 = realLibm.atan2 → L2.cos = realLibm.cos → L2.sin = realLibm.sin →
        Alg L2 z c power cR cI = Alg realLibm z c power cR cI) := by
  have hpos := base_pos z.re z.im hz
  refine ⟨hpos, ?_, ?_, ?_⟩
  · rw [realLibm_pow]
    exact Real.rpow_pos_of_pos hpos _
  · unfold Alg
    rw [if_neg hz]
  · intro L2 hpow hatan hcos hsin
    exact Alg_pow_congr realLibm L2 z c power cR cI hpow hatan hcos hsin

/-- Witness of C25: the point `(1, 2)` with the exponent `-3/2`. -/
theorem pow_base_positive_witness :
    ¬ ((1 : ℝ) = 0 ∧ (2 : ℝ) = 0) ∧
      (0 < (1 : ℝ) * 1 + 2 * 2 ∧
      0 < realLibm.pow ((1 : ℝ) * 1 + 2 * 2) (-(3 / 2) / 2.0) ∧
      Alg realLibm { re := 1, im := 2 } { re := 3, im := 4 } (-(3 / 2)) 0 0
        = { re := realLibm.pow ((1 : ℝ) * 1 + 2 * 2) (-(3 / 2) / 2.0)
                * realLibm.cos (-(3 / 2) * realLibm.atan2 2 1) + 3 + 0,
            im := realLibm.pow ((1 : ℝ) * 1 + 2 * 2) (-(3 / 2) / 2.0)
                * realLibm.sin (-(3 / 2) * realLibm.atan2 2 1) + 4 + 0 } ∧
      (∀ L2 : Libm ℝ, (∀ x y, 0 < x → L2.pow x y = realLibm.pow x y) →
        L2.atan2 = realLibm.atan2 → L2.cos = realLibm.cos → L2.sin = realLibm.sin →
        Alg L2 { re := 1, im := 2 } { re := 3, im := 4 } (-(3 / 2)) 0 0
          = Alg realLibm { re := 1, im := 2 } { re := 3, im := 4 } (-(3 / 2)) 0 0)) :=
  ⟨by norm_num,
    pow_base_positive { re := 1, im := 2 } { re := 3, im := 4 } (-(3 / 2)) 0 0 (by norm_num)⟩

end PowClaim

/-! ## The coordinate mapping: the window of the source -/

section WindowClaims

/-- C27: there are arguments for which `map` differs from the standard affine rescale
`start2 + (v - start1)*(end2 - start2)/(end1 - start1)`: one with a target range with
`start2 > 0`, and one with a source domain with `start1 ≠ 0`. -/
theorem map_differs_from_affineRescale :
    (∃ v start1 end1 start2 end2 : ℚ, 0 < start2 ∧
        map v start1 end1 start2 end2 ≠ affineRescale v start1 end1 start2 end2) ∧
      (∃ v start1 end1 start2 end2 : ℚ, start1 ≠ 0 ∧
        map v start1 end1 start2 end2 ≠ affineRescale v start1 end1 start2 end2) ∧
      map (1 : ℚ) 0 1 1 2 = 4 ∧ affineRescale (1 : ℚ) 0 1 1 2 = 2 ∧
      map (1 : ℚ) 1 2 0 1 = 1 / 3 ∧ affineRescale (1 : ℚ) 1 2 0 1 = 0 := by
  have h1 : |(1 : ℚ)| = 1 := abs_of_pos (by norm_num)
  have h2 : |(2 : ℚ)| = 2 := abs_of_pos (by norm_num)
  have m1 : map (1 : ℚ) 0 1 1 2 = 4 := by
    unfold map
    rw [h1, h2, abs_zero]
    norm_num
  have a1 : affineRescale (1 : ℚ) 0 1 1 2 = 2 := by
    unfold affineRescale
    norm_num
  have m2 : map (1 : ℚ) 1 2 0 1 = 1 / 3 := by
    unfold map
    rw [h1, h2, abs_zero]
    norm_num
  have a2 : affineRescale (1 : ℚ) 1 2 0 1 = 0 := by
    unfold affineRescale
    norm_num
  refine ⟨⟨1, 0, 1, 1, 2, by norm_num, ?_⟩, ⟨1, 1, 2, 0, 1, by norm_num, ?_⟩, m1, a1, m2, a2⟩
  · rw [m1, a1]
    norm_num
  · rw [m2, a2]
    norm_num

variable {F : Type} [LinearOrderedField F]

/-- With the constants of the source the column `i` is mapped to `-7/4 + i*(7/2)/900`. -/
theorem map_reference_X (i : Nat) :
    map (i : F) 0 ((reference F).WIDTH : F) (reference F).MIN_X (reference F).MAX_X
      = -(7 / 4) + (i : F) * (7 / 2) / 900 := by
  have h1 : |(7 : F) / 4| = 7 / 4 := abs_of_pos (by norm_num)
  have h2 : |(900 : F)| = 900 := abs_of_pos (by norm_num)
  unfold map
  simp only [reference, WIDTH, SCALE, MIN_X, MAX_X, CENTER_X, RANGE_X]
  norm_num [h1, h2]

/-- With the constants of the source the row `j` is mapped to `-7/4 + j*(7/2)/900`. -/
theorem map_reference_Y (j : Nat) :
    map (j : F) 0 ((reference F).HEIGHT : F) (reference F).MIN_Y (reference F).MAX_Y
      = -(7 / 4) + (j : F) * (7 / 2) / 900 := by
  have h1 : |(7 : F) / 4| = 7 / 4 := abs_of_pos (by norm_num)
  have h2 : |(900 : F)| = 900 := abs_of_pos (by norm_num)
  unfold map
  simp only [reference, HEIGHT, SCALE, MIN_Y, MAX_Y, CENTER_Y, RANGE_Y]
  norm_num [h1, h2]

theorem reference_window :
    (reference F).MIN_X = -(7 / 4) ∧ (reference F).MAX_X = 7 / 4 ∧
      (reference F).MIN_Y = -(7 / 4) ∧ (reference F).MAX_Y = 7 / 4 := by
  simp only [reference, MIN_X, MAX_X, MIN_Y, MAX_Y, CENTER_X, CENTER_Y, RANGE_X, RANGE_Y]
  norm_num

/-- C28: with the constants of the source, for every column `i < WIDTH` the coordinate
`map(i, 0, WIDTH, MIN_X, MAX_X)` lies in `[MIN_X, MAX_X)` and is strictly increasing in
`i`, and likewise for every row `j < HEIGHT` and the Y axis: every pixel lies in the
window and `MAX_X`, `MAX_Y` are not sampled. -/
theorem pixel_coordinates_in_window (i j : Nat) (hi : i < (reference F).WIDTH)
    (hj : j < (reference F).HEIGHT) :
    (reference F).MIN_X
        ≤ map (i : F) 0 ((reference F).WIDTH : F) (reference F).MIN_X (reference F).MAX_X ∧
      map (i : F) 0 ((reference F).WIDTH : F) (reference F).MIN_X (reference F).MAX_X
        < (reference F).MAX_X ∧
      (reference F).MIN_Y
        ≤ map (j : F) 0 ((reference F).HEIGHT : F) (reference F).MIN_Y (reference F).MAX_Y ∧
      map (j : F) 0 ((reference F).HEIGHT : F) (reference F).MIN_Y (reference F).MAX_Y
        < (reference F).MAX_Y ∧
      (∀ i2 : Nat, i < i2 →
        map (i : F) 0 ((reference F).WIDTH : F) (reference F).MIN_X (reference F).MAX_X
          < map (i2 : F) 0 ((reference F).WIDTH : F) (reference F).MIN_X (reference F).MAX_X) ∧
      (∀ j2 : Nat, j < j2 →
        map (j : F) 0 ((reference F).HEIGHT : F) (reference F).MIN_Y (reference F).MAX_Y
          < map (j2 : F) 0 ((reference F).HEIGHT : F) (reference F).MIN_Y
              (reference F).MAX_Y) := by
  obtain ⟨w1, w2, w3, w4⟩ := reference_window (F := F)
  have hW : (reference F).WIDTH = 900 := rfl
  have hH : (reference F).HEIGHT = 900 := rfl
  have hi2 : (i : F) < 900 := by
    rw [hW] at hi
    exact_mod_cast hi
  have hj2 : (j : F) < 900 := by
    rw [hH] at hj
    exact_mod_cast hj
  have hi0 : (0 : F) ≤ (i : F) := Nat.cast_nonneg i
  have hj0 : (0 : F) ≤ (j : F) := Nat.cast_nonneg j
  refine ⟨?_, ?_, ?_, ?_, ?_, ?_⟩
  · rw [map_reference_X, w1]
    linarith
  · rw [map_reference_X, w2]
    linarith
  · rw [map_reference_Y, w3]
    linarith
  · rw [map_reference_Y, w4]
    linarith
  · intro i2 h
    have : (i : F) < (i2 : F) := Nat.cast_lt.mpr h
    rw [map_reference_X, map_reference_X]
    linarith
  · intro j2 h
    have : (j : F) < (j2 : F) := Nat.cast_lt.mpr h
    rw [map_reference_Y, map_reference_Y]
    linarith

/-- Witness of C28: the last pixel `(899, 899)`, over the rational numbers. -/
theorem pixel_coordinates_in_window_witness :
    899 < (reference ℚ).WIDTH ∧ 899 < (reference ℚ).HEIGHT ∧
      ((reference ℚ).MIN_X
        ≤ map ((899 : Nat) : ℚ) 0 ((reference ℚ).WIDTH : ℚ) (reference ℚ).MIN_X
            (reference ℚ).MAX_X ∧
      map ((899 : Nat) : ℚ) 0 ((reference ℚ).WIDTH : ℚ) (reference ℚ).MIN_X (reference ℚ).MAX_X
        < (reference ℚ).MAX_X ∧
      (reference ℚ).MIN_Y
        ≤ map ((899 : Nat) : ℚ) 0 ((reference ℚ).HEIGHT : ℚ) (reference ℚ).MIN_Y
            (reference ℚ).MAX_Y ∧
      map ((899 : Nat) : ℚ) 0 ((reference ℚ).HEIGHT : ℚ) (reference ℚ).MIN_Y
          (reference ℚ).MAX_Y
        < (reference ℚ).MAX_Y ∧
      (∀ i2 : Nat, 899 < i2 →
        map ((899 : Nat) : ℚ) 0 ((reference ℚ).WIDTH : ℚ) (reference ℚ).MIN_X
            (reference ℚ).MAX_X
          < map (i2 : ℚ) 0 ((reference ℚ).WIDTH : ℚ) (reference ℚ).MIN_X (reference ℚ).MAX_X) ∧
      (∀ j2 : Nat, 899 < j2 →
        map ((899 : Nat) : ℚ) 0 ((reference ℚ).HEIGHT : ℚ) (reference ℚ).MIN_Y
            (reference ℚ).MAX_Y
          < map (j2 : ℚ) 0 ((reference ℚ).HEIGHT : ℚ) (reference ℚ).MIN_Y
              (reference ℚ).MAX_Y)) :=
  ⟨by decide, by decide, pixel_coordinates_in_window 899 899 (by decide) (by decide)⟩

end WindowClaims

/-! ## The colour mapper: the second loop for every `total` -/

section HuesGeneralLemmas

variable {F : Type} [LinearOrderedField F]

theorem fadd_none_right (x : Option F) : fadd x none = none := by
  cases x <;> rfl

theorem fmul_none_left (x : Option F) : fmul none x = none := by
  cases x <;> rfl

theorem fmul_none_right (x : Option F) : fmul x none = none := by
  cases x <;> rfl

theorem fadd_none_left (x : Option F) : fadd none x = none := by
  cases x <;> rfl

theorem fsub_none_right (x : Option F) : fsub x none = none := by
  cases x <;> rfl

/-- The running sum `h` of the second loop does not depend on the content of `hues`. -/
theorem hues_fold_fst (histogram : Nat → F) (T : Int) (h0 : Option F)
    (hues1 hues2 : Int → Option F) (m : Nat) :
    ((List.range m).foldl (huesStep histogram T) (h0, hues1)).1
      = ((List.range m).foldl (huesStep histogram T) (h0, hues2)).1 := by
  induction m with
  | zero => rfl
  | succ m ih =>
    rw [List.range_succ, List.foldl_append, List.foldl_append]
    simp only [List.foldl_cons, List.foldl_nil]
    rw [huesStep_eq, huesStep_eq, ih]

/-- The array `hues` after `m` steps of the second loop: the entry `z` with `0 ≤ z < m`
is the running sum after `z + 1` steps, every other entry is as before the loop. -/
theorem hues_fold_snd (histogram : Nat → F) (T : Int) (h0 : Option F)
    (hues0 : Int → Option F) (m : Nat) (z : Int) :
    ((List.range m).foldl (huesStep histogram T) (h0, hues0)).2 z
      = if 0 ≤ z ∧ z < (m : Int)
        then ((List.range (z.toNat + 1)).foldl (huesStep histogram T) (h0, hues0)).1
        else hues0 z := by
  induction m with
  | zero =>
    have : ¬ (0 ≤ z ∧ z < ((0 : Nat) : Int)) := by omega
    rw [if_neg this]
    rfl
  | succ m ih =>
    rw [List.range_succ, List.foldl_append]
    simp only [List.foldl_cons, List.foldl_nil]
    rw [huesStep_eq]
    simp only
    by_cases hz : z = (m : Int)
    · subst hz
      have h1 : 0 ≤ (m : Int) ∧ (m : Int) < ((m + 1 : Nat) : Int) := by omega
      rw [Function.update_same, if_pos h1, Int.toNat_ofNat, List.range_succ,
        List.foldl_append]
      simp only [List.foldl_cons, List.foldl_nil]
      rw [huesStep_eq]
    · rw [Function.update_noteq hz, ih]
      by_cases h1 : 0 ≤ z ∧ z < (m : Int)
      · have h2 : 0 ≤ z ∧ z < ((m + 1 : Nat) : Int) := by omega
        rw [if_pos h1, if_pos h2]
      · have h2 : ¬ (0 ≤ z ∧ z < ((m + 1 : Nat) : Int)) := by omega
        rw [if_neg h1, if_neg h2]

/-- When `total` is 0 the running sum is not-a-number after the first step. -/
theorem hues_fold_total_zero (histogram : Nat → F) (T : Int) (hT : (T : F) = 0)
    (hues0 : Int → Option F) (m : Nat) :
    ((List.range (m + 1)).foldl (huesStep histogram T) (some 0, hues0)).1 = none := by
  rw [List.range_succ, List.foldl_append]
  simp only [List.foldl_cons, List.foldl_nil]
  rw [huesStep_eq, hT, fdiv_zero, fadd_none_right]

end HuesGeneralLemmas

section HuesGeneralLemmas2

variable {F : Type} [LinearOrderedField F] [FloorRing F]

/-- The entry `hues[k]`, `k < MAX_I`, is the running sum after `k + 1` steps. -/
theorem huesOf_entry (C : Consts F) (histogram : Nat → F) (hues0 : Int → Option F)
    (k : Nat) (hk : k < C.MAX_I) :
    huesOf C histogram hues0 (k : Int)
      = ((List.range (k + 1)).foldl (huesStep histogram (totalOf C histogram))
          (some 0, hues0)).1 := by
  have hin : 0 ≤ (k : Int) ∧ (k : Int) < (C.MAX_I : Int) := by omega
  unfold huesOf huesLoop
  by_cases hlast : (k : Int) = (C.MAX_I : Int) - 1
  · have hk1 : k + 1 = C.MAX_I := by omega
    rw [hlast, Function.update_same, hk1]
  · rw [Function.update_noteq hlast, hues_fold_snd, if_pos hin, Int.toNat_ofNat]

/-- The entries `hues[0 .. MAX_I-1]` do not depend on the content of `hues` before the
loop. -/
theorem huesOf_indep (C : Consts F) (histogram : Nat → F) (hues1 hues2 : Int → Option F)
    (k : Nat) (hk : k < C.MAX_I) :
    huesOf C histogram hues1 (k : Int) = huesOf C histogram hues2 (k : Int) := by
  rw [huesOf_entry C histogram hues1 k hk, huesOf_entry C histogram hues2 k hk]
  exact hues_fold_fst _ _ _ _ _ _

/-- The store of line 172 changes nothing when `MAX_I` is positive. -/
theorem huesOf_eq_huesLoop (C : Consts F) (histogram : Nat → F) (hues0 : Int → Option F)
    (hM : 0 < C.MAX_I) :
    huesOf C histogram hues0 = (huesLoop C histogram hues0).2 := by
  have hin : 0 ≤ (C.MAX_I : Int) - 1 ∧ (C.MAX_I : Int) - 1 < (C.MAX_I : Int) := by omega
  have hidx : ((C.MAX_I : Int) - 1).toNat + 1 = C.MAX_I := by omega
  have h : (huesLoop C histogram hues0).2 ((C.MAX_I : Int) - 1)
      = (huesLoop C histogram hues0).1 := by
    unfold huesLoop
    rw [hues_fold_snd, if_pos hin, hidx]
  unfold huesOf
  rw [← h]
  exact Function.update_eq_self _ _

/-- When `total` is 0 every entry `hues[0 .. MAX_I-1]` is not-a-number. -/
theorem huesOf_total_zero (C : Consts F) (histogram : Nat → F) (hues0 : Int → Option F)
    (htot : totalOf C histogram = 0) (k : Nat) (hk : k < C.MAX_I) :
    huesOf C histogram hues0 (k : Int) = none := by
  rw [huesOf_entry C histogram hues0 k hk]
  exact hues_fold_total_zero histogram _ (by rw [htot]; exact Int.cast_zero) hues0 k

end HuesGeneralLemmas2

/-! ## The colour mapper: the last store, the layout and the total 0 -/

section LayoutClaims

variable {F : Type} [LinearOrderedField F] [FloorRing F]

/-- C23: for every histogram, the store `hues[MAX_I - 1] = h` of line 172 leaves the array
`hues` unchanged, since the last step of the loop has stored `h` in that entry:
`CalculateColors` with and without the store compute the same array `hues` and the same
grid of intensities. The cap `MAX_I` is positive, as in the source. -/
theorem last_store_is_redundant (C : Consts F) (values histogram : Nat → F)
    (hues0 : Int → Option F) (arr : Nat → Option F) (hM : 0 < C.MAX_I) :
    huesOf C histogram hues0 = (huesLoop C histogram hues0).2 ∧
      CalculateColors C values histogram hues0 arr
        = CalculateColorsWithoutLastStore C values histogram hues0 arr := by
  have h := huesOf_eq_huesLoop C histogram hues0 hM
  refine ⟨h, ?_⟩
  unfold CalculateColors CalculateColorsWithoutLastStore
  rw [h]

/-- Witness of C23: the constants of the source over the rational numbers. -/
theorem last_store_is_redundant_witness :
    0 < (reference ℚ).MAX_I ∧
      (huesOf (reference ℚ) (fun _ => 1) (fun _ => none)
          = (huesLoop (reference ℚ) (fun _ => 1) (fun _ => none)).2 ∧
        CalculateColors (reference ℚ) (fun _ => 3) (fun _ => 1) (fun _ => none) (fun _ => none)
          = CalculateColorsWithoutLastStore (reference ℚ) (fun _ => 3) (fun _ => 1)
              (fun _ => none) (fun _ => none)) :=
  ⟨by decide,
    last_store_is_redundant (reference ℚ) (fun _ => 3) (fun _ => 1) (fun _ => none)
      (fun _ => none) (by decide)⟩

/-- The layout `(i, j) ↦ i*H + j` is a bijection from the pixels of a `W` by `H` grid
onto the cells below `W*H`. -/
theorem layout_bijOn (W H : Nat) :
    Set.BijOn (fun p : Nat × Nat => p.1 * H + p.2) {p | p.1 < W ∧ p.2 < H}
      {k | k < W * H} := by
  refine ⟨?_, ?_, ?_⟩
  · rintro ⟨i, j⟩ ⟨hi, hj⟩
    exact pixel_index_lt W H i j hi hj
  · rintro ⟨i, j⟩ ⟨_, hj⟩ ⟨i2, j2⟩ ⟨_, hj2⟩ heq
    simp only at heq hj hj2
    have hpos : 0 < H := by omega
    have d1 : (i * H + j) / H = i := by
      rw [Nat.mul_comm, Nat.mul_add_div hpos, Nat.div_eq_of_lt hj, Nat.add_zero]
    have d2 : (i2 * H + j2) / H = i2 := by
      rw [Nat.mul_comm, Nat.mul_add_div hpos, Nat.div_eq_of_lt hj2, Nat.add_zero]
    have m1 : (i * H + j) % H = j := by
      rw [Nat.mul_comm, Nat.mul_add_mod, Nat.mod_eq_of_lt hj]
    have m2 : (i2 * H + j2) % H = j2 := by
      rw [Nat.mul_comm, Nat.mul_add_mod, Nat.mod_eq_of_lt hj2]
    have hi : i = i2 := by rw [← d1, ← d2, heq]
    have hj3 : j = j2 := by rw [← m1, ← m2, heq]
    rw [hi, hj3]
  · intro k hk
    have hk2 : k < W * H := hk
    have hpos : 0 < H := by
      rcases Nat.eq_zero_or_pos H with h0 | h0
      · rw [h0, Nat.mul_zero] at hk2
        omega
      · exact h0
    refine ⟨(k / H, k % H), ⟨?_, Nat.mod_lt _ hpos⟩, ?_⟩
    · exact (Nat.div_lt_iff_lt_mul hpos).mpr hk2
    · show k / H * H + k % H = k
      rw [Nat.mul_comm]
      exact Nat.div_add_mod k H

/-- C29: the layout is the same in the producer and the consumer. The map
`(i, j) ↦ i*HEIGHT + j` is a bijection from the pixels onto the cells below
`WIDTH*HEIGHT`; `Mandelbrot` leaves in every such cell `k` the count of the one pixel
`(k / HEIGHT, k % HEIGHT)` of that cell, whatever the cell held, and leaves the other cells
alone; and the intensity that `CalculateColors` writes in the cell `k` depends on the value
of the cell `k` and on the histogram only: not on the other values, not on what `arr` held
and, for a value that is a count of `0 .. MAX_I`, not on what `hues` held. -/
theorem layout_is_consistent (C : Consts F) (L : Libm F) (values histogram : Nat → F)
    (power cR cI : F) (hues0 : Int → Option F) (k : Nat) (hk : k < C.WIDTH * C.HEIGHT) :
    Set.BijOn (fun p : Nat × Nat => p.1 * C.HEIGHT + p.2)
        {p | p.1 < C.WIDTH ∧ p.2 < C.HEIGHT} {k | k < C.WIDTH * C.HEIGHT} ∧
      (Mandelbrot C L values histogram power cR cI).1 k
        = (pixelCount C L power cR cI (k / C.HEIGHT) (k % C.HEIGHT) : F) ∧
      (∀ k2, C.WIDTH * C.HEIGHT ≤ k2 →
        (Mandelbrot C L values histogram power cR cI).1 k2 = values k2) ∧
      (∀ (values1 values2 : Nat → F) (arr1 arr2 : Nat → Option F),
        values1 k = values2 k →
        CalculateColors C values1 histogram hues0 arr1 k
          = CalculateColors C values2 histogram hues0 arr2 k) ∧
      (∀ (values1 values2 : Nat → F) (arr1 arr2 : Nat → Option F)
        (hues1 hues2 : Int → Option F) (v : Nat), v ≤ C.MAX_I →
        values1 k = (v : F) → values2 k = (v : F) →
        CalculateColors C values1 histogram hues1 arr1 k
          = CalculateColors C values2 histogram hues2 arr2 k) ∧
      CalculateColors C (Mandelbrot C L values histogram power cR cI).1 histogram hues0
          (fun _ => none) k
        = colorOf C (huesOf C histogram hues0)
            (pixelCount C L power cR cI (k / C.HEIGHT) (k % C.HEIGHT) : F) := by
  have hval : (Mandelbrot C L values histogram power cR cI).1 k
      = (pixelCount C L power cR cI (k / C.HEIGHT) (k % C.HEIGHT) : F) := by
    unfold Mandelbrot
    rw [grid_values, if_pos hk]
  refine ⟨layout_bijOn C.WIDTH C.HEIGHT, hval, ?_, ?_, ?_, ?_⟩
  · intro k2 hk2
    unfold Mandelbrot
    rw [grid_values, if_neg (by omega)]
  · intro values1 values2 arr1 arr2 heq
    rw [CalculateColors_cell, CalculateColors_cell, if_pos hk, if_pos hk, heq]
  · intro values1 values2 arr1 arr2 hues1 hues2 v hv h1 h2
    rw [CalculateColors_cell, CalculateColors_cell, if_pos hk, if_pos hk, h1, h2]
    by_cases hcap : v = C.MAX_I
    · rw [hcap, colorOf_cap, colorOf_cap]
    · rw [colorOf_nat C _ v hcap, colorOf_nat C _ v hcap,
        huesOf_indep C histogram hues1 hues2 v (by omega)]
  · rw [CalculateColors_cell, if_pos hk, hval]

/-- Witness of C29: the cell 405450 of the pixel `(450, 450)` of the reference grid. -/
theorem layout_is_consistent_witness :
    405450 < (reference ℝ).WIDTH * (reference ℝ).HEIGHT ∧
      (Set.BijOn (fun p : Nat × Nat => p.1 * (reference ℝ).HEIGHT + p.2)
        {p | p.1 < (reference ℝ).WIDTH ∧ p.2 < (reference ℝ).HEIGHT}
        {k | k < (reference ℝ).WIDTH * (reference ℝ).HEIGHT} ∧
      (Mandelbrot (reference ℝ) realLibm
          (fun _ => 0) (fun _ => 0) 2 0 0).1 405450
        = (pixelCount (reference ℝ) realLibm
            2 0 0 (405450 / (reference ℝ).HEIGHT) (405450 % (reference ℝ).HEIGHT) : ℝ) ∧
      (∀ k2, (reference ℝ).WIDTH * (reference ℝ).HEIGHT ≤ k2 →
        (Mandelbrot (reference ℝ) realLibm
          (fun _ => 0) (fun _ => 0) 2 0 0).1 k2 = (fun _ : Nat => (0 : ℝ)) k2) ∧
      (∀ (values1 values2 : Nat → ℝ) (arr1 arr2 : Nat → Option ℝ),
        values1 405450 = values2 405450 →
        CalculateColors (reference ℝ) values1 (fun _ => 0) (fun _ => none) arr1 405450
          = CalculateColors (reference ℝ) values2 (fun _ => 0) (fun _ => none) arr2 405450) ∧
      (∀ (values1 values2 : Nat → ℝ) (arr1 arr2 : Nat → Option ℝ)
        (hues1 hues2 : Int → Option ℝ) (v : Nat), v ≤ (reference ℝ).MAX_I →
        values1 405450 = (v : ℝ) → values2 405450 = (v : ℝ) →
        CalculateColors (reference ℝ) values1 (fun _ => 0) hues1 arr1 405450
          = CalculateColors (reference ℝ) values2 (fun _ => 0) hues2 arr2 405450) ∧
      CalculateColors (reference ℝ)
          (Mandelbrot (reference ℝ) realLibm
            (fun _ => 0) (fun _ => 0) 2 0 0).1 (fun _ => 0) (fun _ => none)
          (fun _ => none) 405450
        = colorOf (reference ℝ) (huesOf (reference ℝ) (fun _ => 0) (fun _ => none))
            (pixelCount (reference ℝ) realLibm
              2 0 0 (405450 / (reference ℝ).HEIGHT) (405450 % (reference ℝ).HEIGHT) : ℝ)) :=
  ⟨by decide,
    layout_is_consistent (reference ℝ) realLibm
      (fun _ => 0) (fun _ => 0) 2 0 0 (fun _ => none) 405450 (by decide)⟩

/-- C30: when the `total` of the histogram passed to `CalculateColors` is 0, as it is when
all buckets are zero, every division by `total` yields not-a-number, every entry
`hues[0 .. MAX_I-1]` is not-a-number, and every pixel whose value is a count below `MAX_I`
is given not-a-number, not a number of `[0, 255]`. -/
theorem total_zero_gives_NaN (C : Consts F) (values histogram : Nat → F)
    (hues0 : Int → Option F) (arr : Nat → Option F)
    (htot : totalOf C histogram = 0) (i j : Nat) (hi : i < C.WIDTH) (hj : j < C.HEIGHT)
    (v : Nat) (hv : values (i * C.HEIGHT + j) = (v : F)) (hlt : v < C.MAX_I) :
    (∀ k, fdiv (some (histogram k)) (some ((totalOf C histogram : Int) : F)) = none) ∧
      (∀ k, k < C.MAX_I → huesOf C histogram hues0 (k : Int) = none) ∧
      CalculateColors C values histogram hues0 arr (i * C.HEIGHT + j) = none ∧
      ¬ ∃ x : F, CalculateColors C values histogram hues0 arr (i * C.HEIGHT + j) = some x := by
  have hcell : CalculateColors C values histogram hues0 arr (i * C.HEIGHT + j) = none := by
    rw [CalculateColors_pixel C values histogram hues0 arr i j hi hj, hv,
      colorOf_nat C _ v (by omega), huesOf_total_zero C histogram hues0 htot v hlt,
      fmul_none_right, fsub_none_right]
  refine ⟨?_, ?_, hcell, ?_⟩
  · intro k
    rw [htot, Int.cast_zero, fdiv_zero]
  · intro k hk
    exact huesOf_total_zero C histogram hues0 htot k hk
  · rintro ⟨x, hx⟩
    rw [hcell] at hx
    exact Option.noConfusion hx

/-- The `total` of the histogram whose buckets are all zero is 0. -/
theorem totalOf_zero (C : Consts F) : totalOf C (fun _ => 0) = 0 := by
  have h := totalOf_nat C (fun _ => (0 : F)) (fun _ => 0) (fun _ _ => by simp) (by simp)
  rw [h]
  simp

/-- Witness of C30: the constants of the source over the rational numbers, all buckets
zero, a grid of values that holds 3 everywhere, the pixel `(450, 450)`. -/
theorem total_zero_gives_NaN_witness :
    totalOf (reference ℚ) (fun _ => 0) = 0 ∧
      450 < (reference ℚ).WIDTH ∧ 450 < (reference ℚ).HEIGHT ∧
      (fun _ : Nat => ((3 : Nat) : ℚ)) (450 * (reference ℚ).HEIGHT + 450) = ((3 : Nat) : ℚ) ∧
      3 < (reference ℚ).MAX_I ∧
      ((∀ k, fdiv (some ((fun _ : Nat => (0 : ℚ)) k))
          (some ((totalOf (reference ℚ) (fun _ => 0) : Int) : ℚ)) = none) ∧
      (∀ k, k < (reference ℚ).MAX_I →
        huesOf (reference ℚ) (fun _ => 0) (fun _ => none) (k : Int) = none) ∧
      CalculateColors (reference ℚ) (fun _ => ((3 : Nat) : ℚ)) (fun _ => 0) (fun _ => none)
        (fun _ => none) (450 * (reference ℚ).HEIGHT + 450) = none ∧
      ¬ ∃ x : ℚ, CalculateColors (reference ℚ) (fun _ => ((3 : Nat) : ℚ)) (fun _ => 0)
        (fun _ => none) (fun _ => none) (450 * (reference ℚ).HEIGHT + 450) = some x) :=
  ⟨totalOf_zero (reference ℚ), by decide, by decide, rfl, by decide,
    total_zero_gives_NaN (reference ℚ) (fun _ => ((3 : Nat) : ℚ)) (fun _ => 0) (fun _ => none)
      (fun _ => none) (totalOf_zero (reference ℚ)) 450 450 (by decide) (by decide) 3 rfl
      (by decide)⟩

end LayoutClaims

/-! ## The colour mapper: `hues` as partial sums over `total` -/

section PartialSumClaims

variable {F : Type} [LinearOrderedField F] [FloorRing F]

/-- The loop of `total` on a histogram of integers whose running sums all lie in the range
of `int`: no rounding takes place. -/
theorem total_fold_int (histogram : Nat → F) (c : Nat → Int) (m : Nat)
    (hint : ∀ k, k < m → histogram k = (c k : F))
    (hfit : ∀ l, l ≤ m →
      INT_MIN ≤ ∑ k in Finset.range l, c k ∧ ∑ k in Finset.range l, c k ≤ INT_MAX) :
    (List.range m).foldl (fun total i => toInt32 ((total : F) + histogram i)) (0 : Int)
      = ∑ k in Finset.range m, c k := by
  induction m with
  | zero => simp
  | succ m ih =>
    rw [List.range_succ, List.foldl_append,
      ih (fun k hk => hint k (by omega)) (fun l hl => hfit l (by omega))]
    simp only [List.foldl_cons, List.foldl_nil]
    have hlast := hfit (m + 1) (le_refl _)
    rw [Finset.sum_range_succ] at hlast
    rw [hint m (by omega), Finset.sum_range_succ, ← Int.cast_add,
      toInt32_intCast _ hlast.1 hlast.2]

/-- C22 as amended: for every histogram whose buckets are integers and whose running sums
`histogram[0] + ... + histogram[l-1]`, `l ≤ MAX_I`, all lie in the range
`INT_MIN .. INT_MAX` of the 32-bit `int`, with `total`, the sum of the buckets, not 0, the
variable `total` of `CalculateColors` is that sum and for every `k` of `0 .. MAX_I-1` the
entry `hues[k]` is `(histogram[0] + ... + histogram[k]) / total`. -/
theorem hues_is_partial_sum_over_total (C : Consts F) (histogram : Nat → F)
    (hues0 : Int → Option F) (c : Nat → Int)
    (hint : ∀ i, i < C.MAX_I → histogram i = (c i : F))
    (hfit : ∀ l, l ≤ C.MAX_I →
      INT_MIN ≤ ∑ i in Finset.range l, c i ∧ ∑ i in Finset.range l, c i ≤ INT_MAX)
    (hne : ∑ i in Finset.range C.MAX_I, histogram i ≠ 0) (k : Nat) (hk : k < C.MAX_I) :
    ((totalOf C histogram : Int) : F) = ∑ i in Finset.range C.MAX_I, histogram i ∧
      huesOf C histogram hues0 (k : Int)
        = some ((∑ i in Finset.range (k + 1), histogram i)
            / (∑ i in Finset.range C.MAX_I, histogram i)) := by
  have htot : ((totalOf C histogram : Int) : F) = ∑ i in Finset.range C.MAX_I, histogram i := by
    unfold totalOf
    rw [total_fold_int histogram c C.MAX_I hint hfit, Int.cast_sum]
    apply Finset.sum_congr rfl
    intro i hi
    exact (hint i (Finset.mem_range.mp hi)).symm
  refine ⟨htot, ?_⟩
  rw [huesOf_eq C histogram hues0 (by rw [htot]; exact hne) k hk, htot]

/-- Witness of the amended C22: the constants of the source over the rational numbers,
every bucket 1, the entry `hues[3]`. -/
theorem hues_is_partial_sum_over_total_witness :
    (∀ i, i < (reference ℚ).MAX_I → (fun _ : Nat => (1 : ℚ)) i = (((fun _ => 1) i : Int) : ℚ)) ∧
      (∀ l, l ≤ (reference ℚ).MAX_I →
        INT_MIN ≤ ∑ i in Finset.range l, (fun _ : Nat => (1 : Int)) i ∧
        ∑ i in Finset.range l, (fun _ : Nat => (1 : Int)) i ≤ INT_MAX) ∧
      ∑ i in Finset.range (reference ℚ).MAX_I, (fun _ : Nat => (1 : ℚ)) i ≠ 0 ∧
      3 < (reference ℚ).MAX_I ∧
      (((totalOf (reference ℚ) (fun _ => 1) : Int) : ℚ)
          = ∑ i in Finset.range (reference ℚ).MAX_I, (fun _ : Nat => (1 : ℚ)) i ∧
        huesOf (reference ℚ) (fun _ => 1) (fun _ => none) ((3 : Nat) : Int)
          = some ((∑ i in Finset.range (3 + 1), (fun _ : Nat => (1 : ℚ)) i)
              / (∑ i in Finset.range (reference ℚ).MAX_I, (fun _ : Nat => (1 : ℚ)) i))) :=
  have hfit : ∀ l, l ≤ (reference ℚ).MAX_I →
      INT_MIN ≤ ∑ i in Finset.range l, (fun _ : Nat => (1 : Int)) i ∧
      ∑ i in Finset.range l, (fun _ : Nat => (1 : Int)) i ≤ INT_MAX := by
    intro l hl
    have hM : (reference ℚ).MAX_I = 80 := rfl
    rw [hM] at hl
    simp only [Finset.sum_const, Finset.card_range, nsmul_eq_mul, mul_one]
    unfold INT_MIN INT_MAX
    omega
  ⟨fun _ _ => by simp, hfit, by simp [reference, MAX_I], by decide,
    hues_is_partial_sum_over_total (reference ℚ) (fun _ => 1) (fun _ => none) (fun _ => 1)
      (fun _ _ => by simp) hfit (by simp [reference, MAX_I]) 3 (by decide)⟩

end PartialSumClaims

section PartialSumCounterexample

/-- The loop of `total` on the histogram that holds `3/2` in the bucket 0 and 0 in the
others: the first sum `0 + 3/2` is converted to the `int` 1, which the other steps keep. -/
theorem total_fold_three_halves (m : Nat) :
    (List.range (m + 1)).foldl
        (fun total i => toInt32 ((total : ℚ) + (if i = 0 then (3 / 2 : ℚ) else 0))) (0 : Int)
      = 1 := by
  induction m with
  | zero =>
    have hfloor : ⌊(3 / 2 : ℚ)⌋ = 1 := by
      rw [Int.floor_eq_iff]
      norm_num
    simp only [List.range_succ, List.range_zero, List.nil_append, List.foldl_cons,
      List.foldl_nil, if_true, Int.cast_zero, zero_add]
    have htrunc : truncInt (3 / 2 : ℚ) = 1 := by
      unfold truncInt
      rw [if_pos (by norm_num), hfloor]
    unfold toInt32
    rw [htrunc, if_pos (by unfold INT_MIN INT_MAX; omega)]
  | succ m ih =>
    rw [List.range_succ, List.foldl_append, ih]
    simp only [List.foldl_cons, List.foldl_nil]
    rw [if_neg (Nat.succ_ne_zero m), add_zero]
    exact toInt32_intCast 1 (by unfold INT_MIN; omega) (by unfold INT_MAX; omega)

/-- C22 fails on the code as it is stated for every histogram: `total` is an `int`, and
the running sum is rounded toward zero when it is stored in it. With the constants of the
source over the rational numbers and the histogram that holds `3/2` in the bucket 0 and 0
in the others, the sum of the buckets is `3/2`, not 0, the variable `total` is 1 and
`hues[0]` is `3/2`, not `(3/2) / (3/2) = 1`. -/
theorem hues_is_not_partial_sum_over_sum :
    ∑ i in Finset.range (reference ℚ).MAX_I, (fun i : Nat => if i = 0 then (3 / 2 : ℚ) else 0) i
        = 3 / 2 ∧
      totalOf (reference ℚ) (fun i => if i = 0 then (3 / 2 : ℚ) else 0) = 1 ∧
      huesOf (reference ℚ) (fun i => if i = 0 then (3 / 2 : ℚ) else 0) (fun _ => none)
          ((0 : Nat) : Int) = some (3 / 2) ∧
      huesOf (reference ℚ) (fun i => if i = 0 then (3 / 2 : ℚ) else 0) (fun _ => none)
          ((0 : Nat) : Int)
        ≠ some ((∑ i in Finset.range (0 + 1),
              (fun i : Nat => if i = 0 then (3 / 2 : ℚ) else 0) i)
            / (∑ i in Finset.range (reference ℚ).MAX_I,
              (fun i : Nat => if i = 0 then (3 / 2 : ℚ) else 0) i)) := by
  have hM : (reference ℚ).MAX_I = 79 + 1 := rfl
  have hsum : ∑ i in Finset.range (reference ℚ).MAX_I,
      (fun i : Nat => if i = 0 then (3 / 2 : ℚ) else 0) i = 3 / 2 := by
    rw [hM]
    simp only [Finset.sum_ite_eq', Finset.mem_range]
    norm_num
  have htot : totalOf (reference ℚ) (fun i => if i = 0 then (3 / 2 : ℚ) else 0) = 1 := by
    unfold totalOf
    rw [hM]
    exact total_fold_three_halves 79
  have hues : huesOf (reference ℚ) (fun i => if i = 0 then (3 / 2 : ℚ) else 0) (fun _ => none)
      ((0 : Nat) : Int) = some (3 / 2) := by
    rw [huesOf_eq _ _ _ (by rw [htot]; norm_num) 0 (by rw [hM]; omega), htot]
    simp
  refine ⟨hsum, htot, hues, ?_⟩
  rw [hues, hsum]
  simp only [Finset.sum_range_one, if_true]
  norm_num

end PartialSumCounterexample

/-! ## The end-to-end scenario: intensities -/

section ScenarioLemmas

/-- The orbit for the exponent 2 and the zero offset of a point `(a, 0)` with `-1 < a < 0`
stays on the real axis, between `a` and 0. -/
theorem orbit_real_axis (a : ℝ) (h1 : -1 < a) (h2 : a < 0) (k : Nat) :
    (orbit realLibm { re := a, im := 0 } 2 0 0 { re := a, im := 0 } k).im = 0 ∧
      a ≤ (orbit realLibm { re := a, im := 0 } 2 0 0 { re := a, im := 0 } k).re ∧
      (orbit realLibm { re := a, im := 0 } 2 0 0 { re := a, im := 0 } k).re < 0 := by
  induction k with
  | zero => exact ⟨rfl, le_refl a, h2⟩
  | succ k ih =>
    obtain ⟨hi, hlo, hhi⟩ := ih
    have hne : ¬ ((orbit realLibm { re := a, im := 0 } 2 0 0 { re := a, im := 0 } k).re = 0 ∧
        (orbit realLibm { re := a, im := 0 } 2 0 0 { re := a, im := 0 } k).im = 0) := by
      rintro ⟨h0, _⟩
      rw [h0] at hhi
      exact lt_irrefl _ hhi
    have hstep : Alg realLibm (orbit realLibm { re := a, im := 0 } 2 0 0 { re := a, im := 0 } k)
        { re := a, im := 0 } 2 0 0
        = { re := (orbit realLibm { re := a, im := 0 } 2 0 0 { re := a, im := 0 } k).re ^ 2
              - (orbit realLibm { re := a, im := 0 } 2 0 0 { re := a, im := 0 } k).im ^ 2 + a,
            im := 2 * (orbit realLibm { re := a, im := 0 } 2 0 0 { re := a, im := 0 } k).re
              * (orbit realLibm { re := a, im := 0 } 2 0 0 { re := a, im := 0 } k).im + 0 } :=
      Alg_two _ _ a 0 hne
    rw [orbit_succ, hstep, hi]
    refine ⟨by simp, ?_, ?_⟩
    · simp only
      nlinarith
    · simp only
      nlinarith

/-- The loop for the exponent 2 and the zero offset from a point `(a, 0)` with
`-1 < a < 0` runs to the cap. -/
theorem count_cap_real_axis (maxI : Nat) (a : ℝ) (h1 : -1 < a) (h2 : a < 0) :
    (whileLoop realLibm maxI { re := a, im := 0 } 2 0 0 { re := a, im := 0 } 0).2 = maxI := by
  rcases (whileLoop_spec realLibm maxI { re := a, im := 0 } 2 0 0 (maxI - 0) 0
    { re := a, im := 0 } rfl (Nat.zero_le _)).2.2.2.2 with h | h
  · exact h
  · exfalso
    apply h
    obtain ⟨hi, hlo, hhi⟩ := orbit_real_axis a h1 h2
      ((whileLoop realLibm maxI { re := a, im := 0 } 2 0 0 { re := a, im := 0 } 0).2 - 0)
    unfold modulus
    rw [guard_iff, hi]
    nlinarith

theorem pixelCount_scenario_5_6 :
    pixelCount (scenario ℝ) realLibm 2 0 0 5 6 = (scenario ℝ).MAX_I := by
  have hp : pixelPoint (scenario ℝ) 5 6 = { re := -(7 / 24), im := 0 } := by
    rw [pixelPoint_scenario]
    norm_num
  rw [pixelCount_eq, hp]
  exact count_cap_real_axis _ _ (by norm_num) (by norm_num)

end ScenarioLemmas

section HistNatLemmas

variable {F : Type} [LinearOrderedField F]

/-- After `Mandelbrot` on a zeroed histogram the buckets are natural numbers, their sum is
positive as soon as one pixel has a count below `MAX_I`, and it is at most the number
`WIDTH*HEIGHT` of the pixels. -/
theorem Mandelbrot_hist_nat (C : Consts F) (L : Libm F) (values histogram : Nat → F)
    (power cR cI : F) (h0 : ∀ k, k < C.MAX_I → histogram k = 0) (i j : Nat)
    (hi : i < C.WIDTH) (hj : j < C.HEIGHT)
    (hesc : pixelCount C L power cR cI i j < C.MAX_I) :
    (∀ k, k < C.MAX_I → (Mandelbrot C L values histogram power cR cI).2 k
        = (((pixels C).filter (fun p => pixelCount C L power cR cI p.1 p.2 = k)).card : F)) ∧
      0 < ∑ k in Finset.range C.MAX_I,
        ((pixels C).filter (fun p => pixelCount C L power cR cI p.1 p.2 = k)).card ∧
      ∑ k in Finset.range C.MAX_I,
        ((pixels C).filter (fun p => pixelCount C L power cR cI p.1 p.2 = k)).card
          ≤ C.WIDTH * C.HEIGHT := by
  refine ⟨?_, ?_, ?_⟩
  · intro k hk
    rw [Mandelbrot_hist C L values histogram power cR cI k hk, h0 k hk, zero_add]
  · have hpos := card_count_pos C L power cR cI i j _ hi hj rfl
    have hle := Finset.single_le_sum
      (f := fun k => ((pixels C).filter (fun p => pixelCount C L power cR cI p.1 p.2 = k)).card)
      (fun _ _ => Nat.zero_le _) (Finset.mem_range.mpr hesc)
    exact lt_of_lt_of_le hpos hle
  · have hcard : (pixels C).card = C.WIDTH * C.HEIGHT := by
      unfold pixels
      rw [Finset.card_product, Finset.card_range, Finset.card_range]
    rw [← card_escaped_eq_sum, ← hcard]
    exact Finset.card_filter_le _ _

end HistNatLemmas

section CountColorLemmas

variable {F : Type} [LinearOrderedField F] [FloorRing F]

/-- The colour of a count on a histogram of natural numbers whose sum is positive and at
most `INT_MAX`: a number of `[0, 255]` for a count below `MAX_I`, not-a-number exactly for
`MAX_I`. -/
theorem colorOf_count (C : Consts F) (histogram : Nat → F) (hues0 : Int → Option F)
    (c : Nat → Nat) (hnat : ∀ k, k < C.MAX_I → histogram k = (c k : F))
    (hpos : 0 < ∑ k in Finset.range C.MAX_I, c k)
    (hfit : ∑ k in Finset.range C.MAX_I, c k < 2 ^ 31) (v : Nat) (hle : v ≤ C.MAX_I) :
    (v < C.MAX_I → ∃ x : F,
        colorOf C (huesOf C histogram hues0) (v : F) = some x ∧ 0 ≤ x ∧ x ≤ 255) ∧
      (colorOf C (huesOf C histogram hues0) (v : F) = none ↔ v = C.MAX_I) := by
  have hTpos : (0 : F) < ((∑ i in Finset.range C.MAX_I, c i : Nat) : F) :=
    Nat.cast_pos.mpr hpos
  have hnum : v < C.MAX_I → ∃ x : F,
      colorOf C (huesOf C histogram hues0) (v : F) = some x ∧ 0 ≤ x ∧ x ≤ 255 := by
    intro hlt
    have h0 : (0 : F) ≤ ((∑ i in Finset.range (v + 1), c i : Nat) : F)
        / ((∑ i in Finset.range C.MAX_I, c i : Nat) : F) :=
      div_nonneg (Nat.cast_nonneg _) (le_of_lt hTpos)
    have h1 : ((∑ i in Finset.range (v + 1), c i : Nat) : F)
        / ((∑ i in Finset.range C.MAX_I, c i : Nat) : F) ≤ 1 := by
      rw [div_le_one hTpos]
      apply Nat.cast_le.mpr
      apply Finset.sum_le_sum_of_subset
      intro i hi
      have := Finset.mem_range.mp hi
      exact Finset.mem_range.mpr (by omega)
    refine ⟨255 - 255 * (((∑ i in Finset.range (v + 1), c i : Nat) : F)
        / ((∑ i in Finset.range C.MAX_I, c i : Nat) : F)), ?_, ?_, ?_⟩
    · rw [colorOf_nat C _ v (by omega), huesOf_nat C histogram hues0 c hnat hpos hfit v hlt,
        fmul_some, fsub_some]
    · linarith
    · linarith
  refine ⟨hnum, ?_, ?_⟩
  · intro hnone
    by_contra hne
    obtain ⟨x, hx, _⟩ := hnum (by omega)
    rw [hx] at hnone
    exact Option.noConfusion hnone
  · intro heq
    rw [heq, colorOf_cap]

end CountColorLemmas

section ScenarioIntensityClaims

/-- In the scenario, from a zeroed histogram, the cell of a pixel holds after `Mandelbrot`
and `CalculateColors` the colour of the count of the pixel: a number of `[0, 255]` for a
count below `MAX_I`, not-a-number exactly for the count `MAX_I`. -/
theorem scenario_cell (values histogram : Nat → ℝ) (hues0 : Int → Option ℝ)
    (arr : Nat → Option ℝ) (h0 : ∀ k, k < (scenario ℝ).MAX_I → histogram k = 0)
    (i j : Nat) (hi : i < (scenario ℝ).WIDTH) (hj : j < (scenario ℝ).HEIGHT) :
    (pixelCount (scenario ℝ) realLibm 2 0 0 i j < (scenario ℝ).MAX_I → ∃ x : ℝ,
        CalculateColors (scenario ℝ)
          (Mandelbrot (scenario ℝ) realLibm values histogram 2 0 0).1
          (Mandelbrot (scenario ℝ) realLibm values histogram 2 0 0).2 hues0 arr
          (i * (scenario ℝ).HEIGHT + j) = some x ∧ 0 ≤ x ∧ x ≤ 255) ∧
      (CalculateColors (scenario ℝ)
          (Mandelbrot (scenario ℝ) realLibm values histogram 2 0 0).1
          (Mandelbrot (scenario ℝ) realLibm values histogram 2 0 0).2 hues0 arr
          (i * (scenario ℝ).HEIGHT + j) = none ↔
        pixelCount (scenario ℝ) realLibm 2 0 0 i j = (scenario ℝ).MAX_I) := by
  have hW : (0 : Nat) < (scenario ℝ).WIDTH := by decide
  have hH : (0 : Nat) < (scenario ℝ).HEIGHT := by decide
  have hesc : pixelCount (scenario ℝ) realLibm 2 0 0 0 0 < (scenario ℝ).MAX_I := by
    rw [pixelCount_scenario_0_0]
    decide
  obtain ⟨hnat, hpos, hle⟩ := Mandelbrot_hist_nat (scenario ℝ) realLibm values histogram
    2 0 0 h0 0 0 hW hH hesc
  have hgrid : (scenario ℝ).WIDTH * (scenario ℝ).HEIGHT < 2 ^ 31 := by decide
  have hcol := colorOf_count (scenario ℝ)
    (Mandelbrot (scenario ℝ) realLibm values histogram 2 0 0).2 hues0 _ hnat hpos
    (lt_of_le_of_lt hle hgrid)
    (pixelCount (scenario ℝ) realLibm 2 0 0 i j) (pixelCount_le _ _ _ _ _ _ _)
  rw [CalculateColors_pixel _ _ _ hues0 arr i j hi hj,
    Mandelbrot_values (scenario ℝ) realLibm values histogram 2 0 0 i j hi hj]
  exact hcol

/-- C21 fails on the code: the centre pixel is not the only pixel of the scenario with the
count `MAX_I`. The pixel `(5, 6)` is mapped to the point `(-7/24, 0)`, whose orbit stays
between `-7/24` and 0, so its count is `MAX_I = 20` too and its cell, which is not the cell
of the centre pixel, holds not-a-number. -/
theorem scenario_second_NaN :
    pixelCount (scenario ℝ) realLibm 2 0 0 5 6 = (scenario ℝ).MAX_I ∧
      ¬ (pixelCount (scenario ℝ) realLibm 2 0 0 5 6 < (scenario ℝ).MAX_I) ∧
      CalculateColors (scenario ℝ)
          (Mandelbrot (scenario ℝ) realLibm (fun _ => 0) (fun _ => 0) 2 0 0).1
          (Mandelbrot (scenario ℝ) realLibm (fun _ => 0) (fun _ => 0) 2 0 0).2
          (fun _ => none) (fun _ => some 0) (5 * (scenario ℝ).HEIGHT + 6) = none ∧
      5 * (scenario ℝ).HEIGHT + 6 ≠ 6 * (scenario ℝ).HEIGHT + 6 := by
  have hW : (5 : Nat) < (scenario ℝ).WIDTH := by decide
  have hH : (6 : Nat) < (scenario ℝ).HEIGHT := by decide
  refine ⟨pixelCount_scenario_5_6, ?_, ?_, by decide⟩
  · rw [pixelCount_scenario_5_6]
    exact lt_irrefl _
  · exact (scenario_cell (fun _ => 0) (fun _ => 0) (fun _ => none) (fun _ => some 0)
      (fun _ _ => rfl) 5 6 hW hH).2.mpr pixelCount_scenario_5_6

/-- C21 as amended: in the scenario, from a zeroed histogram, the grid of intensities that
`Mandelbrot` followed by `CalculateColors` produces holds not-a-number in the cell of the
centre pixel `(6, 6)`, and holds not-a-number in the cell of a pixel exactly when the count
of the pixel is `MAX_I`; every pixel with a count below `MAX_I` is given a number of
`[0, 255]`. -/
theorem scenario_NaN_exactly_at_cap (values histogram : Nat → ℝ) (hues0 : Int → Option ℝ)
    (arr : Nat → Option ℝ) (h0 : ∀ k, k < (scenario ℝ).MAX_I → histogram k = 0)
    (i j : Nat) (hi : i < (scenario ℝ).WIDTH) (hj : j < (scenario ℝ).HEIGHT) :
    CalculateColors (scenario ℝ)
        (Mandelbrot (scenario ℝ) realLibm values histogram 2 0 0).1
        (Mandelbrot (scenario ℝ) realLibm values histogram 2 0 0).2 hues0 arr
        (6 * (scenario ℝ).HEIGHT + 6) = none ∧
      (CalculateColors (scenario ℝ)
          (Mandelbrot (scenario ℝ) realLibm values histogram 2 0 0).1
          (Mandelbrot (scenario ℝ) realLibm values histogram 2 0 0).2 hues0 arr
          (i * (scenario ℝ).HEIGHT + j) = none ↔
        pixelCount (scenario ℝ) realLibm 2 0 0 i j = (scenario ℝ).MAX_I) ∧
      (pixelCount (scenario ℝ) realLibm 2 0 0 i j < (scenario ℝ).MAX_I → ∃ x : ℝ,
        CalculateColors (scenario ℝ)
          (Mandelbrot (scenario ℝ) realLibm values histogram 2 0 0).1
          (Mandelbrot (scenario ℝ) realLibm values histogram 2 0 0).2 hues0 arr
          (i * (scenario ℝ).HEIGHT + j) = some x ∧ 0 ≤ x ∧ x ≤ 255) := by
  have hW : (6 : Nat) < (scenario ℝ).WIDTH := by decide
  have hH : (6 : Nat) < (scenario ℝ).HEIGHT := by decide
  have hc := scenario_cell values histogram hues0 arr h0 i j hi hj
  exact ⟨(scenario_cell values histogram hues0 arr h0 6 6 hW hH).2.mpr
    pixelCount_scenario_centre, hc.2, hc.1⟩

/-- Witness of the amended C21: the corner pixel `(0, 0)`, from buffers of zeros. -/
theorem scenario_NaN_exactly_at_cap_witness :
    (∀ k, k < (scenario ℝ).MAX_I → (fun _ : Nat => (0 : ℝ)) k = 0) ∧
      0 < (scenario ℝ).WIDTH ∧ 0 < (scenario ℝ).HEIGHT ∧
      (CalculateColors (scenario ℝ)
        (Mandelbrot (scenario ℝ) realLibm (fun _ => 0) (fun _ => 0) 2 0 0).1
        (Mandelbrot (scenario ℝ) realLibm (fun _ => 0) (fun _ => 0) 2 0 0).2
        (fun _ => none) (fun _ => none) (6 * (scenario ℝ).HEIGHT + 6) = none ∧
      (CalculateColors (scenario ℝ)
          (Mandelbrot (scenario ℝ) realLibm (fun _ => 0) (fun _ => 0) 2 0 0).1
          (Mandelbrot (scenario ℝ) realLibm (fun _ => 0) (fun _ => 0) 2 0 0).2
          (fun _ => none) (fun _ => none) (0 * (scenario ℝ).HEIGHT + 0) = none ↔
        pixelCount (scenario ℝ) realLibm 2 0 0 0 0 = (scenario ℝ).MAX_I) ∧
      (pixelCount (scenario ℝ) realLibm 2 0 0 0 0 < (scenario ℝ).MAX_I → ∃ x : ℝ,
        CalculateColors (scenario ℝ)
          (Mandelbrot (scenario ℝ) realLibm (fun _ => 0) (fun _ => 0) 2 0 0).1
          (Mandelbrot (scenario ℝ) realLibm (fun _ => 0) (fun _ => 0) 2 0 0).2
          (fun _ => none) (fun _ => none) (0 * (scenario ℝ).HEIGHT + 0) = some x ∧
          0 ≤ x ∧ x ≤ 255)) :=
  ⟨fun _ _ => rfl, by decide, by decide,
    scenario_NaN_exactly_at_cap (fun _ => 0) (fun _ => 0) (fun _ => none) (fun _ => none)
      (fun _ _ => rfl) 0 0 (by decide) (by decide)⟩

end ScenarioIntensityClaims

/-! ## The exponent -1: a pixel that leaves the disc and comes back -/

section NegativeExponent

/-- Over the real numbers, for the exponent `-1` and the zero offset, the step from a point
`(x, 0)` of the negative real axis is `1/x + c`. -/
theorem Alg_neg_one (x a b : ℝ) (hx : x < 0) :
    Alg realLibm { re := x, im := 0 } { re := a, im := b } (-1) 0 0
      = { re := 1 / x + a, im := b } := by
  have hne : ¬ (x = 0 ∧ (0 : ℝ) = 0) := by
    rintro ⟨h, _⟩
    rw [h] at hx
    exact lt_irrefl _ hx
  have harg : Complex.arg (⟨x, 0⟩ : ℂ) = Real.pi := Complex.arg_ofReal_of_neg hx
  have hexp : (-1 : ℝ) / 2.0 = -(1 / 2) := by norm_num
  have hpow : (x * x + 0 * 0) ^ (-(1 / 2) : ℝ) = -(1 / x) := by
    have hnn : (0 : ℝ) ≤ x * x + 0 * 0 := by nlinarith
    rw [Real.rpow_neg hnn, ← Real.sqrt_eq_rpow, mul_zero, add_zero,
      Real.sqrt_mul_self_eq_abs, abs_of_neg hx, inv_neg, one_div]
  unfold Alg
  rw [if_neg hne]
  simp only [realLibm_pow, realLibm_atan2, realLibm_cos, realLibm_sin]
  rw [hexp, hpow, harg]
  simp only [neg_mul, one_mul, Real.cos_neg, Real.cos_pi, Real.sin_neg, Real.sin_pi]
  congr 1
  · ring
  · ring

/-- The orbit for the exponent `-1` and the zero offset of a point `(a, 0)` with `a < 0`
stays on the real axis, between `1/a + a` and `a`. -/
theorem orbit_neg_one (a : ℝ) (ha : a < 0) (k : Nat) :
    (orbit realLibm { re := a, im := 0 } (-1) 0 0 { re := a, im := 0 } k).im = 0 ∧
      1 / a + a ≤ (orbit realLibm { re := a, im := 0 } (-1) 0 0 { re := a, im := 0 } k).re ∧
      (orbit realLibm { re := a, im := 0 } (-1) 0 0 { re := a, im := 0 } k).re ≤ a := by
  have hinv : 1 / a < 0 := one_div_neg.mpr ha
  induction k with
  | zero =>
    refine ⟨rfl, ?_, le_refl a⟩
    show 1 / a + a ≤ a
    linarith
  | succ k ih =>
    obtain ⟨hi, hlo, hhi⟩ := ih
    have hneg : (orbit realLibm { re := a, im := 0 } (-1) 0 0 { re := a, im := 0 } k).re < 0 :=
      lt_of_le_of_lt hhi ha
    have hz : orbit realLibm { re := a, im := 0 } (-1) 0 0 { re := a, im := 0 } k
        = { re := (orbit realLibm { re := a, im := 0 } (-1) 0 0 { re := a, im := 0 } k).re,
            im := 0 } := by
      cases hzz : orbit realLibm { re := a, im := 0 } (-1) 0 0 { re := a, im := 0 } k with
      | mk u v =>
        rw [hzz] at hi
        simp only at hi
        rw [hi]
    have h1 : 1 / a ≤ 1 / (orbit realLibm { re := a, im := 0 } (-1) 0 0
        { re := a, im := 0 } k).re := (one_div_le_one_div_of_neg ha hneg).mpr hhi
    have h2 : 1 / (orbit realLibm { re := a, im := 0 } (-1) 0 0
        { re := a, im := 0 } k).re < 0 := one_div_neg.mpr hneg
    rw [orbit_succ, hz, Alg_neg_one _ a 0 hneg]
    refine ⟨rfl, ?_, ?_⟩
    · show 1 / a + a ≤ 1 / _ + a
      linarith
    · show 1 / _ + a ≤ a
      linarith

/-- With the constants of the source the pixel `(449, 450)` is mapped to `(-7/1800, 0)`. -/
theorem pixelPoint_449_450 :
    pixelPoint (reference ℝ) 449 450 = { re := -(7 / 1800), im := 0 } := by
  have h1 : |(7 : ℝ) / 4| = 7 / 4 := abs_of_pos (by norm_num)
  have h2 : |(900 : ℝ)| = 900 := abs_of_pos (by norm_num)
  unfold pixelPoint map
  simp only [reference, WIDTH, HEIGHT, SCALE, MIN_X, MAX_X, MIN_Y, MAX_Y, CENTER_X, CENTER_Y,
    RANGE_X, RANGE_Y]
  norm_num [h1, h2]

/-- C26 fails on the code: a modulus of at least 4 does not make the orbit go to infinity
for every exponent. Over the real numbers with the constants of the source, for the
exponent `-1` and the zero offset, the pixel `(449, 450)` is mapped to `(-7/1800, 0)`, its
first iterate is `(-1800/7 - 7/1800, 0)`, of modulus above 4, so the loop stops with the
count 1, below `MAX_I`; but every point of its orbit has a modulus of at most 258. -/
theorem escaped_but_bounded :
    pixelPoint (reference ℝ) 449 450 = { re := -(7 / 1800), im := 0 } ∧
      pixelCount (reference ℝ) realLibm (-1) 0 0 449 450 = 1 ∧
      pixelCount (reference ℝ) realLibm (-1) 0 0 449 450 < (reference ℝ).MAX_I ∧
      ∀ k, modulus realLibm (orbit realLibm (pixelPoint (reference ℝ) 449 450) (-1) 0 0
        (pixelPoint (reference ℝ) 449 450) k) ≤ 258 := by
  have hM : (0 : Nat) < (reference ℝ).MAX_I := by decide
  have hcount : pixelCount (reference ℝ) realLibm (-1) 0 0 449 450 = 1 := by
    have g1 : realLibm.sqrt ((-(7 / 1800) : ℝ) * -(7 / 1800) + 0 * 0) < 4 := by
      rw [guard_iff]
      norm_num
    rw [pixelCount_eq, pixelPoint_449_450, whileLoop, if_pos ⟨hM, g1⟩,
      Alg_neg_one _ _ _ (by norm_num), whileLoop, if_neg]
    rintro ⟨-, g2⟩
    rw [guard_iff] at g2
    norm_num at g2
  refine ⟨pixelPoint_449_450, hcount, ?_, ?_⟩
  · rw [hcount]
    decide
  · intro k
    rw [pixelPoint_449_450]
    obtain ⟨hi, hlo, hhi⟩ := orbit_neg_one (-(7 / 1800)) (by norm_num) k
    unfold modulus
    rw [realLibm_sqrt, hi, Real.sqrt_le_left (by norm_num)]
    norm_num at hlo
    nlinarith

end NegativeExponent

/-! ## The step `Alg` over the real numbers: modulus, integer exponents, conjugation -/

section PolarLemmas

/-- The power of the base that `Alg` computes is the modulus to the exponent. -/
theorem pow_base_eq (x y m : ℝ) :
    realLibm.pow (x * x + y * y) (m / 2.0) = Real.sqrt (x * x + y * y) ^ m := by
  have hB : 0 ≤ x * x + y * y := by nlinarith [mul_self_nonneg x, mul_self_nonneg y]
  have hexp : m / 2.0 = 1 / 2 * m := by
    norm_num
    ring
  rw [realLibm_pow, Real.sqrt_eq_rpow, ← Real.rpow_mul hB, hexp]

/-- The step away from the origin, with the modulus written as a square root. -/
theorem Alg_polar (z c : Complex ℝ) (m cR cI : ℝ) (hz : ¬ (z.re = 0 ∧ z.im = 0)) :
    Alg realLibm z c m cR cI
      = { re := Real.sqrt (z.re * z.re + z.im * z.im) ^ m
              * Real.cos (m * Complex.arg (⟨z.re, z.im⟩ : ℂ)) + c.re + cR,
          im := Real.sqrt (z.re * z.re + z.im * z.im) ^ m
              * Real.sin (m * Complex.arg (⟨z.re, z.im⟩ : ℂ)) + c.im + cI } := by
  unfold Alg
  rw [if_neg hz]
  simp only [pow_base_eq, realLibm_atan2, realLibm_cos, realLibm_sin]

end PolarLemmas

section PolarClaims

/-- C33: over the real numbers, for every `z` other than the origin, every `c`, every real
exponent `m` and every offset, the point `Alg(z, c, m, cR, cI)` minus
`(c.re + cR, c.im + cI)` has the modulus `|z|^m`. -/
theorem Alg_modulus (z c : Complex ℝ) (m cR cI : ℝ) (hz : ¬ (z.re = 0 ∧ z.im = 0)) :
    modulus realLibm
        { re := (Alg realLibm z c m cR cI).re - (c.re + cR),
          im := (Alg realLibm z c m cR cI).im - (c.im + cI) }
      = modulus realLibm z ^ m := by
  have hB := base_pos z.re z.im hz
  have hr : 0 < Real.sqrt (z.re * z.re + z.im * z.im) ^ m :=
    Real.rpow_pos_of_pos (Real.sqrt_pos.mpr hB) m
  rw [Alg_polar z c m cR cI hz]
  unfold modulus
  simp only [realLibm_sqrt]
  have hsq : (Real.sqrt (z.re * z.re + z.im * z.im) ^ m
        * Real.cos (m * Complex.arg (⟨z.re, z.im⟩ : ℂ)) + c.re + cR - (c.re + cR))
      * (Real.sqrt (z.re * z.re + z.im * z.im) ^ m
        * Real.cos (m * Complex.arg (⟨z.re, z.im⟩ : ℂ)) + c.re + cR - (c.re + cR))
      + (Real.sqrt (z.re * z.re + z.im * z.im) ^ m
        * Real.sin (m * Complex.arg (⟨z.re, z.im⟩ : ℂ)) + c.im + cI - (c.im + cI))
      * (Real.sqrt (z.re * z.re + z.im * z.im) ^ m
        * Real.sin (m * Complex.arg (⟨z.re, z.im⟩ : ℂ)) + c.im + cI - (c.im + cI))
      = (Real.sqrt (z.re * z.re + z.im * z.im) ^ m)
        * (Real.sqrt (z.re * z.re + z.im * z.im) ^ m) := by
    have h1 := Real.sin_sq_add_cos_sq (m * Complex.arg (⟨z.re, z.im⟩ : ℂ))
    linear_combination (Real.sqrt (z.re * z.re + z.im * z.im) ^ m
      * Real.sqrt (z.re * z.re + z.im * z.im) ^ m) * h1
  rw [hsq, Real.sqrt_mul_self (le_of_lt hr)]

/-- Witness of C33: the point `(1, 2)` with the exponent `-3/2` and the offset `(5, 6)`. -/
theorem Alg_modulus_witness :
    ¬ ((1 : ℝ) = 0 ∧ (2 : ℝ) = 0) ∧
      modulus realLibm
          { re := (Alg realLibm { re := 1, im := 2 } { re := 3, im := 4 } (-(3 / 2)) 5 6).re
              - (3 + 5),
            im := (Alg realLibm { re := 1, im := 2 } { re := 3, im := 4 } (-(3 / 2)) 5 6).im
              - (4 + 6) }
        = modulus realLibm { re := 1, im := 2 } ^ (-(3 / 2) : ℝ) :=
  ⟨by norm_num,
    Alg_modulus { re := 1, im := 2 } { re := 3, im := 4 } (-(3 / 2)) 5 6 (by norm_num)⟩

/-- The power `w^m` of a complex number in polar form (De Moivre). -/
theorem cpow_polar (w : ℂ) (m : Nat) :
    w ^ m = ((Complex.abs w ^ m : ℝ) : ℂ)
      * (((Real.cos ((m : ℝ) * Complex.arg w) : ℝ) : ℂ)
        + ((Real.sin ((m : ℝ) * Complex.arg w) : ℝ) : ℂ) * Complex.I) := by
  have h1 : w = (Complex.abs w : ℂ) * Complex.exp ((Complex.arg w : ℂ) * Complex.I) :=
    (Complex.abs_mul_exp_arg_mul_I w).symm
  have h2 : Complex.exp ((Complex.arg w : ℂ) * Complex.I) ^ m
      = Complex.exp ((((m : ℝ) * Complex.arg w : ℝ) : ℂ) * Complex.I) := by
    rw [← Complex.exp_nat_mul]
    congr 1
    push_cast
    ring
  conv_lhs => rw [h1]
  rw [mul_pow, h2, Complex.exp_mul_I, ← Complex.ofReal_cos, ← Complex.ofReal_sin]
  push_cast
  ring

/-- C34: over the real numbers, for every integer exponent `m`, in particular `m ≥ 1`, the
zero offset and every `z` other than the origin, `Alg(z, c, m, 0, 0)` is `z^m + c`, with
`z^m` the `m`-fold complex product. -/
theorem Alg_nat_power (z c : Complex ℝ) (m : Nat) (hz : ¬ (z.re = 0 ∧ z.im = 0)) :
    toC (Alg realLibm z c (m : ℝ) 0 0) = toC z ^ m + toC c := by
  have habs : Complex.abs (toC z) = Real.sqrt (z.re * z.re + z.im * z.im) := by
    unfold toC
    rw [Complex.abs_apply, Complex.normSq_apply]
  have harg : Complex.arg (toC z) = Complex.arg (⟨z.re, z.im⟩ : ℂ) := rfl
  rw [Alg_polar z c (m : ℝ) 0 0 hz, cpow_polar (toC z) m, habs, harg, Real.rpow_natCast]
  generalize Real.cos ((m : ℝ) * Complex.arg (⟨z.re, z.im⟩ : ℂ)) = C
  generalize Real.sin ((m : ℝ) * Complex.arg (⟨z.re, z.im⟩ : ℂ)) = S
  generalize Real.sqrt (z.re * z.re + z.im * z.im) ^ m = R
  apply Complex.ext
  · simp [toC]
  · simp [toC]

/-- Witness of C34: the cube of the point `(1, 2)`. -/
theorem Alg_nat_power_witness :
    ¬ ((1 : ℝ) = 0 ∧ (2 : ℝ) = 0) ∧
      toC (Alg realLibm { re := 1, im := 2 } { re := 3, im := 4 } ((3 : Nat) : ℝ) 0 0)
        = toC { re := 1, im := 2 } ^ 3 + toC { re := 3, im := 4 } :=
  ⟨by norm_num, Alg_nat_power { re := 1, im := 2 } { re := 3, im := 4 } 3 (by norm_num)⟩

/-- C35: over the real numbers, for every real exponent, every `c` and offset and every
`z` that is not on the non-positive real axis, the step commutes with the complex
conjugation: `Alg(conj z, conj c, power, cR, -cI) = conj(Alg(z, c, power, cR, cI))`. -/
theorem Alg_conj (z c : Complex ℝ) (power cR cI : ℝ) (hz : ¬ (z.im = 0 ∧ z.re ≤ 0)) :
    Alg realLibm (conj z) (conj c) power cR (-cI) = conj (Alg realLibm z c power cR cI) := by
  have hne : ¬ (z.re = 0 ∧ z.im = 0) := by
    rintro ⟨h1, h2⟩
    exact hz ⟨h2, le_of_eq h1⟩
  have hne2 : ¬ ((conj z).re = 0 ∧ (conj z).im = 0) := by
    rintro ⟨h1, h2⟩
    apply hne
    refine ⟨h1, ?_⟩
    have : -z.im = 0 := h2
    linarith
  have hpi : Complex.arg (⟨z.re, z.im⟩ : ℂ) ≠ Real.pi := by
    intro h
    rw [Complex.arg_eq_pi_iff] at h
    exact hz ⟨h.2, le_of_lt h.1⟩
  have harg : Complex.arg (⟨z.re, -z.im⟩ : ℂ) = -Complex.arg (⟨z.re, z.im⟩ : ℂ) := by
    have h := Complex.arg_conj (⟨z.re, z.im⟩ : ℂ)
    rw [if_neg hpi] at h
    rw [← h]
    rfl
  rw [Alg_polar z c power cR cI hne, Alg_polar (conj z) (conj c) power cR (-cI) hne2]
  unfold conj
  simp only
  rw [harg, neg_mul_neg, mul_neg, Real.cos_neg, Real.sin_neg]
  congr 1
  ring

/-- Witness of C35: the point `(1, 2)` with the exponent `-3/2` and the offset `(5, 6)`. -/
theorem Alg_conj_witness :
    ¬ ((2 : ℝ) = 0 ∧ (1 : ℝ) ≤ 0) ∧
      Alg realLibm (conj { re := 1, im := 2 }) (conj { re := 3, im := 4 }) (-(3 / 2)) 5 (-6)
        = conj (Alg realLibm { re := 1, im := 2 } { re := 3, im := 4 } (-(3 / 2)) 5 6) :=
  ⟨by norm_num,
    Alg_conj { re := 1, im := 2 } { re := 3, im := 4 } (-(3 / 2)) 5 6 (by norm_num)⟩

end PolarClaims

/-! ## The window of the source lies inside the threshold -/

section FirstStepLemmas

variable {F : Type} [LinearOrderedField F]

/-- No pixel with the count `k` means that the number of pixels with that count is 0. -/
theorem card_count_zero (C : Consts F) (L : Libm F) (power cR cI : F) (k : Nat)
    (h : ∀ i j, i < C.WIDTH → j < C.HEIGHT → pixelCount C L power cR cI i j ≠ k) :
    ((pixels C).filter (fun p => pixelCount C L power cR cI p.1 p.2 = k)).card = 0 := by
  rw [Finset.card_eq_zero, Finset.filter_eq_empty_iff]
  rintro ⟨i, j⟩ hp
  unfold pixels at hp
  rw [Finset.mem_product] at hp
  exact h i j (Finset.mem_range.mp hp.1) (Finset.mem_range.mp hp.2)

/-- A starting point that passes the guard, under a positive cap, has a count of at
least 1. -/
theorem count_pos_of_guard (L : Libm F) (maxI : Nat) (c : Complex F) (power cR cI : F)
    (hM : 0 < maxI) (hg : L.sqrt (c.re * c.re + c.im * c.im) < 4) :
    1 ≤ (whileLoop L maxI c power cR cI c 0).2 := by
  rw [whileLoop, if_pos ⟨hM, hg⟩]
  exact (whileLoop_spec L maxI c power cR cI (maxI - (0 + 1)) (0 + 1) _ rfl (by omega)).1

end FirstStepLemmas

section FirstStepClaims

/-- With the constants of the source every pixel is mapped to a point of modulus below 4. -/
theorem reference_modulus_lt (i j : Nat) (hi : i < (reference ℝ).WIDTH)
    (hj : j < (reference ℝ).HEIGHT) :
    modulus realLibm (pixelPoint (reference ℝ) i j) < 4 := by
  have hW : (reference ℝ).WIDTH = 900 := rfl
  have hH : (reference ℝ).HEIGHT = 900 := rfl
  have hi2 : (i : ℝ) < 900 := by
    rw [hW] at hi
    exact_mod_cast hi
  have hj2 : (j : ℝ) < 900 := by
    rw [hH] at hj
    exact_mod_cast hj
  have hi0 : (0 : ℝ) ≤ (i : ℝ) := Nat.cast_nonneg i
  have hj0 : (0 : ℝ) ≤ (j : ℝ) := Nat.cast_nonneg j
  unfold modulus pixelPoint
  simp only
  rw [guard_iff, map_reference_X, map_reference_Y]
  nlinarith

/-- C36: with the constants of the source, over the real numbers, every pixel is mapped
to a point of modulus below 4, so for every exponent and offset the count of every pixel
is at least 1 and `Mandelbrot` leaves `histogram[0]` as it was. -/
theorem reference_count_at_least_one (values histogram : Nat → ℝ) (power cR cI : ℝ)
    (i j : Nat) (hi : i < (reference ℝ).WIDTH) (hj : j < (reference ℝ).HEIGHT) :
    modulus realLibm (pixelPoint (reference ℝ) i j) < 4 ∧
      1 ≤ pixelCount (reference ℝ) realLibm power cR cI i j ∧
      (Mandelbrot (reference ℝ) realLibm values histogram power cR cI).1
          (i * (reference ℝ).HEIGHT + j) ≠ 0 ∧
      (Mandelbrot (reference ℝ) realLibm values histogram power cR cI).2 0 = histogram 0 := by
  have hM : (0 : Nat) < (reference ℝ).MAX_I := by decide
  have hcount : ∀ i j, i < (reference ℝ).WIDTH → j < (reference ℝ).HEIGHT →
      1 ≤ pixelCount (reference ℝ) realLibm power cR cI i j := by
    intro i j hi hj
    rw [pixelCount_eq]
    exact count_pos_of_guard realLibm _ _ power cR cI hM (reference_modulus_lt i j hi hj)
  refine ⟨reference_modulus_lt i j hi hj, hcount i j hi hj, ?_, ?_⟩
  · rw [Mandelbrot_values (reference ℝ) realLibm values histogram power cR cI i j hi hj]
    have := hcount i j hi hj
    exact Nat.cast_ne_zero.mpr (by omega)
  · rw [Mandelbrot_hist (reference ℝ) realLibm values histogram power cR cI 0 hM,
      card_count_zero (reference ℝ) realLibm power cR cI 0
        (fun i j hi hj => by have := hcount i j hi hj; omega)]
    simp

/-- Witness of C36: the corner pixel `(0, 0)` with the exponent `-10` and the offset
`(1, 1)`, from buffers of zeros. -/
theorem reference_count_at_least_one_witness :
    0 < (reference ℝ).WIDTH ∧ 0 < (reference ℝ).HEIGHT ∧
      (modulus realLibm (pixelPoint (reference ℝ) 0 0) < 4 ∧
      1 ≤ pixelCount (reference ℝ) realLibm (-10) 1 1 0 0 ∧
      (Mandelbrot (reference ℝ) realLibm (fun _ => 0) (fun _ => 0) (-10) 1 1).1
          (0 * (reference ℝ).HEIGHT + 0) ≠ 0 ∧
      (Mandelbrot (reference ℝ) realLibm (fun _ => 0) (fun _ => 0) (-10) 1 1).2 0
        = (fun _ : Nat => (0 : ℝ)) 0) :=
  ⟨by decide, by decide,
    reference_count_at_least_one (fun _ => 0) (fun _ => 0) (-10) 1 1 0 0 (by decide)
      (by decide)⟩

end FirstStepClaims

/-! ## The indices of the arrays `hues` and `histogram` -/

section BoundsLemmas

variable {F : Type} [LinearOrderedField F]

/-- The step of a pixel changes the array `histogram` at the indices of
`histogramUpdateIndices` only. -/
theorem pixelStep_updates (C : Consts F) (L : Libm F) (power cR cI : F) (i j : Nat)
    (st : (Nat → F) × (Nat → F)) (k : Nat)
    (h : (k : Int) ∉ histogramUpdateIndices C (pixelCount C L power cR cI i j)) :
    (pixelStep C L power cR cI i st j).2 k = st.2 k := by
  rw [pixelStep_hist]
  unfold histogramUpdateIndices at h
  by_cases hn : pixelCount C L power cR cI i j < C.MAX_I
  · rw [if_pos hn] at h
    have hne : ¬ (pixelCount C L power cR cI i j = k ∧ k < C.MAX_I) := by
      rintro ⟨h1, _⟩
      apply h
      rw [h1]
      exact List.mem_cons_self _ _
    rw [if_neg hne, add_zero]
  · have hne : ¬ (pixelCount C L power cR cI i j = k ∧ k < C.MAX_I) := by
      rintro ⟨h1, h2⟩
      omega
    rw [if_neg hne, add_zero]

end BoundsLemmas

section BoundsClaims

variable {F : Type} [LinearOrderedField F] [FloorRing F]

/-- The colour of a pixel depends on the array `hues` through the entries at the indices
of `huesReadIndices` only. -/
theorem colorOf_reads (C : Consts F) (hues1 hues2 : Int → Option F) (currentVal : F)
    (h : ∀ idx, idx ∈ huesReadIndices C currentVal → hues1 idx = hues2 idx) :
    colorOf C hues1 currentVal = colorOf C hues2 currentVal := by
  unfold colorOf
  unfold huesReadIndices at h
  by_cases hcap : truncInt currentVal = (C.MAX_I : Int)
  · rw [if_pos hcap, if_pos hcap]
  · rw [if_neg hcap] at h
    rw [if_neg hcap, if_neg hcap, h _ (List.mem_cons_self _ _),
      h _ (List.mem_cons_of_mem _ (List.mem_cons_self _ _))]

/-- C37: for a pixel whose value is an integer `v` of `0 .. MAX_I`, every index at which
`CalculateColors` reads `hues`, that is `(int)v` and `(int)ceil(v)` when `v ≠ MAX_I`, lies
in `0 .. MAX_I-1`, and these are the only entries of `hues` that the colour of the pixel
depends on; and every index at which `Mandelbrot` updates `histogram`, that is `(int)n`
when the count `n` is below `MAX_I`, lies in `0 .. MAX_I-1`, and these are the only
buckets that the step of the pixel changes. -/
theorem array_indices_in_bounds (C : Consts F) (L : Libm F) (power cR cI : F)
    (st : (Nat → F) × (Nat → F)) (i j : Nat) (v : Nat) (hv : v ≤ C.MAX_I) :
    (∀ idx, idx ∈ huesReadIndices C (v : F) → 0 ≤ idx ∧ idx < (C.MAX_I : Int)) ∧
      (v ≠ C.MAX_I → huesReadIndices C (v : F) = [(v : Int), (v : Int)]) ∧
      (v = C.MAX_I → huesReadIndices C (v : F) = []) ∧
      (∀ hues1 hues2 : Int → Option F,
        (∀ idx, idx ∈ huesReadIndices C (v : F) → hues1 idx = hues2 idx) →
        colorOf C hues1 (v : F) = colorOf C hues2 (v : F)) ∧
      (∀ idx, idx ∈ histogramUpdateIndices C (pixelCount C L power cR cI i j) →
        0 ≤ idx ∧ idx < (C.MAX_I : Int)) ∧
      (∀ k : Nat, (k : Int) ∉ histogramUpdateIndices C (pixelCount C L power cR cI i j) →
        (pixelStep C L power cR cI i st j).2 k = st.2 k) := by
  have hread : v ≠ C.MAX_I → huesReadIndices C (v : F) = [(v : Int), (v : Int)] := by
    intro hne
    unfold huesReadIndices
    rw [truncInt_natCast, Int.ceil_natCast, Int.cast_natCast, truncInt_natCast, if_neg]
    omega
  have hcap : v = C.MAX_I → huesReadIndices C (v : F) = [] := by
    intro heq
    unfold huesReadIndices
    rw [truncInt_natCast, if_pos]
    omega
  refine ⟨?_, hread, hcap, ?_, ?_, ?_⟩
  · intro idx hidx
    by_cases hne : v = C.MAX_I
    · rw [hcap hne] at hidx
      exact absurd hidx (List.not_mem_nil _)
    · rw [hread hne] at hidx
      simp only [List.mem_cons, List.mem_singleton, List.not_mem_nil, or_false, or_self] at hidx
      omega
  · intro hues1 hues2 h
    exact colorOf_reads C hues1 hues2 (v : F) h
  · intro idx hidx
    unfold histogramUpdateIndices at hidx
    by_cases hn : pixelCount C L power cR cI i j < C.MAX_I
    · rw [if_pos hn] at hidx
      simp only [List.mem_singleton] at hidx
      omega
    · rw [if_neg hn] at hidx
      exact absurd hidx (List.not_mem_nil _)
  · intro k hk
    exact pixelStep_updates C L power cR cI i j st k hk

/-- Witness of C37: the constants of the source over the real numbers, the value 3 and
the pixel `(450, 450)`. -/
theorem array_indices_in_bounds_witness :
    3 ≤ (reference ℝ).MAX_I ∧
      ((∀ idx, idx ∈ huesReadIndices (reference ℝ) ((3 : Nat) : ℝ) →
        0 ≤ idx ∧ idx < ((reference ℝ).MAX_I : Int)) ∧
      (3 ≠ (reference ℝ).MAX_I →
        huesReadIndices (reference ℝ) ((3 : Nat) : ℝ) = [((3 : Nat) : Int), ((3 : Nat) : Int)]) ∧
      (3 = (reference ℝ).MAX_I → huesReadIndices (reference ℝ) ((3 : Nat) : ℝ) = []) ∧
      (∀ hues1 hues2 : Int → Option ℝ,
        (∀ idx, idx ∈ huesReadIndices (reference ℝ) ((3 : Nat) : ℝ) → hues1 idx = hues2 idx) →
        colorOf (reference ℝ) hues1 ((3 : Nat) : ℝ)
          = colorOf (reference ℝ) hues2 ((3 : Nat) : ℝ)) ∧
      (∀ idx, idx ∈ histogramUpdateIndices (reference ℝ)
          (pixelCount (reference ℝ) realLibm 2 0 0 450 450) →
        0 ≤ idx ∧ idx < ((reference ℝ).MAX_I : Int)) ∧
      (∀ k : Nat, (k : Int) ∉ histogramUpdateIndices (reference ℝ)
          (pixelCount (reference ℝ) realLibm 2 0 0 450 450) →
        (pixelStep (reference ℝ) realLibm 2 0 0 450 (fun _ => 0, fun _ => 0) 450).2 k
          = ((fun _ => 0, fun _ => 0) : (Nat → ℝ) × (Nat → ℝ)).2 k)) :=
  ⟨by decide,
    array_indices_in_bounds (reference ℝ) realLibm 2 0 0 (fun _ => 0, fun _ => 0) 450 450 3
      (by decide)⟩

end BoundsClaims

/-! ## The colour mapper: the intensity as a share of the escaped pixels -/

section ShareLemmas

/-- The cells whose value is below `m`, split by their value. -/
theorem card_value_lt_eq_sum (N : Nat) (n : Nat → Nat) (m : Nat) :
    ((Finset.range N).filter (fun idx => n idx < m)).card
      = ∑ k in Finset.range m, ((Finset.range N).filter (fun idx => n idx = k)).card := by
  rw [Finset.card_eq_sum_card_fiberwise (f := n)
    (s := (Finset.range N).filter (fun idx => n idx < m)) (t := Finset.range m)]
  · apply Finset.sum_congr rfl
    intro k hk
    rw [Finset.filter_filter]
    congr 1
    apply Finset.filter_congr
    intro idx _
    have hk2 : k < m := Finset.mem_range.mp hk
    constructor
    · rintro ⟨_, h⟩
      exact h
    · intro h
      exact ⟨by omega, h⟩
  · intro idx hidx
    exact Finset.mem_range.mpr (Finset.mem_filter.mp hidx).2

/-- The cells whose value is below `M` are those with a value of at most `v` and those
with a value above `v` and below `M`, for `v < M`. -/
theorem card_value_split (N : Nat) (n : Nat → Nat) (v M : Nat) (hv : v < M) :
    ((Finset.range N).filter (fun idx => n idx < M)).card
      = ((Finset.range N).filter (fun idx => n idx < v + 1)).card
        + ((Finset.range N).filter (fun idx => v < n idx ∧ n idx < M)).card := by
  have h := Finset.filter_card_add_filter_neg_card_eq_card
    (s := (Finset.range N).filter (fun idx => n idx < M)) (fun idx => n idx ≤ v)
  rw [Finset.filter_filter, Finset.filter_filter] at h
  rw [← h]
  congr 2
  · apply Finset.filter_congr
    intro idx _
    constructor
    · rintro ⟨_, h2⟩
      omega
    · intro h2
      exact ⟨by omega, by omega⟩
  · apply Finset.filter_congr
    intro idx _
    constructor
    · rintro ⟨h1, h2⟩
      exact ⟨by omega, h1⟩
    · rintro ⟨h1, h2⟩
      exact ⟨h2, by omega⟩

end ShareLemmas

section ShareClaims

variable {F : Type} [LinearOrderedField F] [FloorRing F]

/-- C31: if the values of the grid are integers, the histogram is the fresh count of the
grid, `histogram[k]` being the number of cells with the value `k` for `k < MAX_I`, and
`total`, the number of escaped cells, is positive, then every pixel with a value
`v < MAX_I` is given the intensity
`255 * (number of escaped cells whose value is strictly greater than v) / total`. The
number `WIDTH*HEIGHT` of the cells is an `int`, so it is below `2^31`, and with it the
number of escaped cells that `total` has to hold. -/
theorem intensity_is_share_above (C : Consts F) (values histogram : Nat → F)
    (hues0 : Int → Option F) (arr : Nat → Option F) (n : Nat → Nat)
    (hgrid : C.WIDTH * C.HEIGHT < 2 ^ 31)
    (hvalues : ∀ idx, idx < C.WIDTH * C.HEIGHT → values idx = (n idx : F))
    (hfresh : ∀ k, k < C.MAX_I → histogram k
      = (((Finset.range (C.WIDTH * C.HEIGHT)).filter (fun idx => n idx = k)).card : F))
    (hpos : 0 < ((Finset.range (C.WIDTH * C.HEIGHT)).filter (fun idx => n idx < C.MAX_I)).card)
    (i j : Nat) (hi : i < C.WIDTH) (hj : j < C.HEIGHT)
    (hlt : n (i * C.HEIGHT + j) < C.MAX_I) :
    totalOf C histogram
        = (((Finset.range (C.WIDTH * C.HEIGHT)).filter
            (fun idx => n idx < C.MAX_I)).card : Int) ∧
      CalculateColors C values histogram hues0 arr (i * C.HEIGHT + j)
        = some (255
          * (((Finset.range (C.WIDTH * C.HEIGHT)).filter
              (fun idx => n (i * C.HEIGHT + j) < n idx ∧ n idx < C.MAX_I)).card : F)
          / (((Finset.range (C.WIDTH * C.HEIGHT)).filter
              (fun idx => n idx < C.MAX_I)).card : F)) := by
  have hsum := card_value_lt_eq_sum (C.WIDTH * C.HEIGHT) n C.MAX_I
  have hpos2 : 0 < ∑ k in Finset.range C.MAX_I,
      ((Finset.range (C.WIDTH * C.HEIGHT)).filter (fun idx => n idx = k)).card := by
    rw [← hsum]
    exact hpos
  have hfit : ∑ k in Finset.range C.MAX_I,
      ((Finset.range (C.WIDTH * C.HEIGHT)).filter (fun idx => n idx = k)).card < 2 ^ 31 := by
    rw [← hsum]
    have hle := Finset.card_filter_le (Finset.range (C.WIDTH * C.HEIGHT))
      (fun idx => n idx < C.MAX_I)
    rw [Finset.card_range] at hle
    omega
  have htot := totalOf_nat C histogram _ hfresh hfit
  rw [← hsum] at htot
  refine ⟨htot, ?_⟩
  have hidx := pixel_index_lt C.WIDTH C.HEIGHT i j hi hj
  have hTpos : (0 : F) < (((Finset.range (C.WIDTH * C.HEIGHT)).filter
      (fun idx => n idx < C.MAX_I)).card : F) := Nat.cast_pos.mpr hpos
  have hsplit := card_value_split (C.WIDTH * C.HEIGHT) n (n (i * C.HEIGHT + j)) C.MAX_I hlt
  rw [CalculateColors_pixel C values histogram hues0 arr i j hi hj, hvalues _ hidx,
    colorOf_nat C _ _ (by omega),
    huesOf_nat C histogram hues0 _ hfresh hpos2 hfit _ hlt, fmul_some, fsub_some,
    ← card_value_lt_eq_sum, ← hsum]
  congr 1
  rw [hsplit]
  rw [hsplit] at hTpos
  push_cast
  push_cast at hTpos
  field_simp
  ring

/-- Witness of C31: a grid of one row and two columns with the cap 2, the values 0 and 1,
the histogram `(1, 1)`, the pixel `(0, 0)`. -/
theorem intensity_is_share_above_witness :
    1 * 2 < 2 ^ 31 ∧
      (∀ idx, idx < 1 * 2 → (fun idx : Nat => (idx : ℚ)) idx = ((id idx : Nat) : ℚ)) ∧
      (∀ k, k < 2 → (fun _ : Nat => (1 : ℚ)) k
        = (((Finset.range (1 * 2)).filter (fun idx => id idx = k)).card : ℚ)) ∧
      0 < ((Finset.range (1 * 2)).filter (fun idx => id idx < 2)).card ∧
      0 < 1 ∧ 0 < 2 ∧ id (0 * 2 + 0) < 2 ∧
      (totalOf (⟨1, 2, 0, 0, 0, 0, 2⟩ : Consts ℚ) (fun _ => 1)
          = (((Finset.range (1 * 2)).filter (fun idx => id idx < 2)).card : Int) ∧
        CalculateColors (⟨1, 2, 0, 0, 0, 0, 2⟩ : Consts ℚ) (fun idx => (idx : ℚ)) (fun _ => 1)
            (fun _ => none) (fun _ => none) (0 * 2 + 0)
          = some (255
            * (((Finset.range (1 * 2)).filter
                (fun idx => id (0 * 2 + 0) < id idx ∧ id idx < 2)).card : ℚ)
            / (((Finset.range (1 * 2)).filter (fun idx => id idx < 2)).card : ℚ))) :=
  have h1 : ∀ idx, idx < 1 * 2 → (fun idx : Nat => (idx : ℚ)) idx = ((id idx : Nat) : ℚ) :=
    fun _ _ => rfl
  have h2 : ∀ k, k < 2 → (fun _ : Nat => (1 : ℚ)) k
      = (((Finset.range (1 * 2)).filter (fun idx => id idx = k)).card : ℚ) := by
    intro k hk
    interval_cases k <;> simp
  have h3 : 0 < ((Finset.range (1 * 2)).filter (fun idx => id idx < 2)).card := by decide
  ⟨by norm_num, h1, h2, h3, by decide, by decide, by decide,
    intensity_is_share_above (⟨1, 2, 0, 0, 0, 0, 2⟩ : Consts ℚ) (fun idx => (idx : ℚ))
      (fun _ => 1) (fun _ => none) (fun _ => none) id (by norm_num) h1 h2 h3 0 0 (by decide)
      (by decide) (by decide)⟩

end ShareClaims

/-! ## The colour mapper: the intensity falls as the count rises -/

section MonotoneClaims

variable {F : Type} [LinearOrderedField F] [FloorRing F]

/-- C32 as amended: for buckets that are not negative and a positive value of the `int`
variable `total` of `CalculateColors`, of two pixels with the integer values
`v1 ≤ v2 < MAX_I` both are given a number, and the intensity of the second is at most the
intensity of the first. For buckets that are natural numbers with a sum of at most
`INT_MAX = 2^31 - 1` the variable `total` is the sum of the buckets. -/
theorem intensity_monotone (C : Consts F) (values histogram : Nat → F)
    (hues0 : Int → Option F) (arr : Nat → Option F)
    (hnonneg : ∀ k, k < C.MAX_I → 0 ≤ histogram k)
    (hpos : 0 < totalOf C histogram)
    (v1 v2 : Nat) (hle : v1 ≤ v2) (hlt : v2 < C.MAX_I)
    (i1 j1 i2 j2 : Nat) (hi1 : i1 < C.WIDTH) (hj1 : j1 < C.HEIGHT)
    (hi2 : i2 < C.WIDTH) (hj2 : j2 < C.HEIGHT)
    (h1 : values (i1 * C.HEIGHT + j1) = (v1 : F))
    (h2 : values (i2 * C.HEIGHT + j2) = (v2 : F)) :
    (∀ c : Nat → Nat, (∀ k, k < C.MAX_I → histogram k = (c k : F)) →
        ∑ k in Finset.range C.MAX_I, c k < 2 ^ 31 →
        totalOf C histogram = ((∑ k in Finset.range C.MAX_I, c k : Nat) : Int)) ∧
      ∃ x1 x2 : F,
        CalculateColors C values histogram hues0 arr (i1 * C.HEIGHT + j1) = some x1 ∧
        CalculateColors C values histogram hues0 arr (i2 * C.HEIGHT + j2) = some x2 ∧
        x2 ≤ x1 := by
  refine ⟨fun c hc hfit => totalOf_nat C histogram c hc hfit, ?_⟩
  have hT : (0 : F) < ((totalOf C histogram : Int) : F) := Int.cast_pos.mpr hpos
  have hne : ((totalOf C histogram : Int) : F) ≠ 0 := ne_of_gt hT
  have hsub : ∑ k in Finset.range (v1 + 1), histogram k
      ≤ ∑ k in Finset.range (v2 + 1), histogram k := by
    apply Finset.sum_le_sum_of_subset_of_nonneg
    · intro k hk
      have := Finset.mem_range.mp hk
      exact Finset.mem_range.mpr (by omega)
    · intro k hk _
      have := Finset.mem_range.mp hk
      exact hnonneg k (by omega)
  refine ⟨255 - 255 * ((∑ k in Finset.range (v1 + 1), histogram k)
      / ((totalOf C histogram : Int) : F)),
    255 - 255 * ((∑ k in Finset.range (v2 + 1), histogram k)
      / ((totalOf C histogram : Int) : F)), ?_, ?_, ?_⟩
  · rw [CalculateColors_pixel C values histogram hues0 arr i1 j1 hi1 hj1, h1,
      colorOf_nat C _ _ (by omega),
      huesOf_eq C histogram hues0 hne v1 (by omega), fmul_some, fsub_some]
  · rw [CalculateColors_pixel C values histogram hues0 arr i2 j2 hi2 hj2, h2,
      colorOf_nat C _ _ (by omega),
      huesOf_eq C histogram hues0 hne v2 hlt, fmul_some, fsub_some]
  · have hdiv := div_le_div_of_nonneg_right hsub (le_of_lt hT)
    linarith

/-- Witness of the amended C32: a grid of one row and two columns with the cap 2, the
values 0 and 1 and the histogram `(1, 1)`. -/
theorem intensity_monotone_witness :
    (∀ k, k < 2 → (0 : ℚ) ≤ (fun _ : Nat => (1 : ℚ)) k) ∧
      0 < totalOf (⟨1, 2, 0, 0, 0, 0, 2⟩ : Consts ℚ) (fun _ => 1) ∧
      0 ≤ 1 ∧ 1 < 2 ∧ 0 < 1 ∧ 0 < 2 ∧ 0 < 1 ∧ 1 < 2 ∧
      (fun idx : Nat => (idx : ℚ)) (0 * 2 + 0) = ((0 : Nat) : ℚ) ∧
      (fun idx : Nat => (idx : ℚ)) (0 * 2 + 1) = ((1 : Nat) : ℚ) ∧
      ((∀ c : Nat → Nat, (∀ k, k < 2 → (fun _ : Nat => (1 : ℚ)) k = (c k : ℚ)) →
          ∑ k in Finset.range 2, c k < 2 ^ 31 →
          totalOf (⟨1, 2, 0, 0, 0, 0, 2⟩ : Consts ℚ) (fun _ => 1)
            = ((∑ k in Finset.range 2, c k : Nat) : Int)) ∧
        ∃ x1 x2 : ℚ,
          CalculateColors (⟨1, 2, 0, 0, 0, 0, 2⟩ : Consts ℚ) (fun idx => (idx : ℚ))
              (fun _ => 1) (fun _ => none) (fun _ => none) (0 * 2 + 0) = some x1 ∧
          CalculateColors (⟨1, 2, 0, 0, 0, 0, 2⟩ : Consts ℚ) (fun idx => (idx : ℚ))
              (fun _ => 1) (fun _ => none) (fun _ => none) (0 * 2 + 1) = some x2 ∧
          x2 ≤ x1) :=
  have h1 : ∀ k, k < 2 → (0 : ℚ) ≤ (fun _ : Nat => (1 : ℚ)) k := fun _ _ => zero_le_one
  have h2 : 0 < totalOf (⟨1, 2, 0, 0, 0, 0, 2⟩ : Consts ℚ) (fun _ => 1) := by
    rw [totalOf_nat (⟨1, 2, 0, 0, 0, 0, 2⟩ : Consts ℚ) (fun _ => 1) (fun _ => 1)
      (fun _ _ => by simp) (by simp)]
    decide
  ⟨h1, h2, by decide, by decide, by decide, by decide, by decide, by decide, by simp, by simp,
    intensity_monotone (⟨1, 2, 0, 0, 0, 0, 2⟩ : Consts ℚ) (fun idx => (idx : ℚ))
      (fun _ => 1) (fun _ => none) (fun _ => none) h1 h2 0 1 (by decide) (by decide)
      0 0 0 1 (by decide) (by decide) (by decide) (by decide) (by simp) (by simp)⟩

/-- C32 fails on the code when `total` is read as the sum of the buckets: `total` is an
`int`, and the running sum is rounded toward zero when it is stored in it. On a grid of
one row and two columns with the cap 2, the values 0 and 1 and the histogram
`(1/2, 1/2)`, the buckets are not negative and their sum is 1, but the variable `total` is
0, both pixels are given not-a-number, and there are no two numbers to compare. -/
theorem intensity_not_monotone_for_buckets_below_one :
    (∀ k, k < 2 → (0 : ℚ) ≤ (fun _ : Nat => (1 / 2 : ℚ)) k) ∧
      ∑ k in Finset.range 2, (fun _ : Nat => (1 / 2 : ℚ)) k = 1 ∧
      totalOf (⟨1, 2, 0, 0, 0, 0, 2⟩ : Consts ℚ) (fun _ => 1 / 2) = 0 ∧
      CalculateColors (⟨1, 2, 0, 0, 0, 0, 2⟩ : Consts ℚ) (fun idx => (idx : ℚ))
          (fun _ => 1 / 2) (fun _ => none) (fun _ => none) (0 * 2 + 0) = none ∧
      CalculateColors (⟨1, 2, 0, 0, 0, 0, 2⟩ : Consts ℚ) (fun idx => (idx : ℚ))
          (fun _ => 1 / 2) (fun _ => none) (fun _ => none) (0 * 2 + 1) = none ∧
      ¬ ∃ x1 x2 : ℚ,
        CalculateColors (⟨1, 2, 0, 0, 0, 0, 2⟩ : Consts ℚ) (fun idx => (idx : ℚ))
            (fun _ => 1 / 2) (fun _ => none) (fun _ => none) (0 * 2 + 0) = some x1 ∧
        CalculateColors (⟨1, 2, 0, 0, 0, 0, 2⟩ : Consts ℚ) (fun idx => (idx : ℚ))
            (fun _ => 1 / 2) (fun _ => none) (fun _ => none) (0 * 2 + 1) = some x2 ∧
        x2 ≤ x1 := by
  have hfloor : ⌊(1 / 2 : ℚ)⌋ = 0 := by
    rw [Int.floor_eq_iff]
    norm_num
  have hconv : toInt32 (((0 : Int) : ℚ) + 1 / 2) = 0 := by
    have htrunc : truncInt (((0 : Int) : ℚ) + 1 / 2) = 0 := by
      unfold truncInt
      rw [Int.cast_zero, zero_add, if_pos (by norm_num), hfloor]
    unfold toInt32
    rw [htrunc, if_pos (by unfold INT_MIN INT_MAX; omega)]
  have htot : totalOf (⟨1, 2, 0, 0, 0, 0, 2⟩ : Consts ℚ) (fun _ => 1 / 2) = 0 := by
    unfold totalOf
    simp only [List.range_succ, List.range_zero, List.nil_append, List.foldl_cons,
      List.foldl_nil, List.cons_append]
    rw [hconv, hconv]
  have hcell : ∀ v : Nat, v < 2 →
      CalculateColors (⟨1, 2, 0, 0, 0, 0, 2⟩ : Consts ℚ) (fun idx => (idx : ℚ))
        (fun _ => 1 / 2) (fun _ => none) (fun _ => none) (0 * 2 + v) = none := by
    intro v hv
    rw [CalculateColors_pixel (⟨1, 2, 0, 0, 0, 0, 2⟩ : Consts ℚ) _ _ _ _ 0 v (by decide) hv,
      zero_mul, zero_add, colorOf_nat _ _ v (by show v ≠ 2; omega),
      huesOf_total_zero _ _ _ htot v hv, fmul_none_right, fsub_none_right]
  refine ⟨fun _ _ => by norm_num, by norm_num [Finset.sum_range_succ], htot,
    hcell 0 (by decide), hcell 1 (by decide), ?_⟩
  rintro ⟨x1, _, h1, _, _⟩
  rw [hcell 0 (by decide)] at h1
  exact Option.noConfusion h1

end MonotoneClaims

/-! ## The paths of the output files: `GetPath` -/

section PathLemmas

/-- The lookup in a chain of lines with the constants `0, 1, .., n - 1` in this order. -/
theorem lookup_range_map (g : Nat → String) (n : Nat) (index : Int) :
    ((List.range n).map (fun k : Nat => ((k : Int), g k))).lookup index
      = if 0 ≤ index ∧ index < (n : Int) then some (g index.toNat) else none := by
  induction n with
  | zero =>
    have h : ¬ (0 ≤ index ∧ index < ((0 : Nat) : Int)) := by omega
    rw [if_neg h]
    rfl
  | succ n ih =>
    rw [List.range_succ, List.map_append, List.lookup_append, ih]
    by_cases h1 : 0 ≤ index ∧ index < (n : Int)
    · have h2 : 0 ≤ index ∧ index < ((n + 1 : Nat) : Int) := by omega
      rw [if_pos h1, if_pos h2]
      rfl
    · rw [if_neg h1]
      by_cases h3 : index = (n : Int)
      · have h2 : 0 ≤ index ∧ index < ((n + 1 : Nat) : Int) := by omega
        rw [if_pos h2]
        subst h3
        simp [List.lookup]
      · have h2 : ¬ (0 ≤ index ∧ index < ((n + 1 : Nat) : Int)) := by omega
        have h4 : (index == (n : Int)) = false := by simpa using h3
        rw [if_neg h2]
        simp [List.lookup, h4]

set_option maxRecDepth 100000 in
/-- The lines 0 .. 100 of the chain of `GetPath`: line `k` compares with `k` and returns
the path of the spec for `k`. -/
theorem pathTable_lines_0 :
    (pathTable.drop 0).take 101
      = (List.range' 0 101).map (fun k : Nat => ((k : Int), specPath k)) := by
  rfl

set_option maxRecDepth 100000 in
/-- The lines 101 .. 201 of the chain of `GetPath`: line `k` compares with `k` and returns
the path of the spec for `k`. -/
theorem pathTable_lines_1 :
    (pathTable.drop 101).take 101
      = (List.range' 101 101).map (fun k : Nat => ((k : Int), specPath k)) := by
  rfl

set_option maxRecDepth 100000 in
/-- The lines 202 .. 302 of the chain of `GetPath`: line `k` compares with `k` and returns
the path of the spec for `k`. -/
theorem pathTable_lines_2 :
    (pathTable.drop 202).take 101
      = (List.range' 202 101).map (fun k : Nat => ((k : Int), specPath k)) := by
  rfl

set_option maxRecDepth 100000 in
/-- The lines 303 .. 403 of the chain of `GetPath`: line `k` compares with `k` and returns
the path of the spec for `k`. -/
theorem pathTable_lines_3 :
    (pathTable.drop 303).take 101
      = (List.range' 303 101).map (fun k : Nat => ((k : Int), specPath k)) := by
  rfl

set_option maxRecDepth 100000 in
/-- The lines 404 .. 504 of the chain of `GetPath`: line `k` compares with `k` and returns
the path of the spec for `k`. -/
theorem pathTable_lines_4 :
    (pathTable.drop 404).take 101
      = (List.range' 404 101).map (fun k : Nat => ((k : Int), specPath k)) := by
  rfl

set_option maxRecDepth 100000 in
/-- The lines 505 .. 605 of the chain of `GetPath`: line `k` compares with `k` and returns
the path of the spec for `k`. -/
theorem pathTable_lines_5 :
    (pathTable.drop 505).take 101
      = (List.range' 505 101).map (fun k : Nat => ((k : Int), specPath k)) := by
  rfl

set_option maxRecDepth 100000 in
/-- The lines 606 .. 706 of the chain of `GetPath`: line `k` compares with `k` and returns
the path of the spec for `k`. -/
theorem pathTable_lines_6 :
    (pathTable.drop 606).take 101
      = (List.range' 606 101).map (fun k : Nat => ((k : Int), specPath k)) := by
  rfl

set_option maxRecDepth 100000 in
/-- The lines 707 .. 807 of the chain of `GetPath`: line `k` compares with `k` and returns
the path of the spec for `k`. -/
theorem pathTable_lines_7 :
    (pathTable.drop 707).take 101
      = (List.range' 707 101).map (fun k : Nat => ((k : Int), specPath k)) := by
  rfl

set_option maxRecDepth 100000 in
/-- The lines 808 .. 908 of the chain of `GetPath`: line `k` compares with `k` and returns
the path of the spec for `k`. -/
theorem pathTable_lines_8 :
    (pathTable.drop 808).take 101
      = (List.range' 808 101).map (fun k : Nat => ((k : Int), specPath k)) := by
  rfl

set_option maxRecDepth 100000 in
/-- The lines 909 .. 1009 of the chain of `GetPath`: line `k` compares with `k` and returns
the path of the spec for `k`. -/
theorem pathTable_lines_9 :
    (pathTable.drop 909).take 101
      = (List.range' 909 101).map (fun k : Nat => ((k : Int), specPath k)) := by
  rfl

set_option maxRecDepth 100000 in
/-- The chain of `GetPath` has 1010 lines. -/
theorem pathTable_length : pathTable.length = 1010 := by
  rfl

/-- A list from its line `a` on: the next 101 lines and the rest. -/
theorem drop_eq_take_append_drop {α : Type} (l : List α) (a b : Nat) (h : a + 101 = b) :
    l.drop a = (l.drop a).take 101 ++ l.drop b := by
  rw [← h, ← List.drop_drop, List.take_append_drop]

/-- The numbers from `a` on: the next 101 numbers and the rest. -/
theorem range_eq_append (a b n m : Nat) (h : a + 101 = b) (hn : m + 101 = n) :
    List.range' a n = List.range' a 101 ++ List.range' b m := by
  rw [← h, ← hn, List.range'_append_1]

/-- The chain of `GetPath` is regular: its line `k` compares with `k` and returns the
path of the spec for `k`, for `k = 0, .., 1009`. -/
theorem pathTable_eq :
    pathTable = (List.range 1010).map (fun k : Nat => ((k : Int), specPath k)) := by
  have hnil : pathTable.drop 1010 = [] :=
    List.drop_eq_nil_of_le (le_of_eq pathTable_length)
  have hnil2 : List.range' 1010 0 = [] := rfl
  rw [← List.drop_zero pathTable, List.range_eq_range',
    drop_eq_take_append_drop pathTable 0 101 rfl, pathTable_lines_0,
    drop_eq_take_append_drop pathTable 101 202 rfl, pathTable_lines_1,
    drop_eq_take_append_drop pathTable 202 303 rfl, pathTable_lines_2,
    drop_eq_take_append_drop pathTable 303 404 rfl, pathTable_lines_3,
    drop_eq_take_append_drop pathTable 404 505 rfl, pathTable_lines_4,
    drop_eq_take_append_drop pathTable 505 606 rfl, pathTable_lines_5,
    drop_eq_take_append_drop pathTable 606 707 rfl, pathTable_lines_6,
    drop_eq_take_append_drop pathTable 707 808 rfl, pathTable_lines_7,
    drop_eq_take_append_drop pathTable 808 909 rfl, pathTable_lines_8,
    drop_eq_take_append_drop pathTable 909 1010 rfl, pathTable_lines_9, hnil,
    range_eq_append 0 101 1010 909 rfl rfl, range_eq_append 101 202 909 808 rfl rfl,
    range_eq_append 202 303 808 707 rfl rfl, range_eq_append 303 404 707 606 rfl rfl,
    range_eq_append 404 505 606 505 rfl rfl, range_eq_append 505 606 505 404 rfl rfl,
    range_eq_append 606 707 404 303 rfl rfl, range_eq_append 707 808 303 202 rfl rfl,
    range_eq_append 808 909 202 101 rfl rfl, range_eq_append 909 1010 101 0 rfl rfl, hnil2]
  simp only [List.map_append, List.map_nil, List.append_nil]

set_option maxRecDepth 100000 in
/-- The index is read back from its decimal digits. -/
theorem decimalValue_toString :
    ∀ k : Nat, k < 1010 → decimalValue (toString k).data = k := by
  decide!

/-- Different indices below 1010 have different paths of the spec. -/
theorem specPath_injective (a b : Nat) (ha : a < 1010) (hb : b < 1010)
    (h : specPath a = specPath b) : a = b := by
  have hdata := congrArg String.data h
  unfold specPath at hdata
  rw [String.data_append, String.data_append, String.data_append, String.data_append,
    String.data_append, String.data_append] at hdata
  have hdigits : (toString a).data = (toString b).data :=
    List.append_cancel_left (List.append_cancel_right hdata)
  have h1 := decimalValue_toString a ha
  rw [hdigits, decimalValue_toString b hb] at h1
  exact h1.symm

/-- The result of `GetPath` in terms of the paths of the spec. -/
theorem GetPath_eq (index : Int) :
    GetPath index = if 0 ≤ index ∧ index < 1010 then specPath index.toNat else "" := by
  unfold GetPath
  rw [pathTable_eq, lookup_range_map]
  by_cases h : 0 ≤ index ∧ index < ((1010 : Nat) : Int)
  · have h2 : 0 ≤ index ∧ index < 1010 := by omega
    rw [if_pos h, if_pos h2]
  · have h2 : ¬ (0 ≤ index ∧ index < 1010) := by omega
    rw [if_neg h, if_neg h2]

end PathLemmas

section PathClaims

/-- C38: for every integer `index` with `0 ≤ index ≤ 1009`, `GetPath index` is the fixed
directory prefix followed by `mandelbrot_nums_<decimal index>.json`, it is not the empty
string, and two different indices of this range have different paths; for every other
`index`, `GetPath index` is the empty string. -/
theorem GetPath_spec (index : Int) :
    (0 ≤ index ∧ index ≤ 1009 →
      GetPath index
          = pathPrefix ++ "mandelbrot_nums_" ++ toString index.toNat ++ ".json" ∧
        GetPath index ≠ "" ∧
        ∀ index2 : Int, 0 ≤ index2 ∧ index2 ≤ 1009 → index ≠ index2 →
          GetPath index ≠ GetPath index2) ∧
      (¬ (0 ≤ index ∧ index ≤ 1009) → GetPath index = "") := by
  constructor
  · intro h
    have h1 : 0 ≤ index ∧ index < 1010 := by omega
    have hk : index.toNat < 1010 := by omega
    have hg : GetPath index = specPath index.toNat := by rw [GetPath_eq, if_pos h1]
    refine ⟨hg, ?_, ?_⟩
    · rw [hg]
      intro hempty
      have hlen := congrArg String.length hempty
      simp [specPath, pathPrefix, String.length_append] at hlen
      exact absurd hlen.2 (by decide)
    · intro index2 h2 hne heq
      have h3 : 0 ≤ index2 ∧ index2 < 1010 := by omega
      have hk2 : index2.toNat < 1010 := by omega
      rw [hg, GetPath_eq index2, if_pos h3] at heq
      have := specPath_injective index.toNat index2.toNat hk hk2 heq
      omega
  · intro h
    have h1 : ¬ (0 ≤ index ∧ index < 1010) := by omega
    rw [GetPath_eq, if_neg h1]

/-- Witness of C38: the indices 7, 12, 1009, 1010 and -1. -/
theorem GetPath_spec_witness :
    GetPath 7
        = "/Users/Sean/Documents/Coding/Eclipse/Visualize Mandelbrot from C/files/mandelbrot_nums_7.json" ∧
      GetPath 7 ≠ GetPath 12 ∧
      GetPath 1009
        = "/Users/Sean/Documents/Coding/Eclipse/Visualize Mandelbrot from C/files/mandelbrot_nums_1009.json" ∧
      GetPath 1010 = "" ∧ GetPath (-1) = "" :=
  ⟨((GetPath_spec 7).1 (by decide)).1.trans (by decide),
    ((GetPath_spec 7).1 (by decide)).2.2 12 (by decide) (by decide),
    ((GetPath_spec 1009).1 (by decide)).1.trans (by decide),
    (GetPath_spec 1010).2 (by decide), (GetPath_spec (-1)).2 (by decide)⟩

end PathClaims

/-! ## The counters of the histogram as `float`s -/

section RoundedLemmas

variable {F : Type} [LinearOrderedField F] [FloorRing F]

theorem roundHalfEven_intCast (z : Int) : roundHalfEven ((z : Int) : F) = z := by
  unfold roundHalfEven
  rw [Int.floor_intCast, sub_self, if_pos (by norm_num)]

/-- A multiple of the spacing of the `float`s around it is a `float`. -/
theorem roundFloat_of_multiple (x : F) (M : Int)
    (h : x = (M : F) * 2 ^ (Int.log 2 |x| - 23)) : roundFloat x = x := by
  unfold roundFloat
  by_cases hx : x = 0
  · rw [if_pos hx, hx]
  · rw [if_neg hx]
    have hu : (2 : F) ^ (Int.log 2 |x| - 23) ≠ 0 := zpow_ne_zero _ (by norm_num)
    have hdiv : x / 2 ^ (Int.log 2 |x| - 23) = (M : F) := by
      rw [div_eq_iff hu]
      exact h
    rw [hdiv, roundHalfEven_intCast]
    exact h.symm

/-- Every natural number up to `2^24` is a `float`. -/
theorem roundFloat_natCast (n : Nat) (hn : n ≤ 2 ^ 24) : roundFloat (n : F) = (n : F) := by
  rcases Nat.eq_zero_or_pos n with h0 | hpos
  · rw [h0, Nat.cast_zero]
    unfold roundFloat
    rw [if_pos rfl]
  · have habs : |(n : F)| = (n : F) := abs_of_nonneg (Nat.cast_nonneg n)
    have hlog : Int.log 2 |(n : F)| = (Nat.log 2 n : Int) := by
      rw [habs, Int.log_natCast]
    have hle : Nat.log 2 n ≤ 24 := by
      have : Nat.log 2 n < 25 := Nat.log_lt_of_lt_pow (by omega) (by
        calc n ≤ 2 ^ 24 := hn
          _ < 2 ^ 25 := by norm_num)
      omega
    by_cases h24 : Nat.log 2 n = 24
    · have hge : 2 ^ 24 ≤ n := by
        have := Nat.pow_log_le_self 2 (by omega : n ≠ 0)
        rw [h24] at this
        exact this
      have hn2 : n = 2 ^ 24 := le_antisymm hn hge
      apply roundFloat_of_multiple _ (2 ^ 23)
      rw [hlog, h24, hn2]
      norm_num
    · apply roundFloat_of_multiple _ ((n : Int) * 2 ^ (23 - Nat.log 2 n))
      rw [hlog]
      have hexp : ((Nat.log 2 n : Nat) : Int) - 23 = -((23 - Nat.log 2 n : Nat) : Int) := by
        omega
      rw [hexp, zpow_neg, zpow_natCast]
      push_cast
      have hp : (2 : F) ^ (23 - Nat.log 2 n) ≠ 0 := pow_ne_zero _ (by norm_num)
      field_simp

/-- The number `2^24 + 1` is not a `float`: it lies halfway between the `float`s `2^24`
and `2^24 + 2` and is rounded to `2^24`. -/
theorem roundFloat_two_pow_24_add_one : roundFloat (16777217 : F) = 16777216 := by
  have hcast : (16777217 : F) = ((16777217 : Nat) : F) := by norm_num
  have habs : |(16777217 : F)| = 16777217 := abs_of_pos (by norm_num)
  have hlog : Int.log 2 |(16777217 : F)| = 24 := by
    rw [habs, hcast, Int.log_natCast]
    have : Nat.log 2 16777217 = 24 :=
      Nat.log_eq_of_pow_le_of_lt_pow (by norm_num) (by norm_num)
    rw [this]
    rfl
  have hfloor : ⌊(16777217 : F) / 2⌋ = 8388608 := by
    rw [Int.floor_eq_iff]
    constructor <;> norm_num
  unfold roundFloat
  rw [if_neg (by norm_num), hlog]
  have hu : (2 : F) ^ ((24 : Int) - 23) = 2 := by norm_num
  rw [hu]
  unfold roundHalfEven
  rw [hfloor]
  norm_num

/-- Below `2^24` the increment of a natural number is exact. -/
theorem floatIncrement_natCast (n : Nat) (hn : n < 2 ^ 24) :
    floatIncrement (n : F) = ((n + 1 : Nat) : F) := by
  unfold floatIncrement
  rw [← Nat.cast_succ]
  exact roundFloat_natCast (n + 1) (by omega)

/-- The increment leaves `2^24` as it is. -/
theorem floatIncrement_two_pow_24 : floatIncrement (16777216 : F) = 16777216 := by
  unfold floatIncrement
  have : (16777216 : F) + 1 = 16777217 := by norm_num
  rw [this]
  exact roundFloat_two_pow_24_add_one

theorem floatIncrement_iterate_natCast (m c : Nat) (h : m + c ≤ 2 ^ 24) :
    floatIncrement^[c] (m : F) = ((m + c : Nat) : F) := by
  induction c with
  | zero => rfl
  | succ c ih =>
    rw [Function.iterate_succ_apply', ih (by omega), floatIncrement_natCast _ (by omega)]
    rfl

theorem floatIncrement_iterate_two_pow_24 (c : Nat) :
    floatIncrement^[c] (16777216 : F) = 16777216 := by
  induction c with
  | zero => rfl
  | succ c ih => rw [Function.iterate_succ_apply', ih, floatIncrement_two_pow_24]

theorem rowLoopRounded_eq (C : Consts F) (L : Libm F) (power cR cI : F) (i : Nat)
    (st : (Nat → F) × (Nat → F)) :
    rowLoopRounded C L power cR cI st i
      = (List.range C.HEIGHT).foldl (pixelStepRounded C L power cR cI i) st := rfl

/-- The step of a pixel increments the bucket of its count, when the count is below
`MAX_I`, and no other bucket. -/
theorem pixelStepRounded_hist (C : Consts F) (L : Libm F) (power cR cI : F) (i j : Nat)
    (st : (Nat → F) × (Nat → F)) (k : Nat) :
    (pixelStepRounded C L power cR cI i st j).2 k
      = floatIncrement^[if pixelCount C L power cR cI i j = k ∧ k < C.MAX_I then 1 else 0]
          (st.2 k) := by
  unfold pixelStepRounded
  by_cases hn : pixelCount C L power cR cI i j < C.MAX_I
  · by_cases hk : pixelCount C L power cR cI i j = k
    · subst hk
      simp [hn]
    · have hk2 : k ≠ pixelCount C L power cR cI i j := fun h => hk h.symm
      simp [hn, hk, Function.update_noteq hk2]
  · have : ¬ (pixelCount C L power cR cI i j = k ∧ k < C.MAX_I) := by
      rintro ⟨h1, h2⟩
      omega
    simp [hn, this]

/-- The buckets after the first `m` pixels of the row `i`. -/
theorem rowRounded_hist (C : Consts F) (L : Libm F) (power cR cI : F) (i : Nat)
    (st : (Nat → F) × (Nat → F)) (m k : Nat) :
    ((List.range m).foldl (pixelStepRounded C L power cR cI i) st).2 k
      = floatIncrement^[∑ j in Finset.range m,
          (if pixelCount C L power cR cI i j = k ∧ k < C.MAX_I then 1 else 0)] (st.2 k) := by
  induction m with
  | zero => simp
  | succ m ih =>
    rw [List.range_succ, List.foldl_append]
    simp only [List.foldl_cons, List.foldl_nil]
    rw [pixelStepRounded_hist, ih, Finset.sum_range_succ, Nat.add_comm,
      Function.iterate_add_apply]

/-- The buckets after the first `m` rows. -/
theorem gridRounded_hist (C : Consts F) (L : Libm F) (power cR cI : F)
    (st : (Nat → F) × (Nat → F)) (m k : Nat) :
    ((List.range m).foldl (rowLoopRounded C L power cR cI) st).2 k
      = floatIncrement^[∑ i in Finset.range m, ∑ j in Finset.range C.HEIGHT,
          (if pixelCount C L power cR cI i j = k ∧ k < C.MAX_I then 1 else 0)] (st.2 k) := by
  induction m with
  | zero => simp
  | succ m ih =>
    rw [List.range_succ, List.foldl_append]
    simp only [List.foldl_cons, List.foldl_nil]
    rw [rowLoopRounded_eq, rowRounded_hist, ih, Finset.sum_range_succ, Nat.add_comm,
      Function.iterate_add_apply]

/-- Every bucket below `MAX_I` is after the call the bucket before the call, incremented
once for every pixel whose count is the index of the bucket. -/
theorem MandelbrotRounded_hist (C : Consts F) (L : Libm F) (values histogram : Nat → F)
    (power cR cI : F) (k : Nat) (hk : k < C.MAX_I) :
    (MandelbrotRounded C L values histogram power cR cI).2 k
      = floatIncrement^[((pixels C).filter
          (fun p => pixelCount C L power cR cI p.1 p.2 = k)).card] (histogram k) := by
  unfold MandelbrotRounded
  rw [gridRounded_hist]
  congr 1
  unfold pixels
  rw [Finset.card_filter, Finset.sum_product]
  simp [hk]

/-- A bucket at or above `MAX_I` is left as it was. -/
theorem MandelbrotRounded_hist_above (C : Consts F) (L : Libm F)
    (values histogram : Nat → F) (power cR cI : F) (k : Nat) (hk : C.MAX_I ≤ k) :
    (MandelbrotRounded C L values histogram power cR cI).2 k = histogram k := by
  unfold MandelbrotRounded
  rw [gridRounded_hist]
  have : ¬ k < C.MAX_I := by omega
  simp [this]

end RoundedLemmas

section RoundedClaims

variable {F : Type} [LinearOrderedField F] [FloorRing F]

/-- C9 as amended: for every initial content of the histogram in which the bucket
`k < MAX_I` holds a natural number `m` such that `m` plus the number of pixels whose count
is `k` is at most `2^24 = 16777216`, one call of `Mandelbrot` adds to `histogram[k]` the
number of pixels whose count is `k`, with the increments rounded to `float`s as with the
exact ones; a pixel whose count is `MAX_I` is counted in no such bucket, and no bucket from
`MAX_I` on is changed. -/
theorem MandelbrotRounded_histogram_increase (C : Consts F) (L : Libm F)
    (values histogram : Nat → F) (power cR cI : F) (k : Nat) (hk : k < C.MAX_I) (m : Nat)
    (hm : histogram k = (m : F))
    (hfit : m + ((pixels C).filter (fun p => pixelCount C L power cR cI p.1 p.2 = k)).card
      ≤ 2 ^ 24) :
    (MandelbrotRounded C L values histogram power cR cI).2 k
        = histogram k
          + (((pixels C).filter (fun p => pixelCount C L power cR cI p.1 p.2 = k)).card : F) ∧
      (MandelbrotRounded C L values histogram power cR cI).2 k
        = (Mandelbrot C L values histogram power cR cI).2 k ∧
      (∀ p, p ∈ (pixels C).filter (fun p => pixelCount C L power cR cI p.1 p.2 = k) →
        pixelCount C L power cR cI p.1 p.2 ≠ C.MAX_I) ∧
      (∀ k2, C.MAX_I ≤ k2 →
        (MandelbrotRounded C L values histogram power cR cI).2 k2 = histogram k2) := by
  have hrounded : (MandelbrotRounded C L values histogram power cR cI).2 k
      = histogram k
        + (((pixels C).filter (fun p => pixelCount C L power cR cI p.1 p.2 = k)).card : F) := by
    rw [MandelbrotRounded_hist C L values histogram power cR cI k hk, hm,
      floatIncrement_iterate_natCast m _ hfit, Nat.cast_add]
  refine ⟨hrounded, ?_, ?_, ?_⟩
  · rw [hrounded, Mandelbrot_hist C L values histogram power cR cI k hk]
  · intro p hp
    have := (Finset.mem_filter.mp hp).2
    omega
  · intro k2 hk2
    exact MandelbrotRounded_hist_above C L values histogram power cR cI k2 hk2

end RoundedClaims

section RoundedReference

/-- The number of the pixels of the reference grid with a given count is at most
810000. -/
theorem reference_card_le (power cR cI : ℝ) (k : Nat) :
    ((pixels (reference ℝ)).filter
      (fun p => pixelCount (reference ℝ) realLibm power cR cI p.1 p.2 = k)).card ≤ 810000 := by
  have hcard : (pixels (reference ℝ)).card = 810000 := by
    unfold pixels
    rw [Finset.card_product, Finset.card_range, Finset.card_range]
    rfl
  rw [← hcard]
  exact Finset.card_filter_le _ _

/-- Witness of the amended C9: the bucket 1 of the reference grid over the real numbers,
from a histogram that holds 5 in every bucket. -/
theorem MandelbrotRounded_histogram_increase_witness :
    1 < (reference ℝ).MAX_I ∧
      (fun _ : Nat => (5 : ℝ)) 1 = ((5 : Nat) : ℝ) ∧
      5 + ((pixels (reference ℝ)).filter
          (fun p => pixelCount (reference ℝ) realLibm 2 0 0 p.1 p.2 = 1)).card ≤ 2 ^ 24 ∧
      ((MandelbrotRounded (reference ℝ) realLibm (fun _ => 0) (fun _ => 5) 2 0 0).2 1
        = (fun _ : Nat => (5 : ℝ)) 1
          + (((pixels (reference ℝ)).filter
              (fun p => pixelCount (reference ℝ) realLibm 2 0 0 p.1 p.2 = 1)).card : ℝ) ∧
      (MandelbrotRounded (reference ℝ) realLibm (fun _ => 0) (fun _ => 5) 2 0 0).2 1
        = (Mandelbrot (reference ℝ) realLibm (fun _ => 0) (fun _ => 5) 2 0 0).2 1 ∧
      (∀ p, p ∈ (pixels (reference ℝ)).filter
            (fun p => pixelCount (reference ℝ) realLibm 2 0 0 p.1 p.2 = 1) →
        pixelCount (reference ℝ) realLibm 2 0 0 p.1 p.2 ≠ (reference ℝ).MAX_I) ∧
      (∀ k2, (reference ℝ).MAX_I ≤ k2 →
        (MandelbrotRounded (reference ℝ) realLibm (fun _ => 0) (fun _ => 5) 2 0 0).2 k2
          = (fun _ : Nat => (5 : ℝ)) k2)) :=
  have hfit : 5 + ((pixels (reference ℝ)).filter
      (fun p => pixelCount (reference ℝ) realLibm 2 0 0 p.1 p.2 = 1)).card ≤ 2 ^ 24 := by
    have := reference_card_le 2 0 0 1
    omega
  ⟨by decide, by norm_num, hfit,
    MandelbrotRounded_histogram_increase (reference ℝ) realLibm (fun _ => 0) (fun _ => 5)
      2 0 0 1 (by decide) 5 (by norm_num) hfit⟩

/-- C9 fails on the code as it is stated for every initial content: the buckets are
`float`s. Over the real numbers with the constants of the source and the exponent 2, from
a histogram that holds `2^24 = 16777216` in every bucket, the pixel `(0, 0)` has the count
1, so the number of pixels with the count 1 is positive, but every increment of the bucket
1 is rounded back to `16777216`: after the call the bucket holds `16777216`, not
`16777216` plus that number. -/
theorem MandelbrotRounded_stuck_at_two_pow_24 :
    pixelCount (reference ℝ) realLibm 2 0 0 0 0 = 1 ∧
      0 < ((pixels (reference ℝ)).filter
          (fun p => pixelCount (reference ℝ) realLibm 2 0 0 p.1 p.2 = 1)).card ∧
      (MandelbrotRounded (reference ℝ) realLibm (fun _ => 0) (fun _ => 16777216) 2 0 0).2 1
        = 16777216 ∧
      (MandelbrotRounded (reference ℝ) realLibm (fun _ => 0) (fun _ => 16777216) 2 0 0).2 1
        ≠ (fun _ : Nat => (16777216 : ℝ)) 1
          + (((pixels (reference ℝ)).filter
              (fun p => pixelCount (reference ℝ) realLibm 2 0 0 p.1 p.2 = 1)).card : ℝ) := by
  have hW : (0 : Nat) < (reference ℝ).WIDTH := by decide
  have hH : (0 : Nat) < (reference ℝ).HEIGHT := by decide
  have hM : (1 : Nat) < (reference ℝ).MAX_I := by decide
  have hpos := card_count_pos (reference ℝ) realLibm 2 0 0 0 0 1 hW hH pixelCount_corner
  have hstuck : (MandelbrotRounded (reference ℝ) realLibm (fun _ => 0)
      (fun _ => 16777216) 2 0 0).2 1 = 16777216 := by
    rw [MandelbrotRounded_hist (reference ℝ) realLibm _ _ 2 0 0 1 hM]
    exact floatIncrement_iterate_two_pow_24 _
  refine ⟨pixelCount_corner, hpos, hstuck, ?_⟩
  rw [hstuck]
  intro h
  have hcast : (0 : ℝ) < (((pixels (reference ℝ)).filter
      (fun p => pixelCount (reference ℝ) realLibm 2 0 0 p.1 p.2 = 1)).card : ℝ) :=
    Nat.cast_pos.mpr hpos
  simp only at h
  linarith

end RoundedReference

end GeneralizedMandelbrot
